import Mathlib

/-!
ESAPI command state machine of `TPM2_PCR_SetAuthPolicy`.

A shallow embedding of `src/tss2-esys/api/Esys_PCR_SetAuthPolicy.c`
(`Esys_PCR_SetAuthPolicy`, `Esys_PCR_SetAuthPolicy_Async`,
`Esys_PCR_SetAuthPolicy_Finish`) as state-passing functions on the ESYS
context.  The lower layers that the three functions call (SAPI, session
engine, resource table) are not part of the sources; they are a record of
functions `Lower W` over an arbitrary state `W`, so every theorem holds for
every behaviour of those layers.  Each call into a lower layer is also
appended to the ghost field `calls`, which is what "is never invoked" and
"is dispatched once" are stated on.
-/

namespace Tss2

/-! ## Return codes -/

/-- `TSS2_RC` is a `uint32_t`. -/
abbrev TSS2_RC := Nat
/-- `ESYS_TR` is a `uint32_t`. -/
abbrev ESYS_TR := Nat
/-- `TPM2_HANDLE` is a `uint32_t`. -/
abbrev TPM2_HANDLE := Nat
/-- `TPMI_ALG_HASH` is a `uint16_t`. -/
abbrev TPMI_ALG_HASH := Nat
/-- `TPMI_DH_PCR` is a `uint32_t`. -/
abbrev TPMI_DH_PCR := Nat

/-- Modelled from the spec: constant of `tss2_common.h`, a header that is not
among the sources; the success code is zero. -/
def TSS2_RC_SUCCESS : TSS2_RC := 0

/-- Modelled from the spec: macro of `tss2_common.h` (not among the sources);
the layer of a return code is its third byte. -/
def TSS2_RC_LAYER (level : Nat) : TSS2_RC := level <<< 16

/-- Modelled from the spec: constant of `tss2_common.h` (not among the
sources), `TSS2_RC_LAYER(0xff)`. -/
def TSS2_RC_LAYER_MASK : TSS2_RC := TSS2_RC_LAYER 0xff

/-- Modelled from the spec: layer of the ESYS component in `tss2_common.h`
(not among the sources). -/
def TSS2_ESYS_RC_LAYER : TSS2_RC := TSS2_RC_LAYER 7
/-- Modelled from the spec: layer of the SAPI component in `tss2_common.h`
(not among the sources). -/
def TSS2_SYS_RC_LAYER : TSS2_RC := TSS2_RC_LAYER 8
/-- Modelled from the spec: layer of the resource manager's own codes in
`tss2_common.h` (not among the sources). -/
def TSS2_RESMGR_RC_LAYER : TSS2_RC := TSS2_RC_LAYER 11
/-- Modelled from the spec: layer of TPM codes relayed by the resource manager
in `tss2_common.h` (not among the sources). -/
def TSS2_RESMGR_TPM_RC_LAYER : TSS2_RC := TSS2_RC_LAYER 12

/-- Modelled from the spec: base code of `tss2_common.h` (not among the sources). -/
def TSS2_BASE_RC_BAD_REFERENCE : TSS2_RC := 5
/-- Modelled from the spec: base code of `tss2_common.h` (not among the sources). -/
def TSS2_BASE_RC_BAD_SEQUENCE : TSS2_RC := 7
/-- Modelled from the spec: base code of `tss2_common.h` (not among the sources). -/
def TSS2_BASE_RC_TRY_AGAIN : TSS2_RC := 9
/-- Modelled from the spec: base code of `tss2_common.h` (not among the sources). -/
def TSS2_BASE_RC_MALFORMED_RESPONSE : TSS2_RC := 17
/-- Modelled from the spec: base code of `tss2_common.h` (not among the sources). -/
def TSS2_BASE_RC_INSUFFICIENT_RESPONSE : TSS2_RC := 19
/-- Modelled from the spec: base code of `tss2_common.h` (not among the sources). -/
def TSS2_BASE_RC_BAD_TR : TSS2_RC := 24
/-- Modelled from the spec: base code of `tss2_common.h` (not among the sources). -/
def TSS2_BASE_RC_RSP_AUTH_FAILED : TSS2_RC := 27

/-- ESYS-layer code of `tss2_common.h`: layer ORed with the base code. -/
def TSS2_ESYS_RC_BAD_REFERENCE : TSS2_RC := TSS2_ESYS_RC_LAYER ||| TSS2_BASE_RC_BAD_REFERENCE
/-- ESYS-layer code of `tss2_common.h`: layer ORed with the base code. -/
def TSS2_ESYS_RC_BAD_SEQUENCE : TSS2_RC := TSS2_ESYS_RC_LAYER ||| TSS2_BASE_RC_BAD_SEQUENCE
/-- ESYS-layer code of `tss2_common.h`: layer ORed with the base code. -/
def TSS2_ESYS_RC_TRY_AGAIN : TSS2_RC := TSS2_ESYS_RC_LAYER ||| TSS2_BASE_RC_TRY_AGAIN
/-- ESYS-layer code of `tss2_common.h`: layer ORed with the base code. -/
def TSS2_ESYS_RC_BAD_TR : TSS2_RC := TSS2_ESYS_RC_LAYER ||| TSS2_BASE_RC_BAD_TR
/-- ESYS-layer code of `tss2_common.h`: layer ORed with the base code. -/
def TSS2_ESYS_RC_RSP_AUTH_FAILED : TSS2_RC := TSS2_ESYS_RC_LAYER ||| TSS2_BASE_RC_RSP_AUTH_FAILED
/-- SAPI-layer code of `tss2_common.h`: layer ORed with the base code. -/
def TSS2_SYS_RC_MALFORMED_RESPONSE : TSS2_RC :=
  TSS2_SYS_RC_LAYER ||| TSS2_BASE_RC_MALFORMED_RESPONSE
/-- SAPI-layer code of `tss2_common.h`: layer ORed with the base code. -/
def TSS2_SYS_RC_INSUFFICIENT_RESPONSE : TSS2_RC :=
  TSS2_SYS_RC_LAYER ||| TSS2_BASE_RC_INSUFFICIENT_RESPONSE

/-- Modelled from the spec: warning base `RC_WARN` of `tss2_tpm2_types.h` (not
among the sources), the format-zero warning class of TPM response codes. -/
def TPM2_RC_WARN : TSS2_RC := 0x900
/-- Modelled from the spec: `TPM2_RC_YIELDED` of `tss2_tpm2_types.h` (not among
the sources), one of the retry/testing/yielded codes. -/
def TPM2_RC_YIELDED : TSS2_RC := TPM2_RC_WARN + 0x008
/-- Modelled from the spec: `TPM2_RC_TESTING` of `tss2_tpm2_types.h` (not among
the sources), one of the retry/testing/yielded codes. -/
def TPM2_RC_TESTING : TSS2_RC := TPM2_RC_WARN + 0x00A
/-- Modelled from the spec: `TPM2_RC_RETRY` of `tss2_tpm2_types.h` (not among
the sources), one of the retry/testing/yielded codes. -/
def TPM2_RC_RETRY : TSS2_RC := TPM2_RC_WARN + 0x022
/-- Modelled from the spec: `TPM2_RH_NULL` of `tss2_tpm2_types.h` (not among
the sources), the well-known null hierarchy handle. -/
def TPM2_RH_NULL : TPM2_HANDLE := 0x40000007

/-- Modelled from the spec: macro `base_rc` of the utility headers (not among
the sources): the return code with its layer bits cleared, as a `uint32_t`. -/
def base_rc (r : TSS2_RC) : TSS2_RC := r &&& (0xFFFFFFFF - TSS2_RC_LAYER_MASK)

/-- Modelled from the spec: `iesys_tpm_error` of `esys_iutil.c` (not among the
sources).  "TPM-level error (well-formed response carrying a non-success
status)": a non-success code whose layer is the TPM's own (layer bits zero)
or one of the two resource-manager layers that relay the device. -/
def iesys_tpm_error (r : TSS2_RC) : Bool :=
  r != TSS2_RC_SUCCESS &&
    ((r &&& TSS2_RC_LAYER_MASK) == 0 ||
     (r &&& TSS2_RC_LAYER_MASK) == TSS2_RESMGR_TPM_RC_LAYER ||
     (r &&& TSS2_RC_LAYER_MASK) == TSS2_RESMGR_RC_LAYER)

/-- Modelled from the spec: `ESYS_MAX_SUBMISSIONS` of `esys_int.h` (not among
the sources), the "fixed maximum" of automatic resubmissions. -/
def ESYS_MAX_SUBMISSIONS : Nat := 5

/-! ## Data model -/

/-- The `enum ESYS_STATE` of the context (`Init`, `Sent`, `Resubmission`,
`InternalError` in the spec). -/
inductive ESYS_STATE where
  | ESYS_STATE_INIT
  | ESYS_STATE_SENT
  | ESYS_STATE_RESUBMISSION
  | ESYS_STATE_INTERNALERROR
  deriving DecidableEq, Repr

open ESYS_STATE

/-- The fields of `RSRC_NODE_T` that `Esys_PCR_SetAuthPolicy_Async` reads:
`rsrc.handle`, `rsrc.name` and `auth` (byte strings as lists). -/
structure RSRC_NODE_T where
  handle : TPM2_HANDLE
  name : List Nat
  auth : List Nat
  deriving DecidableEq, Repr

/-- One `TPMS_AUTH_COMMAND` of the authorization area. -/
structure TPMS_AUTH_COMMAND where
  sessionHandle : Nat
  nonce : List Nat
  sessionAttributes : Nat
  hmac : List Nat
  deriving DecidableEq, Repr

/-- The list `TSS2L_SYS_AUTH_COMMAND`: a count and the per-session entries. -/
structure TSS2L_SYS_AUTH_COMMAND where
  count : Nat
  auths : List TPMS_AUTH_COMMAND
  deriving DecidableEq, Repr

/-- A `TPM2B_DIGEST`: size and buffer. -/
structure TPM2B_DIGEST where
  size : Nat
  buffer : List Nat
  deriving DecidableEq, Repr

/-- One call into a lower layer together with the return code it gave, in the
order of execution (ghost state).  `iesys_compute_session_value` is `void`. -/
inductive Call where
  | check_session_feasibility (shandle1 shandle2 shandle3 : ESYS_TR) (mandatory : Nat)
      (rc : TSS2_RC)
  | esys_GetResourceObject (esys_handle : ESYS_TR) (rc : TSS2_RC)
  | Tss2_Sys_PCR_SetAuthPolicy_Prepare (authHandle : TPM2_HANDLE)
      (authPolicy : Option TPM2B_DIGEST) (hashAlg : TPMI_ALG_HASH) (pcrNum : TPMI_DH_PCR)
      (rc : TSS2_RC)
  | init_session_tab (shandle1 shandle2 shandle3 : ESYS_TR) (rc : TSS2_RC)
  | iesys_compute_session_value (slot : Nat) (name auth : Option (List Nat))
  | iesys_gen_auths (h1 h2 h3 : Option RSRC_NODE_T) (rc : TSS2_RC)
  | Tss2_Sys_SetCmdAuths (auths : TSS2L_SYS_AUTH_COMMAND) (rc : TSS2_RC)
  | Tss2_Sys_ExecuteAsync (rc : TSS2_RC)
  | Tss2_Sys_ExecuteFinish (timeout : Int) (rc : TSS2_RC)
  | iesys_check_response (rc : TSS2_RC)
  | Tss2_Sys_PCR_SetAuthPolicy_Complete (rc : TSS2_RC)
  deriving DecidableEq, Repr

/-- The return code a recorded call gave (`TSS2_RC_SUCCESS` for the `void`
function). -/
def Call.rc : Call → TSS2_RC
  | .check_session_feasibility _ _ _ _ rc => rc
  | .esys_GetResourceObject _ rc => rc
  | .Tss2_Sys_PCR_SetAuthPolicy_Prepare _ _ _ _ rc => rc
  | .init_session_tab _ _ _ rc => rc
  | .iesys_compute_session_value _ _ _ => TSS2_RC_SUCCESS
  | .iesys_gen_auths _ _ _ rc => rc
  | .Tss2_Sys_SetCmdAuths _ rc => rc
  | .Tss2_Sys_ExecuteAsync rc => rc
  | .Tss2_Sys_ExecuteFinish _ rc => rc
  | .iesys_check_response rc => rc
  | .Tss2_Sys_PCR_SetAuthPolicy_Complete rc => rc

/-- The recorded call is a transport dispatch, `Tss2_Sys_ExecuteAsync`. -/
def Call.isExecuteAsync : Call → Bool
  | .Tss2_Sys_ExecuteAsync _ => true
  | _ => false

/-- The recorded call is a transport receive, `Tss2_Sys_ExecuteFinish`. -/
def Call.isExecuteFinish : Call → Bool
  | .Tss2_Sys_ExecuteFinish _ _ => true
  | _ => false

/-- The recorded call is `Tss2_Sys_PCR_SetAuthPolicy_Prepare`, the marshaling
of the command. -/
def Call.isPrepare : Call → Bool
  | .Tss2_Sys_PCR_SetAuthPolicy_Prepare _ _ _ _ _ => true
  | _ => false

/-- The recorded call is the response verification, `iesys_check_response`. -/
def Call.isCheckResponse : Call → Bool
  | .iesys_check_response _ => true
  | _ => false

/-- The recorded call is `Tss2_Sys_PCR_SetAuthPolicy_Complete`. -/
def Call.isComplete : Call → Bool
  | .Tss2_Sys_PCR_SetAuthPolicy_Complete _ => true
  | _ => false

/-- The `ESYS_CONTEXT`: the fields the three functions read and write
themselves (`state`, `submissionCount`, `timeout`, `authsCount`), the rest of
the context as owned by the lower layers (`lower`: SAPI context with the
command and response buffers, session table, resource list), and the ghost
list of calls made so far. -/
structure ESYS_CONTEXT (W : Type) where
  state : ESYS_STATE
  submissionCount : Int
  timeout : Int
  authsCount : Nat
  lower : W
  calls : List Call
  deriving DecidableEq, Repr

/-- The functions called by `Esys_PCR_SetAuthPolicy.c` whose bodies are not
among the sources, as parameters.  Each one reads and updates the part `W` of
the context it owns and returns its `TSS2_RC`; none of them writes `state`,
`submissionCount` or `timeout`.  `check_session_feasibility` is called with the
three session handles and the count only, as in the source. -/
structure Lower (W : Type) where
  check_session_feasibility : ESYS_TR → ESYS_TR → ESYS_TR → Nat → TSS2_RC
  esys_GetResourceObject : W → ESYS_TR → TSS2_RC × Option RSRC_NODE_T × W
  Tss2_Sys_PCR_SetAuthPolicy_Prepare :
    W → TPM2_HANDLE → Option TPM2B_DIGEST → TPMI_ALG_HASH → TPMI_DH_PCR → TSS2_RC × W
  init_session_tab : W → ESYS_TR → ESYS_TR → ESYS_TR → TSS2_RC × W
  iesys_compute_session_value : W → Nat → Option (List Nat) → Option (List Nat) → W
  iesys_gen_auths :
    W → Option RSRC_NODE_T → Option RSRC_NODE_T → Option RSRC_NODE_T →
      TSS2_RC × TSS2L_SYS_AUTH_COMMAND × W
  Tss2_Sys_SetCmdAuths : W → TSS2L_SYS_AUTH_COMMAND → TSS2_RC × W
  Tss2_Sys_ExecuteAsync : W → TSS2_RC × W
  Tss2_Sys_ExecuteFinish : W → Int → TSS2_RC × W
  iesys_check_response : W → TSS2_RC × W
  Tss2_Sys_PCR_SetAuthPolicy_Complete : W → TSS2_RC × W

variable {W : Type}

/-- Append a call to the ghost list and install the lower state it left. -/
def ESYS_CONTEXT.did (c : ESYS_CONTEXT W) (call : Call) (w : W) : ESYS_CONTEXT W :=
  { c with lower := w, calls := c.calls ++ [call] }

/-- The macro `return_state_if_error(r, s, msg)` on its error branch: set the
state to `s` and return `r`. -/
def return_state (r : TSS2_RC) (s : ESYS_STATE) (c : ESYS_CONTEXT W) :
    TSS2_RC × ESYS_CONTEXT W :=
  (r, { c with state := s })

/-- Modelled from the spec: `iesys_check_sequence_async` of `esys_iutil.c` is
not among the sources.  "Async phase: requires state `Init`"; "a second Async
call while one is outstanding fails with a sequencing error"; "Submission
Counter: ... reset to zero at each new Async call".  On a sequencing error the
context is left as it was. -/
def iesys_check_sequence_async (esysContext : ESYS_CONTEXT W) : TSS2_RC × ESYS_CONTEXT W :=
  if esysContext.state ≠ ESYS_STATE_INIT then
    (TSS2_ESYS_RC_BAD_SEQUENCE, esysContext)
  else
    (TSS2_RC_SUCCESS, { esysContext with submissionCount := 0 })

/-! ## The three functions of `Esys_PCR_SetAuthPolicy.c` -/

/-! `Esys_PCR_SetAuthPolicy_Async` is one C function; it is written here as its
successive blocks, each block ending in the next one, from the last block
(transport dispatch) back to the entry. -/

/-- Source lines 210-217 of `Esys_PCR_SetAuthPolicy_Async`: trigger execution
with `Tss2_Sys_ExecuteAsync`; on error the state is `ESYS_STATE_INTERNALERROR`,
otherwise `ESYS_STATE_SENT`. -/
def Async_dispatch (L : Lower W) (esysContext : ESYS_CONTEXT W) : TSS2_RC × ESYS_CONTEXT W :=
  let e := L.Tss2_Sys_ExecuteAsync esysContext.lower
  let c := esysContext.did (.Tss2_Sys_ExecuteAsync e.1) e.2
  if e.1 ≠ TSS2_RC_SUCCESS then return_state e.1 ESYS_STATE_INTERNALERROR c else
  (e.1, { c with state := ESYS_STATE_SENT })

/-- Source lines 204-208: store `auths.count` and, when it is positive, hand
the authorizations to `Tss2_Sys_SetCmdAuths`; then the dispatch block. -/
def Async_setCmdAuths (L : Lower W) (esysContext : ESYS_CONTEXT W)
    (auths : TSS2L_SYS_AUTH_COMMAND) : TSS2_RC × ESYS_CONTEXT W :=
  let c : ESYS_CONTEXT W := { esysContext with authsCount := auths.count }
  if auths.count > 0 then
    let sa := L.Tss2_Sys_SetCmdAuths c.lower auths
    let c1 := c.did (.Tss2_Sys_SetCmdAuths auths sa.1) sa.2
    if sa.1 ≠ TSS2_RC_SUCCESS then return_state sa.1 ESYS_STATE_INIT c1 else
    Async_dispatch L c1
  else
    Async_dispatch L c

/-- Source lines 199-202: generate the auth values with `iesys_gen_auths`;
then the block that sets them in the command buffer. -/
def Async_genAuths (L : Lower W) (esysContext : ESYS_CONTEXT W)
    (authHandleNode : Option RSRC_NODE_T) : TSS2_RC × ESYS_CONTEXT W :=
  let a := L.iesys_gen_auths esysContext.lower authHandleNode none none
  let c := esysContext.did (.iesys_gen_auths authHandleNode none none a.1) a.2.2
  if a.1 ≠ TSS2_RC_SUCCESS then return_state a.1 ESYS_STATE_INIT c else
  Async_setCmdAuths L c a.2.1

/-- Source lines 190-197: `iesys_compute_session_value` for the three session
slots, slot 0 with the name and auth value of `authHandleNode` (or NULL, NULL
when the node is NULL); then auth generation. -/
def Async_sessionValues (L : Lower W) (esysContext : ESYS_CONTEXT W)
    (authHandleNode : Option RSRC_NODE_T) : TSS2_RC × ESYS_CONTEXT W :=
  let name0 := authHandleNode.map (fun node => node.name)
  let auth0 := authHandleNode.map (fun node => node.auth)
  let c0 := esysContext.did (.iesys_compute_session_value 0 name0 auth0)
    (L.iesys_compute_session_value esysContext.lower 0 name0 auth0)
  let c1 := c0.did (.iesys_compute_session_value 1 none none)
    (L.iesys_compute_session_value c0.lower 1 none none)
  let c2 := c1.did (.iesys_compute_session_value 2 none none)
    (L.iesys_compute_session_value c1.lower 2 none none)
  Async_genAuths L c2 authHandleNode

/-- Source lines 187-189: `init_session_tab`; then the session values. -/
def Async_initSessionTab (L : Lower W) (esysContext : ESYS_CONTEXT W)
    (authHandleNode : Option RSRC_NODE_T) (shandle1 shandle2 shandle3 : ESYS_TR) :
    TSS2_RC × ESYS_CONTEXT W :=
  let i := L.init_session_tab esysContext.lower shandle1 shandle2 shandle3
  let c := esysContext.did (.init_session_tab shandle1 shandle2 shandle3 i.1) i.2
  if i.1 ≠ TSS2_RC_SUCCESS then return_state i.1 ESYS_STATE_INIT c else
  Async_sessionValues L c authHandleNode

/-- Source lines 179-185: `Tss2_Sys_PCR_SetAuthPolicy_Prepare` with
`TPM2_RH_NULL` for a NULL node and the node's `rsrc.handle` otherwise; then
the session table. -/
def Async_prepare (L : Lower W) (esysContext : ESYS_CONTEXT W)
    (authHandleNode : Option RSRC_NODE_T) (shandle1 shandle2 shandle3 : ESYS_TR)
    (authPolicy : Option TPM2B_DIGEST) (hashAlg : TPMI_ALG_HASH) (pcrNum : TPMI_DH_PCR) :
    TSS2_RC × ESYS_CONTEXT W :=
  let h : TPM2_HANDLE :=
    match authHandleNode with
    | none => TPM2_RH_NULL
    | some node => node.handle
  let p := L.Tss2_Sys_PCR_SetAuthPolicy_Prepare esysContext.lower h authPolicy hashAlg pcrNum
  let c := esysContext.did (.Tss2_Sys_PCR_SetAuthPolicy_Prepare h authPolicy hashAlg pcrNum p.1) p.2
  if p.1 ≠ TSS2_RC_SUCCESS then return_state p.1 ESYS_STATE_INIT c else
  Async_initSessionTab L c authHandleNode shandle1 shandle2 shandle3

/-- Source lines 175-177: `esys_GetResourceObject` for `authHandle`; then
Prepare. -/
def Async_getResourceObject (L : Lower W) (esysContext : ESYS_CONTEXT W)
    (authHandle shandle1 shandle2 shandle3 : ESYS_TR)
    (authPolicy : Option TPM2B_DIGEST) (hashAlg : TPMI_ALG_HASH) (pcrNum : TPMI_DH_PCR) :
    TSS2_RC × ESYS_CONTEXT W :=
  let g := L.esys_GetResourceObject esysContext.lower authHandle
  let c := esysContext.did (.esys_GetResourceObject authHandle g.1) g.2.2
  if g.1 ≠ TSS2_RC_SUCCESS then return_state g.1 ESYS_STATE_INIT c else
  Async_prepare L c g.2.1 shandle1 shandle2 shandle3 authPolicy hashAlg pcrNum

/-- Source lines 171-173: `check_session_feasibility(shandle1, shandle2,
shandle3, 1)`; then the resolution of `authHandle`. -/
def Async_checkSessions (L : Lower W) (esysContext : ESYS_CONTEXT W)
    (authHandle shandle1 shandle2 shandle3 : ESYS_TR)
    (authPolicy : Option TPM2B_DIGEST) (hashAlg : TPMI_ALG_HASH) (pcrNum : TPMI_DH_PCR) :
    TSS2_RC × ESYS_CONTEXT W :=
  let r := L.check_session_feasibility shandle1 shandle2 shandle3 1
  let c := esysContext.did (.check_session_feasibility shandle1 shandle2 shandle3 1 r)
    esysContext.lower
  if r ≠ TSS2_RC_SUCCESS then return_state r ESYS_STATE_INIT c else
  Async_getResourceObject L c authHandle shandle1 shandle2 shandle3 authPolicy hashAlg pcrNum

/-- The function `Esys_PCR_SetAuthPolicy_Async` (source lines 143-218) on a
valid context pointer: the sequence check of lines 166-169, then the blocks
above.  `authPolicy` is `none` for a NULL pointer. -/
def Esys_PCR_SetAuthPolicy_Async (L : Lower W) (esysContext : ESYS_CONTEXT W)
    (authHandle shandle1 shandle2 shandle3 : ESYS_TR)
    (authPolicy : Option TPM2B_DIGEST) (hashAlg : TPMI_ALG_HASH) (pcrNum : TPMI_DH_PCR) :
    TSS2_RC × ESYS_CONTEXT W :=
  -- Check context, sequence correctness and set state to error for now
  let seq := iesys_check_sequence_async esysContext
  if seq.1 ≠ TSS2_RC_SUCCESS then (seq.1, seq.2) else
  let c : ESYS_CONTEXT W := { seq.2 with state := ESYS_STATE_INTERNALERROR }
  Async_checkSessions L c authHandle shandle1 shandle2 shandle3 authPolicy hashAlg pcrNum

/-- The function `Esys_PCR_SetAuthPolicy_Finish` (source lines 247-327) on a
valid context pointer. -/
def Esys_PCR_SetAuthPolicy_Finish (L : Lower W) (esysContext : ESYS_CONTEXT W) :
    TSS2_RC × ESYS_CONTEXT W :=
  -- Check for correct sequence and set sequence to irregular for now
  if esysContext.state ≠ ESYS_STATE_SENT ∧ esysContext.state ≠ ESYS_STATE_RESUBMISSION then
    (TSS2_ESYS_RC_BAD_SEQUENCE, esysContext)
  else
  let c0 : ESYS_CONTEXT W := { esysContext with state := ESYS_STATE_INTERNALERROR }
  -- Receive the TPM response and handle resubmissions if necessary.
  let f := L.Tss2_Sys_ExecuteFinish c0.lower c0.timeout
  let r := f.1
  let c1 := c0.did (.Tss2_Sys_ExecuteFinish c0.timeout r) f.2
  if base_rc r = TSS2_BASE_RC_TRY_AGAIN then
    (r, { c1 with state := ESYS_STATE_SENT })
  else if r = TPM2_RC_RETRY ∨ r = TPM2_RC_TESTING ∨ r = TPM2_RC_YIELDED then
    -- esysContext->submissionCount++ >= ESYS_MAX_SUBMISSIONS
    let old := c1.submissionCount
    let c2 : ESYS_CONTEXT W := { c1 with submissionCount := old + 1 }
    if old ≥ (ESYS_MAX_SUBMISSIONS : Int) then
      (r, { c2 with state := ESYS_STATE_INIT })
    else
    let c3 : ESYS_CONTEXT W := { c2 with state := ESYS_STATE_RESUBMISSION }
    let e := L.Tss2_Sys_ExecuteAsync c3.lower
    let c4 := c3.did (.Tss2_Sys_ExecuteAsync e.1) e.2
    if e.1 ≠ TSS2_RC_SUCCESS then
      -- the state is not set here
      (e.1, c4)
    else
      (TSS2_ESYS_RC_TRY_AGAIN, c4)
  -- The following is the "regular error" handling.
  else if iesys_tpm_error r then
    (r, { c1 with state := ESYS_STATE_INIT })
  else if r ≠ TSS2_RC_SUCCESS then
    (r, { c1 with state := ESYS_STATE_INTERNALERROR })
  else
  -- verification of the response
  let v := L.iesys_check_response c1.lower
  let c5 := c1.did (.iesys_check_response v.1) v.2
  if v.1 ≠ TSS2_RC_SUCCESS then return_state v.1 ESYS_STATE_INTERNALERROR c5 else
  -- the complete function delivers the result
  let k := L.Tss2_Sys_PCR_SetAuthPolicy_Complete c5.lower
  let c6 := c5.did (.Tss2_Sys_PCR_SetAuthPolicy_Complete k.1) k.2
  if k.1 ≠ TSS2_RC_SUCCESS then return_state k.1 ESYS_STATE_INTERNALERROR c6 else
  (TSS2_RC_SUCCESS, { c6 with state := ESYS_STATE_INIT })

/-- The `do { r = Finish(ctx); } while (base_rc(r) == TSS2_BASE_RC_TRY_AGAIN)`
loop of the one-call function (source lines 93-100); `fuel` bounds the number
of iterations and `none` means the bound was reached. -/
def finishLoop (L : Lower W) : Nat → ESYS_CONTEXT W → Option (TSS2_RC × ESYS_CONTEXT W)
  | 0, _ => none
  | fuel + 1, esysContext =>
    let f := Esys_PCR_SetAuthPolicy_Finish L esysContext
    if base_rc f.1 = TSS2_BASE_RC_TRY_AGAIN then finishLoop L fuel f.2 else some f

/-- The one-call function `Esys_PCR_SetAuthPolicy` (source lines 66-107) on a
valid context pointer, with `fuel` bounding the iterations of its loop. -/
def Esys_PCR_SetAuthPolicy (L : Lower W) (fuel : Nat) (esysContext : ESYS_CONTEXT W)
    (authHandle shandle1 shandle2 shandle3 : ESYS_TR)
    (authPolicy : Option TPM2B_DIGEST) (hashAlg : TPMI_ALG_HASH) (pcrNum : TPMI_DH_PCR) :
    Option (TSS2_RC × ESYS_CONTEXT W) :=
  let a := Esys_PCR_SetAuthPolicy_Async L esysContext authHandle shandle1 shandle2 shandle3
    authPolicy hashAlg pcrNum
  -- return_if_error(r, "Error in async function")
  if a.1 ≠ TSS2_RC_SUCCESS then some a else
  -- Set the timeout to indefinite for now, since we want _Finish to block
  let timeouttmp := a.2.timeout
  let c : ESYS_CONTEXT W := { a.2 with timeout := -1 }
  match finishLoop L fuel c with
  | none => none
  | some f =>
    -- Restore the timeout value to the original value
    let c1 : ESYS_CONTEXT W := { f.2 with timeout := timeouttmp }
    if f.1 ≠ TSS2_RC_SUCCESS then some (f.1, c1) else some (TSS2_RC_SUCCESS, c1)

/-- The entry of `Esys_PCR_SetAuthPolicy_Async` with the pointer test of lines
162-165: a NULL context gives `TSS2_ESYS_RC_BAD_REFERENCE`. -/
def Esys_PCR_SetAuthPolicy_Async_ptr (L : Lower W) (esysContext : Option (ESYS_CONTEXT W))
    (authHandle shandle1 shandle2 shandle3 : ESYS_TR)
    (authPolicy : Option TPM2B_DIGEST) (hashAlg : TPMI_ALG_HASH) (pcrNum : TPMI_DH_PCR) :
    TSS2_RC × Option (ESYS_CONTEXT W) :=
  match esysContext with
  | none => (TSS2_ESYS_RC_BAD_REFERENCE, none)
  | some c =>
    let a := Esys_PCR_SetAuthPolicy_Async L c authHandle shandle1 shandle2 shandle3
      authPolicy hashAlg pcrNum
    (a.1, some a.2)

/-- The entry of `Esys_PCR_SetAuthPolicy_Finish` with the pointer test of
lines 255-258: a NULL context gives `TSS2_ESYS_RC_BAD_REFERENCE`. -/
def Esys_PCR_SetAuthPolicy_Finish_ptr (L : Lower W) (esysContext : Option (ESYS_CONTEXT W)) :
    TSS2_RC × Option (ESYS_CONTEXT W) :=
  match esysContext with
  | none => (TSS2_ESYS_RC_BAD_REFERENCE, none)
  | some c =>
    let f := Esys_PCR_SetAuthPolicy_Finish L c
    (f.1, some f.2)

/-- The context after `n` successive calls of `Esys_PCR_SetAuthPolicy_Finish`. -/
def FinishN (L : Lower W) : Nat → ESYS_CONTEXT W → ESYS_CONTEXT W
  | 0, c => c
  | n + 1, c => FinishN L n (Esys_PCR_SetAuthPolicy_Finish L c).2

/-- The return code of call number `n + 1` in a series of successive calls of
`Esys_PCR_SetAuthPolicy_Finish`. -/
def FinishRc (L : Lower W) (n : Nat) (c : ESYS_CONTEXT W) : TSS2_RC :=
  (Esys_PCR_SetAuthPolicy_Finish L (FinishN L n c)).1

/-- What holds of the result `out` of a block of `Esys_PCR_SetAuthPolicy_Async`
entered with context `c`: the calls made are `mid` followed by `last`, every
call of `mid` succeeded and is no dispatch, the result is the return code of
`last`, and the final state is `Init` when `last` is a failed step before the
dispatch, `InternalError` when it is a failed dispatch and `Sent` when it is a
successful dispatch; counter and timeout are as on entry. -/
def AsyncTail (c : ESYS_CONTEXT W) (out : TSS2_RC × ESYS_CONTEXT W) : Prop :=
  ∃ mid last,
    out.2.calls = c.calls ++ mid ++ [last] ∧
    (∀ x ∈ mid, x.rc = TSS2_RC_SUCCESS ∧ x.isExecuteAsync = false) ∧
    out.1 = last.rc ∧
    (last.isExecuteAsync = false → last.rc ≠ TSS2_RC_SUCCESS ∧ out.2.state = ESYS_STATE_INIT) ∧
    (last.isExecuteAsync = true → last.rc ≠ TSS2_RC_SUCCESS →
      out.2.state = ESYS_STATE_INTERNALERROR) ∧
    (last.isExecuteAsync = true → last.rc = TSS2_RC_SUCCESS → out.2.state = ESYS_STATE_SENT) ∧
    out.2.submissionCount = c.submissionCount ∧
    out.2.timeout = c.timeout


/-! ## Received responses -/

/-- The size of a TPM response header, `TPM_HEADER_SIZE` of `tcti-common.h`
(not among the sources): tag (2 bytes), size (4 bytes), code (4 bytes). -/
def TPM_HEADER_SIZE : Nat := 10

/-- The big-endian 32-bit value at offset `off` of a byte string. -/
def be32 (b : List Nat) (off : Nat) : Nat :=
  b.getD off 0 * 2 ^ 24 + b.getD (off + 1) 0 * 2 ^ 16 + b.getD (off + 2) 0 * 2 ^ 8 +
    b.getD (off + 3) 0

/-- The size field of a response header: the 32-bit total size after the
2-byte tag. -/
def declared_size (resp : List Nat) : Nat := be32 resp 2

/-- Modelled from the spec: the classification of a received response by the
transport exchange inside `Tss2_Sys_ExecuteFinish`, whose body is not among
the sources.  "detects whether a response is a structural protocol error, a
TPM-reported error, or success before handing control back"; "a response
buffer shorter than the minimum header size (10 bytes) is rejected before any
field is interpreted"; "a declared size field exceeding the actual bytes
received" is a structural error.  Otherwise the result is the response code of
the header. -/
def receive_classify (resp : List Nat) : TSS2_RC :=
  if resp.length < TPM_HEADER_SIZE then TSS2_SYS_RC_INSUFFICIENT_RESPONSE
  else if declared_size resp > resp.length then TSS2_SYS_RC_MALFORMED_RESPONSE
  else be32 resp 6

/-- The array `getcap_resp_malformed_size_bigger` of `tpm_cmd_tcti_dummy.c`:
"The header reports bigger than the actual payload." -/
def getcap_resp_malformed_size_bigger : List Nat :=
  [0x80, 0x01, 0x00, 0x00, 0x42, 0x83, 0x00, 0x00, 0x00, 0x00, 0x00, 0x00,
   0x00, 0x00, 0x06, 0x00, 0x00, 0x00, 0x2e, 0x00, 0x00, 0x01, 0x00, 0x32,
   0x2e, 0x30, 0x00, 0x00, 0x00, 0x01, 0x01, 0x00, 0x00, 0x00, 0x00, 0x00,
   0x00, 0x01, 0x02, 0x00, 0x00, 0x00, 0x92, 0x00, 0x00, 0x01, 0x03, 0x00,
   0x00, 0x00, 0xa7, 0x00, 0x00, 0x01, 0x04, 0x00, 0x00, 0x07, 0xe1, 0x00,
   0x00, 0x01, 0x05, 0x49, 0x42, 0x4d, 0x20, 0x00, 0x00, 0x01, 0x06, 0x53,
   0x57, 0x20, 0x20, 0x00, 0x00, 0x01, 0x07, 0x20, 0x54, 0x50, 0x4d, 0x00,
   0x00, 0x01, 0x08, 0x00, 0x00, 0x00, 0x00, 0x00, 0x00, 0x01, 0x09, 0x00,
   0x00, 0x00, 0x00, 0x00, 0x00, 0x01, 0x0a, 0x00, 0x00, 0x00, 0x01, 0x00,
   0x00, 0x01, 0x0b, 0x20, 0x16, 0x05, 0x11, 0x00, 0x00, 0x01, 0x0c, 0x00,
   0x16, 0x28, 0x00, 0x00, 0x00, 0x01, 0x0d, 0x00, 0x00, 0x04, 0x00, 0x00,
   0x00, 0x01, 0x0e, 0x00, 0x00, 0x00, 0x03, 0x00, 0x00, 0x01, 0x0f, 0x00,
   0x00, 0x00, 0x02, 0x00, 0x00, 0x01, 0x10, 0x00, 0x00, 0x00, 0x03, 0x00,
   0x00, 0x01, 0x11, 0x00, 0x00, 0x00, 0x40, 0x00, 0x00, 0x01, 0x12, 0x00,
   0x00, 0x00, 0x18, 0x00, 0x00, 0x01, 0x13, 0x00, 0x00, 0x00, 0x03, 0x00,
   0x00, 0x01, 0x14, 0xff, 0xff, 0xff, 0xff, 0x00, 0x00, 0x01, 0x16, 0x00,
   0x00, 0x00, 0x00, 0x00, 0x00, 0x01, 0x17, 0x00, 0x00, 0x08, 0x00, 0x00,
   0x00, 0x01, 0x18, 0x00, 0x00, 0x00, 0x06, 0x00, 0x00, 0x01, 0x19, 0x00,
   0x00, 0x10, 0x00, 0x00, 0x00, 0x01, 0x1a, 0x00, 0x00, 0x00, 0x0c, 0x00,
   0x00, 0x01, 0x1b, 0x00, 0x00, 0x00, 0x06, 0x00, 0x00, 0x01, 0x1c, 0x00,
   0x00, 0x01, 0x00, 0x00, 0x00, 0x01, 0x1d, 0x00, 0x00, 0x00, 0xff, 0x00,
   0x00, 0x01, 0x1e, 0x00, 0x00, 0x10, 0x00, 0x00, 0x00, 0x01, 0x1f, 0x00,
   0x00, 0x10, 0x00, 0x00, 0x00, 0x01, 0x20, 0x00, 0x00, 0x00, 0x30, 0x00,
   0x00, 0x01, 0x21, 0x00, 0x00, 0x0c, 0xe4, 0x00, 0x00, 0x01, 0x22, 0x00,
   0x00, 0x01, 0x44, 0x00, 0x00, 0x01, 0x23, 0x32, 0x2e, 0x30, 0x00, 0x00,
   0x00, 0x01, 0x24, 0x00, 0x00, 0x00, 0x00, 0x00, 0x00, 0x01, 0x25, 0x00,
   0x00, 0x00, 0x92, 0x00, 0x00, 0x01, 0x26, 0x00, 0x00, 0x00, 0xa7, 0x00,
   0x00, 0x01, 0x27, 0x00, 0x00, 0x07, 0xe1, 0x00, 0x00, 0x01, 0x28, 0x00,
   0x00, 0x00, 0x80, 0x00, 0x00, 0x01, 0x29, 0x00, 0x00, 0x00, 0x71, 0x00,
   0x00, 0x01, 0x2a, 0x00, 0x00, 0x00, 0x6d, 0x00, 0x00, 0x01, 0x2b, 0x00,
   0x00, 0x00, 0x04, 0x00, 0x00, 0x01, 0x2c, 0x00, 0x00, 0x04, 0x00, 0x00,
   0x00, 0x01, 0x2d, 0x00, 0x00, 0x00, 0x00, 0x00, 0x00, 0x01, 0x2e, 0x00,
   0x00, 0x04, 0x00]

/-- The array `getcap_resp_malformed_short` of `tpm_cmd_tcti_dummy.c`: "The
size is smaller than a header." -/
def getcap_resp_malformed_short : List Nat :=
  [0x80, 0x01, 0x00, 0x00, 0x42, 0x83, 0x00, 0x00]

/-! ## The session engine as the spec describes it -/

/-- Modelled from the spec: the kinds of a Session Descriptor, "either
password (auth value sent in clear), HMAC (...), or none". -/
inductive SessionKind where
  | unused
  | password
  | hmac
  deriving DecidableEq, Repr

/-- Modelled from the spec: a Session Descriptor, "a session handle, a
symmetric session key, the caller's and TPM's current nonce, and session
attribute flags", with the session value computed for the current command. -/
structure SessionSlot where
  kind : SessionKind
  sessionHandle : Nat
  sessionKey : List Nat
  nonceCaller : List Nat
  sessionAttributes : Nat
  sessionValue : List Nat
  deriving DecidableEq, Repr

/-- Modelled from the spec: the session value of one slot.  "For a password
session, the authorization value is the object's stored auth value directly.
For an HMAC session, compute a session key material by concatenating the
session's symmetric key with (object auth value, if any)"; an unused slot
gives "an empty/no-op auth". -/
def session_value (s : SessionSlot) (auth : Option (List Nat)) : List Nat :=
  match s.kind with
  | .password => auth.getD []
  | .hmac => s.sessionKey ++ auth.getD []
  | .unused => []

/-- Modelled from the spec: `iesys_compute_session_value` of `esys_iutil.c` is
not among the sources.  It stores `session_value` in the slot it is called
for; the lower state is the table of session slots. -/
def iesys_compute_session_value_spec (tab : List SessionSlot) (slot : Nat)
    (_name auth : Option (List Nat)) : List SessionSlot :=
  match tab[slot]? with
  | none => tab
  | some s => tab.set slot { s with sessionValue := session_value s auth }

/-- Modelled from the spec: one entry of the authorization area.  A password
session carries its session value (the auth value) in clear, an HMAC session
carries the HMAC `hmacOf` computes for it. -/
def auth_entry (hmacOf : SessionSlot → List Nat) (s : SessionSlot) : TPMS_AUTH_COMMAND :=
  { sessionHandle := s.sessionHandle
    nonce := s.nonceCaller
    sessionAttributes := s.sessionAttributes
    hmac := match s.kind with
      | .password => s.sessionValue
      | _ => hmacOf s }

/-- Modelled from the spec: `iesys_gen_auths` of `esys_iutil.c` is not among
the sources.  "Auth generation: assembles the computed per-session
authorization values (plus nonce, attributes) into the command's authorization
area in session-slot order", one entry for each session present. -/
def iesys_gen_auths_spec (hmacOf : SessionSlot → List Nat) (tab : List SessionSlot)
    (_h1 _h2 _h3 : Option RSRC_NODE_T) :
    TSS2_RC × TSS2L_SYS_AUTH_COMMAND × List SessionSlot :=
  let present := tab.filter (fun s => s.kind != SessionKind.unused)
  (TSS2_RC_SUCCESS,
   { count := present.length, auths := present.map (auth_entry hmacOf) },
   tab)

/-! ## A mock of the lower layers, for concrete runs -/

/-- The return codes a mock of the lower layers gives, the resource node that
`esys_GetResourceObject` resolves to and the authorizations that
`iesys_gen_auths` produces. -/
structure MockScript where
  feasibility : TSS2_RC
  getResource : TSS2_RC
  prepare : TSS2_RC
  initTab : TSS2_RC
  genAuths : TSS2_RC
  setAuths : TSS2_RC
  dispatch : TSS2_RC
  receive : TSS2_RC
  verify : TSS2_RC
  complete : TSS2_RC
  node : Option RSRC_NODE_T
  auths : TSS2L_SYS_AUTH_COMMAND

/-- A mock of the lower layers: every function returns the code of the script;
the lower state is a counter of the calls that touched it. -/
def mockLower (m : MockScript) : Lower Nat where
  check_session_feasibility := fun _ _ _ _ => m.feasibility
  esys_GetResourceObject := fun w _ => (m.getResource, m.node, w + 1)
  Tss2_Sys_PCR_SetAuthPolicy_Prepare := fun w _ _ _ _ => (m.prepare, w + 1)
  init_session_tab := fun w _ _ _ => (m.initTab, w + 1)
  iesys_compute_session_value := fun w _ _ _ => w + 1
  iesys_gen_auths := fun w _ _ _ => (m.genAuths, m.auths, w + 1)
  Tss2_Sys_SetCmdAuths := fun w _ => (m.setAuths, w + 1)
  Tss2_Sys_ExecuteAsync := fun w => (m.dispatch, w + 1)
  Tss2_Sys_ExecuteFinish := fun w _ => (m.receive, w + 1)
  iesys_check_response := fun w => (m.verify, w + 1)
  Tss2_Sys_PCR_SetAuthPolicy_Complete := fun w => (m.complete, w + 1)

/-- The script in which every lower call succeeds, the handle resolves to a
node with auth value `{1,2,3,4,5}` and one authorization is generated. -/
def mockOk : MockScript where
  feasibility := TSS2_RC_SUCCESS
  getResource := TSS2_RC_SUCCESS
  prepare := TSS2_RC_SUCCESS
  initTab := TSS2_RC_SUCCESS
  genAuths := TSS2_RC_SUCCESS
  setAuths := TSS2_RC_SUCCESS
  dispatch := TSS2_RC_SUCCESS
  receive := TSS2_RC_SUCCESS
  verify := TSS2_RC_SUCCESS
  complete := TSS2_RC_SUCCESS
  node := some { handle := 0x4000000C, name := [0x40, 0x00, 0x00, 0x0C], auth := [1, 2, 3, 4, 5] }
  auths := { count := 1,
             auths := [{ sessionHandle := 0x40000009, nonce := [], sessionAttributes := 0,
                         hmac := [1, 2, 3, 4, 5] }] }

/-- A context in the given state with the given submission counter, timeout
1000, lower state 0 and no call recorded. -/
def mockContext (s : ESYS_STATE) (n : Int) : ESYS_CONTEXT Nat where
  state := s
  submissionCount := n
  timeout := 1000
  authsCount := 0
  lower := 0
  calls := []

/-- The context that the one-call function leaves when it is run on
`mockContext ESYS_STATE_INIT 0` against `mockLower mockOk` with the platform
handle `0x10C`, a password session `0xFF` and two empty session slots. -/
def mockOneCallContext : ESYS_CONTEXT Nat where
  state := ESYS_STATE_INIT
  submissionCount := 0
  timeout := 1000
  authsCount := 1
  lower := 12
  calls :=
    [.check_session_feasibility 0xFF 0xFFF 0xFFF 1 0,
     .esys_GetResourceObject 0x10C 0,
     .Tss2_Sys_PCR_SetAuthPolicy_Prepare 0x4000000C none 0xB 0 0,
     .init_session_tab 0xFF 0xFFF 0xFFF 0,
     .iesys_compute_session_value 0 (some [0x40, 0x00, 0x00, 0x0C]) (some [1, 2, 3, 4, 5]),
     .iesys_compute_session_value 1 none none,
     .iesys_compute_session_value 2 none none,
     .iesys_gen_auths
       (some { handle := 0x4000000C, name := [0x40, 0x00, 0x00, 0x0C], auth := [1, 2, 3, 4, 5] })
       none none 0,
     .Tss2_Sys_SetCmdAuths
       { count := 1,
         auths := [{ sessionHandle := 0x40000009, nonce := [], sessionAttributes := 0,
                     hmac := [1, 2, 3, 4, 5] }] } 0,
     .Tss2_Sys_ExecuteAsync 0,
     .Tss2_Sys_ExecuteFinish (-1) 0,
     .iesys_check_response 0,
     .Tss2_Sys_PCR_SetAuthPolicy_Complete 0]

/-- A password session slot (session handle `TPM2_RS_PW`). -/
def passwordSlot : SessionSlot where
  kind := .password
  sessionHandle := 0x40000009
  sessionKey := []
  nonceCaller := []
  sessionAttributes := 0
  sessionValue := []

/-- An unused session slot. -/
def unusedSlot : SessionSlot where
  kind := .unused
  sessionHandle := 0
  sessionKey := []
  nonceCaller := []
  sessionAttributes := 0
  sessionValue := []

/-- A mock of the lower layers over a table of session slots: the session
engine is the one the spec describes, the handle resolves to the key of the
HMAC test with auth value `{1,2,3,4,5}`, `init_session_tab` installs a password
session in slot 0, and every other call succeeds without touching the table. -/
def mockSessionLower : Lower (List SessionSlot) where
  check_session_feasibility := fun _ _ _ _ => TSS2_RC_SUCCESS
  esys_GetResourceObject := fun w _ =>
    (TSS2_RC_SUCCESS,
     some { handle := 0x80000000, name := [0, 0xB], auth := [1, 2, 3, 4, 5] }, w)
  Tss2_Sys_PCR_SetAuthPolicy_Prepare := fun w _ _ _ _ => (TSS2_RC_SUCCESS, w)
  init_session_tab := fun _ _ _ _ => (TSS2_RC_SUCCESS, [passwordSlot, unusedSlot, unusedSlot])
  iesys_compute_session_value := iesys_compute_session_value_spec
  iesys_gen_auths := iesys_gen_auths_spec (fun _ => [])
  Tss2_Sys_SetCmdAuths := fun w _ => (TSS2_RC_SUCCESS, w)
  Tss2_Sys_ExecuteAsync := fun w => (TSS2_RC_SUCCESS, w)
  Tss2_Sys_ExecuteFinish := fun w _ => (TSS2_RC_SUCCESS, w)
  iesys_check_response := fun w => (TSS2_RC_SUCCESS, w)
  Tss2_Sys_PCR_SetAuthPolicy_Complete := fun w => (TSS2_RC_SUCCESS, w)

/-- A context in state Init over an empty table of session slots. -/
def mockSessionContext : ESYS_CONTEXT (List SessionSlot) where
  state := ESYS_STATE_INIT
  submissionCount := 0
  timeout := 1000
  authsCount := 0
  lower := []
  calls := []

/-! ## The wire codec -/

/-- Modelled from the spec: layer of the marshaling library in `tss2_common.h`
(not among the sources). -/
def TSS2_MU_RC_LAYER : TSS2_RC := TSS2_RC_LAYER 9
/-- Modelled from the spec: base code of `tss2_common.h` (not among the sources). -/
def TSS2_BASE_RC_INSUFFICIENT_BUFFER : TSS2_RC := 6
/-- Modelled from the spec: base code of `tss2_common.h` (not among the sources). -/
def TSS2_BASE_RC_BAD_SIZE : TSS2_RC := 16
/-- The capacity error of the wire codec, `tss2_common.h`: layer ORed with the
base code. -/
def TSS2_MU_RC_INSUFFICIENT_BUFFER : TSS2_RC :=
  TSS2_MU_RC_LAYER ||| TSS2_BASE_RC_INSUFFICIENT_BUFFER
/-- The bad-size error of the wire codec, `tss2_common.h`: layer ORed with the
base code. -/
def TSS2_MU_RC_BAD_SIZE : TSS2_RC := TSS2_MU_RC_LAYER ||| TSS2_BASE_RC_BAD_SIZE
/-- SAPI-layer code of `tss2_common.h`: layer ORed with the base code. -/
def TSS2_SYS_RC_BAD_REFERENCE : TSS2_RC := TSS2_SYS_RC_LAYER ||| TSS2_BASE_RC_BAD_REFERENCE
/-- SAPI-layer code of `tss2_common.h`: layer ORed with the base code. -/
def TSS2_SYS_RC_BAD_SEQUENCE : TSS2_RC := TSS2_SYS_RC_LAYER ||| TSS2_BASE_RC_BAD_SEQUENCE

/-- Modelled from the spec: tag of `tss2_tpm2_types.h` (not among the sources),
"a leading tag field identifying session-auth presence": no sessions. -/
def TPM2_ST_NO_SESSIONS : Nat := 0x8001
/-- Modelled from the spec: tag of `tss2_tpm2_types.h` (not among the sources),
"a leading tag field identifying session-auth presence": sessions present. -/
def TPM2_ST_SESSIONS : Nat := 0x8002

/-- Modelled from the spec: command code of `tss2_tpm2_types.h` (not among the sources). -/
def TPM2_CC_ClockRateAdjust : Nat := 0x130
/-- Modelled from the spec: command code of `tss2_tpm2_types.h` (not among the sources). -/
def TPM2_CC_SequenceComplete : Nat := 0x13E
/-- Modelled from the spec: command code of `tss2_tpm2_types.h` (not among the sources). -/
def TPM2_CC_Startup : Nat := 0x144
/-- Modelled from the spec: command code of `tss2_tpm2_types.h` (not among the sources). -/
def TPM2_CC_PolicyAuthorize : Nat := 0x16A
/-- Modelled from the spec: command code of `tss2_tpm2_types.h` (not among the sources). -/
def TPM2_CC_PCR_Extend : Nat := 0x182
/-- Modelled from the spec: command code of `tss2_tpm2_types.h` (not among the sources). -/
def TPM2_CC_PCR_SetAuthValue : Nat := 0x183
/-- Modelled from the spec: command code of `tss2_tpm2_types.h` (not among the sources). -/
def TPM2_CC_TestParms : Nat := 0x18A
/-- Modelled from the spec: command code of `tss2_tpm2_types.h` (not among the sources). -/
def TPM2_CC_EncryptDecrypt2 : Nat := 0x193

/-- The canonical encoding of a `UINT8`. -/
def UINT8_bytes (v : Nat) : List Nat := [v % 256]

/-- The canonical big-endian encoding of a `UINT16`. -/
def UINT16_bytes (v : Nat) : List Nat := [v / 256 % 256, v % 256]

/-- The canonical big-endian encoding of a `UINT32`. -/
def UINT32_bytes (v : Nat) : List Nat :=
  [v / 2 ^ 24 % 256, v / 2 ^ 16 % 256, v / 2 ^ 8 % 256, v % 256]

/-- The conversion of a signed 8-bit value (`TPM2_CLOCK_ADJUST` is an `INT8`)
to the `UINT8` parameter of `Tss2_MU_UINT8_Marshal`. -/
def uint8_of_int8 (v : Int) : Nat := (v % 256).toNat

/-- The sized buffers `TPM2B_MAX_BUFFER`, `TPM2B_IV`, `TPM2B_NONCE` and
`TPM2B_NAME` have the layout of `TPM2B_DIGEST`: a 16-bit size and a byte
array. -/
abbrev TPM2B_MAX_BUFFER := TPM2B_DIGEST
/-- See `TPM2B_MAX_BUFFER`. -/
abbrev TPM2B_IV := TPM2B_DIGEST
/-- See `TPM2B_MAX_BUFFER`. -/
abbrev TPM2B_NONCE := TPM2B_DIGEST
/-- See `TPM2B_MAX_BUFFER`. -/
abbrev TPM2B_NAME := TPM2B_DIGEST

/-- Modelled from the spec: capacity of the byte array of a `TPM2B_DIGEST` in
`tss2_tpm2_types.h` (not among the sources), the largest digest. -/
def TPM2B_DIGEST_MAX : Nat := 64
/-- Modelled from the spec: capacity of the byte array of a `TPM2B_MAX_BUFFER`
in `tss2_tpm2_types.h` (not among the sources). -/
def TPM2B_MAX_BUFFER_MAX : Nat := 1024
/-- Modelled from the spec: capacity of the byte array of a `TPM2B_IV` in
`tss2_tpm2_types.h` (not among the sources), the largest symmetric block. -/
def TPM2B_IV_MAX : Nat := 16

/-- The first `size` bytes of the byte array of a sized buffer (zero where the
array is not given that far). -/
def TPM2B_payload (v : TPM2B_DIGEST) : List Nat :=
  (v.buffer ++ List.replicate (v.size - v.buffer.length) 0).take v.size

/-- The canonical encoding of a sized buffer: "buffers with a 16-bit length
prefix". -/
def TPM2B_bytes (v : TPM2B_DIGEST) : List Nat := UINT16_bytes v.size ++ TPM2B_payload v

/-- The list `TPML_DIGEST_VALUES`; its type declaration and marshal function
are not among the sources, the value is given by its canonical encoding. -/
structure TPML_DIGEST_VALUES where
  encoding : List Nat
  deriving DecidableEq, Repr

/-- The ticket `TPMT_TK_VERIFIED`; its type declaration and marshal function
are not among the sources, the value is given by its canonical encoding. -/
structure TPMT_TK_VERIFIED where
  encoding : List Nat
  deriving DecidableEq, Repr

/-- The structure `TPMT_PUBLIC_PARMS`; its type declaration and marshal
function are not among the sources, the value is given by its canonical
encoding. -/
structure TPMT_PUBLIC_PARMS where
  encoding : List Nat
  deriving DecidableEq, Repr

/-- The ticket `TPMT_TK_HASHCHECK`: a tag, a hierarchy and a digest. -/
structure TPMT_TK_HASHCHECK where
  tag : Nat
  hierarchy : Nat
  digest : TPM2B_DIGEST
  deriving DecidableEq, Repr

/-- The buffer with `bytes` written at `offset`. -/
def writeAt (buffer : List Nat) (offset : Nat) (bytes : List Nat) : List Nat :=
  buffer.take offset ++ bytes ++ buffer.drop (offset + bytes.length)

/-- Modelled from the spec: the marshal contract of the wire codec, whose
functions `Tss2_MU_*_Marshal` are not among the sources.  "`marshal(value,
buffer, capacity, cursor)` appends the value's canonical big-endian/TPM-structure
encoding starting at `cursor`, advances `cursor`, fails with a capacity error
if the write would exceed `capacity`."  The result is the return code, the
buffer and the cursor. -/
def marshal_bytes (bytes : List Nat) (buffer : List Nat) (buffer_size offset : Nat) :
    TSS2_RC × List Nat × Nat :=
  if offset + bytes.length > buffer_size then (TSS2_MU_RC_INSUFFICIENT_BUFFER, buffer, offset)
  else (TSS2_RC_SUCCESS, writeAt buffer offset bytes, offset + bytes.length)

/-- Modelled from the spec: `Tss2_MU_UINT8_Marshal`, see `marshal_bytes`. -/
def Tss2_MU_UINT8_Marshal (src : Nat) : List Nat → Nat → Nat → TSS2_RC × List Nat × Nat :=
  marshal_bytes (UINT8_bytes src)
/-- Modelled from the spec: `Tss2_MU_UINT16_Marshal`, see `marshal_bytes`. -/
def Tss2_MU_UINT16_Marshal (src : Nat) : List Nat → Nat → Nat → TSS2_RC × List Nat × Nat :=
  marshal_bytes (UINT16_bytes src)
/-- Modelled from the spec: `Tss2_MU_UINT32_Marshal`, see `marshal_bytes`. -/
def Tss2_MU_UINT32_Marshal (src : Nat) : List Nat → Nat → Nat → TSS2_RC × List Nat × Nat :=
  marshal_bytes (UINT32_bytes src)
/-- Modelled from the spec: `Tss2_MU_TPM2B_DIGEST_Marshal`, see `marshal_bytes`. -/
def Tss2_MU_TPM2B_DIGEST_Marshal (src : TPM2B_DIGEST) :
    List Nat → Nat → Nat → TSS2_RC × List Nat × Nat :=
  marshal_bytes (TPM2B_bytes src)
/-- Modelled from the spec: `Tss2_MU_TPM2B_MAX_BUFFER_Marshal`, see `marshal_bytes`. -/
def Tss2_MU_TPM2B_MAX_BUFFER_Marshal (src : TPM2B_MAX_BUFFER) :
    List Nat → Nat → Nat → TSS2_RC × List Nat × Nat :=
  marshal_bytes (TPM2B_bytes src)
/-- Modelled from the spec: `Tss2_MU_TPM2B_IV_Marshal`, see `marshal_bytes`. -/
def Tss2_MU_TPM2B_IV_Marshal (src : TPM2B_IV) :
    List Nat → Nat → Nat → TSS2_RC × List Nat × Nat :=
  marshal_bytes (TPM2B_bytes src)
/-- Modelled from the spec: `Tss2_MU_TPM2B_NONCE_Marshal`, see `marshal_bytes`. -/
def Tss2_MU_TPM2B_NONCE_Marshal (src : TPM2B_NONCE) :
    List Nat → Nat → Nat → TSS2_RC × List Nat × Nat :=
  marshal_bytes (TPM2B_bytes src)
/-- Modelled from the spec: `Tss2_MU_TPM2B_NAME_Marshal`, see `marshal_bytes`. -/
def Tss2_MU_TPM2B_NAME_Marshal (src : TPM2B_NAME) :
    List Nat → Nat → Nat → TSS2_RC × List Nat × Nat :=
  marshal_bytes (TPM2B_bytes src)
/-- Modelled from the spec: `Tss2_MU_TPML_DIGEST_VALUES_Marshal`, see `marshal_bytes`. -/
def Tss2_MU_TPML_DIGEST_VALUES_Marshal (src : TPML_DIGEST_VALUES) :
    List Nat → Nat → Nat → TSS2_RC × List Nat × Nat :=
  marshal_bytes src.encoding
/-- Modelled from the spec: `Tss2_MU_TPMT_TK_VERIFIED_Marshal`, see `marshal_bytes`. -/
def Tss2_MU_TPMT_TK_VERIFIED_Marshal (src : TPMT_TK_VERIFIED) :
    List Nat → Nat → Nat → TSS2_RC × List Nat × Nat :=
  marshal_bytes src.encoding
/-- Modelled from the spec: `Tss2_MU_TPMT_PUBLIC_PARMS_Marshal`, see `marshal_bytes`. -/
def Tss2_MU_TPMT_PUBLIC_PARMS_Marshal (src : TPMT_PUBLIC_PARMS) :
    List Nat → Nat → Nat → TSS2_RC × List Nat × Nat :=
  marshal_bytes src.encoding

/-- Modelled from the spec: `Tss2_MU_UINT16_Unmarshal` (not among the sources);
"fails with an insufficient-data error if fewer bytes remain than the type
requires".  The result is the return code, the cursor and the value. -/
def Tss2_MU_UINT16_Unmarshal (buffer : List Nat) (buffer_size offset : Nat) :
    TSS2_RC × Nat × Option Nat :=
  if offset + 2 > buffer_size then (TSS2_MU_RC_INSUFFICIENT_BUFFER, offset, none)
  else (TSS2_RC_SUCCESS, offset + 2,
    some (buffer.getD offset 0 * 256 + buffer.getD (offset + 1) 0))

/-- Modelled from the spec: `Tss2_MU_UINT32_Unmarshal` (not among the sources);
"fails with an insufficient-data error if fewer bytes remain than the type
requires". -/
def Tss2_MU_UINT32_Unmarshal (buffer : List Nat) (buffer_size offset : Nat) :
    TSS2_RC × Nat × Option Nat :=
  if offset + 4 > buffer_size then (TSS2_MU_RC_INSUFFICIENT_BUFFER, offset, none)
  else (TSS2_RC_SUCCESS, offset + 4, some (be32 buffer offset))

/-- Modelled from the spec: the unmarshal functions of the sized buffers (not
among the sources), for a type whose byte array holds `max` bytes.
"`unmarshal(buffer, size, cursor, out value)` is the inverse; fails with an
insufficient-data error if fewer bytes remain than the type requires, and with
a malformed-data error if a length-prefixed field's declared length is
inconsistent" - here: with the capacity of the type. -/
def TPM2B_Unmarshal (max : Nat) (buffer : List Nat) (buffer_size offset : Nat) :
    TSS2_RC × Nat × Option TPM2B_DIGEST :=
  if offset + 2 > buffer_size then (TSS2_MU_RC_INSUFFICIENT_BUFFER, offset, none)
  else
    let size := buffer.getD offset 0 * 256 + buffer.getD (offset + 1) 0
    if offset + 2 + size > buffer_size then (TSS2_MU_RC_INSUFFICIENT_BUFFER, offset, none)
    else if size > max then (TSS2_MU_RC_BAD_SIZE, offset, none)
    else (TSS2_RC_SUCCESS, offset + 2 + size,
      some { size := size, buffer := (buffer.drop (offset + 2)).take size })

/-- Modelled from the spec: `Tss2_MU_TPM2B_DIGEST_Unmarshal`, see `TPM2B_Unmarshal`. -/
def Tss2_MU_TPM2B_DIGEST_Unmarshal : List Nat → Nat → Nat → TSS2_RC × Nat × Option TPM2B_DIGEST :=
  TPM2B_Unmarshal TPM2B_DIGEST_MAX
/-- Modelled from the spec: `Tss2_MU_TPM2B_MAX_BUFFER_Unmarshal`, see `TPM2B_Unmarshal`. -/
def Tss2_MU_TPM2B_MAX_BUFFER_Unmarshal :
    List Nat → Nat → Nat → TSS2_RC × Nat × Option TPM2B_MAX_BUFFER :=
  TPM2B_Unmarshal TPM2B_MAX_BUFFER_MAX
/-- Modelled from the spec: `Tss2_MU_TPM2B_IV_Unmarshal`, see `TPM2B_Unmarshal`. -/
def Tss2_MU_TPM2B_IV_Unmarshal : List Nat → Nat → Nat → TSS2_RC × Nat × Option TPM2B_IV :=
  TPM2B_Unmarshal TPM2B_IV_MAX

/-- Modelled from the spec: `Tss2_MU_TPMT_TK_HASHCHECK_Unmarshal` (not among the
sources): the tag, the hierarchy and the digest in this order, the first
failure being returned. -/
def Tss2_MU_TPMT_TK_HASHCHECK_Unmarshal (buffer : List Nat) (buffer_size offset : Nat) :
    TSS2_RC × Nat × Option TPMT_TK_HASHCHECK :=
  let t := Tss2_MU_UINT16_Unmarshal buffer buffer_size offset
  if t.1 ≠ TSS2_RC_SUCCESS then (t.1, offset, none) else
  let h := Tss2_MU_UINT32_Unmarshal buffer buffer_size t.2.1
  if h.1 ≠ TSS2_RC_SUCCESS then (h.1, offset, none) else
  let d := Tss2_MU_TPM2B_DIGEST_Unmarshal buffer buffer_size h.2.1
  match t.2.2, h.2.2, d.2.2 with
  | some tag, some hierarchy, some digest =>
    if d.1 ≠ TSS2_RC_SUCCESS then (d.1, offset, none)
    else (TSS2_RC_SUCCESS, d.2.1, some { tag := tag, hierarchy := hierarchy, digest := digest })
  | _, _, _ => (if d.1 ≠ TSS2_RC_SUCCESS then d.1 else TSS2_MU_RC_INSUFFICIENT_BUFFER, offset, none)

/-! ## The marshaling context and the SAPI commands -/

/-- Modelled from the spec: the stages of the lifecycle of a marshaling
context in `sysapi_util.h` (not among the sources): "reset at Prepare, consumed
through Complete; one exchange per lifecycle". -/
inductive CMD_STAGE where
  | CMD_STAGE_INITIALIZE
  | CMD_STAGE_PREPARE
  | CMD_STAGE_SEND_COMMAND
  | CMD_STAGE_RECEIVE_RESPONSE
  deriving DecidableEq, Repr

open CMD_STAGE

/-- The fields of `TSS2_SYS_CONTEXT_BLOB` (declared in `sysapi_util.h`, not
among the sources) that the commands use: the buffer, its capacity, the
cursor, the three capability flags and the parameter-is-null flag as written
by the Prepare functions, and from the spec the active command code, the stage
and the classification `rval` of the received response.  `muCalls` is ghost
state: the return codes of the wire-codec calls made since the last
prologue. -/
structure TSS2_SYS_CONTEXT_BLOB where
  cmdBuffer : List Nat
  maxCmdSize : Nat
  nextData : Nat
  decryptAllowed : Nat
  encryptAllowed : Nat
  authAllowed : Nat
  decryptNull : Nat
  commandCode : Nat
  previousStage : CMD_STAGE
  rval : TSS2_RC
  muCalls : List TSS2_RC
  deriving DecidableEq, Repr

/-- The cast `syscontext_cast` of `sysapi_util.h`: the same pointer, `none`
for NULL. -/
def syscontext_cast (sysContext : Option TSS2_SYS_CONTEXT_BLOB) :
    Option TSS2_SYS_CONTEXT_BLOB :=
  sysContext

/-- A call `rval = Tss2_MU_..._Marshal(src, ctx->cmdBuffer, ctx->maxCmdSize,
&ctx->nextData)`. -/
def TSS2_SYS_CONTEXT_BLOB.marshal (ctx : TSS2_SYS_CONTEXT_BLOB)
    (f : List Nat → Nat → Nat → TSS2_RC × List Nat × Nat) :
    TSS2_RC × TSS2_SYS_CONTEXT_BLOB :=
  let r := f ctx.cmdBuffer ctx.maxCmdSize ctx.nextData
  (r.1, { ctx with cmdBuffer := r.2.1, nextData := r.2.2, muCalls := ctx.muCalls ++ [r.1] })

/-- A call `rval = Tss2_MU_..._Unmarshal(ctx->cmdBuffer, ctx->maxCmdSize,
&ctx->nextData, dest)`; the value written to `dest` is the third component. -/
def TSS2_SYS_CONTEXT_BLOB.unmarshal {α : Type} (ctx : TSS2_SYS_CONTEXT_BLOB)
    (f : List Nat → Nat → Nat → TSS2_RC × Nat × Option α) :
    TSS2_RC × TSS2_SYS_CONTEXT_BLOB × Option α :=
  let r := f ctx.cmdBuffer ctx.maxCmdSize ctx.nextData
  (r.1, { ctx with nextData := r.2.1, muCalls := ctx.muCalls ++ [r.1] }, r.2.2)

/-- Modelled from the spec: `CommonPreparePrologue` of `sysapi_util.c` is not
among the sources.  "Prologue: reset cursor, write the fixed command header
placeholder (tag, size-to-be-patched, command code), record which command code
is active"; the capability flags and the parameter-is-null flag are reset
("Lifecycle: reset at Prepare").  The size placeholder is four zero bytes, and
the write of the header is recorded as the first codec call. -/
def CommonPreparePrologue (ctx : TSS2_SYS_CONTEXT_BLOB) (commandCode : Nat) :
    TSS2_RC × TSS2_SYS_CONTEXT_BLOB :=
  let c : TSS2_SYS_CONTEXT_BLOB :=
    { ctx with decryptAllowed := 0, encryptAllowed := 0, authAllowed := 0, decryptNull := 0,
               nextData := 0, muCalls := [] }
  let h := c.marshal (marshal_bytes (UINT16_bytes TPM2_ST_NO_SESSIONS ++ [0, 0, 0, 0] ++
    UINT32_bytes commandCode))
  if h.1 ≠ TSS2_RC_SUCCESS then h else
  (TSS2_RC_SUCCESS, { h.2 with commandCode := commandCode })

/-- Modelled from the spec: `CommonPrepareEpilogue` of `sysapi_util.c` is not
among the sources.  "Epilogue: patch the header's size field with the final
cursor position"; the context is then in the Prepare stage.  The capability
flags are those the Prepare function has just written. -/
def CommonPrepareEpilogue (ctx : TSS2_SYS_CONTEXT_BLOB) : TSS2_RC × TSS2_SYS_CONTEXT_BLOB :=
  (TSS2_RC_SUCCESS,
   { ctx with cmdBuffer := writeAt ctx.cmdBuffer 2 (UINT32_bytes ctx.nextData),
              previousStage := CMD_STAGE_PREPARE })

/-- Modelled from the spec: `CommonComplete` of `sysapi_util.c` is not among
the sources.  "Complete requires a received response"; it "validates the
response header was already classified as success", otherwise it fails with a
sequencing error.  The cursor is then set to the response parameters: after
the header, and after the 32-bit parameter size when the tag of the response
announces sessions. -/
def CommonComplete (ctx : TSS2_SYS_CONTEXT_BLOB) : TSS2_RC × TSS2_SYS_CONTEXT_BLOB :=
  if ctx.previousStage ≠ CMD_STAGE_RECEIVE_RESPONSE ∨ ctx.rval ≠ TSS2_RC_SUCCESS then
    (TSS2_SYS_RC_BAD_SEQUENCE, ctx)
  else
    let tag := ctx.cmdBuffer.getD 0 0 * 256 + ctx.cmdBuffer.getD 1 0
    (TSS2_RC_SUCCESS,
     { ctx with nextData := if tag = TPM2_ST_SESSIONS then TPM_HEADER_SIZE + 4
                            else TPM_HEADER_SIZE })

/-- The idiom `rval = ...; if (rval) return rval;` of the Prepare functions:
`r` is the result of the call, `rest` the remainder of the function body. -/
def thenOnSuccess (r : TSS2_RC × TSS2_SYS_CONTEXT_BLOB)
    (rest : TSS2_SYS_CONTEXT_BLOB → TSS2_RC × TSS2_SYS_CONTEXT_BLOB) :
    TSS2_RC × TSS2_SYS_CONTEXT_BLOB :=
  if r.1 ≠ 0 then r else rest r.2

/-- The function `Tss2_Sys_Startup_Prepare` (`Tss2_Sys_Startup.c`, lines 17-42). -/
def Tss2_Sys_Startup_Prepare (sysContext : Option TSS2_SYS_CONTEXT_BLOB) (startupType : Nat) :
    TSS2_RC × Option TSS2_SYS_CONTEXT_BLOB :=
  match syscontext_cast sysContext with
  | none => (TSS2_SYS_RC_BAD_REFERENCE, sysContext)
  | some ctx =>
    let r :=
      thenOnSuccess (CommonPreparePrologue ctx TPM2_CC_Startup) fun ctx =>
      thenOnSuccess (ctx.marshal (Tss2_MU_UINT16_Marshal startupType)) fun ctx =>
      CommonPrepareEpilogue { ctx with decryptAllowed := 0, encryptAllowed := 0, authAllowed := 0 }
    (r.1, some r.2)

/-- The function `Tss2_Sys_ClockRateAdjust_Prepare` (`Tss2_Sys_ClockRateAdjust.c`,
lines 17-48); `rateAdjust` is a signed 8-bit value. -/
def Tss2_Sys_ClockRateAdjust_Prepare (sysContext : Option TSS2_SYS_CONTEXT_BLOB)
    (auth : Nat) (rateAdjust : Int) : TSS2_RC × Option TSS2_SYS_CONTEXT_BLOB :=
  match syscontext_cast sysContext with
  | none => (TSS2_SYS_RC_BAD_REFERENCE, sysContext)
  | some ctx =>
    let r :=
      thenOnSuccess (CommonPreparePrologue ctx TPM2_CC_ClockRateAdjust) fun ctx =>
      thenOnSuccess (ctx.marshal (Tss2_MU_UINT32_Marshal auth)) fun ctx =>
      thenOnSuccess (ctx.marshal (Tss2_MU_UINT8_Marshal (uint8_of_int8 rateAdjust))) fun ctx =>
      CommonPrepareEpilogue { ctx with decryptAllowed := 0, encryptAllowed := 0, authAllowed := 1 }
    (r.1, some r.2)

/-- The function `Tss2_Sys_PCR_Extend_Prepare` (`Tss2_Sys_PCR_Extend.c`, lines
17-49); `digests` is `none` for a NULL pointer. -/
def Tss2_Sys_PCR_Extend_Prepare (sysContext : Option TSS2_SYS_CONTEXT_BLOB)
    (pcrHandle : Nat) (digests : Option TPML_DIGEST_VALUES) :
    TSS2_RC × Option TSS2_SYS_CONTEXT_BLOB :=
  match syscontext_cast sysContext, digests with
  | some ctx, some digests =>
    let r :=
      thenOnSuccess (CommonPreparePrologue ctx TPM2_CC_PCR_Extend) fun ctx =>
      thenOnSuccess (ctx.marshal (Tss2_MU_UINT32_Marshal pcrHandle)) fun ctx =>
      thenOnSuccess (ctx.marshal (Tss2_MU_TPML_DIGEST_VALUES_Marshal digests)) fun ctx =>
      CommonPrepareEpilogue { ctx with decryptAllowed := 0, encryptAllowed := 0, authAllowed := 1 }
    (r.1, some r.2)
  | _, _ => (TSS2_SYS_RC_BAD_REFERENCE, sysContext)

/-- The function `Tss2_Sys_PCR_SetAuthValue_Prepare` (`Tss2_Sys_PCR_SetAuthValue.c`,
lines 17-58); `auth` is `none` for a NULL pointer. -/
def Tss2_Sys_PCR_SetAuthValue_Prepare (sysContext : Option TSS2_SYS_CONTEXT_BLOB)
    (pcrHandle : Nat) (auth : Option TPM2B_DIGEST) : TSS2_RC × Option TSS2_SYS_CONTEXT_BLOB :=
  match syscontext_cast sysContext with
  | none => (TSS2_SYS_RC_BAD_REFERENCE, sysContext)
  | some ctx =>
    let r :=
      thenOnSuccess (CommonPreparePrologue ctx TPM2_CC_PCR_SetAuthValue) fun ctx =>
      thenOnSuccess (ctx.marshal (Tss2_MU_UINT32_Marshal pcrHandle)) fun ctx =>
      thenOnSuccess
        (match auth with
         | none => ctx.marshal (Tss2_MU_UINT16_Marshal 0)
         | some auth => ctx.marshal (Tss2_MU_TPM2B_DIGEST_Marshal auth)) fun ctx =>
      CommonPrepareEpilogue { ctx with decryptAllowed := 1, encryptAllowed := 0, authAllowed := 1 }
    (r.1, some r.2)

/-- The function `Tss2_Sys_PolicyAuthorize_Prepare` (`Tss2_Sys_PolicyAuthorize.c`,
lines 17-98); a `none` argument is a NULL pointer. -/
def Tss2_Sys_PolicyAuthorize_Prepare (sysContext : Option TSS2_SYS_CONTEXT_BLOB)
    (policySession : Nat) (approvedPolicy : Option TPM2B_DIGEST)
    (policyRef : Option TPM2B_NONCE) (keySign : Option TPM2B_NAME)
    (checkTicket : Option TPMT_TK_VERIFIED) : TSS2_RC × Option TSS2_SYS_CONTEXT_BLOB :=
  match syscontext_cast sysContext, checkTicket with
  | some ctx, some checkTicket =>
    let r :=
      thenOnSuccess (CommonPreparePrologue ctx TPM2_CC_PolicyAuthorize) fun ctx =>
      thenOnSuccess (ctx.marshal (Tss2_MU_UINT32_Marshal policySession)) fun ctx =>
      thenOnSuccess
        (match approvedPolicy with
         | none =>
           ({ ctx with decryptNull := 1 } : TSS2_SYS_CONTEXT_BLOB).marshal
             (Tss2_MU_UINT16_Marshal 0)
         | some approvedPolicy =>
           ctx.marshal (Tss2_MU_TPM2B_DIGEST_Marshal approvedPolicy)) fun ctx =>
      thenOnSuccess
        (match policyRef with
         | none => ctx.marshal (Tss2_MU_UINT16_Marshal 0)
         | some policyRef => ctx.marshal (Tss2_MU_TPM2B_NONCE_Marshal policyRef)) fun ctx =>
      thenOnSuccess
        (match keySign with
         | none => ctx.marshal (Tss2_MU_UINT16_Marshal 0)
         | some keySign => ctx.marshal (Tss2_MU_TPM2B_NAME_Marshal keySign)) fun ctx =>
      thenOnSuccess (ctx.marshal (Tss2_MU_TPMT_TK_VERIFIED_Marshal checkTicket)) fun ctx =>
      CommonPrepareEpilogue { ctx with decryptAllowed := 1, encryptAllowed := 0, authAllowed := 1 }
    (r.1, some r.2)
  | _, _ => (TSS2_SYS_RC_BAD_REFERENCE, sysContext)

/-- The function `Tss2_Sys_SequenceComplete_Prepare` (`Tss2_Sys_SequenceComplete.c`,
lines 17-66); `buffer` is `none` for a NULL pointer. -/
def Tss2_Sys_SequenceComplete_Prepare (sysContext : Option TSS2_SYS_CONTEXT_BLOB)
    (sequenceHandle : Nat) (buffer : Option TPM2B_MAX_BUFFER) (hierarchy : Nat) :
    TSS2_RC × Option TSS2_SYS_CONTEXT_BLOB :=
  match syscontext_cast sysContext with
  | none => (TSS2_SYS_RC_BAD_REFERENCE, sysContext)
  | some ctx =>
    let r :=
      thenOnSuccess (CommonPreparePrologue ctx TPM2_CC_SequenceComplete) fun ctx =>
      thenOnSuccess (ctx.marshal (Tss2_MU_UINT32_Marshal sequenceHandle)) fun ctx =>
      thenOnSuccess
        (match buffer with
         | none =>
           ({ ctx with decryptNull := 1 } : TSS2_SYS_CONTEXT_BLOB).marshal
             (Tss2_MU_UINT16_Marshal 0)
         | some buffer => ctx.marshal (Tss2_MU_TPM2B_MAX_BUFFER_Marshal buffer)) fun ctx =>
      thenOnSuccess (ctx.marshal (Tss2_MU_UINT32_Marshal hierarchy)) fun ctx =>
      CommonPrepareEpilogue { ctx with decryptAllowed := 1, encryptAllowed := 1, authAllowed := 1 }
    (r.1, some r.2)

/-- The function `Tss2_Sys_EncryptDecrypt2_Prepare` (`Tss2_Sys_EncryptDecrypt2.c`,
lines 17-93); a `none` argument is a NULL pointer. -/
def Tss2_Sys_EncryptDecrypt2_Prepare (sysContext : Option TSS2_SYS_CONTEXT_BLOB)
    (keyHandle : Nat) (inData : Option TPM2B_MAX_BUFFER) (decrypt : Nat) (mode : Nat)
    (ivIn : Option TPM2B_IV) : TSS2_RC × Option TSS2_SYS_CONTEXT_BLOB :=
  match syscontext_cast sysContext with
  | none => (TSS2_SYS_RC_BAD_REFERENCE, sysContext)
  | some ctx =>
    let r :=
      thenOnSuccess (CommonPreparePrologue ctx TPM2_CC_EncryptDecrypt2) fun ctx =>
      thenOnSuccess (ctx.marshal (Tss2_MU_UINT32_Marshal keyHandle)) fun ctx =>
      thenOnSuccess
        (match inData with
         | none => ctx.marshal (Tss2_MU_UINT16_Marshal 0)
         | some inData => ctx.marshal (Tss2_MU_TPM2B_MAX_BUFFER_Marshal inData)) fun ctx =>
      thenOnSuccess (ctx.marshal (Tss2_MU_UINT8_Marshal decrypt)) fun ctx =>
      thenOnSuccess (ctx.marshal (Tss2_MU_UINT16_Marshal mode)) fun ctx =>
      thenOnSuccess
        (match ivIn with
         | none => ctx.marshal (Tss2_MU_UINT16_Marshal 0)
         | some ivIn => ctx.marshal (Tss2_MU_TPM2B_IV_Marshal ivIn)) fun ctx =>
      CommonPrepareEpilogue { ctx with decryptAllowed := 1, encryptAllowed := 1, authAllowed := 1 }
    (r.1, some r.2)

/-- The function `Tss2_Sys_TestParms_Prepare` (`Tss2_Sys_TestParms.c`, lines
17-42); `parameters` is `none` for a NULL pointer. -/
def Tss2_Sys_TestParms_Prepare (sysContext : Option TSS2_SYS_CONTEXT_BLOB)
    (parameters : Option TPMT_PUBLIC_PARMS) : TSS2_RC × Option TSS2_SYS_CONTEXT_BLOB :=
  match syscontext_cast sysContext, parameters with
  | some ctx, some parameters =>
    let r :=
      thenOnSuccess (CommonPreparePrologue ctx TPM2_CC_TestParms) fun ctx =>
      thenOnSuccess (ctx.marshal (Tss2_MU_TPMT_PUBLIC_PARMS_Marshal parameters)) fun ctx =>
      CommonPrepareEpilogue { ctx with decryptAllowed := 0, encryptAllowed := 0, authAllowed := 1 }
    (r.1, some r.2)
  | _, _ => (TSS2_SYS_RC_BAD_REFERENCE, sysContext)

/-- The Complete functions without outputs (`Tss2_Sys_Startup_Complete`,
`Tss2_Sys_ClockRateAdjust_Complete`, `Tss2_Sys_PCR_Extend_Complete`,
`Tss2_Sys_PCR_SetAuthValue_Complete`, `Tss2_Sys_PolicyAuthorize_Complete`,
`Tss2_Sys_TestParms_Complete`) have one and the same body: the NULL test
and `return CommonComplete(ctx)`. -/
def Complete_without_outputs (sysContext : Option TSS2_SYS_CONTEXT_BLOB) :
    TSS2_RC × Option TSS2_SYS_CONTEXT_BLOB :=
  match syscontext_cast sysContext with
  | none => (TSS2_SYS_RC_BAD_REFERENCE, sysContext)
  | some ctx => ((CommonComplete ctx).1, some (CommonComplete ctx).2)

/-- The function `Tss2_Sys_Startup_Complete` (`Tss2_Sys_Startup.c`, lines 44-53). -/
def Tss2_Sys_Startup_Complete := Complete_without_outputs
/-- The function `Tss2_Sys_ClockRateAdjust_Complete` (lines 50-59). -/
def Tss2_Sys_ClockRateAdjust_Complete := Complete_without_outputs
/-- The function `Tss2_Sys_PCR_Extend_Complete` (lines 51-60). -/
def Tss2_Sys_PCR_Extend_Complete := Complete_without_outputs
/-- The function `Tss2_Sys_PCR_SetAuthValue_Complete` (lines 60-69). -/
def Tss2_Sys_PCR_SetAuthValue_Complete := Complete_without_outputs
/-- The function `Tss2_Sys_PolicyAuthorize_Complete` (lines 100-109). -/
def Tss2_Sys_PolicyAuthorize_Complete := Complete_without_outputs
/-- The function `Tss2_Sys_TestParms_Complete` (lines 44-53). -/
def Tss2_Sys_TestParms_Complete := Complete_without_outputs

/-- The function `Tss2_Sys_SequenceComplete_Complete` (`Tss2_Sys_SequenceComplete.c`,
lines 68-92).  The last two components are the values written to `result`
and `validation`, `none` where nothing was written. -/
def Tss2_Sys_SequenceComplete_Complete (sysContext : Option TSS2_SYS_CONTEXT_BLOB) :
    TSS2_RC × Option TSS2_SYS_CONTEXT_BLOB × Option TPM2B_DIGEST × Option TPMT_TK_HASHCHECK :=
  match syscontext_cast sysContext with
  | none => (TSS2_SYS_RC_BAD_REFERENCE, sysContext, none, none)
  | some ctx =>
    let c := CommonComplete ctx
    if c.1 ≠ 0 then (c.1, some c.2, none, none) else
    let u1 := c.2.unmarshal Tss2_MU_TPM2B_DIGEST_Unmarshal
    if u1.1 ≠ 0 then (u1.1, some u1.2.1, u1.2.2, none) else
    let u2 := u1.2.1.unmarshal Tss2_MU_TPMT_TK_HASHCHECK_Unmarshal
    (u2.1, some u2.2.1, u1.2.2, u2.2.2)

/-- The function `Tss2_Sys_EncryptDecrypt2_Complete` (`Tss2_Sys_EncryptDecrypt2.c`,
lines 95-121).  The last two components are the values written to `outData`
and `ivOut`, `none` where nothing was written. -/
def Tss2_Sys_EncryptDecrypt2_Complete (sysContext : Option TSS2_SYS_CONTEXT_BLOB) :
    TSS2_RC × Option TSS2_SYS_CONTEXT_BLOB × Option TPM2B_MAX_BUFFER × Option TPM2B_IV :=
  match syscontext_cast sysContext with
  | none => (TSS2_SYS_RC_BAD_REFERENCE, sysContext, none, none)
  | some ctx =>
    let c := CommonComplete ctx
    if c.1 ≠ 0 then (c.1, some c.2, none, none) else
    let u1 := c.2.unmarshal Tss2_MU_TPM2B_MAX_BUFFER_Unmarshal
    if u1.1 ≠ 0 then (u1.1, some u1.2.1, u1.2.2, none) else
    let u2 := u1.2.1.unmarshal Tss2_MU_TPM2B_IV_Unmarshal
    (u2.1, some u2.2.1, u1.2.2, u2.2.2)

/-! ## The common shape of the Prepare functions -/

/-- The bytes an optional sized buffer contributes to the command: the
encoding of the value, and the encoding of the size 0 alone for a NULL
pointer (`Tss2_MU_UINT16_Marshal(0, ...)`). -/
def TPM2B_optional_bytes : Option TPM2B_DIGEST → List Nat
  | none => UINT16_bytes 0
  | some v => TPM2B_bytes v

/-- The command header: tag `TPM2_ST_NO_SESSIONS`, total size and command
code, ten bytes. -/
def command_header (size commandCode : Nat) : List Nat :=
  UINT16_bytes TPM2_ST_NO_SESSIONS ++ UINT32_bytes size ++ UINT32_bytes commandCode

/-- A sequence of marshal calls, each followed by `if (rval) return rval;`,
then the assignment of the three capability flags and the epilogue.  A step
is the byte string to marshal, and whether `ctx->decryptNull = 1` is executed
just before the call. -/
def prepareSteps (decryptAllowed encryptAllowed authAllowed : Nat) :
    List (Bool × List Nat) → TSS2_SYS_CONTEXT_BLOB → TSS2_RC × TSS2_SYS_CONTEXT_BLOB
  | [], ctx =>
    CommonPrepareEpilogue
      { ctx with decryptAllowed := decryptAllowed, encryptAllowed := encryptAllowed,
                 authAllowed := authAllowed }
  | step :: rest, ctx =>
    thenOnSuccess
      ((if step.1 then { ctx with decryptNull := 1 } else ctx).marshal (marshal_bytes step.2))
      (prepareSteps decryptAllowed encryptAllowed authAllowed rest)

/-- The shape shared by the eight Prepare functions on a valid context:
prologue, the marshal calls, the three capability flags, epilogue. -/
def prepareGeneric (commandCode : Nat) (steps : List (Bool × List Nat))
    (decryptAllowed encryptAllowed authAllowed : Nat) (ctx : TSS2_SYS_CONTEXT_BLOB) :
    TSS2_RC × TSS2_SYS_CONTEXT_BLOB :=
  thenOnSuccess (CommonPreparePrologue ctx commandCode)
    (prepareSteps decryptAllowed encryptAllowed authAllowed steps)

/-- The bytes of all steps, in order. -/
def stepsBytes (steps : List (Bool × List Nat)) : List Nat :=
  (steps.map (fun step => step.2)).flatten

/-- The three capability flags of a context: decryption of the first command
parameter allowed, encryption of the first response parameter allowed,
authorizations allowed. -/
def capabilityFlags (c : TSS2_SYS_CONTEXT_BLOB) : Nat × Nat × Nat :=
  (c.decryptAllowed, c.encryptAllowed, c.authAllowed)

/-- What a Prepare function leaves when it succeeded: a context whose cursor
is `10 + params.length`, whose buffer holds up to the cursor the header with
this size and the command code `commandCode` followed by `params`, whose
capability flags are `flags` and whose stage is Prepare. -/
def Prepared (commandCode : Nat) (params : List Nat) (flags : Nat × Nat × Nat)
    (r : TSS2_RC × Option TSS2_SYS_CONTEXT_BLOB) : Prop :=
  ∃ c, r.2 = some c ∧
    c.nextData = TPM_HEADER_SIZE + params.length ∧
    c.cmdBuffer.take c.nextData = command_header c.nextData commandCode ++ params ∧
    capabilityFlags c = flags ∧
    c.previousStage = CMD_STAGE_PREPARE

/-- What a Prepare function leaves when a marshal call failed on the context
`ctx`: the return code is the capacity error, the codec calls made are some
successful ones followed by the failing one, whose code is returned, the
three capability flags have the cleared values of the prologue, and the
epilogue has not run: the size field of the header is as the prologue left it
and the stage is the one before the call. -/
def Aborted (ctx : TSS2_SYS_CONTEXT_BLOB) (commandCode : Nat)
    (r : TSS2_RC × Option TSS2_SYS_CONTEXT_BLOB) : Prop :=
  r.1 = TSS2_MU_RC_INSUFFICIENT_BUFFER ∧
  ∃ c, r.2 = some c ∧
    (∃ k, c.muCalls = List.replicate k TSS2_RC_SUCCESS ++ [r.1]) ∧
    capabilityFlags c = (0, 0, 0) ∧
    (c.cmdBuffer.drop 2).take 4 =
      ((CommonPreparePrologue ctx commandCode).2.cmdBuffer.drop 2).take 4 ∧
    c.previousStage = ctx.previousStage

/-- Two results of Prepare give the same return code, the same command bytes
and the same cursor (hence the same patched size). -/
def SameCommand (r s : TSS2_RC × Option TSS2_SYS_CONTEXT_BLOB) : Prop :=
  r.1 = s.1 ∧
  r.2.map (fun c => c.cmdBuffer) = s.2.map (fun c => c.cmdBuffer) ∧
  r.2.map (fun c => c.nextData) = s.2.map (fun c => c.nextData)

/-- The size an optional sized buffer announces: its `size`, and 0 for a NULL
pointer. -/
def TPM2B_optional_size : Option TPM2B_DIGEST → Nat
  | none => 0
  | some v => v.size

/-- The bytes an optional sized buffer contributes after its 2-byte size: its
first `size` bytes, and nothing for a NULL pointer. -/
def TPM2B_optional_payload : Option TPM2B_DIGEST → List Nat
  | none => []
  | some v => TPM2B_payload v

/-- The parameter area of `TPM2_Startup`: startupType. -/
def Startup_params (startupType : Nat) : List Nat :=
  UINT16_bytes startupType

/-- The parameter area of `TPM2_ClockRateAdjust`: auth, rateAdjust. -/
def ClockRateAdjust_params (auth : Nat) (rateAdjust : Int) : List Nat :=
  UINT32_bytes auth ++ UINT8_bytes (uint8_of_int8 rateAdjust)

/-- The parameter area of `TPM2_PCR_Extend`: pcrHandle, digests. -/
def PCR_Extend_params (pcrHandle : Nat) (digests : TPML_DIGEST_VALUES) : List Nat :=
  UINT32_bytes pcrHandle ++ digests.encoding

/-- The parameter area of `TPM2_PCR_SetAuthValue`: pcrHandle, auth. -/
def PCR_SetAuthValue_params (pcrHandle : Nat) (auth : Option TPM2B_DIGEST) : List Nat :=
  UINT32_bytes pcrHandle ++ TPM2B_optional_bytes auth

/-- The parameter area of `TPM2_PolicyAuthorize`: policySession,
approvedPolicy, policyRef, keySign, checkTicket. -/
def PolicyAuthorize_params (policySession : Nat) (approvedPolicy : Option TPM2B_DIGEST)
    (policyRef : Option TPM2B_NONCE) (keySign : Option TPM2B_NAME)
    (checkTicket : TPMT_TK_VERIFIED) : List Nat :=
  UINT32_bytes policySession ++ TPM2B_optional_bytes approvedPolicy ++
    TPM2B_optional_bytes policyRef ++ TPM2B_optional_bytes keySign ++ checkTicket.encoding

/-- The parameter area of `TPM2_SequenceComplete`: sequenceHandle, buffer,
hierarchy. -/
def SequenceComplete_params (sequenceHandle : Nat) (buffer : Option TPM2B_MAX_BUFFER)
    (hierarchy : Nat) : List Nat :=
  UINT32_bytes sequenceHandle ++ TPM2B_optional_bytes buffer ++ UINT32_bytes hierarchy

/-- The parameter area of `TPM2_EncryptDecrypt2`: keyHandle, inData, decrypt,
mode, ivIn. -/
def EncryptDecrypt2_params (keyHandle : Nat) (inData : Option TPM2B_MAX_BUFFER)
    (decrypt mode : Nat) (ivIn : Option TPM2B_IV) : List Nat :=
  UINT32_bytes keyHandle ++ TPM2B_optional_bytes inData ++ UINT8_bytes decrypt ++
    UINT16_bytes mode ++ TPM2B_optional_bytes ivIn

/-- The parameter area of `TPM2_TestParms`: parameters. -/
def TestParms_params (parameters : TPMT_PUBLIC_PARMS) : List Nat :=
  parameters.encoding

/-- What a Prepare function leaves of the header when it succeeded: the cursor
is 10 plus `paramsLength`, and the buffer starts with the 2-byte tag, the
4-byte big-endian size, equal to the cursor, and the 4-byte big-endian command
code. -/
def HeaderWritten (commandCode paramsLength : Nat)
    (r : TSS2_RC × Option TSS2_SYS_CONTEXT_BLOB) : Prop :=
  ∃ c, r.2 = some c ∧
    c.nextData = 10 + paramsLength ∧
    c.cmdBuffer.take 10 =
      UINT16_bytes TPM2_ST_NO_SESSIONS ++ UINT32_bytes c.nextData ++ UINT32_bytes commandCode

/-- A fresh marshaling context with a command buffer of 64 zero bytes. -/
def mockSysContext : TSS2_SYS_CONTEXT_BLOB where
  cmdBuffer := List.replicate 64 0
  maxCmdSize := 64
  nextData := 0
  decryptAllowed := 0
  encryptAllowed := 0
  authAllowed := 0
  decryptNull := 0
  commandCode := 0
  previousStage := CMD_STAGE_INITIALIZE
  rval := TSS2_RC_SUCCESS
  muCalls := []

/-- A marshaling context whose command buffer holds 12 bytes only. -/
def mockSmallSysContext : TSS2_SYS_CONTEXT_BLOB :=
  { mockSysContext with cmdBuffer := List.replicate 12 0, maxCmdSize := 12 }

/-- Three bytes of data, `{1, 2, 3}`. -/
def mockInData : TPM2B_MAX_BUFFER := { size := 3, buffer := [1, 2, 3] }

/-- A two-byte initialization vector, `{9, 8}`. -/
def mockIvIn : TPM2B_IV := { size := 2, buffer := [9, 8] }

/-- A ticket `TPMT_TK_VERIFIED` with tag `TPM2_ST_VERIFIED`, hierarchy
`TPM2_RH_NULL` and an empty digest. -/
def mockTicket : TPMT_TK_VERIFIED := { encoding := [0x80, 0x22, 0x40, 0x00, 0x00, 0x07, 0, 0] }

/-! ## The trace of the session values -/

/-- The recorded call is `iesys_compute_session_value`. -/
def Call.isComputeSessionValue : Call → Bool
  | .iesys_compute_session_value _ _ _ => true
  | _ => false

/-- The recorded call is the auth generation, `iesys_gen_auths`. -/
def Call.isGenAuths : Call → Bool
  | .iesys_gen_auths _ _ _ _ => true
  | _ => false

/-- The three calls of `iesys_compute_session_value` of source lines 190-197
for the resource node `node` of `authHandle`. -/
def sessionValueCalls (node : Option RSRC_NODE_T) : List Call :=
  [.iesys_compute_session_value 0 (node.map (fun n => n.name)) (node.map (fun n => n.auth)),
   .iesys_compute_session_value 1 none none,
   .iesys_compute_session_value 2 none none]

/-- No call of the list is `iesys_compute_session_value` or `iesys_gen_auths`. -/
def NoSessionCalls (calls : List Call) : Prop :=
  ∀ x ∈ calls, x.isComputeSessionValue = false ∧ x.isGenAuths = false

/-- What holds of the calls `new` a block of `Esys_PCR_SetAuthPolicy_Async`
makes: either the block returns before the session values and neither
`iesys_compute_session_value` nor `iesys_gen_auths` is called, or the calls are
some calls `pre`, the three session value calls for `node`, the auth
generation `g`, and some calls `post`, where `pre` and `post` hold no call of
the two functions. -/
def SessionValuesTrace (node : Option RSRC_NODE_T) (new : List Call) : Prop :=
  NoSessionCalls new ∨
  ∃ pre g post,
    new = pre ++ sessionValueCalls node ++ [g] ++ post ∧
    g.isGenAuths = true ∧ g.isComputeSessionValue = false ∧
    NoSessionCalls pre ∧ NoSessionCalls post

/-! ## The one-call functions of the SAPI commands -/

/-- One `TPMS_AUTH_RESPONSE` of the response authorization area. -/
structure TPMS_AUTH_RESPONSE where
  nonce : List Nat
  sessionAttributes : Nat
  hmac : List Nat
  deriving DecidableEq, Repr

/-- The list `TSS2L_SYS_AUTH_RESPONSE`: a count and the per-session entries. -/
structure TSS2L_SYS_AUTH_RESPONSE where
  count : Nat
  auths : List TPMS_AUTH_RESPONSE
  deriving DecidableEq, Repr

/-- The type of `CommonOneCall(ctx, cmdAuthsArray, rspAuthsArray)` of
`sysapi_util.c`, whose body is not among the sources and which the one-call
functions take as a parameter: from the context pointer, the command
authorizations (`none` for NULL) and what `rspAuthsArray` points to (`none`
for NULL) to the return code, the context and what `rspAuthsArray` points to
afterwards. -/
abbrev CommonOneCall_t : Type :=
  Option TSS2_SYS_CONTEXT_BLOB → Option TSS2L_SYS_AUTH_COMMAND →
    Option TSS2L_SYS_AUTH_RESPONSE →
    TSS2_RC × Option TSS2_SYS_CONTEXT_BLOB × Option TSS2L_SYS_AUTH_RESPONSE

/-- The function `Tss2_Sys_Startup` (`Tss2_Sys_Startup.c`, lines 55-71).  The
result is the return code, the context and what `rspAuthsArray` holds (no such
array here: `CommonOneCall(ctx, 0, 0)`). -/
def Tss2_Sys_Startup (CommonOneCall : CommonOneCall_t)
    (sysContext : Option TSS2_SYS_CONTEXT_BLOB) (startupType : Nat) :
    TSS2_RC × Option TSS2_SYS_CONTEXT_BLOB × Option TSS2L_SYS_AUTH_RESPONSE :=
  let p := Tss2_Sys_Startup_Prepare sysContext startupType
  if p.1 ≠ 0 then (p.1, p.2, none) else
  let o := CommonOneCall (syscontext_cast p.2) none none
  if o.1 ≠ 0 then o else
  let k := Tss2_Sys_Startup_Complete o.2.1
  (k.1, k.2, o.2.2)

/-- The function `Tss2_Sys_ClockRateAdjust` (`Tss2_Sys_ClockRateAdjust.c`,
lines 61-80). -/
def Tss2_Sys_ClockRateAdjust (CommonOneCall : CommonOneCall_t)
    (sysContext : Option TSS2_SYS_CONTEXT_BLOB) (auth : Nat)
    (cmdAuthsArray : Option TSS2L_SYS_AUTH_COMMAND) (rateAdjust : Int)
    (rspAuthsArray : Option TSS2L_SYS_AUTH_RESPONSE) :
    TSS2_RC × Option TSS2_SYS_CONTEXT_BLOB × Option TSS2L_SYS_AUTH_RESPONSE :=
  let p := Tss2_Sys_ClockRateAdjust_Prepare sysContext auth rateAdjust
  if p.1 ≠ 0 then (p.1, p.2, rspAuthsArray) else
  let o := CommonOneCall (syscontext_cast p.2) cmdAuthsArray rspAuthsArray
  if o.1 ≠ 0 then o else
  let k := Tss2_Sys_ClockRateAdjust_Complete o.2.1
  (k.1, k.2, o.2.2)

/-- The function `Tss2_Sys_PCR_Extend` (`Tss2_Sys_PCR_Extend.c`, lines 62-84),
with its own test of `digests`. -/
def Tss2_Sys_PCR_Extend (CommonOneCall : CommonOneCall_t)
    (sysContext : Option TSS2_SYS_CONTEXT_BLOB) (pcrHandle : Nat)
    (cmdAuthsArray : Option TSS2L_SYS_AUTH_COMMAND) (digests : Option TPML_DIGEST_VALUES)
    (rspAuthsArray : Option TSS2L_SYS_AUTH_RESPONSE) :
    TSS2_RC × Option TSS2_SYS_CONTEXT_BLOB × Option TSS2L_SYS_AUTH_RESPONSE :=
  if digests.isNone then (TSS2_SYS_RC_BAD_REFERENCE, sysContext, rspAuthsArray) else
  let p := Tss2_Sys_PCR_Extend_Prepare sysContext pcrHandle digests
  if p.1 ≠ 0 then (p.1, p.2, rspAuthsArray) else
  let o := CommonOneCall (syscontext_cast p.2) cmdAuthsArray rspAuthsArray
  if o.1 ≠ 0 then o else
  let k := Tss2_Sys_PCR_Extend_Complete o.2.1
  (k.1, k.2, o.2.2)

/-- The function `Tss2_Sys_PCR_SetAuthValue` (`Tss2_Sys_PCR_SetAuthValue.c`,
lines 71-90). -/
def Tss2_Sys_PCR_SetAuthValue (CommonOneCall : CommonOneCall_t)
    (sysContext : Option TSS2_SYS_CONTEXT_BLOB) (pcrHandle : Nat)
    (cmdAuthsArray : Option TSS2L_SYS_AUTH_COMMAND) (auth : Option TPM2B_DIGEST)
    (rspAuthsArray : Option TSS2L_SYS_AUTH_RESPONSE) :
    TSS2_RC × Option TSS2_SYS_CONTEXT_BLOB × Option TSS2L_SYS_AUTH_RESPONSE :=
  let p := Tss2_Sys_PCR_SetAuthValue_Prepare sysContext pcrHandle auth
  if p.1 ≠ 0 then (p.1, p.2, rspAuthsArray) else
  let o := CommonOneCall (syscontext_cast p.2) cmdAuthsArray rspAuthsArray
  if o.1 ≠ 0 then o else
  let k := Tss2_Sys_PCR_SetAuthValue_Complete o.2.1
  (k.1, k.2, o.2.2)

/-- The function `Tss2_Sys_PolicyAuthorize` (`Tss2_Sys_PolicyAuthorize.c`,
lines 111-138), with its own test of `checkTicket`. -/
def Tss2_Sys_PolicyAuthorize (CommonOneCall : CommonOneCall_t)
    (sysContext : Option TSS2_SYS_CONTEXT_BLOB) (policySession : Nat)
    (cmdAuthsArray : Option TSS2L_SYS_AUTH_COMMAND) (approvedPolicy : Option TPM2B_DIGEST)
    (policyRef : Option TPM2B_NONCE) (keySign : Option TPM2B_NAME)
    (checkTicket : Option TPMT_TK_VERIFIED)
    (rspAuthsArray : Option TSS2L_SYS_AUTH_RESPONSE) :
    TSS2_RC × Option TSS2_SYS_CONTEXT_BLOB × Option TSS2L_SYS_AUTH_RESPONSE :=
  if checkTicket.isNone then (TSS2_SYS_RC_BAD_REFERENCE, sysContext, rspAuthsArray) else
  let p := Tss2_Sys_PolicyAuthorize_Prepare sysContext policySession approvedPolicy policyRef
    keySign checkTicket
  if p.1 ≠ 0 then (p.1, p.2, rspAuthsArray) else
  let o := CommonOneCall (syscontext_cast p.2) cmdAuthsArray rspAuthsArray
  if o.1 ≠ 0 then o else
  let k := Tss2_Sys_PolicyAuthorize_Complete o.2.1
  (k.1, k.2, o.2.2)

/-- The function `Tss2_Sys_SequenceComplete` (`Tss2_Sys_SequenceComplete.c`,
lines 94-117).  The last two components are the values written to `result`
and `validation`, `none` where nothing was written. -/
def Tss2_Sys_SequenceComplete (CommonOneCall : CommonOneCall_t)
    (sysContext : Option TSS2_SYS_CONTEXT_BLOB) (sequenceHandle : Nat)
    (cmdAuthsArray : Option TSS2L_SYS_AUTH_COMMAND) (buffer : Option TPM2B_MAX_BUFFER)
    (hierarchy : Nat) (rspAuthsArray : Option TSS2L_SYS_AUTH_RESPONSE) :
    TSS2_RC × Option TSS2_SYS_CONTEXT_BLOB × Option TSS2L_SYS_AUTH_RESPONSE ×
      Option TPM2B_DIGEST × Option TPMT_TK_HASHCHECK :=
  let p := Tss2_Sys_SequenceComplete_Prepare sysContext sequenceHandle buffer hierarchy
  if p.1 ≠ 0 then (p.1, p.2, rspAuthsArray, none, none) else
  let o := CommonOneCall (syscontext_cast p.2) cmdAuthsArray rspAuthsArray
  if o.1 ≠ 0 then (o.1, o.2.1, o.2.2, none, none) else
  let k := Tss2_Sys_SequenceComplete_Complete o.2.1
  (k.1, k.2.1, o.2.2, k.2.2)

/-- The function `Tss2_Sys_EncryptDecrypt2` (`Tss2_Sys_EncryptDecrypt2.c`,
lines 123-152).  The last two components are the values written to `outData`
and `ivOut`, `none` where nothing was written. -/
def Tss2_Sys_EncryptDecrypt2 (CommonOneCall : CommonOneCall_t)
    (sysContext : Option TSS2_SYS_CONTEXT_BLOB) (keyHandle : Nat)
    (cmdAuthsArray : Option TSS2L_SYS_AUTH_COMMAND) (inData : Option TPM2B_MAX_BUFFER)
    (decrypt mode : Nat) (ivIn : Option TPM2B_IV)
    (rspAuthsArray : Option TSS2L_SYS_AUTH_RESPONSE) :
    TSS2_RC × Option TSS2_SYS_CONTEXT_BLOB × Option TSS2L_SYS_AUTH_RESPONSE ×
      Option TPM2B_MAX_BUFFER × Option TPM2B_IV :=
  let p := Tss2_Sys_EncryptDecrypt2_Prepare sysContext keyHandle inData decrypt mode ivIn
  if p.1 ≠ 0 then (p.1, p.2, rspAuthsArray, none, none) else
  let o := CommonOneCall (syscontext_cast p.2) cmdAuthsArray rspAuthsArray
  if o.1 ≠ 0 then (o.1, o.2.1, o.2.2, none, none) else
  let k := Tss2_Sys_EncryptDecrypt2_Complete o.2.1
  (k.1, k.2.1, o.2.2, k.2.2)

/-- The function `Tss2_Sys_TestParms` (`Tss2_Sys_TestParms.c`, lines 55-76),
with its own test of `parameters`. -/
def Tss2_Sys_TestParms (CommonOneCall : CommonOneCall_t)
    (sysContext : Option TSS2_SYS_CONTEXT_BLOB)
    (cmdAuthsArray : Option TSS2L_SYS_AUTH_COMMAND) (parameters : Option TPMT_PUBLIC_PARMS)
    (rspAuthsArray : Option TSS2L_SYS_AUTH_RESPONSE) :
    TSS2_RC × Option TSS2_SYS_CONTEXT_BLOB × Option TSS2L_SYS_AUTH_RESPONSE :=
  if parameters.isNone then (TSS2_SYS_RC_BAD_REFERENCE, sysContext, rspAuthsArray) else
  let p := Tss2_Sys_TestParms_Prepare sysContext parameters
  if p.1 ≠ 0 then (p.1, p.2, rspAuthsArray) else
  let o := CommonOneCall (syscontext_cast p.2) cmdAuthsArray rspAuthsArray
  if o.1 ≠ 0 then o else
  let k := Tss2_Sys_TestParms_Complete o.2.1
  (k.1, k.2, o.2.2)

/-- The composition the spec describes for a one-call function of a command
without outputs: the result `prepare` of Prepare, then the exchange on the
context Prepare left, then Complete on the context the exchange left, stopping
at the first non-zero return code; `rspAuthsArray` is what the caller's
response array holds before the call. -/
def oneCallComposition (prepare : TSS2_RC × Option TSS2_SYS_CONTEXT_BLOB)
    (exchange : Option TSS2_SYS_CONTEXT_BLOB →
      TSS2_RC × Option TSS2_SYS_CONTEXT_BLOB × Option TSS2L_SYS_AUTH_RESPONSE)
    (complete : Option TSS2_SYS_CONTEXT_BLOB → TSS2_RC × Option TSS2_SYS_CONTEXT_BLOB)
    (rspAuthsArray : Option TSS2L_SYS_AUTH_RESPONSE) :
    TSS2_RC × Option TSS2_SYS_CONTEXT_BLOB × Option TSS2L_SYS_AUTH_RESPONSE :=
  if prepare.1 ≠ TSS2_RC_SUCCESS then (prepare.1, prepare.2, rspAuthsArray)
  else if (exchange prepare.2).1 ≠ TSS2_RC_SUCCESS then exchange prepare.2
  else ((complete (exchange prepare.2).2.1).1, (complete (exchange prepare.2).2.1).2,
    (exchange prepare.2).2.2)

/-- The composition the spec describes for a one-call function of a command
with two outputs; no output is written unless Complete runs. -/
def oneCallCompositionOutputs {α β : Type}
    (prepare : TSS2_RC × Option TSS2_SYS_CONTEXT_BLOB)
    (exchange : Option TSS2_SYS_CONTEXT_BLOB →
      TSS2_RC × Option TSS2_SYS_CONTEXT_BLOB × Option TSS2L_SYS_AUTH_RESPONSE)
    (complete : Option TSS2_SYS_CONTEXT_BLOB →
      TSS2_RC × Option TSS2_SYS_CONTEXT_BLOB × Option α × Option β)
    (rspAuthsArray : Option TSS2L_SYS_AUTH_RESPONSE) :
    TSS2_RC × Option TSS2_SYS_CONTEXT_BLOB × Option TSS2L_SYS_AUTH_RESPONSE ×
      Option α × Option β :=
  if prepare.1 ≠ TSS2_RC_SUCCESS then (prepare.1, prepare.2, rspAuthsArray, none, none)
  else if (exchange prepare.2).1 ≠ TSS2_RC_SUCCESS then
    ((exchange prepare.2).1, (exchange prepare.2).2.1, (exchange prepare.2).2.2, none, none)
  else ((complete (exchange prepare.2).2.1).1, (complete (exchange prepare.2).2.1).2.1,
    (exchange prepare.2).2.2, (complete (exchange prepare.2).2.1).2.2)

/-- A mock of the exchange: the response `resp` is copied to the start of the
buffer (the bytes behind it stay as they are), the stage is the one after
reception and `rval` is the classification of the response. -/
def mockExchange (resp : List Nat) : CommonOneCall_t :=
  fun ctx _ rspAuthsArray =>
    match ctx with
    | none => (TSS2_SYS_RC_BAD_REFERENCE, none, rspAuthsArray)
    | some c =>
      (receive_classify resp,
       some { c with cmdBuffer := writeAt c.cmdBuffer 0 resp,
                     previousStage := CMD_STAGE_RECEIVE_RESPONSE,
                     rval := receive_classify resp },
       rspAuthsArray)

/-- A context that has received the success response `80 01 00 00 00 0A 00 00
00 00`, ten bytes with no parameters, into a 64-byte buffer whose bytes 10 to
16 are left from an earlier, longer response: `00 02 AA BB` and `00 01 CC`. -/
def mockReceivedContext : TSS2_SYS_CONTEXT_BLOB :=
  { mockSysContext with
    cmdBuffer := [0x80, 0x01, 0x00, 0x00, 0x00, 0x0A, 0x00, 0x00, 0x00, 0x00,
                  0x00, 0x02, 0xAA, 0xBB, 0x00, 0x01, 0xCC] ++ List.replicate 47 0
    nextData := 10
    commandCode := TPM2_CC_EncryptDecrypt2
    previousStage := CMD_STAGE_RECEIVE_RESPONSE
    rval := TSS2_RC_SUCCESS }

/-- A context that has received a success response of 12 bytes into a buffer
of exactly 12 bytes: the header and the size `00 04` of a first output whose
four bytes are not there. -/
def mockTruncatedContext : TSS2_SYS_CONTEXT_BLOB :=
  { mockSysContext with
    cmdBuffer := [0x80, 0x01, 0x00, 0x00, 0x00, 0x0C, 0x00, 0x00, 0x00, 0x00, 0x00, 0x04]
    maxCmdSize := 12
    nextData := 10
    previousStage := CMD_STAGE_RECEIVE_RESPONSE
    rval := TSS2_RC_SUCCESS }

/-- What a successful Prepare leaves as far as the decryption of the first
parameter goes: `decryptAllowed` is `decrypt`, a set `decryptNull` comes with
a set `decryptAllowed`, and the command bytes from offset `start` (behind the
header and the handles of the command) up to the cursor are `params`. -/
def DecryptShape (decrypt start : Nat) (params : List Nat)
    (r : TSS2_RC × Option TSS2_SYS_CONTEXT_BLOB) : Prop :=
  ∃ c, r.2 = some c ∧
    c.decryptAllowed = decrypt ∧
    (c.decryptNull = 1 → c.decryptAllowed = 1) ∧
    (c.cmdBuffer.take c.nextData).drop start = params

/-- The value of a byte read as a signed 8-bit integer (two's complement). -/
def int8_of_uint8 (b : Nat) : Int :=
  if b ≥ 128 then (b : Int) - 256 else (b : Int)

/-! ## The dummy TPM of the test helper -/

/-- The size of the array `buf` in `main` of `tpm_cmd_tcti_dummy.c`:
`uint8_t buf[4096]`. -/
def DUMMY_BUF_SIZE : Nat := 4096

/-- A call `fread (dest, 1, n, stdin)` on a stream without error: the bytes
read, at most `n`, and the rest of the stream. -/
def fread (stdin : List Nat) (n : Nat) : List Nat × List Nat :=
  (stdin.take n, stdin.drop n)

/-- How one iteration of the loop of `main` proceeds up to the second `fread`
(`tpm_cmd_tcti_dummy.c`, lines 156-206): either the child exits with
`EXIT_FAILURE`, or it asks for `data_size` bytes to be stored from
`&buf[TPM_HEADER_SIZE]` on and `read_size` bytes are stored there. -/
inductive ChildStep where
  | exit_failure
  | payload (data_size read_size : Nat)
  deriving DecidableEq, Repr

/-- The body of the loop of `main` from the first `fread` to the second one
(`tpm_cmd_tcti_dummy.c`, lines 161-197), on a stream without error.
`header_unmarshal` (of `tcti-common.c`, not among the sources) reads the size
field of the header, a big-endian 32-bit value after the 2-byte tag. -/
def child_read_command (stdin : List Nat) : ChildStep :=
  let h := fread stdin TPM_HEADER_SIZE
  -- read_size != TPM_HEADER_SIZE
  if h.1.length ≠ TPM_HEADER_SIZE then .exit_failure else
  -- header_unmarshal (buf, &hdr)
  let hdr_size := declared_size h.1
  if hdr_size < TPM_HEADER_SIZE then .exit_failure else
  let data_size := hdr_size - TPM_HEADER_SIZE
  let p := fread h.2 data_size
  .payload data_size p.1.length

/-- A command stream whose header declares a size of 5120 bytes (`00 00 14
00`), with the 5110 bytes of payload it announces. -/
def oversizedCommand : List Nat :=
  [0x80, 0x01, 0x00, 0x00, 0x14, 0x00, 0x00, 0x00, 0x01, 0x7A] ++ List.replicate 5110 0

/-! ## Facts about the return codes -/

theorem base_rc_ESYS_TRY_AGAIN : base_rc TSS2_ESYS_RC_TRY_AGAIN = TSS2_BASE_RC_TRY_AGAIN := by
  decide

theorem base_rc_resubmission_codes :
    base_rc TPM2_RC_RETRY ≠ TSS2_BASE_RC_TRY_AGAIN ∧
    base_rc TPM2_RC_TESTING ≠ TSS2_BASE_RC_TRY_AGAIN ∧
    base_rc TPM2_RC_YIELDED ≠ TSS2_BASE_RC_TRY_AGAIN := by
  decide

theorem base_rc_SUCCESS : base_rc TSS2_RC_SUCCESS ≠ TSS2_BASE_RC_TRY_AGAIN := by
  decide

theorem base_rc_BAD_SEQUENCE : base_rc TSS2_ESYS_RC_BAD_SEQUENCE ≠ TSS2_BASE_RC_TRY_AGAIN := by
  decide

theorem base_rc_eq_TRY_AGAIN_ne_SUCCESS (r : TSS2_RC)
    (h : base_rc r = TSS2_BASE_RC_TRY_AGAIN) : r ≠ TSS2_RC_SUCCESS := by
  intro h0
  rw [h0] at h
  exact base_rc_SUCCESS h

theorem iesys_tpm_error_ne_SUCCESS (r : TSS2_RC) (h : iesys_tpm_error r = true) :
    r ≠ TSS2_RC_SUCCESS := by
  intro h0
  rw [h0] at h
  revert h
  decide


/-! ## Traces of `Esys_PCR_SetAuthPolicy_Async` -/

theorem AsyncTail_step (c : ESYS_CONTEXT W) (call : Call) (w : W)
    (out : TSS2_RC × ESYS_CONTEXT W)
    (hrc : call.rc = TSS2_RC_SUCCESS) (hno : call.isExecuteAsync = false)
    (h : AsyncTail (c.did call w) out) : AsyncTail c out := by
  obtain ⟨mid, last, h1, h2, h3, h4, h5, h6, h7, h8⟩ := h
  refine ⟨call :: mid, last, ?_, ?_, h3, h4, h5, h6, h7, h8⟩
  · simpa [ESYS_CONTEXT.did] using h1
  · intro x hx
    rcases List.mem_cons.mp hx with rfl | hx
    · exact ⟨hrc, hno⟩
    · exact h2 x hx

theorem AsyncTail_fail (c : ESYS_CONTEXT W) (call : Call) (w : W)
    (hrc : call.rc ≠ TSS2_RC_SUCCESS) (hno : call.isExecuteAsync = false) :
    AsyncTail c (return_state call.rc ESYS_STATE_INIT (c.did call w)) := by
  refine ⟨[], call, ?_, ?_, rfl, ?_, ?_, ?_, rfl, rfl⟩
  · simp [return_state, ESYS_CONTEXT.did]
  · simp
  · intro _
    exact ⟨hrc, rfl⟩
  · intro h
    rw [hno] at h
    cases h
  · intro h
    rw [hno] at h
    cases h

theorem Async_dispatch_tail (L : Lower W) (c : ESYS_CONTEXT W) :
    AsyncTail c (Async_dispatch L c) := by
  unfold Async_dispatch
  by_cases h : (L.Tss2_Sys_ExecuteAsync c.lower).1 = TSS2_RC_SUCCESS
  · refine ⟨[], .Tss2_Sys_ExecuteAsync (L.Tss2_Sys_ExecuteAsync c.lower).1, ?_⟩
    simp [h, ESYS_CONTEXT.did, Call.rc, Call.isExecuteAsync]
  · refine ⟨[], .Tss2_Sys_ExecuteAsync (L.Tss2_Sys_ExecuteAsync c.lower).1, ?_⟩
    simp [h, ESYS_CONTEXT.did, return_state, Call.rc, Call.isExecuteAsync]

theorem AsyncTail_authsCount (c : ESYS_CONTEXT W) (n : Nat) (out : TSS2_RC × ESYS_CONTEXT W)
    (h : AsyncTail { c with authsCount := n } out) : AsyncTail c out := h

theorem Async_setCmdAuths_tail (L : Lower W) (c : ESYS_CONTEXT W)
    (auths : TSS2L_SYS_AUTH_COMMAND) : AsyncTail c (Async_setCmdAuths L c auths) := by
  unfold Async_setCmdAuths
  dsimp only
  apply AsyncTail_authsCount c auths.count
  by_cases hc : auths.count > 0
  · rw [if_pos hc]
    by_cases h : (L.Tss2_Sys_SetCmdAuths c.lower auths).1 = TSS2_RC_SUCCESS
    · rw [if_neg (not_not_intro h)]
      exact AsyncTail_step _ (.Tss2_Sys_SetCmdAuths auths _) _ _ h rfl (Async_dispatch_tail L _)
    · rw [if_pos h]
      exact AsyncTail_fail _ (.Tss2_Sys_SetCmdAuths auths _) _ h rfl
  · rw [if_neg hc]
    exact Async_dispatch_tail L _

theorem Async_genAuths_tail (L : Lower W) (c : ESYS_CONTEXT W)
    (authHandleNode : Option RSRC_NODE_T) :
    AsyncTail c (Async_genAuths L c authHandleNode) := by
  unfold Async_genAuths
  dsimp only
  by_cases h : (L.iesys_gen_auths c.lower authHandleNode none none).1 = TSS2_RC_SUCCESS
  · rw [if_neg (not_not_intro h)]
    exact AsyncTail_step _ (.iesys_gen_auths authHandleNode none none _) _ _ h rfl
      (Async_setCmdAuths_tail L _ _)
  · rw [if_pos h]
    exact AsyncTail_fail _ (.iesys_gen_auths authHandleNode none none _) _ h rfl

theorem Async_sessionValues_tail (L : Lower W) (c : ESYS_CONTEXT W)
    (authHandleNode : Option RSRC_NODE_T) :
    AsyncTail c (Async_sessionValues L c authHandleNode) := by
  unfold Async_sessionValues
  dsimp only
  exact AsyncTail_step c _ _ _ (by rfl) (by rfl)
    (AsyncTail_step _ _ _ _ (by rfl) (by rfl)
      (AsyncTail_step _ _ _ _ (by rfl) (by rfl) (Async_genAuths_tail L _ _)))

theorem Async_initSessionTab_tail (L : Lower W) (c : ESYS_CONTEXT W)
    (authHandleNode : Option RSRC_NODE_T) (shandle1 shandle2 shandle3 : ESYS_TR) :
    AsyncTail c (Async_initSessionTab L c authHandleNode shandle1 shandle2 shandle3) := by
  unfold Async_initSessionTab
  dsimp only
  by_cases h : (L.init_session_tab c.lower shandle1 shandle2 shandle3).1 = TSS2_RC_SUCCESS
  · rw [if_neg (not_not_intro h)]
    exact AsyncTail_step _ (.init_session_tab shandle1 shandle2 shandle3 _) _ _ h rfl
      (Async_sessionValues_tail L _ _)
  · rw [if_pos h]
    exact AsyncTail_fail _ (.init_session_tab shandle1 shandle2 shandle3 _) _ h rfl

theorem Async_prepare_tail (L : Lower W) (c : ESYS_CONTEXT W)
    (authHandleNode : Option RSRC_NODE_T) (shandle1 shandle2 shandle3 : ESYS_TR)
    (authPolicy : Option TPM2B_DIGEST) (hashAlg : TPMI_ALG_HASH) (pcrNum : TPMI_DH_PCR) :
    AsyncTail c (Async_prepare L c authHandleNode shandle1 shandle2 shandle3
      authPolicy hashAlg pcrNum) := by
  unfold Async_prepare
  dsimp only
  split_ifs with h
  · exact AsyncTail_fail _ (.Tss2_Sys_PCR_SetAuthPolicy_Prepare _ _ _ _ _) _ h rfl
  · exact AsyncTail_step _ (.Tss2_Sys_PCR_SetAuthPolicy_Prepare _ _ _ _ _) _ _
      (not_not.mp h) rfl (Async_initSessionTab_tail L _ _ _ _ _)

theorem Async_getResourceObject_tail (L : Lower W) (c : ESYS_CONTEXT W)
    (authHandle shandle1 shandle2 shandle3 : ESYS_TR)
    (authPolicy : Option TPM2B_DIGEST) (hashAlg : TPMI_ALG_HASH) (pcrNum : TPMI_DH_PCR) :
    AsyncTail c (Async_getResourceObject L c authHandle shandle1 shandle2 shandle3
      authPolicy hashAlg pcrNum) := by
  unfold Async_getResourceObject
  dsimp only
  split_ifs with h
  · exact AsyncTail_fail _ (.esys_GetResourceObject _ _) _ h rfl
  · exact AsyncTail_step _ (.esys_GetResourceObject _ _) _ _
      (not_not.mp h) rfl (Async_prepare_tail L _ _ _ _ _ _ _ _)

theorem Async_checkSessions_tail (L : Lower W) (c : ESYS_CONTEXT W)
    (authHandle shandle1 shandle2 shandle3 : ESYS_TR)
    (authPolicy : Option TPM2B_DIGEST) (hashAlg : TPMI_ALG_HASH) (pcrNum : TPMI_DH_PCR) :
    AsyncTail c (Async_checkSessions L c authHandle shandle1 shandle2 shandle3
      authPolicy hashAlg pcrNum) := by
  unfold Async_checkSessions
  dsimp only
  split_ifs with h
  · exact AsyncTail_fail _ (.check_session_feasibility _ _ _ _ _) _ h rfl
  · exact AsyncTail_step _ (.check_session_feasibility _ _ _ _ _) _ _
      (not_not.mp h) rfl (Async_getResourceObject_tail L _ _ _ _ _ _ _ _)

theorem check_sequence_async_success_iff (ctx : ESYS_CONTEXT W) :
    (iesys_check_sequence_async ctx).1 = TSS2_RC_SUCCESS ↔ ctx.state = ESYS_STATE_INIT := by
  have hne : TSS2_ESYS_RC_BAD_SEQUENCE ≠ TSS2_RC_SUCCESS := by decide
  unfold iesys_check_sequence_async
  by_cases h : ctx.state = ESYS_STATE_INIT <;> simp [h, hne]

theorem Async_of_init (L : Lower W) (ctx : ESYS_CONTEXT W)
    (authHandle shandle1 shandle2 shandle3 : ESYS_TR)
    (authPolicy : Option TPM2B_DIGEST) (hashAlg : TPMI_ALG_HASH) (pcrNum : TPMI_DH_PCR)
    (hinit : ctx.state = ESYS_STATE_INIT) :
    Esys_PCR_SetAuthPolicy_Async L ctx authHandle shandle1 shandle2 shandle3
      authPolicy hashAlg pcrNum =
    Async_checkSessions L
      { ctx with state := ESYS_STATE_INTERNALERROR, submissionCount := 0 }
      authHandle shandle1 shandle2 shandle3 authPolicy hashAlg pcrNum := by
  simp [Esys_PCR_SetAuthPolicy_Async, iesys_check_sequence_async, hinit]

theorem Async_bad_sequence (L : Lower W) (ctx : ESYS_CONTEXT W)
    (authHandle shandle1 shandle2 shandle3 : ESYS_TR)
    (authPolicy : Option TPM2B_DIGEST) (hashAlg : TPMI_ALG_HASH) (pcrNum : TPMI_DH_PCR)
    (h : ctx.state ≠ ESYS_STATE_INIT) :
    Esys_PCR_SetAuthPolicy_Async L ctx authHandle shandle1 shandle2 shandle3
      authPolicy hashAlg pcrNum = (TSS2_ESYS_RC_BAD_SEQUENCE, ctx) := by
  have hne : TSS2_ESYS_RC_BAD_SEQUENCE ≠ TSS2_RC_SUCCESS := by decide
  simp [Esys_PCR_SetAuthPolicy_Async, iesys_check_sequence_async, h, hne]

/-! ## The branches of `Esys_PCR_SetAuthPolicy_Finish` -/

theorem Finish_bad_sequence (L : Lower W) (ctx : ESYS_CONTEXT W)
    (h : ctx.state ≠ ESYS_STATE_SENT ∧ ctx.state ≠ ESYS_STATE_RESUBMISSION) :
    Esys_PCR_SetAuthPolicy_Finish L ctx = (TSS2_ESYS_RC_BAD_SEQUENCE, ctx) := by
  unfold Esys_PCR_SetAuthPolicy_Finish
  rw [if_pos h]

theorem Finish_try_again (L : Lower W) (ctx : ESYS_CONTEXT W)
    (hs : ctx.state = ESYS_STATE_SENT ∨ ctx.state = ESYS_STATE_RESUBMISSION)
    (hr : base_rc (L.Tss2_Sys_ExecuteFinish ctx.lower ctx.timeout).1 = TSS2_BASE_RC_TRY_AGAIN) :
    Esys_PCR_SetAuthPolicy_Finish L ctx =
      ((L.Tss2_Sys_ExecuteFinish ctx.lower ctx.timeout).1,
       { ctx with
         state := ESYS_STATE_SENT
         lower := (L.Tss2_Sys_ExecuteFinish ctx.lower ctx.timeout).2
         calls := ctx.calls ++ [.Tss2_Sys_ExecuteFinish ctx.timeout
           (L.Tss2_Sys_ExecuteFinish ctx.lower ctx.timeout).1] }) := by
  have hg : ¬ (ctx.state ≠ ESYS_STATE_SENT ∧ ctx.state ≠ ESYS_STATE_RESUBMISSION) := by
    rcases hs with h | h <;> simp [h]
  unfold Esys_PCR_SetAuthPolicy_Finish
  rw [if_neg hg]
  dsimp only
  rw [if_pos hr]
  rfl

theorem Finish_guard (ctx : ESYS_CONTEXT W)
    (hs : ctx.state = ESYS_STATE_SENT ∨ ctx.state = ESYS_STATE_RESUBMISSION) :
    ¬ (ctx.state ≠ ESYS_STATE_SENT ∧ ctx.state ≠ ESYS_STATE_RESUBMISSION) := by
  rcases hs with h | h <;> simp [h]

theorem resubmission_code_base (r : TSS2_RC)
    (hrs : r = TPM2_RC_RETRY ∨ r = TPM2_RC_TESTING ∨ r = TPM2_RC_YIELDED) :
    base_rc r ≠ TSS2_BASE_RC_TRY_AGAIN := by
  rcases hrs with h | h | h <;> rw [h]
  · exact base_rc_resubmission_codes.1
  · exact base_rc_resubmission_codes.2.1
  · exact base_rc_resubmission_codes.2.2

theorem Finish_resubmit_exhausted (L : Lower W) (ctx : ESYS_CONTEXT W)
    (hs : ctx.state = ESYS_STATE_SENT ∨ ctx.state = ESYS_STATE_RESUBMISSION)
    (hrs : (L.Tss2_Sys_ExecuteFinish ctx.lower ctx.timeout).1 = TPM2_RC_RETRY ∨
      (L.Tss2_Sys_ExecuteFinish ctx.lower ctx.timeout).1 = TPM2_RC_TESTING ∨
      (L.Tss2_Sys_ExecuteFinish ctx.lower ctx.timeout).1 = TPM2_RC_YIELDED)
    (hmax : ctx.submissionCount ≥ (ESYS_MAX_SUBMISSIONS : Int)) :
    Esys_PCR_SetAuthPolicy_Finish L ctx =
      ((L.Tss2_Sys_ExecuteFinish ctx.lower ctx.timeout).1,
       { ctx with
         state := ESYS_STATE_INIT
         submissionCount := ctx.submissionCount + 1
         lower := (L.Tss2_Sys_ExecuteFinish ctx.lower ctx.timeout).2
         calls := ctx.calls ++ [.Tss2_Sys_ExecuteFinish ctx.timeout
           (L.Tss2_Sys_ExecuteFinish ctx.lower ctx.timeout).1] }) := by
  unfold Esys_PCR_SetAuthPolicy_Finish
  rw [if_neg (Finish_guard ctx hs)]
  simp only [ESYS_CONTEXT.did]
  rw [if_neg (resubmission_code_base _ hrs), if_pos hrs, if_pos hmax]

theorem Finish_resubmit (L : Lower W) (ctx : ESYS_CONTEXT W)
    (hs : ctx.state = ESYS_STATE_SENT ∨ ctx.state = ESYS_STATE_RESUBMISSION)
    (hrs : (L.Tss2_Sys_ExecuteFinish ctx.lower ctx.timeout).1 = TPM2_RC_RETRY ∨
      (L.Tss2_Sys_ExecuteFinish ctx.lower ctx.timeout).1 = TPM2_RC_TESTING ∨
      (L.Tss2_Sys_ExecuteFinish ctx.lower ctx.timeout).1 = TPM2_RC_YIELDED)
    (hlt : ctx.submissionCount < (ESYS_MAX_SUBMISSIONS : Int)) :
    Esys_PCR_SetAuthPolicy_Finish L ctx =
      (if (L.Tss2_Sys_ExecuteAsync (L.Tss2_Sys_ExecuteFinish ctx.lower ctx.timeout).2).1
            ≠ TSS2_RC_SUCCESS then
          (L.Tss2_Sys_ExecuteAsync (L.Tss2_Sys_ExecuteFinish ctx.lower ctx.timeout).2).1
        else TSS2_ESYS_RC_TRY_AGAIN,
       { ctx with
         state := ESYS_STATE_RESUBMISSION
         submissionCount := ctx.submissionCount + 1
         lower := (L.Tss2_Sys_ExecuteAsync (L.Tss2_Sys_ExecuteFinish ctx.lower ctx.timeout).2).2
         calls := ctx.calls ++
           [.Tss2_Sys_ExecuteFinish ctx.timeout (L.Tss2_Sys_ExecuteFinish ctx.lower ctx.timeout).1,
            .Tss2_Sys_ExecuteAsync
              (L.Tss2_Sys_ExecuteAsync (L.Tss2_Sys_ExecuteFinish ctx.lower ctx.timeout).2).1] }) := by
  unfold Esys_PCR_SetAuthPolicy_Finish
  rw [if_neg (Finish_guard ctx hs)]
  simp only [ESYS_CONTEXT.did]
  rw [if_neg (resubmission_code_base _ hrs), if_pos hrs, if_neg (not_le.mpr hlt)]
  split_ifs <;> simp

theorem Finish_tpm_error (L : Lower W) (ctx : ESYS_CONTEXT W)
    (hs : ctx.state = ESYS_STATE_SENT ∨ ctx.state = ESYS_STATE_RESUBMISSION)
    (hna : base_rc (L.Tss2_Sys_ExecuteFinish ctx.lower ctx.timeout).1 ≠ TSS2_BASE_RC_TRY_AGAIN)
    (hnr : ¬ ((L.Tss2_Sys_ExecuteFinish ctx.lower ctx.timeout).1 = TPM2_RC_RETRY ∨
      (L.Tss2_Sys_ExecuteFinish ctx.lower ctx.timeout).1 = TPM2_RC_TESTING ∨
      (L.Tss2_Sys_ExecuteFinish ctx.lower ctx.timeout).1 = TPM2_RC_YIELDED))
    (ht : iesys_tpm_error (L.Tss2_Sys_ExecuteFinish ctx.lower ctx.timeout).1 = true) :
    Esys_PCR_SetAuthPolicy_Finish L ctx =
      ((L.Tss2_Sys_ExecuteFinish ctx.lower ctx.timeout).1,
       { ctx with
         state := ESYS_STATE_INIT
         lower := (L.Tss2_Sys_ExecuteFinish ctx.lower ctx.timeout).2
         calls := ctx.calls ++ [.Tss2_Sys_ExecuteFinish ctx.timeout
           (L.Tss2_Sys_ExecuteFinish ctx.lower ctx.timeout).1] }) := by
  unfold Esys_PCR_SetAuthPolicy_Finish
  rw [if_neg (Finish_guard ctx hs)]
  dsimp only
  rw [if_neg hna, if_neg hnr, if_pos ht]
  rfl

theorem Finish_non_tpm_error (L : Lower W) (ctx : ESYS_CONTEXT W)
    (hs : ctx.state = ESYS_STATE_SENT ∨ ctx.state = ESYS_STATE_RESUBMISSION)
    (hna : base_rc (L.Tss2_Sys_ExecuteFinish ctx.lower ctx.timeout).1 ≠ TSS2_BASE_RC_TRY_AGAIN)
    (hnr : ¬ ((L.Tss2_Sys_ExecuteFinish ctx.lower ctx.timeout).1 = TPM2_RC_RETRY ∨
      (L.Tss2_Sys_ExecuteFinish ctx.lower ctx.timeout).1 = TPM2_RC_TESTING ∨
      (L.Tss2_Sys_ExecuteFinish ctx.lower ctx.timeout).1 = TPM2_RC_YIELDED))
    (ht : iesys_tpm_error (L.Tss2_Sys_ExecuteFinish ctx.lower ctx.timeout).1 = false)
    (hne : (L.Tss2_Sys_ExecuteFinish ctx.lower ctx.timeout).1 ≠ TSS2_RC_SUCCESS) :
    Esys_PCR_SetAuthPolicy_Finish L ctx =
      ((L.Tss2_Sys_ExecuteFinish ctx.lower ctx.timeout).1,
       { ctx with
         state := ESYS_STATE_INTERNALERROR
         lower := (L.Tss2_Sys_ExecuteFinish ctx.lower ctx.timeout).2
         calls := ctx.calls ++ [.Tss2_Sys_ExecuteFinish ctx.timeout
           (L.Tss2_Sys_ExecuteFinish ctx.lower ctx.timeout).1] }) := by
  unfold Esys_PCR_SetAuthPolicy_Finish
  rw [if_neg (Finish_guard ctx hs)]
  dsimp only
  rw [if_neg hna, if_neg hnr, if_neg (by simp [ht]), if_pos hne]
  rfl

theorem SUCCESS_not_resubmission (r : TSS2_RC) (h0 : r = TSS2_RC_SUCCESS) :
    ¬ (r = TPM2_RC_RETRY ∨ r = TPM2_RC_TESTING ∨ r = TPM2_RC_YIELDED) := by
  rw [h0]
  decide

theorem Finish_received (L : Lower W) (ctx : ESYS_CONTEXT W)
    (hs : ctx.state = ESYS_STATE_SENT ∨ ctx.state = ESYS_STATE_RESUBMISSION)
    (h0 : (L.Tss2_Sys_ExecuteFinish ctx.lower ctx.timeout).1 = TSS2_RC_SUCCESS) :
    Esys_PCR_SetAuthPolicy_Finish L ctx =
      (if (L.iesys_check_response (L.Tss2_Sys_ExecuteFinish ctx.lower ctx.timeout).2).1
          ≠ TSS2_RC_SUCCESS then
        ((L.iesys_check_response (L.Tss2_Sys_ExecuteFinish ctx.lower ctx.timeout).2).1,
         { ctx with
           state := ESYS_STATE_INTERNALERROR
           lower := (L.iesys_check_response (L.Tss2_Sys_ExecuteFinish ctx.lower ctx.timeout).2).2
           calls := ctx.calls ++
             [.Tss2_Sys_ExecuteFinish ctx.timeout TSS2_RC_SUCCESS,
              .iesys_check_response
                (L.iesys_check_response (L.Tss2_Sys_ExecuteFinish ctx.lower ctx.timeout).2).1] })
      else if (L.Tss2_Sys_PCR_SetAuthPolicy_Complete
          (L.iesys_check_response (L.Tss2_Sys_ExecuteFinish ctx.lower ctx.timeout).2).2).1
          ≠ TSS2_RC_SUCCESS then
        ((L.Tss2_Sys_PCR_SetAuthPolicy_Complete
          (L.iesys_check_response (L.Tss2_Sys_ExecuteFinish ctx.lower ctx.timeout).2).2).1,
         { ctx with
           state := ESYS_STATE_INTERNALERROR
           lower := (L.Tss2_Sys_PCR_SetAuthPolicy_Complete
             (L.iesys_check_response (L.Tss2_Sys_ExecuteFinish ctx.lower ctx.timeout).2).2).2
           calls := ctx.calls ++
             [.Tss2_Sys_ExecuteFinish ctx.timeout TSS2_RC_SUCCESS,
              .iesys_check_response TSS2_RC_SUCCESS,
              .Tss2_Sys_PCR_SetAuthPolicy_Complete (L.Tss2_Sys_PCR_SetAuthPolicy_Complete
                (L.iesys_check_response
                  (L.Tss2_Sys_ExecuteFinish ctx.lower ctx.timeout).2).2).1] })
      else
        (TSS2_RC_SUCCESS,
         { ctx with
           state := ESYS_STATE_INIT
           lower := (L.Tss2_Sys_PCR_SetAuthPolicy_Complete
             (L.iesys_check_response (L.Tss2_Sys_ExecuteFinish ctx.lower ctx.timeout).2).2).2
           calls := ctx.calls ++
             [.Tss2_Sys_ExecuteFinish ctx.timeout TSS2_RC_SUCCESS,
              .iesys_check_response TSS2_RC_SUCCESS,
              .Tss2_Sys_PCR_SetAuthPolicy_Complete TSS2_RC_SUCCESS] })) := by
  have hna : base_rc (L.Tss2_Sys_ExecuteFinish ctx.lower ctx.timeout).1 ≠
      TSS2_BASE_RC_TRY_AGAIN := by
    rw [h0]
    exact base_rc_SUCCESS
  have ht : ¬ (iesys_tpm_error (L.Tss2_Sys_ExecuteFinish ctx.lower ctx.timeout).1 = true) := by
    rw [h0]
    decide
  unfold Esys_PCR_SetAuthPolicy_Finish
  rw [if_neg (Finish_guard ctx hs)]
  simp only [ESYS_CONTEXT.did, return_state]
  rw [if_neg hna, if_neg (SUCCESS_not_resubmission _ h0), if_neg ht, if_neg (not_not_intro h0)]
  split_ifs with h1 h2
  · simp [h0]
  · simp [h0, not_not.mp h1]
  · simp [h0, not_not.mp h1, not_not.mp h2]

theorem Finish_accepted (L : Lower W) (ctx : ESYS_CONTEXT W)
    (hs : ctx.state = ESYS_STATE_SENT ∨ ctx.state = ESYS_STATE_RESUBMISSION) :
    ∃ rest, (Esys_PCR_SetAuthPolicy_Finish L ctx).2.calls =
      ctx.calls ++ Call.Tss2_Sys_ExecuteFinish ctx.timeout
        (L.Tss2_Sys_ExecuteFinish ctx.lower ctx.timeout).1 :: rest := by
  unfold Esys_PCR_SetAuthPolicy_Finish
  rw [if_neg (Finish_guard ctx hs)]
  simp only [ESYS_CONTEXT.did, return_state]
  split_ifs <;> simp

/-! ## Successive calls of Finish -/

theorem FinishN_succ (L : Lower W) (n : Nat) (c : ESYS_CONTEXT W) :
    FinishN L (n + 1) c = (Esys_PCR_SetAuthPolicy_Finish L (FinishN L n c)).2 := by
  induction n generalizing c with
  | zero => rfl
  | succ n ih =>
    show FinishN L (n + 1) (Esys_PCR_SetAuthPolicy_Finish L c).2 = _
    rw [ih]
    rfl

theorem FinishN_add (L : Lower W) (a b : Nat) (c : ESYS_CONTEXT W) :
    FinishN L (a + b) c = FinishN L b (FinishN L a c) := by
  induction a generalizing c with
  | zero => simp [FinishN]
  | succ a ih =>
    rw [Nat.succ_add]
    show FinishN L (a + b) (Esys_PCR_SetAuthPolicy_Finish L c).2 = _
    rw [ih]
    rfl

theorem FinishN_stuck (L : Lower W) (n : Nat) (c : ESYS_CONTEXT W)
    (h : c.state ≠ ESYS_STATE_SENT ∧ c.state ≠ ESYS_STATE_RESUBMISSION) :
    FinishN L n c = c := by
  induction n with
  | zero => rfl
  | succ n ih =>
    show FinishN L n (Esys_PCR_SetAuthPolicy_Finish L c).2 = c
    rw [Finish_bad_sequence L c h]
    exact ih

/-- The state of the context after `k` calls of Finish against lower layers
that always report `TPM2_RC_YIELDED`. -/
theorem yielded_invariant (L : Lower W) (ctx : ESYS_CONTEXT W)
    (hs : ctx.state = ESYS_STATE_SENT) (h0 : ctx.submissionCount = 0)
    (hy : ∀ w t, (L.Tss2_Sys_ExecuteFinish w t).1 = TPM2_RC_YIELDED)
    (k : Nat) (hk : k ≤ ESYS_MAX_SUBMISSIONS) :
    ((FinishN L k ctx).state = ESYS_STATE_SENT ∨
      (FinishN L k ctx).state = ESYS_STATE_RESUBMISSION) ∧
    (FinishN L k ctx).submissionCount = k ∧
    (FinishN L k ctx).timeout = ctx.timeout ∧
    (FinishN L k ctx).calls.countP Call.isExecuteAsync =
      ctx.calls.countP Call.isExecuteAsync + k := by
  induction k with
  | zero => exact ⟨Or.inl hs, by simpa using h0, rfl, rfl⟩
  | succ k ih =>
    obtain ⟨i1, i2, i3, i4⟩ := ih (Nat.le_of_succ_le hk)
    have hlt : (FinishN L k ctx).submissionCount < (ESYS_MAX_SUBMISSIONS : Int) := by
      rw [i2]
      exact_mod_cast hk
    rw [FinishN_succ, Finish_resubmit L _ i1 (Or.inr (Or.inr (hy _ _))) hlt]
    refine ⟨Or.inr rfl, ?_, i3, ?_⟩
    · simp [i2]
    · simp [List.countP_append, i4, Call.isExecuteAsync, List.countP_cons]
      omega

/-! ## Facts about Finish used by the one-call function -/

theorem Finish_timeout (L : Lower W) (c : ESYS_CONTEXT W) :
    (Esys_PCR_SetAuthPolicy_Finish L c).2.timeout = c.timeout := by
  unfold Esys_PCR_SetAuthPolicy_Finish
  simp only [ESYS_CONTEXT.did, return_state]
  split_ifs <;> rfl

theorem FinishN_timeout (L : Lower W) (n : Nat) (c : ESYS_CONTEXT W) :
    (FinishN L n c).timeout = c.timeout := by
  induction n with
  | zero => rfl
  | succ n ih => rw [FinishN_succ, Finish_timeout, ih]

theorem Finish_ne_success_of_receive (L : Lower W) (c : ESYS_CONTEXT W)
    (hs : c.state = ESYS_STATE_SENT ∨ c.state = ESYS_STATE_RESUBMISSION)
    (hr : (L.Tss2_Sys_ExecuteFinish c.lower c.timeout).1 ≠ TSS2_RC_SUCCESS) :
    (Esys_PCR_SetAuthPolicy_Finish L c).1 ≠ TSS2_RC_SUCCESS := by
  have hta : TSS2_ESYS_RC_TRY_AGAIN ≠ TSS2_RC_SUCCESS := by decide
  unfold Esys_PCR_SetAuthPolicy_Finish
  rw [if_neg (Finish_guard c hs)]
  simp only [ESYS_CONTEXT.did, return_state]
  split_ifs <;> simp_all

theorem finishLoop_some (L : Lower W) (fuel : Nat) (c : ESYS_CONTEXT W)
    (r : TSS2_RC) (c1 : ESYS_CONTEXT W) (h : finishLoop L fuel c = some (r, c1)) :
    ∃ n, n < fuel ∧ (∀ k, k < n → base_rc (FinishRc L k c) = TSS2_BASE_RC_TRY_AGAIN) ∧
      FinishRc L n c = r ∧ base_rc r ≠ TSS2_BASE_RC_TRY_AGAIN ∧ c1 = FinishN L (n + 1) c := by
  induction fuel generalizing c with
  | zero => simp [finishLoop] at h
  | succ fuel ih =>
    unfold finishLoop at h
    dsimp only at h
    by_cases hb : base_rc (Esys_PCR_SetAuthPolicy_Finish L c).1 = TSS2_BASE_RC_TRY_AGAIN
    · rw [if_pos hb] at h
      obtain ⟨n, hn, hall, hrc, hne, hc1⟩ := ih _ h
      refine ⟨n + 1, Nat.succ_lt_succ hn, ?_, hrc, hne, hc1⟩
      intro k hk
      cases k with
      | zero => exact hb
      | succ k => exact hall k (Nat.lt_of_succ_lt_succ hk)
    · rw [if_neg hb] at h
      have h2 : Esys_PCR_SetAuthPolicy_Finish L c = (r, c1) := Option.some.inj h
      refine ⟨0, Nat.succ_pos _, ?_, ?_, ?_, ?_⟩
      · intro k hk
        exact absurd hk (Nat.not_lt_zero k)
      · show (Esys_PCR_SetAuthPolicy_Finish L c).1 = r
        rw [h2]
      · rw [h2] at hb
        exact hb
      · show c1 = (Esys_PCR_SetAuthPolicy_Finish L c).2
        rw [h2]

theorem Finish_try_again_counts (L : Lower W) (c : ESYS_CONTEXT W)
    (hf : base_rc (L.Tss2_Sys_ExecuteFinish c.lower c.timeout).1 ≠ TSS2_BASE_RC_TRY_AGAIN)
    (hv : ∀ w, base_rc (L.iesys_check_response w).1 ≠ TSS2_BASE_RC_TRY_AGAIN)
    (hk : ∀ w, base_rc (L.Tss2_Sys_PCR_SetAuthPolicy_Complete w).1 ≠ TSS2_BASE_RC_TRY_AGAIN)
    (hb : base_rc (Esys_PCR_SetAuthPolicy_Finish L c).1 = TSS2_BASE_RC_TRY_AGAIN) :
    c.submissionCount < (ESYS_MAX_SUBMISSIONS : Int) ∧
    (Esys_PCR_SetAuthPolicy_Finish L c).2.submissionCount = c.submissionCount + 1 := by
  by_cases hg : c.state ≠ ESYS_STATE_SENT ∧ c.state ≠ ESYS_STATE_RESUBMISSION
  · rw [Finish_bad_sequence L c hg] at hb
    exact absurd hb base_rc_BAD_SEQUENCE
  · have hs : c.state = ESYS_STATE_SENT ∨ c.state = ESYS_STATE_RESUBMISSION := by
      by_contra hcon
      exact hg ⟨fun h => hcon (Or.inl h), fun h => hcon (Or.inr h)⟩
    by_cases hrs : (L.Tss2_Sys_ExecuteFinish c.lower c.timeout).1 = TPM2_RC_RETRY ∨
        (L.Tss2_Sys_ExecuteFinish c.lower c.timeout).1 = TPM2_RC_TESTING ∨
        (L.Tss2_Sys_ExecuteFinish c.lower c.timeout).1 = TPM2_RC_YIELDED
    · by_cases hlt : c.submissionCount < (ESYS_MAX_SUBMISSIONS : Int)
      · refine ⟨hlt, ?_⟩
        rw [Finish_resubmit L c hs hrs hlt]
      · rw [Finish_resubmit_exhausted L c hs hrs (not_lt.mp hlt)] at hb
        exact absurd hb hf
    · by_cases ht : iesys_tpm_error (L.Tss2_Sys_ExecuteFinish c.lower c.timeout).1 = true
      · rw [Finish_tpm_error L c hs hf hrs ht] at hb
        exact absurd hb hf
      · by_cases h0 : (L.Tss2_Sys_ExecuteFinish c.lower c.timeout).1 = TSS2_RC_SUCCESS
        · rw [Finish_received L c hs h0] at hb
          split_ifs at hb
          · exact absurd hb (hv _)
          · exact absurd hb (hk _)
          · exact absurd hb base_rc_SUCCESS
        · rw [Finish_non_tpm_error L c hs hf hrs (by simpa using ht) h0] at hb
          exact absurd hb hf

theorem finishLoop_terminates (L : Lower W)
    (hf : ∀ w t, base_rc (L.Tss2_Sys_ExecuteFinish w t).1 ≠ TSS2_BASE_RC_TRY_AGAIN)
    (hv : ∀ w, base_rc (L.iesys_check_response w).1 ≠ TSS2_BASE_RC_TRY_AGAIN)
    (hk : ∀ w, base_rc (L.Tss2_Sys_PCR_SetAuthPolicy_Complete w).1 ≠ TSS2_BASE_RC_TRY_AGAIN)
    (fuel : Nat) (c : ESYS_CONTEXT W)
    (hc : (ESYS_MAX_SUBMISSIONS : Int) - c.submissionCount ≤ fuel) :
    ∃ res, finishLoop L (fuel + 1) c = some res := by
  induction fuel generalizing c with
  | zero =>
    unfold finishLoop
    dsimp only
    by_cases hb : base_rc (Esys_PCR_SetAuthPolicy_Finish L c).1 = TSS2_BASE_RC_TRY_AGAIN
    · have h := (Finish_try_again_counts L c (hf _ _) hv hk hb).1
      simp at hc
      omega
    · rw [if_neg hb]
      exact ⟨_, rfl⟩
  | succ fuel ih =>
    unfold finishLoop
    dsimp only
    by_cases hb : base_rc (Esys_PCR_SetAuthPolicy_Finish L c).1 = TSS2_BASE_RC_TRY_AGAIN
    · rw [if_pos hb]
      apply ih
      rw [(Finish_try_again_counts L c (hf _ _) hv hk hb).2]
      push_cast at hc
      omega
    · rw [if_neg hb]
      exact ⟨_, rfl⟩

theorem finishLoop_first (L : Lower W) (n fuel : Nat) (c : ESYS_CONTEXT W)
    (hn : n < fuel)
    (hall : ∀ k, k < n → base_rc (FinishRc L k c) = TSS2_BASE_RC_TRY_AGAIN)
    (hlast : base_rc (FinishRc L n c) ≠ TSS2_BASE_RC_TRY_AGAIN) :
    finishLoop L fuel c = some (FinishRc L n c, FinishN L (n + 1) c) := by
  induction n generalizing fuel c with
  | zero =>
    obtain ⟨fuel, rfl⟩ : ∃ m, fuel = m + 1 := ⟨fuel - 1, by omega⟩
    unfold finishLoop
    dsimp only
    have h : ¬ base_rc (Esys_PCR_SetAuthPolicy_Finish L c).1 = TSS2_BASE_RC_TRY_AGAIN := hlast
    rw [if_neg h]
    rfl
  | succ n ih =>
    obtain ⟨fuel, rfl⟩ : ∃ m, fuel = m + 1 := ⟨fuel - 1, by omega⟩
    unfold finishLoop
    dsimp only
    have h : base_rc (Esys_PCR_SetAuthPolicy_Finish L c).1 = TSS2_BASE_RC_TRY_AGAIN :=
      hall 0 (Nat.succ_pos n)
    rw [if_pos h]
    exact ih fuel (Esys_PCR_SetAuthPolicy_Finish L c).2 (Nat.lt_of_succ_lt_succ hn)
      (fun k hk => hall (k + 1) (Nat.succ_lt_succ hk)) hlast

theorem one_call_of_loop (L : Lower W) (fuel : Nat) (ctx : ESYS_CONTEXT W)
    (authHandle shandle1 shandle2 shandle3 : ESYS_TR)
    (authPolicy : Option TPM2B_DIGEST) (hashAlg : TPMI_ALG_HASH) (pcrNum : TPMI_DH_PCR)
    (ha : (Esys_PCR_SetAuthPolicy_Async L ctx authHandle shandle1 shandle2 shandle3
      authPolicy hashAlg pcrNum).1 = TSS2_RC_SUCCESS) :
    Esys_PCR_SetAuthPolicy L fuel ctx authHandle shandle1 shandle2 shandle3
      authPolicy hashAlg pcrNum =
    (finishLoop L fuel
      { (Esys_PCR_SetAuthPolicy_Async L ctx authHandle shandle1 shandle2 shandle3
          authPolicy hashAlg pcrNum).2 with timeout := -1 }).map
      (fun f => (f.1, { f.2 with
        timeout := (Esys_PCR_SetAuthPolicy_Async L ctx authHandle shandle1 shandle2 shandle3
          authPolicy hashAlg pcrNum).2.timeout })) := by
  unfold Esys_PCR_SetAuthPolicy
  dsimp only
  rw [if_neg (not_not_intro ha)]
  cases hl : finishLoop L fuel
      { (Esys_PCR_SetAuthPolicy_Async L ctx authHandle shandle1 shandle2 shandle3
          authPolicy hashAlg pcrNum).2 with timeout := -1 } with
  | none => rfl
  | some f =>
    dsimp only [Option.map]
    by_cases h0 : f.1 = TSS2_RC_SUCCESS
    · rw [if_neg (not_not_intro h0), h0]
    · rw [if_pos h0]

/-! ## The claims on `Esys_PCR_SetAuthPolicy_Async` and `Esys_PCR_SetAuthPolicy_Finish` -/

/-- C1: for every Async call that passes the sequence guard, the lower calls
made are a list `mid` of successful steps, none of them a dispatch, followed
by one call `last` whose return code is the result of Async.  If `last` is a
step before the dispatch it failed, no `Tss2_Sys_ExecuteAsync` was called and
the state is Init; if `last` is a failed dispatch the state is InternalError;
if it is a successful dispatch the result is success and the state is Sent.
Hence Async returns success exactly when it ends in state Sent. -/
theorem C1_Async_outcomes (L : Lower W) (ctx : ESYS_CONTEXT W)
    (authHandle shandle1 shandle2 shandle3 : ESYS_TR)
    (authPolicy : Option TPM2B_DIGEST) (hashAlg : TPMI_ALG_HASH) (pcrNum : TPMI_DH_PCR)
    (hseq : (iesys_check_sequence_async ctx).1 = TSS2_RC_SUCCESS) :
    ∃ mid last,
      (Esys_PCR_SetAuthPolicy_Async L ctx authHandle shandle1 shandle2 shandle3
        authPolicy hashAlg pcrNum).2.calls = ctx.calls ++ mid ++ [last] ∧
      (∀ x ∈ mid, x.rc = TSS2_RC_SUCCESS ∧ x.isExecuteAsync = false) ∧
      (Esys_PCR_SetAuthPolicy_Async L ctx authHandle shandle1 shandle2 shandle3
        authPolicy hashAlg pcrNum).1 = last.rc ∧
      (last.isExecuteAsync = false → last.rc ≠ TSS2_RC_SUCCESS ∧
        (Esys_PCR_SetAuthPolicy_Async L ctx authHandle shandle1 shandle2 shandle3
          authPolicy hashAlg pcrNum).2.state = ESYS_STATE_INIT) ∧
      (last.isExecuteAsync = true → last.rc ≠ TSS2_RC_SUCCESS →
        (Esys_PCR_SetAuthPolicy_Async L ctx authHandle shandle1 shandle2 shandle3
          authPolicy hashAlg pcrNum).2.state = ESYS_STATE_INTERNALERROR) ∧
      (last.isExecuteAsync = true → last.rc = TSS2_RC_SUCCESS →
        (Esys_PCR_SetAuthPolicy_Async L ctx authHandle shandle1 shandle2 shandle3
          authPolicy hashAlg pcrNum).2.state = ESYS_STATE_SENT) ∧
      ((Esys_PCR_SetAuthPolicy_Async L ctx authHandle shandle1 shandle2 shandle3
          authPolicy hashAlg pcrNum).1 = TSS2_RC_SUCCESS ↔
        (Esys_PCR_SetAuthPolicy_Async L ctx authHandle shandle1 shandle2 shandle3
          authPolicy hashAlg pcrNum).2.state = ESYS_STATE_SENT) := by
  have hinit := (check_sequence_async_success_iff ctx).mp hseq
  rw [Async_of_init L ctx _ _ _ _ _ _ _ hinit]
  obtain ⟨mid, last, h1, h2, h3, h4, h5, h6, _, _⟩ :=
    Async_checkSessions_tail L
      { ctx with state := ESYS_STATE_INTERNALERROR, submissionCount := 0 }
      authHandle shandle1 shandle2 shandle3 authPolicy hashAlg pcrNum
  refine ⟨mid, last, h1, h2, h3, h4, h5, h6, ?_⟩
  rw [h3]
  cases hd : last.isExecuteAsync
  · have h := h4 hd
    constructor
    · intro h0
      exact absurd h0 h.1
    · intro hst
      rw [h.2] at hst
      cases hst
  · by_cases hrc : last.rc = TSS2_RC_SUCCESS
    · exact ⟨fun _ => h6 hd hrc, fun _ => hrc⟩
    · constructor
      · intro h0
        exact absurd h0 hrc
      · intro hst
        rw [h5 hd hrc] at hst
        cases hst

/-- Witness of C1: a run in which `Tss2_Sys_PCR_SetAuthPolicy_Prepare` fails. -/
theorem C1_Async_outcomes_witness :
    (iesys_check_sequence_async (mockContext ESYS_STATE_INIT 3)).1 = TSS2_RC_SUCCESS ∧
    ∃ mid last,
      (Esys_PCR_SetAuthPolicy_Async (mockLower { mockOk with prepare := 0x80005 })
        (mockContext ESYS_STATE_INIT 3) 0x10C 0xFF 0xFFF 0xFFF none 0xB 0).2.calls =
          (mockContext ESYS_STATE_INIT 3).calls ++ mid ++ [last] ∧
      (∀ x ∈ mid, x.rc = TSS2_RC_SUCCESS ∧ x.isExecuteAsync = false) ∧
      (Esys_PCR_SetAuthPolicy_Async (mockLower { mockOk with prepare := 0x80005 })
        (mockContext ESYS_STATE_INIT 3) 0x10C 0xFF 0xFFF 0xFFF none 0xB 0).1 = last.rc ∧
      (last.isExecuteAsync = false → last.rc ≠ TSS2_RC_SUCCESS ∧
        (Esys_PCR_SetAuthPolicy_Async (mockLower { mockOk with prepare := 0x80005 })
          (mockContext ESYS_STATE_INIT 3) 0x10C 0xFF 0xFFF 0xFFF none 0xB 0).2.state =
            ESYS_STATE_INIT) ∧
      (last.isExecuteAsync = true → last.rc ≠ TSS2_RC_SUCCESS →
        (Esys_PCR_SetAuthPolicy_Async (mockLower { mockOk with prepare := 0x80005 })
          (mockContext ESYS_STATE_INIT 3) 0x10C 0xFF 0xFFF 0xFFF none 0xB 0).2.state =
            ESYS_STATE_INTERNALERROR) ∧
      (last.isExecuteAsync = true → last.rc = TSS2_RC_SUCCESS →
        (Esys_PCR_SetAuthPolicy_Async (mockLower { mockOk with prepare := 0x80005 })
          (mockContext ESYS_STATE_INIT 3) 0x10C 0xFF 0xFFF 0xFFF none 0xB 0).2.state =
            ESYS_STATE_SENT) ∧
      ((Esys_PCR_SetAuthPolicy_Async (mockLower { mockOk with prepare := 0x80005 })
          (mockContext ESYS_STATE_INIT 3) 0x10C 0xFF 0xFFF 0xFFF none 0xB 0).1 =
            TSS2_RC_SUCCESS ↔
        (Esys_PCR_SetAuthPolicy_Async (mockLower { mockOk with prepare := 0x80005 })
          (mockContext ESYS_STATE_INIT 3) 0x10C 0xFF 0xFFF 0xFFF none 0xB 0).2.state =
            ESYS_STATE_SENT) :=
  ⟨by decide, C1_Async_outcomes _ _ _ _ _ _ _ _ _ (by decide)⟩

/-- C2: for every context whose state is Sent, Async returns
`TSS2_ESYS_RC_BAD_SEQUENCE` and the context is exactly as before: state Sent,
lower state (command buffer) and submission counter untouched, no call
recorded, so neither Prepare nor a dispatch took place. -/
theorem C2_Async_in_Sent (L : Lower W) (ctx : ESYS_CONTEXT W)
    (authHandle shandle1 shandle2 shandle3 : ESYS_TR)
    (authPolicy : Option TPM2B_DIGEST) (hashAlg : TPMI_ALG_HASH) (pcrNum : TPMI_DH_PCR)
    (hs : ctx.state = ESYS_STATE_SENT) :
    Esys_PCR_SetAuthPolicy_Async L ctx authHandle shandle1 shandle2 shandle3
      authPolicy hashAlg pcrNum = (TSS2_ESYS_RC_BAD_SEQUENCE, ctx) ∧
    (Esys_PCR_SetAuthPolicy_Async L ctx authHandle shandle1 shandle2 shandle3
      authPolicy hashAlg pcrNum).2.state = ESYS_STATE_SENT := by
  have h : ctx.state ≠ ESYS_STATE_INIT := by
    rw [hs]
    decide
  rw [Async_bad_sequence L ctx _ _ _ _ _ _ _ h]
  exact ⟨rfl, hs⟩

/-- Witness of C2: Async on a mock context in state Sent. -/
theorem C2_Async_in_Sent_witness :
    (mockContext ESYS_STATE_SENT 2).state = ESYS_STATE_SENT ∧
    (Esys_PCR_SetAuthPolicy_Async (mockLower mockOk) (mockContext ESYS_STATE_SENT 2)
      0x10C 0xFF 0xFFF 0xFFF none 0xB 0 =
        (TSS2_ESYS_RC_BAD_SEQUENCE, mockContext ESYS_STATE_SENT 2) ∧
     (Esys_PCR_SetAuthPolicy_Async (mockLower mockOk) (mockContext ESYS_STATE_SENT 2)
      0x10C 0xFF 0xFFF 0xFFF none 0xB 0).2.state = ESYS_STATE_SENT) :=
  ⟨rfl, C2_Async_in_Sent _ _ _ _ _ _ _ _ _ rfl⟩

/-- C3: for every context whose state is Resubmission or InternalError, Async
returns `TSS2_ESYS_RC_BAD_SEQUENCE` and leaves the context exactly as it was:
state and submission counter unchanged, no call recorded (nothing marshaled,
nothing dispatched). -/
theorem C3_Async_requires_Init (L : Lower W) (ctx : ESYS_CONTEXT W)
    (authHandle shandle1 shandle2 shandle3 : ESYS_TR)
    (authPolicy : Option TPM2B_DIGEST) (hashAlg : TPMI_ALG_HASH) (pcrNum : TPMI_DH_PCR)
    (hs : ctx.state = ESYS_STATE_RESUBMISSION ∨ ctx.state = ESYS_STATE_INTERNALERROR) :
    Esys_PCR_SetAuthPolicy_Async L ctx authHandle shandle1 shandle2 shandle3
      authPolicy hashAlg pcrNum = (TSS2_ESYS_RC_BAD_SEQUENCE, ctx) := by
  have h : ctx.state ≠ ESYS_STATE_INIT := by
    rcases hs with h | h <;> rw [h] <;> decide
  exact Async_bad_sequence L ctx _ _ _ _ _ _ _ h

/-- Witness of C3: Async on a mock context in state Resubmission. -/
theorem C3_Async_requires_Init_witness :
    ((mockContext ESYS_STATE_RESUBMISSION 2).state = ESYS_STATE_RESUBMISSION ∨
      (mockContext ESYS_STATE_RESUBMISSION 2).state = ESYS_STATE_INTERNALERROR) ∧
    Esys_PCR_SetAuthPolicy_Async (mockLower mockOk) (mockContext ESYS_STATE_RESUBMISSION 2)
      0x10C 0xFF 0xFFF 0xFFF none 0xB 0 =
        (TSS2_ESYS_RC_BAD_SEQUENCE, mockContext ESYS_STATE_RESUBMISSION 2) :=
  ⟨Or.inl rfl, C3_Async_requires_Init _ _ _ _ _ _ _ _ _ (Or.inl rfl)⟩

/-- C4: for every context in state Init or InternalError, Finish returns
`TSS2_ESYS_RC_BAD_SEQUENCE` and the context is exactly as before: no call to
`Tss2_Sys_ExecuteFinish`, to the response verification or to Complete is
recorded, state and submission counter are unchanged. -/
theorem C4_Finish_requires_Sent (L : Lower W) (ctx : ESYS_CONTEXT W)
    (hs : ctx.state = ESYS_STATE_INIT ∨ ctx.state = ESYS_STATE_INTERNALERROR) :
    Esys_PCR_SetAuthPolicy_Finish L ctx = (TSS2_ESYS_RC_BAD_SEQUENCE, ctx) := by
  apply Finish_bad_sequence
  rcases hs with h | h <;> rw [h] <;> decide

/-- Witness of C4: Finish on a mock context in state Init. -/
theorem C4_Finish_requires_Sent_witness :
    ((mockContext ESYS_STATE_INIT 0).state = ESYS_STATE_INIT ∨
      (mockContext ESYS_STATE_INIT 0).state = ESYS_STATE_INTERNALERROR) ∧
    Esys_PCR_SetAuthPolicy_Finish (mockLower mockOk) (mockContext ESYS_STATE_INIT 0) =
      (TSS2_ESYS_RC_BAD_SEQUENCE, mockContext ESYS_STATE_INIT 0) :=
  ⟨Or.inl rfl, C4_Finish_requires_Sent _ _ (Or.inl rfl)⟩

/-- C5: starting in state Sent with submission counter 0 (the value a fresh
Async leaves), against lower layers whose `Tss2_Sys_ExecuteFinish` always
returns `TPM2_RC_YIELDED` and whose re-dispatch always succeeds: each of the
first `ESYS_MAX_SUBMISSIONS` calls of Finish returns `TSS2_ESYS_RC_TRY_AGAIN`
and records one receive followed by exactly one `Tss2_Sys_ExecuteAsync`; the
next call returns `TPM2_RC_YIELDED`, records the receive only and leaves state
Init; and however often Finish is called, no more than
`ESYS_MAX_SUBMISSIONS` dispatches are ever recorded. -/
theorem C5_resubmission_bound (L : Lower W) (ctx : ESYS_CONTEXT W)
    (hs : ctx.state = ESYS_STATE_SENT) (h0 : ctx.submissionCount = 0)
    (hy : ∀ w t, (L.Tss2_Sys_ExecuteFinish w t).1 = TPM2_RC_YIELDED)
    (ha : ∀ w, (L.Tss2_Sys_ExecuteAsync w).1 = TSS2_RC_SUCCESS) :
    (∀ k, k < ESYS_MAX_SUBMISSIONS →
      FinishRc L k ctx = TSS2_ESYS_RC_TRY_AGAIN ∧
      (FinishN L (k + 1) ctx).calls = (FinishN L k ctx).calls ++
        [.Tss2_Sys_ExecuteFinish ctx.timeout TPM2_RC_YIELDED,
         .Tss2_Sys_ExecuteAsync TSS2_RC_SUCCESS]) ∧
    FinishRc L ESYS_MAX_SUBMISSIONS ctx = TPM2_RC_YIELDED ∧
    (FinishN L (ESYS_MAX_SUBMISSIONS + 1) ctx).state = ESYS_STATE_INIT ∧
    (FinishN L (ESYS_MAX_SUBMISSIONS + 1) ctx).calls =
      (FinishN L ESYS_MAX_SUBMISSIONS ctx).calls ++
        [.Tss2_Sys_ExecuteFinish ctx.timeout TPM2_RC_YIELDED] ∧
    (∀ n, (FinishN L n ctx).calls.countP Call.isExecuteAsync ≤
      ctx.calls.countP Call.isExecuteAsync + ESYS_MAX_SUBMISSIONS) := by
  have hend := yielded_invariant L ctx hs h0 hy ESYS_MAX_SUBMISSIONS (Nat.le_refl _)
  have hge : (FinishN L ESYS_MAX_SUBMISSIONS ctx).submissionCount ≥
      (ESYS_MAX_SUBMISSIONS : Int) := by
    rw [hend.2.1]
  have hfin := Finish_resubmit_exhausted L _ hend.1 (Or.inr (Or.inr (hy _ _))) hge
  refine ⟨?_, ?_, ?_, ?_, ?_⟩
  · intro k hk
    obtain ⟨i1, i2, i3, _⟩ := yielded_invariant L ctx hs h0 hy k (Nat.le_of_lt hk)
    have hlt : (FinishN L k ctx).submissionCount < (ESYS_MAX_SUBMISSIONS : Int) := by
      rw [i2]
      exact_mod_cast hk
    have hstep := Finish_resubmit L _ i1 (Or.inr (Or.inr (hy _ _))) hlt
    constructor
    · unfold FinishRc
      rw [hstep]
      simp [ha]
    · rw [FinishN_succ, hstep]
      simp [ha, hy, i3]
  · unfold FinishRc
    rw [hfin]
    exact hy _ _
  · rw [FinishN_succ, hfin]
  · rw [FinishN_succ, hfin]
    simp [hy, hend.2.2.1]
  · intro n
    by_cases hn : n ≤ ESYS_MAX_SUBMISSIONS
    · rw [(yielded_invariant L ctx hs h0 hy n hn).2.2.2]
      omega
    · obtain ⟨j, hj⟩ : ∃ j, n = (ESYS_MAX_SUBMISSIONS + 1) + j :=
        ⟨n - (ESYS_MAX_SUBMISSIONS + 1), by omega⟩
      have hst : (FinishN L (ESYS_MAX_SUBMISSIONS + 1) ctx).state = ESYS_STATE_INIT := by
        rw [FinishN_succ, hfin]
      have hcalls : (FinishN L (ESYS_MAX_SUBMISSIONS + 1) ctx).calls =
          (FinishN L ESYS_MAX_SUBMISSIONS ctx).calls ++
            [.Tss2_Sys_ExecuteFinish (FinishN L ESYS_MAX_SUBMISSIONS ctx).timeout
              (L.Tss2_Sys_ExecuteFinish (FinishN L ESYS_MAX_SUBMISSIONS ctx).lower
                (FinishN L ESYS_MAX_SUBMISSIONS ctx).timeout).1] := by
        rw [FinishN_succ, hfin]
      rw [hj, FinishN_add, FinishN_stuck L j _ (by rw [hst]; decide), hcalls]
      simp [List.countP_append, hend.2.2.2, Call.isExecuteAsync, List.countP_cons]

/-- Witness of C5: the mock transport that always returns the yielded status. -/
theorem C5_resubmission_bound_witness :
    (mockContext ESYS_STATE_SENT 0).state = ESYS_STATE_SENT ∧
    (mockContext ESYS_STATE_SENT 0).submissionCount = 0 ∧
    (∀ w t, ((mockLower { mockOk with receive := TPM2_RC_YIELDED }).Tss2_Sys_ExecuteFinish
      w t).1 = TPM2_RC_YIELDED) ∧
    (∀ w, ((mockLower { mockOk with receive := TPM2_RC_YIELDED }).Tss2_Sys_ExecuteAsync
      w).1 = TSS2_RC_SUCCESS) ∧
    FinishRc (mockLower { mockOk with receive := TPM2_RC_YIELDED }) ESYS_MAX_SUBMISSIONS
      (mockContext ESYS_STATE_SENT 0) = TPM2_RC_YIELDED ∧
    (FinishN (mockLower { mockOk with receive := TPM2_RC_YIELDED }) (ESYS_MAX_SUBMISSIONS + 1)
      (mockContext ESYS_STATE_SENT 0)).state = ESYS_STATE_INIT :=
  ⟨rfl, rfl, fun _ _ => rfl, fun _ => rfl,
    (C5_resubmission_bound (mockLower { mockOk with receive := TPM2_RC_YIELDED })
      (mockContext ESYS_STATE_SENT 0) rfl rfl (fun _ _ => rfl) (fun _ => rfl)).2.1,
    (C5_resubmission_bound (mockLower { mockOk with receive := TPM2_RC_YIELDED })
      (mockContext ESYS_STATE_SENT 0) rfl rfl (fun _ _ => rfl) (fun _ => rfl)).2.2.1⟩

/-- C6: when `Tss2_Sys_ExecuteFinish` returns `TPM2_RC_RETRY`,
`TPM2_RC_TESTING` or `TPM2_RC_YIELDED` to a Finish call that passes the
sequence guard: if the submission counter is below `ESYS_MAX_SUBMISSIONS` the
counter grows by one, the state becomes Resubmission, exactly one
`Tss2_Sys_ExecuteAsync` is recorded after the receive and, when it succeeds,
Finish returns `TSS2_ESYS_RC_TRY_AGAIN`; if the counter has reached
`ESYS_MAX_SUBMISSIONS` only the receive is recorded, the state becomes Init and
the code of the TPM is returned unchanged. -/
theorem C6_resubmission_step (L : Lower W) (ctx : ESYS_CONTEXT W)
    (hs : ctx.state = ESYS_STATE_SENT ∨ ctx.state = ESYS_STATE_RESUBMISSION)
    (hrs : (L.Tss2_Sys_ExecuteFinish ctx.lower ctx.timeout).1 = TPM2_RC_RETRY ∨
      (L.Tss2_Sys_ExecuteFinish ctx.lower ctx.timeout).1 = TPM2_RC_TESTING ∨
      (L.Tss2_Sys_ExecuteFinish ctx.lower ctx.timeout).1 = TPM2_RC_YIELDED) :
    (ctx.submissionCount < (ESYS_MAX_SUBMISSIONS : Int) →
      (Esys_PCR_SetAuthPolicy_Finish L ctx).2.submissionCount = ctx.submissionCount + 1 ∧
      (Esys_PCR_SetAuthPolicy_Finish L ctx).2.state = ESYS_STATE_RESUBMISSION ∧
      (Esys_PCR_SetAuthPolicy_Finish L ctx).2.calls = ctx.calls ++
        [.Tss2_Sys_ExecuteFinish ctx.timeout (L.Tss2_Sys_ExecuteFinish ctx.lower ctx.timeout).1,
         .Tss2_Sys_ExecuteAsync
           (L.Tss2_Sys_ExecuteAsync (L.Tss2_Sys_ExecuteFinish ctx.lower ctx.timeout).2).1] ∧
      ((L.Tss2_Sys_ExecuteAsync (L.Tss2_Sys_ExecuteFinish ctx.lower ctx.timeout).2).1 =
          TSS2_RC_SUCCESS →
        (Esys_PCR_SetAuthPolicy_Finish L ctx).1 = TSS2_ESYS_RC_TRY_AGAIN)) ∧
    (ctx.submissionCount ≥ (ESYS_MAX_SUBMISSIONS : Int) →
      (Esys_PCR_SetAuthPolicy_Finish L ctx).2.calls = ctx.calls ++
        [.Tss2_Sys_ExecuteFinish ctx.timeout
          (L.Tss2_Sys_ExecuteFinish ctx.lower ctx.timeout).1] ∧
      (Esys_PCR_SetAuthPolicy_Finish L ctx).2.state = ESYS_STATE_INIT ∧
      (Esys_PCR_SetAuthPolicy_Finish L ctx).1 =
        (L.Tss2_Sys_ExecuteFinish ctx.lower ctx.timeout).1) := by
  constructor
  · intro hlt
    rw [Finish_resubmit L ctx hs hrs hlt]
    refine ⟨rfl, rfl, rfl, ?_⟩
    intro he
    simp [he]
  · intro hge
    rw [Finish_resubmit_exhausted L ctx hs hrs hge]
    exact ⟨rfl, rfl, rfl⟩

/-- Witness of C6: the TPM answers `TPM2_RC_RETRY` to a context in state Sent
with counter 4. -/
theorem C6_resubmission_step_witness :
    ((mockContext ESYS_STATE_SENT 4).state = ESYS_STATE_SENT ∨
      (mockContext ESYS_STATE_SENT 4).state = ESYS_STATE_RESUBMISSION) ∧
    (Esys_PCR_SetAuthPolicy_Finish (mockLower { mockOk with receive := TPM2_RC_RETRY })
      (mockContext ESYS_STATE_SENT 4)).2.submissionCount = 4 + 1 ∧
    (Esys_PCR_SetAuthPolicy_Finish (mockLower { mockOk with receive := TPM2_RC_RETRY })
      (mockContext ESYS_STATE_SENT 4)).2.state = ESYS_STATE_RESUBMISSION ∧
    (Esys_PCR_SetAuthPolicy_Finish (mockLower { mockOk with receive := TPM2_RC_RETRY })
      (mockContext ESYS_STATE_SENT 4)).1 = TSS2_ESYS_RC_TRY_AGAIN :=
  ⟨Or.inl rfl,
   ((C6_resubmission_step (mockLower { mockOk with receive := TPM2_RC_RETRY })
      (mockContext ESYS_STATE_SENT 4) (Or.inl rfl) (Or.inl rfl)).1 (by decide)).1,
   ((C6_resubmission_step (mockLower { mockOk with receive := TPM2_RC_RETRY })
      (mockContext ESYS_STATE_SENT 4) (Or.inl rfl) (Or.inl rfl)).1 (by decide)).2.1,
   ((C6_resubmission_step (mockLower { mockOk with receive := TPM2_RC_RETRY })
      (mockContext ESYS_STATE_SENT 4) (Or.inl rfl) (Or.inl rfl)).1 (by decide)).2.2.2 rfl⟩

/-- C7: whenever `Tss2_Sys_ExecuteFinish` returns a code whose base code is
`TSS2_BASE_RC_TRY_AGAIN`, whatever its layer, to a Finish call in state Sent or
Resubmission, Finish returns that code unchanged, the state afterwards is
Sent, the submission counter is unchanged, only the receive is recorded (the
command is not sent again), and a subsequent Finish call is accepted: it goes
on to call `Tss2_Sys_ExecuteFinish`. -/
theorem C7_not_ready (L : Lower W) (ctx : ESYS_CONTEXT W)
    (hs : ctx.state = ESYS_STATE_SENT ∨ ctx.state = ESYS_STATE_RESUBMISSION)
    (hr : base_rc (L.Tss2_Sys_ExecuteFinish ctx.lower ctx.timeout).1 = TSS2_BASE_RC_TRY_AGAIN) :
    (Esys_PCR_SetAuthPolicy_Finish L ctx).1 =
      (L.Tss2_Sys_ExecuteFinish ctx.lower ctx.timeout).1 ∧
    (Esys_PCR_SetAuthPolicy_Finish L ctx).2.state = ESYS_STATE_SENT ∧
    (Esys_PCR_SetAuthPolicy_Finish L ctx).2.submissionCount = ctx.submissionCount ∧
    (Esys_PCR_SetAuthPolicy_Finish L ctx).2.calls = ctx.calls ++
      [.Tss2_Sys_ExecuteFinish ctx.timeout (L.Tss2_Sys_ExecuteFinish ctx.lower ctx.timeout).1] ∧
    (∃ rc rest,
      (Esys_PCR_SetAuthPolicy_Finish L (Esys_PCR_SetAuthPolicy_Finish L ctx).2).2.calls =
        (Esys_PCR_SetAuthPolicy_Finish L ctx).2.calls ++
          Call.Tss2_Sys_ExecuteFinish ctx.timeout rc :: rest) := by
  refine ⟨?_, ?_, ?_, ?_, ?_⟩
  · rw [Finish_try_again L ctx hs hr]
  · rw [Finish_try_again L ctx hs hr]
  · rw [Finish_try_again L ctx hs hr]
  · rw [Finish_try_again L ctx hs hr]
  · have hst : (Esys_PCR_SetAuthPolicy_Finish L ctx).2.state = ESYS_STATE_SENT := by
      rw [Finish_try_again L ctx hs hr]
    have hto : (Esys_PCR_SetAuthPolicy_Finish L ctx).2.timeout = ctx.timeout := by
      rw [Finish_try_again L ctx hs hr]
    obtain ⟨rest, h⟩ := Finish_accepted L (Esys_PCR_SetAuthPolicy_Finish L ctx).2 (Or.inl hst)
    rw [hto] at h
    exact ⟨_, rest, h⟩

/-- Witness of C7: the lower layer answers the TCTI-layer try-again code
`0xA0009` to a context in state Resubmission. -/
theorem C7_not_ready_witness :
    ((mockContext ESYS_STATE_RESUBMISSION 2).state = ESYS_STATE_SENT ∨
      (mockContext ESYS_STATE_RESUBMISSION 2).state = ESYS_STATE_RESUBMISSION) ∧
    base_rc ((mockLower { mockOk with receive := 0xA0009 }).Tss2_Sys_ExecuteFinish
      (mockContext ESYS_STATE_RESUBMISSION 2).lower
      (mockContext ESYS_STATE_RESUBMISSION 2).timeout).1 = TSS2_BASE_RC_TRY_AGAIN ∧
    (Esys_PCR_SetAuthPolicy_Finish (mockLower { mockOk with receive := 0xA0009 })
      (mockContext ESYS_STATE_RESUBMISSION 2)).1 = 0xA0009 ∧
    (Esys_PCR_SetAuthPolicy_Finish (mockLower { mockOk with receive := 0xA0009 })
      (mockContext ESYS_STATE_RESUBMISSION 2)).2.state = ESYS_STATE_SENT ∧
    (Esys_PCR_SetAuthPolicy_Finish (mockLower { mockOk with receive := 0xA0009 })
      (mockContext ESYS_STATE_RESUBMISSION 2)).2.submissionCount = 2 :=
  ⟨Or.inr rfl, by decide,
   (C7_not_ready (mockLower { mockOk with receive := 0xA0009 })
      (mockContext ESYS_STATE_RESUBMISSION 2) (Or.inr rfl) (by decide)).1,
   (C7_not_ready (mockLower { mockOk with receive := 0xA0009 })
      (mockContext ESYS_STATE_RESUBMISSION 2) (Or.inr rfl) (by decide)).2.1,
   (C7_not_ready (mockLower { mockOk with receive := 0xA0009 })
      (mockContext ESYS_STATE_RESUBMISSION 2) (Or.inr rfl) (by decide)).2.2.1⟩

/-- C8: for every result of `Tss2_Sys_ExecuteFinish` that is a TPM-level error
(`iesys_tpm_error` holds), is none of the three resubmission codes and has no
try-again base code, a Finish call that passes the sequence guard returns that
code verbatim, records the receive only (neither response verification nor
Complete is invoked) and resets the state to Init, so that the sequence check
of a new Async succeeds. -/
theorem C8_tpm_error (L : Lower W) (ctx : ESYS_CONTEXT W)
    (hs : ctx.state = ESYS_STATE_SENT ∨ ctx.state = ESYS_STATE_RESUBMISSION)
    (ht : iesys_tpm_error (L.Tss2_Sys_ExecuteFinish ctx.lower ctx.timeout).1 = true)
    (hnr : ¬ ((L.Tss2_Sys_ExecuteFinish ctx.lower ctx.timeout).1 = TPM2_RC_RETRY ∨
      (L.Tss2_Sys_ExecuteFinish ctx.lower ctx.timeout).1 = TPM2_RC_TESTING ∨
      (L.Tss2_Sys_ExecuteFinish ctx.lower ctx.timeout).1 = TPM2_RC_YIELDED))
    (hna : base_rc (L.Tss2_Sys_ExecuteFinish ctx.lower ctx.timeout).1 ≠ TSS2_BASE_RC_TRY_AGAIN) :
    (Esys_PCR_SetAuthPolicy_Finish L ctx).1 =
      (L.Tss2_Sys_ExecuteFinish ctx.lower ctx.timeout).1 ∧
    (Esys_PCR_SetAuthPolicy_Finish L ctx).2.state = ESYS_STATE_INIT ∧
    (iesys_check_sequence_async (Esys_PCR_SetAuthPolicy_Finish L ctx).2).1 = TSS2_RC_SUCCESS ∧
    (Esys_PCR_SetAuthPolicy_Finish L ctx).2.calls = ctx.calls ++
      [.Tss2_Sys_ExecuteFinish ctx.timeout
        (L.Tss2_Sys_ExecuteFinish ctx.lower ctx.timeout).1] := by
  rw [Finish_tpm_error L ctx hs hna hnr ht]
  refine ⟨rfl, rfl, ?_, rfl⟩
  exact (check_sequence_async_success_iff _).mpr rfl

/-- Witness of C8: the TPM answers `TPM2_RC_AUTH_FAIL` (`0x98E`). -/
theorem C8_tpm_error_witness :
    ((mockContext ESYS_STATE_SENT 0).state = ESYS_STATE_SENT ∨
      (mockContext ESYS_STATE_SENT 0).state = ESYS_STATE_RESUBMISSION) ∧
    iesys_tpm_error ((mockLower { mockOk with receive := 0x98E }).Tss2_Sys_ExecuteFinish
      (mockContext ESYS_STATE_SENT 0).lower (mockContext ESYS_STATE_SENT 0).timeout).1 = true ∧
    (Esys_PCR_SetAuthPolicy_Finish (mockLower { mockOk with receive := 0x98E })
      (mockContext ESYS_STATE_SENT 0)).1 = 0x98E ∧
    (Esys_PCR_SetAuthPolicy_Finish (mockLower { mockOk with receive := 0x98E })
      (mockContext ESYS_STATE_SENT 0)).2.state = ESYS_STATE_INIT :=
  ⟨Or.inl rfl, by decide,
   (C8_tpm_error (mockLower { mockOk with receive := 0x98E }) (mockContext ESYS_STATE_SENT 0)
      (Or.inl rfl) (by decide) (by decide) (by decide)).1,
   (C8_tpm_error (mockLower { mockOk with receive := 0x98E }) (mockContext ESYS_STATE_SENT 0)
      (Or.inl rfl) (by decide) (by decide) (by decide)).2.1⟩

theorem receive_classify_structural (resp : List Nat)
    (hbad : resp.length < TPM_HEADER_SIZE ∨ declared_size resp > resp.length) :
    receive_classify resp = TSS2_SYS_RC_INSUFFICIENT_RESPONSE ∨
    receive_classify resp = TSS2_SYS_RC_MALFORMED_RESPONSE := by
  unfold receive_classify
  by_cases h1 : resp.length < TPM_HEADER_SIZE
  · left
    rw [if_pos h1]
  · right
    rcases hbad with h | h
    · exact absurd h h1
    · rw [if_neg h1, if_pos h]

/-- C9: for every received response that is structurally invalid - shorter
than the 10-byte header, or with a header that declares more bytes than were
received - and that the transport exchange classifies as the spec describes, a
Finish call that passes the sequence guard returns the structural error, which
is no TPM-level error and not success, records the receive only (neither
response verification nor Complete is invoked) and leaves the context in
InternalError. -/
theorem C9_structural_error (L : Lower W) (ctx : ESYS_CONTEXT W) (resp : List Nat)
    (hs : ctx.state = ESYS_STATE_SENT ∨ ctx.state = ESYS_STATE_RESUBMISSION)
    (hrecv : (L.Tss2_Sys_ExecuteFinish ctx.lower ctx.timeout).1 = receive_classify resp)
    (hbad : resp.length < TPM_HEADER_SIZE ∨ declared_size resp > resp.length) :
    (Esys_PCR_SetAuthPolicy_Finish L ctx).1 = receive_classify resp ∧
    (receive_classify resp = TSS2_SYS_RC_INSUFFICIENT_RESPONSE ∨
      receive_classify resp = TSS2_SYS_RC_MALFORMED_RESPONSE) ∧
    iesys_tpm_error (Esys_PCR_SetAuthPolicy_Finish L ctx).1 = false ∧
    (Esys_PCR_SetAuthPolicy_Finish L ctx).1 ≠ TSS2_RC_SUCCESS ∧
    (Esys_PCR_SetAuthPolicy_Finish L ctx).2.state = ESYS_STATE_INTERNALERROR ∧
    (Esys_PCR_SetAuthPolicy_Finish L ctx).2.calls = ctx.calls ++
      [.Tss2_Sys_ExecuteFinish ctx.timeout (receive_classify resp)] := by
  have hc := receive_classify_structural resp hbad
  have hfacts : base_rc (receive_classify resp) ≠ TSS2_BASE_RC_TRY_AGAIN ∧
      ¬ (receive_classify resp = TPM2_RC_RETRY ∨ receive_classify resp = TPM2_RC_TESTING ∨
        receive_classify resp = TPM2_RC_YIELDED) ∧
      iesys_tpm_error (receive_classify resp) = false ∧
      receive_classify resp ≠ TSS2_RC_SUCCESS := by
    rcases hc with h | h <;> rw [h] <;> decide
  obtain ⟨f1, f2, f3, f4⟩ := hfacts
  rw [← hrecv] at f1 f2 f3 f4
  rw [Finish_non_tpm_error L ctx hs f1 f2 f3 f4]
  rw [hrecv] at f3 f4
  exact ⟨hrecv, hc, by rw [hrecv]; exact f3, by rw [hrecv]; exact f4, rfl, by rw [hrecv]⟩

set_option maxRecDepth 100000 in
/-- Witness of C9: the "big" response of the dummy TPM helper, 387 bytes that
declare 0x4283, and its 8-byte "short" response. -/
theorem C9_structural_error_witness :
    getcap_resp_malformed_size_bigger.length = 387 ∧
    declared_size getcap_resp_malformed_size_bigger = 0x4283 ∧
    getcap_resp_malformed_short.length = 8 ∧
    (Esys_PCR_SetAuthPolicy_Finish
      (mockLower { mockOk with receive := receive_classify getcap_resp_malformed_size_bigger })
      (mockContext ESYS_STATE_SENT 0)).2.state = ESYS_STATE_INTERNALERROR ∧
    (Esys_PCR_SetAuthPolicy_Finish
      (mockLower { mockOk with receive := receive_classify getcap_resp_malformed_size_bigger })
      (mockContext ESYS_STATE_SENT 0)).2.calls = (mockContext ESYS_STATE_SENT 0).calls ++
        [.Tss2_Sys_ExecuteFinish (mockContext ESYS_STATE_SENT 0).timeout
          (receive_classify getcap_resp_malformed_size_bigger)] ∧
    (Esys_PCR_SetAuthPolicy_Finish
      (mockLower { mockOk with receive := receive_classify getcap_resp_malformed_short })
      (mockContext ESYS_STATE_SENT 0)).2.state = ESYS_STATE_INTERNALERROR ∧
    (Esys_PCR_SetAuthPolicy_Finish
      (mockLower { mockOk with receive := receive_classify getcap_resp_malformed_short })
      (mockContext ESYS_STATE_SENT 0)).2.calls = (mockContext ESYS_STATE_SENT 0).calls ++
        [.Tss2_Sys_ExecuteFinish (mockContext ESYS_STATE_SENT 0).timeout
          (receive_classify getcap_resp_malformed_short)] :=
  ⟨by decide, by decide, by decide,
   (C9_structural_error
      (mockLower { mockOk with receive := receive_classify getcap_resp_malformed_size_bigger })
      (mockContext ESYS_STATE_SENT 0) getcap_resp_malformed_size_bigger (Or.inl rfl) rfl
      (Or.inr (by decide))).2.2.2.2.1,
   (C9_structural_error
      (mockLower { mockOk with receive := receive_classify getcap_resp_malformed_size_bigger })
      (mockContext ESYS_STATE_SENT 0) getcap_resp_malformed_size_bigger (Or.inl rfl) rfl
      (Or.inr (by decide))).2.2.2.2.2,
   (C9_structural_error
      (mockLower { mockOk with receive := receive_classify getcap_resp_malformed_short })
      (mockContext ESYS_STATE_SENT 0) getcap_resp_malformed_short (Or.inl rfl) rfl
      (Or.inl (by decide))).2.2.2.2.1,
   (C9_structural_error
      (mockLower { mockOk with receive := receive_classify getcap_resp_malformed_short })
      (mockContext ESYS_STATE_SENT 0) getcap_resp_malformed_short (Or.inl rfl) rfl
      (Or.inl (by decide))).2.2.2.2.2⟩

/-- C10: whenever `Tss2_Sys_ExecuteFinish` reports success to a Finish call
that passes the sequence guard but `iesys_check_response` fails, Finish returns
the verification error, the calls recorded are the receive and the
verification only (`Tss2_Sys_PCR_SetAuthPolicy_Complete` is not invoked), and
the context is left in InternalError, not Init. -/
theorem C10_verification_failure (L : Lower W) (ctx : ESYS_CONTEXT W)
    (hs : ctx.state = ESYS_STATE_SENT ∨ ctx.state = ESYS_STATE_RESUBMISSION)
    (h0 : (L.Tss2_Sys_ExecuteFinish ctx.lower ctx.timeout).1 = TSS2_RC_SUCCESS)
    (hv : (L.iesys_check_response (L.Tss2_Sys_ExecuteFinish ctx.lower ctx.timeout).2).1 ≠
      TSS2_RC_SUCCESS) :
    (Esys_PCR_SetAuthPolicy_Finish L ctx).1 =
      (L.iesys_check_response (L.Tss2_Sys_ExecuteFinish ctx.lower ctx.timeout).2).1 ∧
    (Esys_PCR_SetAuthPolicy_Finish L ctx).2.calls = ctx.calls ++
      [.Tss2_Sys_ExecuteFinish ctx.timeout TSS2_RC_SUCCESS,
       .iesys_check_response
         (L.iesys_check_response (L.Tss2_Sys_ExecuteFinish ctx.lower ctx.timeout).2).1] ∧
    (∀ x ∈ (Esys_PCR_SetAuthPolicy_Finish L ctx).2.calls.drop ctx.calls.length,
      x.isComplete = false) ∧
    (Esys_PCR_SetAuthPolicy_Finish L ctx).2.state = ESYS_STATE_INTERNALERROR ∧
    (Esys_PCR_SetAuthPolicy_Finish L ctx).2.state ≠ ESYS_STATE_INIT := by
  rw [Finish_received L ctx hs h0, if_pos hv]
  refine ⟨rfl, rfl, ?_, rfl, by simp⟩
  intro x hx
  simp at hx
  rcases hx with rfl | rfl <;> rfl

/-- Witness of C10: the response HMAC does not verify
(`TSS2_ESYS_RC_RSP_AUTH_FAILED`). -/
theorem C10_verification_failure_witness :
    ((mockContext ESYS_STATE_SENT 0).state = ESYS_STATE_SENT ∨
      (mockContext ESYS_STATE_SENT 0).state = ESYS_STATE_RESUBMISSION) ∧
    (Esys_PCR_SetAuthPolicy_Finish
      (mockLower { mockOk with verify := TSS2_ESYS_RC_RSP_AUTH_FAILED })
      (mockContext ESYS_STATE_SENT 0)).1 = TSS2_ESYS_RC_RSP_AUTH_FAILED ∧
    (Esys_PCR_SetAuthPolicy_Finish
      (mockLower { mockOk with verify := TSS2_ESYS_RC_RSP_AUTH_FAILED })
      (mockContext ESYS_STATE_SENT 0)).2.state = ESYS_STATE_INTERNALERROR :=
  ⟨Or.inl rfl,
   (C10_verification_failure (mockLower { mockOk with verify := TSS2_ESYS_RC_RSP_AUTH_FAILED })
      (mockContext ESYS_STATE_SENT 0) (Or.inl rfl) rfl (by decide)).1,
   (C10_verification_failure (mockLower { mockOk with verify := TSS2_ESYS_RC_RSP_AUTH_FAILED })
      (mockContext ESYS_STATE_SENT 0) (Or.inl rfl) rfl (by decide)).2.2.2.1⟩

/-- C11: Finish returns `TSS2_RC_SUCCESS` if and only if it passed the sequence
guard, `Tss2_Sys_ExecuteFinish` returned success, then `iesys_check_response`
(on the lower state the receive left) returned success, then
`Tss2_Sys_PCR_SetAuthPolicy_Complete` (on the lower state the verification
left) returned success; and whenever Finish returns `TSS2_RC_SUCCESS` the calls
recorded are these three in this order and the final state is Init. -/
theorem C11_success_path (L : Lower W) (ctx : ESYS_CONTEXT W) :
    ((Esys_PCR_SetAuthPolicy_Finish L ctx).1 = TSS2_RC_SUCCESS ↔
      (ctx.state = ESYS_STATE_SENT ∨ ctx.state = ESYS_STATE_RESUBMISSION) ∧
      (L.Tss2_Sys_ExecuteFinish ctx.lower ctx.timeout).1 = TSS2_RC_SUCCESS ∧
      (L.iesys_check_response (L.Tss2_Sys_ExecuteFinish ctx.lower ctx.timeout).2).1 =
        TSS2_RC_SUCCESS ∧
      (L.Tss2_Sys_PCR_SetAuthPolicy_Complete
        (L.iesys_check_response (L.Tss2_Sys_ExecuteFinish ctx.lower ctx.timeout).2).2).1 =
        TSS2_RC_SUCCESS) ∧
    ((Esys_PCR_SetAuthPolicy_Finish L ctx).1 = TSS2_RC_SUCCESS →
      (Esys_PCR_SetAuthPolicy_Finish L ctx).2.state = ESYS_STATE_INIT ∧
      (Esys_PCR_SetAuthPolicy_Finish L ctx).2.calls = ctx.calls ++
        [.Tss2_Sys_ExecuteFinish ctx.timeout TSS2_RC_SUCCESS,
         .iesys_check_response TSS2_RC_SUCCESS,
         .Tss2_Sys_PCR_SetAuthPolicy_Complete TSS2_RC_SUCCESS]) := by
  have hbs : TSS2_ESYS_RC_BAD_SEQUENCE ≠ TSS2_RC_SUCCESS := by decide
  have key : (Esys_PCR_SetAuthPolicy_Finish L ctx).1 = TSS2_RC_SUCCESS →
      (ctx.state = ESYS_STATE_SENT ∨ ctx.state = ESYS_STATE_RESUBMISSION) ∧
      (L.Tss2_Sys_ExecuteFinish ctx.lower ctx.timeout).1 = TSS2_RC_SUCCESS ∧
      (L.iesys_check_response (L.Tss2_Sys_ExecuteFinish ctx.lower ctx.timeout).2).1 =
        TSS2_RC_SUCCESS ∧
      (L.Tss2_Sys_PCR_SetAuthPolicy_Complete
        (L.iesys_check_response (L.Tss2_Sys_ExecuteFinish ctx.lower ctx.timeout).2).2).1 =
        TSS2_RC_SUCCESS := by
    intro h
    by_cases hg : ctx.state ≠ ESYS_STATE_SENT ∧ ctx.state ≠ ESYS_STATE_RESUBMISSION
    · rw [Finish_bad_sequence L ctx hg] at h
      exact absurd h hbs
    · have hs : ctx.state = ESYS_STATE_SENT ∨ ctx.state = ESYS_STATE_RESUBMISSION := by
        by_contra hcon
        exact hg ⟨fun h => hcon (Or.inl h), fun h => hcon (Or.inr h)⟩
      by_cases h0 : (L.Tss2_Sys_ExecuteFinish ctx.lower ctx.timeout).1 = TSS2_RC_SUCCESS
      · rw [Finish_received L ctx hs h0] at h
        split_ifs at h with h1 h2
        · exact absurd h h1
        · exact absurd h h2
        · exact ⟨hs, h0, not_not.mp h1, not_not.mp h2⟩
      · exact absurd h (Finish_ne_success_of_receive L ctx hs h0)
  have back : (ctx.state = ESYS_STATE_SENT ∨ ctx.state = ESYS_STATE_RESUBMISSION) ∧
      (L.Tss2_Sys_ExecuteFinish ctx.lower ctx.timeout).1 = TSS2_RC_SUCCESS ∧
      (L.iesys_check_response (L.Tss2_Sys_ExecuteFinish ctx.lower ctx.timeout).2).1 =
        TSS2_RC_SUCCESS ∧
      (L.Tss2_Sys_PCR_SetAuthPolicy_Complete
        (L.iesys_check_response (L.Tss2_Sys_ExecuteFinish ctx.lower ctx.timeout).2).2).1 =
        TSS2_RC_SUCCESS →
      Esys_PCR_SetAuthPolicy_Finish L ctx =
        (TSS2_RC_SUCCESS,
         { ctx with
           state := ESYS_STATE_INIT
           lower := (L.Tss2_Sys_PCR_SetAuthPolicy_Complete
             (L.iesys_check_response (L.Tss2_Sys_ExecuteFinish ctx.lower ctx.timeout).2).2).2
           calls := ctx.calls ++
             [.Tss2_Sys_ExecuteFinish ctx.timeout TSS2_RC_SUCCESS,
              .iesys_check_response TSS2_RC_SUCCESS,
              .Tss2_Sys_PCR_SetAuthPolicy_Complete TSS2_RC_SUCCESS] }) := by
    rintro ⟨hs, h0, h1, h2⟩
    rw [Finish_received L ctx hs h0, if_neg (not_not_intro h1), if_neg (not_not_intro h2)]
  refine ⟨⟨key, fun h => by rw [back h]⟩, ?_⟩
  intro h
  rw [back (key h)]
  exact ⟨rfl, rfl⟩

/-- C12 (evaluation of the code): a context in state Sent with counter 0 whose
`Tss2_Sys_ExecuteFinish` reports `TPM2_RC_YIELDED` and whose re-dispatch fails
with the transport error `0xA000A`.  Finish returns the dispatch error, but the
state it leaves is Resubmission, not InternalError, and a further Finish call
is not rejected: it calls `Tss2_Sys_ExecuteFinish` again. -/
theorem C12_failed_redispatch_leaves_Resubmission :
    (Esys_PCR_SetAuthPolicy_Finish
      (mockLower { mockOk with receive := TPM2_RC_YIELDED, dispatch := 0xA000A })
      (mockContext ESYS_STATE_SENT 0)).1 = 0xA000A ∧
    (Esys_PCR_SetAuthPolicy_Finish
      (mockLower { mockOk with receive := TPM2_RC_YIELDED, dispatch := 0xA000A })
      (mockContext ESYS_STATE_SENT 0)).2.state = ESYS_STATE_RESUBMISSION ∧
    (Esys_PCR_SetAuthPolicy_Finish
      (mockLower { mockOk with receive := TPM2_RC_YIELDED, dispatch := 0xA000A })
      (Esys_PCR_SetAuthPolicy_Finish
        (mockLower { mockOk with receive := TPM2_RC_YIELDED, dispatch := 0xA000A })
        (mockContext ESYS_STATE_SENT 0)).2).1 ≠ TSS2_ESYS_RC_BAD_SEQUENCE ∧
    (Esys_PCR_SetAuthPolicy_Finish
      (mockLower { mockOk with receive := TPM2_RC_YIELDED, dispatch := 0xA000A })
      (Esys_PCR_SetAuthPolicy_Finish
        (mockLower { mockOk with receive := TPM2_RC_YIELDED, dispatch := 0xA000A })
        (mockContext ESYS_STATE_SENT 0)).2).2.calls =
      [.Tss2_Sys_ExecuteFinish 1000 TPM2_RC_YIELDED, .Tss2_Sys_ExecuteAsync 0xA000A,
       .Tss2_Sys_ExecuteFinish 1000 TPM2_RC_YIELDED, .Tss2_Sys_ExecuteAsync 0xA000A] := by
  decide

/-- C13: whenever the one-call function returns a code `r` after its Async
step succeeded, `r` has no try-again base code and `r` is the result of the
first Finish call, in the series of successive Finish calls under the
indefinite timeout, whose base code is not try-again; in particular `r` is
`TSS2_RC_SUCCESS` when that Finish call succeeded. -/
theorem C13_one_call_transparent (L : Lower W) (fuel : Nat) (ctx : ESYS_CONTEXT W)
    (authHandle shandle1 shandle2 shandle3 : ESYS_TR)
    (authPolicy : Option TPM2B_DIGEST) (hashAlg : TPMI_ALG_HASH) (pcrNum : TPMI_DH_PCR)
    (r : TSS2_RC) (ctx1 : ESYS_CONTEXT W)
    (ha : (Esys_PCR_SetAuthPolicy_Async L ctx authHandle shandle1 shandle2 shandle3
      authPolicy hashAlg pcrNum).1 = TSS2_RC_SUCCESS)
    (hret : Esys_PCR_SetAuthPolicy L fuel ctx authHandle shandle1 shandle2 shandle3
      authPolicy hashAlg pcrNum = some (r, ctx1)) :
    base_rc r ≠ TSS2_BASE_RC_TRY_AGAIN ∧
    ∃ n,
      (∀ k, k < n → base_rc (FinishRc L k
        { (Esys_PCR_SetAuthPolicy_Async L ctx authHandle shandle1 shandle2 shandle3
            authPolicy hashAlg pcrNum).2 with timeout := -1 }) = TSS2_BASE_RC_TRY_AGAIN) ∧
      base_rc (FinishRc L n
        { (Esys_PCR_SetAuthPolicy_Async L ctx authHandle shandle1 shandle2 shandle3
            authPolicy hashAlg pcrNum).2 with timeout := -1 }) ≠ TSS2_BASE_RC_TRY_AGAIN ∧
      r = FinishRc L n
        { (Esys_PCR_SetAuthPolicy_Async L ctx authHandle shandle1 shandle2 shandle3
            authPolicy hashAlg pcrNum).2 with timeout := -1 } ∧
      (FinishRc L n
        { (Esys_PCR_SetAuthPolicy_Async L ctx authHandle shandle1 shandle2 shandle3
            authPolicy hashAlg pcrNum).2 with timeout := -1 } = TSS2_RC_SUCCESS →
        r = TSS2_RC_SUCCESS) := by
  rw [one_call_of_loop L fuel ctx _ _ _ _ _ _ _ ha] at hret
  cases hl : finishLoop L fuel
      { (Esys_PCR_SetAuthPolicy_Async L ctx authHandle shandle1 shandle2 shandle3
          authPolicy hashAlg pcrNum).2 with timeout := -1 } with
  | none =>
    rw [hl] at hret
    cases hret
  | some f =>
    rw [hl] at hret
    have hr : f.1 = r := congrArg Prod.fst (Option.some.inj hret)
    obtain ⟨n, _, hall, hrc, hne, _⟩ := finishLoop_some L fuel _ f.1 f.2 hl
    rw [hr] at hrc hne
    refine ⟨hne, n, hall, ?_, hrc.symm, ?_⟩
    · rw [hrc]
      exact hne
    · intro h
      rw [← hrc, h]

/-- Witness of C13: after a successful Async the mock TPM answers success. -/
theorem C13_one_call_transparent_witness :
    (Esys_PCR_SetAuthPolicy_Async (mockLower mockOk) (mockContext ESYS_STATE_INIT 0)
      0x10C 0xFF 0xFFF 0xFFF none 0xB 0).1 = TSS2_RC_SUCCESS ∧
    Esys_PCR_SetAuthPolicy (mockLower mockOk) 3 (mockContext ESYS_STATE_INIT 0)
      0x10C 0xFF 0xFFF 0xFFF none 0xB 0 = some (TSS2_RC_SUCCESS, mockOneCallContext) ∧
    base_rc TSS2_RC_SUCCESS ≠ TSS2_BASE_RC_TRY_AGAIN :=
  ⟨by decide, by decide,
    (C13_one_call_transparent (mockLower mockOk) 3 (mockContext ESYS_STATE_INIT 0)
      0x10C 0xFF 0xFFF 0xFFF none 0xB 0 TSS2_RC_SUCCESS mockOneCallContext
      (by decide) (by decide)).1⟩

/-- C14: the one-call function is Async once, then the Finish loop.  If Async
fails, its result is returned as it is (no Finish call is made).  If Async
succeeds, then for the first Finish call number `n` (below the bound) whose
result has no try-again base code the function returns that result, with the
context that `n + 1` successive Finish calls leave and the timeout restored;
conversely every result it returns arises this way; and every one of those
Finish calls starts from a context whose timeout is -1. -/
theorem C14_one_call_is_async_then_loop (L : Lower W) (fuel : Nat) (ctx : ESYS_CONTEXT W)
    (authHandle shandle1 shandle2 shandle3 : ESYS_TR)
    (authPolicy : Option TPM2B_DIGEST) (hashAlg : TPMI_ALG_HASH) (pcrNum : TPMI_DH_PCR) :
    ((Esys_PCR_SetAuthPolicy_Async L ctx authHandle shandle1 shandle2 shandle3
        authPolicy hashAlg pcrNum).1 ≠ TSS2_RC_SUCCESS →
      Esys_PCR_SetAuthPolicy L fuel ctx authHandle shandle1 shandle2 shandle3
        authPolicy hashAlg pcrNum =
      some (Esys_PCR_SetAuthPolicy_Async L ctx authHandle shandle1 shandle2 shandle3
        authPolicy hashAlg pcrNum)) ∧
    ((Esys_PCR_SetAuthPolicy_Async L ctx authHandle shandle1 shandle2 shandle3
        authPolicy hashAlg pcrNum).1 = TSS2_RC_SUCCESS →
      ∀ n, n < fuel →
        (∀ k, k < n → base_rc (FinishRc L k
          { (Esys_PCR_SetAuthPolicy_Async L ctx authHandle shandle1 shandle2 shandle3
              authPolicy hashAlg pcrNum).2 with timeout := -1 }) = TSS2_BASE_RC_TRY_AGAIN) →
        base_rc (FinishRc L n
          { (Esys_PCR_SetAuthPolicy_Async L ctx authHandle shandle1 shandle2 shandle3
              authPolicy hashAlg pcrNum).2 with timeout := -1 }) ≠ TSS2_BASE_RC_TRY_AGAIN →
        Esys_PCR_SetAuthPolicy L fuel ctx authHandle shandle1 shandle2 shandle3
          authPolicy hashAlg pcrNum =
        some (FinishRc L n
            { (Esys_PCR_SetAuthPolicy_Async L ctx authHandle shandle1 shandle2 shandle3
                authPolicy hashAlg pcrNum).2 with timeout := -1 },
          { FinishN L (n + 1)
              { (Esys_PCR_SetAuthPolicy_Async L ctx authHandle shandle1 shandle2 shandle3
                  authPolicy hashAlg pcrNum).2 with timeout := -1 } with
            timeout := (Esys_PCR_SetAuthPolicy_Async L ctx authHandle shandle1 shandle2 shandle3
              authPolicy hashAlg pcrNum).2.timeout })) ∧
    ((Esys_PCR_SetAuthPolicy_Async L ctx authHandle shandle1 shandle2 shandle3
        authPolicy hashAlg pcrNum).1 = TSS2_RC_SUCCESS →
      ∀ r ctx1, Esys_PCR_SetAuthPolicy L fuel ctx authHandle shandle1 shandle2 shandle3
          authPolicy hashAlg pcrNum = some (r, ctx1) →
        ∃ n, n < fuel ∧
          (∀ k, k < n → base_rc (FinishRc L k
            { (Esys_PCR_SetAuthPolicy_Async L ctx authHandle shandle1 shandle2 shandle3
                authPolicy hashAlg pcrNum).2 with timeout := -1 }) = TSS2_BASE_RC_TRY_AGAIN) ∧
          r = FinishRc L n
            { (Esys_PCR_SetAuthPolicy_Async L ctx authHandle shandle1 shandle2 shandle3
                authPolicy hashAlg pcrNum).2 with timeout := -1 } ∧
          base_rc r ≠ TSS2_BASE_RC_TRY_AGAIN) ∧
    (∀ k, (FinishN L k
      { (Esys_PCR_SetAuthPolicy_Async L ctx authHandle shandle1 shandle2 shandle3
          authPolicy hashAlg pcrNum).2 with timeout := -1 }).timeout = -1) := by
  refine ⟨?_, ?_, ?_, ?_⟩
  · intro ha
    unfold Esys_PCR_SetAuthPolicy
    dsimp only
    rw [if_pos ha]
  · intro ha n hn hall hlast
    rw [one_call_of_loop L fuel ctx _ _ _ _ _ _ _ ha, finishLoop_first L n fuel _ hn hall hlast]
    rfl
  · intro ha r ctx1 hret
    rw [one_call_of_loop L fuel ctx _ _ _ _ _ _ _ ha] at hret
    cases hl : finishLoop L fuel
        { (Esys_PCR_SetAuthPolicy_Async L ctx authHandle shandle1 shandle2 shandle3
            authPolicy hashAlg pcrNum).2 with timeout := -1 } with
    | none =>
      rw [hl] at hret
      cases hret
    | some f =>
      rw [hl] at hret
      have hr : f.1 = r := congrArg Prod.fst (Option.some.inj hret)
      obtain ⟨n, hn, hall, hrc, hne, _⟩ := finishLoop_some L fuel _ f.1 f.2 hl
      rw [hr] at hrc hne
      exact ⟨n, hn, hall, hrc.symm, hne⟩
  · intro k
    rw [FinishN_timeout]

/-- C15: if `Tss2_Sys_ExecuteFinish`, `iesys_check_response` and
`Tss2_Sys_PCR_SetAuthPolicy_Complete` never return a code with base
try-again, then the Finish loop of the one-call function, started with
submission counter zero, returns within `ESYS_MAX_SUBMISSIONS + 1` calls of
Finish; so does the one-call function whenever its Async step leaves the
counter at zero. -/
theorem C15_one_call_terminates (L : Lower W)
    (hf : ∀ w t, base_rc (L.Tss2_Sys_ExecuteFinish w t).1 ≠ TSS2_BASE_RC_TRY_AGAIN)
    (hv : ∀ w, base_rc (L.iesys_check_response w).1 ≠ TSS2_BASE_RC_TRY_AGAIN)
    (hk : ∀ w, base_rc (L.Tss2_Sys_PCR_SetAuthPolicy_Complete w).1 ≠ TSS2_BASE_RC_TRY_AGAIN) :
    (∀ c : ESYS_CONTEXT W, c.submissionCount = 0 →
      ∃ res, finishLoop L (ESYS_MAX_SUBMISSIONS + 1) c = some res) ∧
    (∀ (ctx : ESYS_CONTEXT W) (authHandle shandle1 shandle2 shandle3 : ESYS_TR)
        (authPolicy : Option TPM2B_DIGEST) (hashAlg : TPMI_ALG_HASH) (pcrNum : TPMI_DH_PCR),
      (Esys_PCR_SetAuthPolicy_Async L ctx authHandle shandle1 shandle2 shandle3
        authPolicy hashAlg pcrNum).2.submissionCount = 0 →
      ∃ res, Esys_PCR_SetAuthPolicy L (ESYS_MAX_SUBMISSIONS + 1) ctx authHandle
        shandle1 shandle2 shandle3 authPolicy hashAlg pcrNum = some res) := by
  have loop : ∀ c : ESYS_CONTEXT W, c.submissionCount = 0 →
      ∃ res, finishLoop L (ESYS_MAX_SUBMISSIONS + 1) c = some res := by
    intro c hc
    apply finishLoop_terminates L hf hv hk
    rw [hc]
    simp
  refine ⟨loop, ?_⟩
  intro ctx authHandle shandle1 shandle2 shandle3 authPolicy hashAlg pcrNum hc
  by_cases ha : (Esys_PCR_SetAuthPolicy_Async L ctx authHandle shandle1 shandle2 shandle3
      authPolicy hashAlg pcrNum).1 = TSS2_RC_SUCCESS
  · rw [one_call_of_loop L _ ctx _ _ _ _ _ _ _ ha]
    obtain ⟨res, hres⟩ := loop
      { (Esys_PCR_SetAuthPolicy_Async L ctx authHandle shandle1 shandle2 shandle3
          authPolicy hashAlg pcrNum).2 with timeout := -1 } hc
    rw [hres]
    exact ⟨_, rfl⟩
  · unfold Esys_PCR_SetAuthPolicy
    dsimp only
    rw [if_pos ha]
    exact ⟨_, rfl⟩

/-- Witness of C15: the mock TPM that always reports `TPM2_RC_YIELDED`. -/
theorem C15_one_call_terminates_witness :
    (∀ w t, base_rc ((mockLower { mockOk with receive := TPM2_RC_YIELDED }).Tss2_Sys_ExecuteFinish
      w t).1 ≠ TSS2_BASE_RC_TRY_AGAIN) ∧
    (∀ w, base_rc ((mockLower { mockOk with receive := TPM2_RC_YIELDED }).iesys_check_response
      w).1 ≠ TSS2_BASE_RC_TRY_AGAIN) ∧
    (∀ w, base_rc ((mockLower
      { mockOk with receive := TPM2_RC_YIELDED }).Tss2_Sys_PCR_SetAuthPolicy_Complete
      w).1 ≠ TSS2_BASE_RC_TRY_AGAIN) ∧
    (mockContext ESYS_STATE_SENT 0).submissionCount = 0 ∧
    ∃ res, finishLoop (mockLower { mockOk with receive := TPM2_RC_YIELDED })
      (ESYS_MAX_SUBMISSIONS + 1) (mockContext ESYS_STATE_SENT 0) = some res :=
  ⟨fun _ _ => base_rc_resubmission_codes.2.2, fun _ => base_rc_SUCCESS,
   fun _ => base_rc_SUCCESS, rfl,
   (C15_one_call_terminates (mockLower { mockOk with receive := TPM2_RC_YIELDED })
      (fun _ _ => base_rc_resubmission_codes.2.2) (fun _ => base_rc_SUCCESS)
      (fun _ => base_rc_SUCCESS)).1 (mockContext ESYS_STATE_SENT 0) rfl⟩

/-- C16: for every Async call that passes the sequence guard and the session
check, if `esys_GetResourceObject` fails for `authHandle` then Async returns
that error, the only calls recorded are the session check and the failed
resolution (`Tss2_Sys_PCR_SetAuthPolicy_Prepare` is not invoked and nothing
is dispatched), the lower state with the command buffer is as the resolution
left it, and the state is Init. -/
theorem C16_handle_must_resolve (L : Lower W) (ctx : ESYS_CONTEXT W)
    (authHandle shandle1 shandle2 shandle3 : ESYS_TR)
    (authPolicy : Option TPM2B_DIGEST) (hashAlg : TPMI_ALG_HASH) (pcrNum : TPMI_DH_PCR)
    (hseq : (iesys_check_sequence_async ctx).1 = TSS2_RC_SUCCESS)
    (hfeas : L.check_session_feasibility shandle1 shandle2 shandle3 1 = TSS2_RC_SUCCESS)
    (hres : (L.esys_GetResourceObject ctx.lower authHandle).1 ≠ TSS2_RC_SUCCESS) :
    (Esys_PCR_SetAuthPolicy_Async L ctx authHandle shandle1 shandle2 shandle3
      authPolicy hashAlg pcrNum).1 = (L.esys_GetResourceObject ctx.lower authHandle).1 ∧
    (Esys_PCR_SetAuthPolicy_Async L ctx authHandle shandle1 shandle2 shandle3
      authPolicy hashAlg pcrNum).2.calls = ctx.calls ++
        [.check_session_feasibility shandle1 shandle2 shandle3 1 TSS2_RC_SUCCESS,
         .esys_GetResourceObject authHandle (L.esys_GetResourceObject ctx.lower authHandle).1] ∧
    (∀ x ∈ (Esys_PCR_SetAuthPolicy_Async L ctx authHandle shandle1 shandle2 shandle3
      authPolicy hashAlg pcrNum).2.calls.drop ctx.calls.length,
        x.isPrepare = false ∧ x.isExecuteAsync = false) ∧
    (Esys_PCR_SetAuthPolicy_Async L ctx authHandle shandle1 shandle2 shandle3
      authPolicy hashAlg pcrNum).2.lower = (L.esys_GetResourceObject ctx.lower authHandle).2.2 ∧
    (Esys_PCR_SetAuthPolicy_Async L ctx authHandle shandle1 shandle2 shandle3
      authPolicy hashAlg pcrNum).2.state = ESYS_STATE_INIT := by
  have hinit := (check_sequence_async_success_iff ctx).mp hseq
  rw [Async_of_init L ctx _ _ _ _ _ _ _ hinit]
  unfold Async_checkSessions
  dsimp only
  rw [if_neg (not_not_intro hfeas)]
  unfold Async_getResourceObject
  simp only [ESYS_CONTEXT.did, return_state]
  rw [if_pos hres]
  refine ⟨rfl, by simp [hfeas], ?_, rfl, rfl⟩
  intro x hx
  simp at hx
  rcases hx with rfl | rfl <;> exact ⟨rfl, rfl⟩

/-- Witness of C16: the handle `0x1234` is unknown to the mock context, which
answers `TSS2_ESYS_RC_BAD_TR`. -/
theorem C16_handle_must_resolve_witness :
    (iesys_check_sequence_async (mockContext ESYS_STATE_INIT 0)).1 = TSS2_RC_SUCCESS ∧
    (mockLower { mockOk with getResource := TSS2_ESYS_RC_BAD_TR }).check_session_feasibility
      0xFF 0xFFF 0xFFF 1 = TSS2_RC_SUCCESS ∧
    ((mockLower { mockOk with getResource := TSS2_ESYS_RC_BAD_TR }).esys_GetResourceObject
      (mockContext ESYS_STATE_INIT 0).lower 0x1234).1 ≠ TSS2_RC_SUCCESS ∧
    (Esys_PCR_SetAuthPolicy_Async (mockLower { mockOk with getResource := TSS2_ESYS_RC_BAD_TR })
      (mockContext ESYS_STATE_INIT 0) 0x1234 0xFF 0xFFF 0xFFF none 0xB 0).1 =
        TSS2_ESYS_RC_BAD_TR ∧
    (Esys_PCR_SetAuthPolicy_Async (mockLower { mockOk with getResource := TSS2_ESYS_RC_BAD_TR })
      (mockContext ESYS_STATE_INIT 0) 0x1234 0xFF 0xFFF 0xFFF none 0xB 0).2.state =
        ESYS_STATE_INIT :=
  ⟨by decide, rfl, by decide,
   (C16_handle_must_resolve (mockLower { mockOk with getResource := TSS2_ESYS_RC_BAD_TR })
      (mockContext ESYS_STATE_INIT 0) 0x1234 0xFF 0xFFF 0xFFF none 0xB 0
      (by decide) rfl (by decide)).1,
   (C16_handle_must_resolve (mockLower { mockOk with getResource := TSS2_ESYS_RC_BAD_TR })
      (mockContext ESYS_STATE_INIT 0) 0x1234 0xFF 0xFFF 0xFFF none 0xB 0
      (by decide) rfl (by decide)).2.2.2.2⟩

/-- C20: after every Async call that passes the sequence guard, whatever the
submission counter held before and on whichever path Async returns, the
submission counter is 0. -/
theorem C20_counter_reset (L : Lower W) (ctx : ESYS_CONTEXT W)
    (authHandle shandle1 shandle2 shandle3 : ESYS_TR)
    (authPolicy : Option TPM2B_DIGEST) (hashAlg : TPMI_ALG_HASH) (pcrNum : TPMI_DH_PCR)
    (hseq : (iesys_check_sequence_async ctx).1 = TSS2_RC_SUCCESS) :
    (Esys_PCR_SetAuthPolicy_Async L ctx authHandle shandle1 shandle2 shandle3
      authPolicy hashAlg pcrNum).2.submissionCount = 0 := by
  have hinit := (check_sequence_async_success_iff ctx).mp hseq
  rw [Async_of_init L ctx _ _ _ _ _ _ _ hinit]
  obtain ⟨_, _, _, _, _, _, _, _, h7, _⟩ :=
    Async_checkSessions_tail L
      { ctx with state := ESYS_STATE_INTERNALERROR, submissionCount := 0 }
      authHandle shandle1 shandle2 shandle3 authPolicy hashAlg pcrNum
  exact h7

/-- Witness of C20: a context whose counter held 5 before Async. -/
theorem C20_counter_reset_witness :
    (iesys_check_sequence_async (mockContext ESYS_STATE_INIT 5)).1 = TSS2_RC_SUCCESS ∧
    (Esys_PCR_SetAuthPolicy_Async (mockLower mockOk) (mockContext ESYS_STATE_INIT 5)
      0x10C 0xFF 0xFFF 0xFFF none 0xB 0).2.submissionCount = 0 :=
  ⟨by decide, C20_counter_reset _ _ _ _ _ _ _ _ _ (by decide)⟩

/-! ## The claims on the session engine -/

theorem Async_dispatch_calls (L : Lower W) (c : ESYS_CONTEXT W) :
    (Async_dispatch L c).2.calls =
      c.calls ++ [.Tss2_Sys_ExecuteAsync (L.Tss2_Sys_ExecuteAsync c.lower).1] := by
  unfold Async_dispatch
  simp only [ESYS_CONTEXT.did, return_state]
  split_ifs <;> rfl

theorem compute_session_value_spec_head (s : SessionSlot) (rest : List SessionSlot)
    (slot : Nat) (name auth : Option (List Nat)) :
    ∃ rest1, iesys_compute_session_value_spec (s :: rest) (slot + 1) name auth = s :: rest1 := by
  unfold iesys_compute_session_value_spec
  cases h : (s :: rest)[slot + 1]? with
  | none => exact ⟨rest, rfl⟩
  | some t => exact ⟨rest.set slot { t with sessionValue := session_value t auth }, rfl⟩

theorem genAuths_password (L : Lower (List SessionSlot))
    (hmacOf : SessionSlot → List Nat) (c : ESYS_CONTEXT (List SessionSlot))
    (authHandleNode : Option RSRC_NODE_T) (s : SessionSlot) (rest : List SessionSlot)
    (hgen : L.iesys_gen_auths = iesys_gen_auths_spec hmacOf)
    (hlow : c.lower = s :: rest) (hpw : s.kind = SessionKind.password) :
    ∃ auths rc tail,
      Call.Tss2_Sys_SetCmdAuths auths rc ∈ (Async_genAuths L c authHandleNode).2.calls ∧
      auths.auths = auth_entry hmacOf s :: tail := by
  have hf : List.filter (fun t => t.kind != SessionKind.unused) (s :: rest) =
      s :: List.filter (fun t => t.kind != SessionKind.unused) rest := by
    rw [List.filter_cons]
    simp [hpw]
  unfold Async_genAuths Async_setCmdAuths
  simp only [ESYS_CONTEXT.did, return_state, hgen, hlow, iesys_gen_auths_spec, hf,
    List.map_cons, List.length_cons]
  refine ⟨{ count := (List.filter (fun t => t.kind != SessionKind.unused) rest).length + 1,
            auths := auth_entry hmacOf s ::
              List.map (auth_entry hmacOf)
                (List.filter (fun t => t.kind != SessionKind.unused) rest) },
          (L.Tss2_Sys_SetCmdAuths (s :: rest)
            { count := (List.filter (fun t => t.kind != SessionKind.unused) rest).length + 1,
              auths := auth_entry hmacOf s ::
                List.map (auth_entry hmacOf)
                  (List.filter (fun t => t.kind != SessionKind.unused) rest) }).1,
          List.map (auth_entry hmacOf)
            (List.filter (fun t => t.kind != SessionKind.unused) rest), ?_, rfl⟩
  split_ifs with h1 h2 h3
  · exact absurd rfl h1
  · simp
  · rw [Async_dispatch_calls]
    simp
  · exact absurd (Nat.succ_pos _) h2

theorem sessionValues_password (L : Lower (List SessionSlot))
    (hmacOf : SessionSlot → List Nat) (c : ESYS_CONTEXT (List SessionSlot))
    (node : RSRC_NODE_T) (s0 : SessionSlot) (rest : List SessionSlot)
    (hcsv : L.iesys_compute_session_value = iesys_compute_session_value_spec)
    (hgen : L.iesys_gen_auths = iesys_gen_auths_spec hmacOf)
    (hlow : c.lower = s0 :: rest) (hpw : s0.kind = SessionKind.password) :
    ∃ auths rc entry tail,
      Call.Tss2_Sys_SetCmdAuths auths rc ∈ (Async_sessionValues L c (some node)).2.calls ∧
      auths.auths = entry :: tail ∧ entry.hmac = node.auth ∧
      entry.sessionHandle = s0.sessionHandle := by
  have h0 : iesys_compute_session_value_spec (s0 :: rest) 0 (some node.name) (some node.auth) =
      { s0 with sessionValue := node.auth } :: rest := by
    simp [iesys_compute_session_value_spec, session_value, hpw]
  obtain ⟨rest1, h1⟩ : ∃ rest1, iesys_compute_session_value_spec
      ({ s0 with sessionValue := node.auth } :: rest) 1 none none =
        { s0 with sessionValue := node.auth } :: rest1 :=
    compute_session_value_spec_head _ rest 0 none none
  obtain ⟨rest2, h2⟩ : ∃ rest2, iesys_compute_session_value_spec
      ({ s0 with sessionValue := node.auth } :: rest1) 2 none none =
        { s0 with sessionValue := node.auth } :: rest2 :=
    compute_session_value_spec_head _ rest1 1 none none
  unfold Async_sessionValues
  dsimp only [ESYS_CONTEXT.did, Option.map]
  rw [hcsv, hlow, h0, h1, h2]
  obtain ⟨auths, rc, tail, hmem, hau⟩ := genAuths_password L hmacOf
    { c with
      lower := { s0 with sessionValue := node.auth } :: rest2
      calls := c.calls ++ [Call.iesys_compute_session_value 0 (some node.name) (some node.auth)]
        ++ [Call.iesys_compute_session_value 1 none none]
        ++ [Call.iesys_compute_session_value 2 none none] }
    (some node) { s0 with sessionValue := node.auth } rest2 hgen rfl hpw
  refine ⟨auths, rc, _, tail, hmem, hau, ?_, rfl⟩
  simp [auth_entry, hpw]

/-! ## The session check of Async -/

/-- C18 (evaluation of the code): `authHandle` is `ESYS_TR_NONE` (`0xFFF`) and
`esys_GetResourceObject` resolves it to no node with success, the case lines
181-183 and 190-194 provide for.  Async does not return
`TSS2_ESYS_RC_BAD_TR`: it invokes `Tss2_Sys_PCR_SetAuthPolicy_Prepare` with
`TPM2_RH_NULL`, dispatches the command and returns success in state Sent. -/
theorem C18_none_handle_is_marshaled :
    (Esys_PCR_SetAuthPolicy_Async (mockLower { mockOk with node := none })
      (mockContext ESYS_STATE_INIT 0) 0xFFF 0xFF 0xFFF 0xFFF none 0xB 0).1 = TSS2_RC_SUCCESS ∧
    (Esys_PCR_SetAuthPolicy_Async (mockLower { mockOk with node := none })
      (mockContext ESYS_STATE_INIT 0) 0xFFF 0xFF 0xFFF 0xFFF none 0xB 0).1 ≠
        TSS2_ESYS_RC_BAD_TR ∧
    (Esys_PCR_SetAuthPolicy_Async (mockLower { mockOk with node := none })
      (mockContext ESYS_STATE_INIT 0) 0xFFF 0xFF 0xFFF 0xFFF none 0xB 0).2.state =
        ESYS_STATE_SENT ∧
    Call.Tss2_Sys_PCR_SetAuthPolicy_Prepare TPM2_RH_NULL none 0xB 0 TSS2_RC_SUCCESS ∈
      (Esys_PCR_SetAuthPolicy_Async (mockLower { mockOk with node := none })
        (mockContext ESYS_STATE_INIT 0) 0xFFF 0xFF 0xFFF 0xFFF none 0xB 0).2.calls ∧
    Call.Tss2_Sys_ExecuteAsync TSS2_RC_SUCCESS ∈
      (Esys_PCR_SetAuthPolicy_Async (mockLower { mockOk with node := none })
        (mockContext ESYS_STATE_INIT 0) 0xFFF 0xFF 0xFFF 0xFFF none 0xB 0).2.calls := by
  decide

/-- C19: with the session engine the spec describes, for every Async call that
passes the sequence guard and the session check, whose `authHandle` resolves to
an object with stored auth value `a` (of any length), whose Prepare succeeds
and whose session table has a password session in slot 0: Async hands to
`Tss2_Sys_SetCmdAuths` an authorization area whose first entry, the one of
that session, has exactly the bytes of `a` as its auth value. -/
theorem C19_password_in_clear (L : Lower (List SessionSlot))
    (hmacOf : SessionSlot → List Nat) (ctx : ESYS_CONTEXT (List SessionSlot))
    (authHandle shandle1 shandle2 shandle3 : ESYS_TR)
    (authPolicy : Option TPM2B_DIGEST) (hashAlg : TPMI_ALG_HASH) (pcrNum : TPMI_DH_PCR)
    (node : RSRC_NODE_T) (w1 w2 : List SessionSlot) (s0 : SessionSlot) (rest : List SessionSlot)
    (hseq : (iesys_check_sequence_async ctx).1 = TSS2_RC_SUCCESS)
    (hcsv : L.iesys_compute_session_value = iesys_compute_session_value_spec)
    (hgen : L.iesys_gen_auths = iesys_gen_auths_spec hmacOf)
    (hfeas : L.check_session_feasibility shandle1 shandle2 shandle3 1 = TSS2_RC_SUCCESS)
    (hres : L.esys_GetResourceObject ctx.lower authHandle = (TSS2_RC_SUCCESS, some node, w1))
    (hprep : L.Tss2_Sys_PCR_SetAuthPolicy_Prepare w1 node.handle authPolicy hashAlg pcrNum =
      (TSS2_RC_SUCCESS, w2))
    (htab : L.init_session_tab w2 shandle1 shandle2 shandle3 = (TSS2_RC_SUCCESS, s0 :: rest))
    (hpw : s0.kind = SessionKind.password) :
    ∃ auths rc entry tail,
      Call.Tss2_Sys_SetCmdAuths auths rc ∈
        (Esys_PCR_SetAuthPolicy_Async L ctx authHandle shandle1 shandle2 shandle3
          authPolicy hashAlg pcrNum).2.calls ∧
      auths.auths = entry :: tail ∧ entry.hmac = node.auth ∧
      entry.sessionHandle = s0.sessionHandle := by
  have hinit := (check_sequence_async_success_iff ctx).mp hseq
  rw [Async_of_init L ctx _ _ _ _ _ _ _ hinit]
  simp only [Async_checkSessions, Async_getResourceObject, Async_prepare, Async_initSessionTab,
    ESYS_CONTEXT.did, return_state, hfeas, hres, hprep, htab, ne_eq, not_true_eq_false,
    if_false]
  exact sessionValues_password L hmacOf _ node s0 rest hcsv hgen rfl hpw

/-- Witness of C19: the auth value `{1,2,3,4,5}` of the HMAC integration test,
authorized with a password session. -/
theorem C19_password_in_clear_witness :
    (iesys_check_sequence_async mockSessionContext).1 = TSS2_RC_SUCCESS ∧
    passwordSlot.kind = SessionKind.password ∧
    ∃ auths rc entry tail,
      Call.Tss2_Sys_SetCmdAuths auths rc ∈
        (Esys_PCR_SetAuthPolicy_Async mockSessionLower mockSessionContext
          0x200 0xFF 0xFFF 0xFFF none 0xB 0).2.calls ∧
      auths.auths = entry :: tail ∧ entry.hmac = [1, 2, 3, 4, 5] ∧
      entry.sessionHandle = passwordSlot.sessionHandle :=
  ⟨by decide, rfl,
   C19_password_in_clear mockSessionLower (fun _ => []) mockSessionContext
     0x200 0xFF 0xFFF 0xFFF none 0xB 0
     { handle := 0x80000000, name := [0, 0xB], auth := [1, 2, 3, 4, 5] } [] []
     passwordSlot [unusedSlot, unusedSlot]
     (by decide) rfl rfl rfl rfl rfl rfl rfl⟩

/-! ## The marshal calls and the buffer -/

theorem INSUFFICIENT_BUFFER_ne_zero : TSS2_MU_RC_INSUFFICIENT_BUFFER ≠ 0 := by decide

theorem marshal_ok (c : TSS2_SYS_CONTEXT_BLOB) (bytes : List Nat)
    (h : c.nextData + bytes.length ≤ c.maxCmdSize) :
    c.marshal (marshal_bytes bytes) =
      (0, { c with cmdBuffer := writeAt c.cmdBuffer c.nextData bytes,
                   nextData := c.nextData + bytes.length,
                   muCalls := c.muCalls ++ [0] }) := by
  unfold TSS2_SYS_CONTEXT_BLOB.marshal marshal_bytes
  rw [if_neg (by omega)]
  rfl

theorem marshal_fail (c : TSS2_SYS_CONTEXT_BLOB) (bytes : List Nat)
    (h : c.maxCmdSize < c.nextData + bytes.length) :
    c.marshal (marshal_bytes bytes) =
      (TSS2_MU_RC_INSUFFICIENT_BUFFER,
       { c with muCalls := c.muCalls ++ [TSS2_MU_RC_INSUFFICIENT_BUFFER] }) := by
  unfold TSS2_SYS_CONTEXT_BLOB.marshal marshal_bytes
  rw [if_pos (by omega)]

theorem writeAt_take (buffer : List Nat) (offset : Nat) (bytes : List Nat)
    (h : offset ≤ buffer.length) :
    (writeAt buffer offset bytes).take (offset + bytes.length) = buffer.take offset ++ bytes := by
  unfold writeAt
  rw [List.take_append_of_le_length (by simp; omega)]
  rw [List.take_of_length_le (by simp)]

theorem writeAt_length (buffer : List Nat) (offset : Nat) (bytes : List Nat)
    (h : offset ≤ buffer.length) :
    offset + bytes.length ≤ (writeAt buffer offset bytes).length := by
  unfold writeAt
  simp
  omega

theorem writeAt_take_before (buffer : List Nat) (offset : Nat) (bytes : List Nat) (n : Nat)
    (h : offset ≤ buffer.length) (hn : n ≤ offset) :
    (writeAt buffer offset bytes).take n = buffer.take n := by
  unfold writeAt
  rw [List.append_assoc, List.take_append_of_le_length (by simp; omega)]
  rw [List.take_take, Nat.min_eq_left hn]

theorem take_writeAt (buffer : List Nat) (offset : Nat) (bytes : List Nat) (n : Nat)
    (h : offset + bytes.length ≤ n) (hn : n ≤ buffer.length) :
    (writeAt buffer offset bytes).take n = writeAt (buffer.take n) offset bytes := by
  unfold writeAt
  have h1 : (List.take offset buffer ++ bytes).length = offset + bytes.length := by
    simp; omega
  rw [List.take_append_eq_append_take, h1,
    List.take_of_length_le (by omega), List.take_take, Nat.min_eq_left (by omega),
    List.drop_take]
  

theorem stepsBytes_cons (step : Bool × List Nat) (rest : List (Bool × List Nat)) :
    stepsBytes (step :: rest) = step.2 ++ stepsBytes rest := rfl

theorem prepareSteps_cons (d e a : Nat) (step : Bool × List Nat) (rest : List (Bool × List Nat))
    (c : TSS2_SYS_CONTEXT_BLOB) :
    prepareSteps d e a (step :: rest) c =
      thenOnSuccess
        ((if step.1 then { c with decryptNull := 1 } else c).marshal (marshal_bytes step.2))
        (prepareSteps d e a rest) := rfl

theorem prepareSteps_ok (d e a : Nat) :
    ∀ (steps : List (Bool × List Nat)) (c : TSS2_SYS_CONTEXT_BLOB),
      c.nextData + (stepsBytes steps).length ≤ c.maxCmdSize →
      c.nextData ≤ c.cmdBuffer.length → 6 ≤ c.nextData →
      (prepareSteps d e a steps c).1 = 0 ∧
      (prepareSteps d e a steps c).2.nextData = c.nextData + (stepsBytes steps).length ∧
      (prepareSteps d e a steps c).2.cmdBuffer.take (c.nextData + (stepsBytes steps).length) =
        writeAt (c.cmdBuffer.take c.nextData ++ stepsBytes steps) 2
          (UINT32_bytes (c.nextData + (stepsBytes steps).length)) ∧
      capabilityFlags (prepareSteps d e a steps c).2 = (d, e, a) ∧
      (prepareSteps d e a steps c).2.previousStage = CMD_STAGE_PREPARE ∧
      (prepareSteps d e a steps c).2.decryptNull =
        (if steps.any (fun s => s.1) then 1 else c.decryptNull) ∧
      (prepareSteps d e a steps c).2.commandCode = c.commandCode
  | [], c, _, hlen, h6 => by
    have hb : (UINT32_bytes c.nextData).length = 4 := rfl
    refine ⟨rfl, rfl, ?_, rfl, rfl, rfl, rfl⟩
    show (writeAt c.cmdBuffer 2 (UINT32_bytes c.nextData)).take (c.nextData + 0) = _
    rw [Nat.add_zero, take_writeAt _ _ _ _ (by omega) hlen]
    simp [stepsBytes]
  | step :: rest, c, hcap, hlen, h6 => by
    rw [stepsBytes_cons, List.length_append] at hcap
    obtain ⟨nul, bytes⟩ := step
    have key : ∀ c1 : TSS2_SYS_CONTEXT_BLOB, c1.nextData = c.nextData →
        c1.maxCmdSize = c.maxCmdSize → c1.cmdBuffer = c.cmdBuffer →
        c1.commandCode = c.commandCode →
        (thenOnSuccess (c1.marshal (marshal_bytes bytes)) (prepareSteps d e a rest)).1 = 0 ∧
        (thenOnSuccess (c1.marshal (marshal_bytes bytes)) (prepareSteps d e a rest)).2.nextData =
          c.nextData + (stepsBytes ((nul, bytes) :: rest)).length ∧
        (thenOnSuccess (c1.marshal (marshal_bytes bytes)) (prepareSteps d e a rest)).2.cmdBuffer.take
            (c.nextData + (stepsBytes ((nul, bytes) :: rest)).length) =
          writeAt (c.cmdBuffer.take c.nextData ++ stepsBytes ((nul, bytes) :: rest)) 2
            (UINT32_bytes (c.nextData + (stepsBytes ((nul, bytes) :: rest)).length)) ∧
        capabilityFlags
          (thenOnSuccess (c1.marshal (marshal_bytes bytes)) (prepareSteps d e a rest)).2 =
            (d, e, a) ∧
        (thenOnSuccess (c1.marshal (marshal_bytes bytes))
          (prepareSteps d e a rest)).2.previousStage = CMD_STAGE_PREPARE ∧
        (thenOnSuccess (c1.marshal (marshal_bytes bytes))
          (prepareSteps d e a rest)).2.decryptNull =
            (if rest.any (fun s => s.1) then 1 else c1.decryptNull) ∧
        (thenOnSuccess (c1.marshal (marshal_bytes bytes))
          (prepareSteps d e a rest)).2.commandCode = c.commandCode := by
      intro c1 hn hm hbuf hcc
      have hcap1 : c1.nextData + bytes.length ≤ c1.maxCmdSize := by
        rw [hn, hm]; simp only at hcap; omega
      rw [marshal_ok c1 bytes hcap1]
      unfold thenOnSuccess
      rw [if_neg (by simp)]
      have ih := prepareSteps_ok d e a rest
        { c1 with cmdBuffer := writeAt c1.cmdBuffer c1.nextData bytes,
                  nextData := c1.nextData + bytes.length,
                  muCalls := c1.muCalls ++ [0] }
        (by simp only [hn, hm]; simp only at hcap; omega)
        (by simp only; exact writeAt_length _ _ _ (by rw [hn, hbuf]; exact hlen))
        (by simp only; omega)
      simp only at ih
      rw [stepsBytes_cons, List.length_append]
      simp only
      rw [writeAt_take _ _ _ (by rw [hn, hbuf]; exact hlen)] at ih
      simp only [hn, hbuf] at ih ⊢
      rw [Nat.add_assoc] at ih
      rw [← List.append_assoc]
      refine ⟨ih.1, ih.2.1, ih.2.2.1, ih.2.2.2.1, ih.2.2.2.2.1, ih.2.2.2.2.2.1, ?_⟩
      rw [ih.2.2.2.2.2.2, hcc]
    rw [prepareSteps_cons]
    cases nul
    · have := key c rfl rfl rfl rfl
      simpa using this
    · have := key { c with decryptNull := 1 } rfl rfl rfl rfl
      simpa using this

theorem prepareSteps_fail (d e a : Nat) :
    ∀ (steps : List (Bool × List Nat)) (c : TSS2_SYS_CONTEXT_BLOB),
      c.maxCmdSize < c.nextData + (stepsBytes steps).length →
      c.nextData ≤ c.maxCmdSize → c.nextData ≤ c.cmdBuffer.length →
      (prepareSteps d e a steps c).1 = TSS2_MU_RC_INSUFFICIENT_BUFFER ∧
      (∃ k, (prepareSteps d e a steps c).2.muCalls =
        c.muCalls ++ List.replicate k 0 ++ [TSS2_MU_RC_INSUFFICIENT_BUFFER]) ∧
      capabilityFlags (prepareSteps d e a steps c).2 = capabilityFlags c ∧
      (prepareSteps d e a steps c).2.previousStage = c.previousStage ∧
      (prepareSteps d e a steps c).2.cmdBuffer.take c.nextData = c.cmdBuffer.take c.nextData
  | [], c, hcap, hmax, _ => by
    simp [stepsBytes] at hcap
    omega
  | step :: rest, c, hcap, hmax, hlen => by
    rw [stepsBytes_cons, List.length_append] at hcap
    obtain ⟨nul, bytes⟩ := step
    have key : ∀ c1 : TSS2_SYS_CONTEXT_BLOB, c1.nextData = c.nextData →
        c1.maxCmdSize = c.maxCmdSize → c1.cmdBuffer = c.cmdBuffer →
        c1.muCalls = c.muCalls → capabilityFlags c1 = capabilityFlags c →
        c1.previousStage = c.previousStage →
        (thenOnSuccess (c1.marshal (marshal_bytes bytes)) (prepareSteps d e a rest)).1 =
          TSS2_MU_RC_INSUFFICIENT_BUFFER ∧
        (∃ k, (thenOnSuccess (c1.marshal (marshal_bytes bytes))
          (prepareSteps d e a rest)).2.muCalls =
            c.muCalls ++ List.replicate k 0 ++ [TSS2_MU_RC_INSUFFICIENT_BUFFER]) ∧
        capabilityFlags
          (thenOnSuccess (c1.marshal (marshal_bytes bytes)) (prepareSteps d e a rest)).2 =
            capabilityFlags c ∧
        (thenOnSuccess (c1.marshal (marshal_bytes bytes))
          (prepareSteps d e a rest)).2.previousStage = c.previousStage ∧
        (thenOnSuccess (c1.marshal (marshal_bytes bytes))
          (prepareSteps d e a rest)).2.cmdBuffer.take c.nextData = c.cmdBuffer.take c.nextData := by
      intro c1 hn hm hbuf hmu hfl hst
      by_cases hstep : c1.nextData + bytes.length ≤ c1.maxCmdSize
      · rw [marshal_ok c1 bytes hstep]
        unfold thenOnSuccess
        rw [if_neg (by simp)]
        have ih := prepareSteps_fail d e a rest
          { c1 with cmdBuffer := writeAt c1.cmdBuffer c1.nextData bytes,
                    nextData := c1.nextData + bytes.length,
                    muCalls := c1.muCalls ++ [0] }
          (by simp only [hn, hm]; simp only at hcap; omega)
          (by simp only; exact hstep)
          (by simp only; exact writeAt_length _ _ _ (by rw [hn, hbuf]; exact hlen))
        simp only at ih
        obtain ⟨k, hk⟩ := ih.2.1
        refine ⟨ih.1, ⟨k + 1, ?_⟩, ?_, ?_, ?_⟩
        · simp only
          rw [hk, hmu, List.replicate_succ]
          simp
        · simp only
          rw [ih.2.2.1, ← hfl]
          rfl
        · simp only
          rw [ih.2.2.2.1, hst]
        · have h2 := congrArg (List.take c.nextData) ih.2.2.2.2
          rw [List.take_take, List.take_take, Nat.min_eq_left (by omega),
            writeAt_take_before _ _ _ _ (by rw [hn, hbuf]; exact hlen) (by omega)] at h2
          simp only
          rw [h2, hbuf]
      · rw [marshal_fail c1 bytes (by omega)]
        unfold thenOnSuccess
        rw [if_pos INSUFFICIENT_BUFFER_ne_zero]
        refine ⟨rfl, ⟨0, ?_⟩, ?_, ?_, ?_⟩
        · simp only
          rw [hmu]
          simp
        · rw [← hfl]
          rfl
        · exact hst
        · simp only
          rw [hbuf]
    rw [prepareSteps_cons]
    cases nul
    · exact key c rfl rfl rfl rfl rfl rfl
    · exact key { c with decryptNull := 1 } rfl rfl rfl rfl rfl rfl

theorem prologue_ok (ctx : TSS2_SYS_CONTEXT_BLOB) (commandCode : Nat)
    (h : 10 ≤ ctx.maxCmdSize) :
    CommonPreparePrologue ctx commandCode =
      (0, { ctx with decryptAllowed := 0, encryptAllowed := 0, authAllowed := 0, decryptNull := 0,
                     cmdBuffer := UINT16_bytes TPM2_ST_NO_SESSIONS ++ [0, 0, 0, 0] ++
                       UINT32_bytes commandCode ++ ctx.cmdBuffer.drop 10,
                     nextData := 10, muCalls := [0], commandCode := commandCode }) := by
  unfold CommonPreparePrologue
  simp only
  rw [marshal_ok _ _ (by simp [UINT16_bytes, UINT32_bytes]; omega)]
  rw [if_neg (by simp [TSS2_RC_SUCCESS])]
  simp [writeAt, UINT16_bytes, UINT32_bytes, TSS2_RC_SUCCESS]

theorem prologue_fail (ctx : TSS2_SYS_CONTEXT_BLOB) (commandCode : Nat)
    (h : ctx.maxCmdSize < 10) :
    CommonPreparePrologue ctx commandCode =
      (TSS2_MU_RC_INSUFFICIENT_BUFFER,
       { ctx with decryptAllowed := 0, encryptAllowed := 0, authAllowed := 0, decryptNull := 0,
                  nextData := 0, muCalls := [TSS2_MU_RC_INSUFFICIENT_BUFFER] }) := by
  unfold CommonPreparePrologue
  simp only
  rw [marshal_fail _ _ (by simp [UINT16_bytes, UINT32_bytes]; omega)]
  rw [if_pos (by simpa [TSS2_RC_SUCCESS] using INSUFFICIENT_BUFFER_ne_zero)]
  simp

theorem size_field_of_take (l m : List Nat) (h : l.take 10 = m.take 10) :
    (l.drop 2).take 4 = (m.drop 2).take 4 := by
  have h1 : ∀ x : List Nat, (x.drop 2).take 4 = ((x.take 10).drop 2).take 4 := by
    intro x
    rw [List.drop_take, List.take_take]
    rfl
  rw [h1 l, h1 m, h]

theorem prepareGeneric_ok (commandCode : Nat) (steps : List (Bool × List Nat)) (d e a : Nat)
    (ctx : TSS2_SYS_CONTEXT_BLOB) (h : 10 + (stepsBytes steps).length ≤ ctx.maxCmdSize) :
    (prepareGeneric commandCode steps d e a ctx).1 = 0 ∧
    Prepared commandCode (stepsBytes steps) (d, e, a)
      ((prepareGeneric commandCode steps d e a ctx).1,
       some (prepareGeneric commandCode steps d e a ctx).2) ∧
    (prepareGeneric commandCode steps d e a ctx).2.decryptNull =
      (if steps.any (fun s => s.1) then 1 else 0) := by
  unfold prepareGeneric
  rw [prologue_ok ctx commandCode (by omega)]
  unfold thenOnSuccess
  rw [if_neg (by simp)]
  have hs := prepareSteps_ok d e a steps
    { ctx with decryptAllowed := 0, encryptAllowed := 0, authAllowed := 0, decryptNull := 0,
               cmdBuffer := UINT16_bytes TPM2_ST_NO_SESSIONS ++ [0, 0, 0, 0] ++
                 UINT32_bytes commandCode ++ ctx.cmdBuffer.drop 10,
               nextData := 10, muCalls := [0], commandCode := commandCode }
    (by simp only; exact h)
    (by simp [UINT16_bytes, UINT32_bytes])
    (by simp only; omega)
  simp only at hs
  refine ⟨hs.1, ⟨_, rfl, hs.2.1, ?_, hs.2.2.2.1, hs.2.2.2.2.1⟩, hs.2.2.2.2.2.1⟩
  rw [hs.2.1, hs.2.2.1]
  simp [writeAt, UINT16_bytes, UINT32_bytes, command_header]

theorem prepareGeneric_fail (commandCode : Nat) (steps : List (Bool × List Nat)) (d e a : Nat)
    (ctx : TSS2_SYS_CONTEXT_BLOB) (h : ctx.maxCmdSize < 10 + (stepsBytes steps).length) :
    Aborted ctx commandCode
      ((prepareGeneric commandCode steps d e a ctx).1,
       some (prepareGeneric commandCode steps d e a ctx).2) := by
  by_cases h10 : 10 ≤ ctx.maxCmdSize
  · have hp := prologue_ok ctx commandCode h10
    have hs := prepareSteps_fail d e a steps
      { ctx with decryptAllowed := 0, encryptAllowed := 0, authAllowed := 0, decryptNull := 0,
                 cmdBuffer := UINT16_bytes TPM2_ST_NO_SESSIONS ++ [0, 0, 0, 0] ++
                   UINT32_bytes commandCode ++ ctx.cmdBuffer.drop 10,
                 nextData := 10, muCalls := [0], commandCode := commandCode }
      (by simp only; exact h)
      (by simp only; exact h10)
      (by simp [UINT16_bytes, UINT32_bytes])
    simp only at hs
    unfold Aborted prepareGeneric
    rw [hp]
    unfold thenOnSuccess
    rw [if_neg (by simp)]
    obtain ⟨k, hk⟩ := hs.2.1
    refine ⟨hs.1, _, rfl, ⟨k + 1, ?_⟩, ?_, ?_, ?_⟩
    · simp only
      rw [hk, hs.1, List.replicate_succ]
      rfl
    · rw [hs.2.2.1]
      rfl
    · exact size_field_of_take _ _ hs.2.2.2.2
    · exact hs.2.2.2.1
  · have hp := prologue_fail ctx commandCode (by omega)
    unfold Aborted prepareGeneric
    rw [hp]
    unfold thenOnSuccess
    rw [if_pos INSUFFICIENT_BUFFER_ne_zero]
    exact ⟨rfl, _, rfl, ⟨0, rfl⟩, rfl, rfl, rfl⟩

theorem prepareGeneric_success (commandCode : Nat) (steps : List (Bool × List Nat)) (d e a : Nat)
    (ctx : TSS2_SYS_CONTEXT_BLOB) (h : (prepareGeneric commandCode steps d e a ctx).1 = 0) :
    10 + (stepsBytes steps).length ≤ ctx.maxCmdSize := by
  by_contra hc
  have hf := (prepareGeneric_fail commandCode steps d e a ctx (by omega)).1
  simp only at hf
  rw [h] at hf
  exact INSUFFICIENT_BUFFER_ne_zero hf.symm

theorem prepareGeneric_prepared (commandCode : Nat) (steps : List (Bool × List Nat))
    (d e a : Nat) (ctx : TSS2_SYS_CONTEXT_BLOB)
    (h : ((prepareGeneric commandCode steps d e a ctx).1,
      some (prepareGeneric commandCode steps d e a ctx).2).1 = TSS2_RC_SUCCESS) :
    Prepared commandCode (stepsBytes steps) (d, e, a)
      ((prepareGeneric commandCode steps d e a ctx).1,
       some (prepareGeneric commandCode steps d e a ctx).2) :=
  (prepareGeneric_ok commandCode steps d e a ctx
    (prepareGeneric_success commandCode steps d e a ctx h)).2.1

/-! ## The Prepare functions in their common shape -/

theorem BAD_REFERENCE_ne_zero : TSS2_SYS_RC_BAD_REFERENCE ≠ TSS2_RC_SUCCESS := by decide

/-- On a valid context `Tss2_Sys_Startup_Prepare` is the common shape with the marshal
calls of its body. -/
theorem Startup_Prepare_generic (ctx : TSS2_SYS_CONTEXT_BLOB) (startupType : Nat) :
    Tss2_Sys_Startup_Prepare (some ctx) startupType =
      ((prepareGeneric TPM2_CC_Startup
      [(false, UINT16_bytes startupType)] 0 0 0 ctx).1,
       some (prepareGeneric TPM2_CC_Startup
      [(false, UINT16_bytes startupType)] 0 0 0 ctx).2) :=
  rfl

/-- A successful `Tss2_Sys_Startup_Prepare` leaves the header, the parameters of
the command in the order of its marshal calls, its capability flags, and the
stage Prepare. -/
theorem Startup_Prepare_prepared (sysContext : Option TSS2_SYS_CONTEXT_BLOB) (startupType : Nat)
    (h : (Tss2_Sys_Startup_Prepare sysContext startupType).1 = TSS2_RC_SUCCESS) :
    Prepared TPM2_CC_Startup (Startup_params startupType) (0, 0, 0)
      (Tss2_Sys_Startup_Prepare sysContext startupType) := by
  cases sysContext with
  | none => exact absurd h BAD_REFERENCE_ne_zero
  | some ctx =>
    rw [Startup_Prepare_generic] at h ⊢
    have hp := prepareGeneric_prepared _ _ _ _ _ ctx h
    simpa [stepsBytes, Startup_params] using hp

/-- With a capacity too small for the command `Tss2_Sys_Startup_Prepare` aborts at
the first marshal call that fails. -/
theorem Startup_Prepare_aborted (ctx : TSS2_SYS_CONTEXT_BLOB) (startupType : Nat)
    (h : ctx.maxCmdSize < 10 + (Startup_params startupType).length) :
    Aborted ctx TPM2_CC_Startup (Tss2_Sys_Startup_Prepare (some ctx) startupType) := by
  rw [Startup_Prepare_generic]
  exact prepareGeneric_fail _ _ _ _ _ ctx (by simpa [stepsBytes, Startup_params] using h)

/-- On a valid context `Tss2_Sys_ClockRateAdjust_Prepare` is the common shape with the marshal
calls of its body. -/
theorem ClockRateAdjust_Prepare_generic (ctx : TSS2_SYS_CONTEXT_BLOB) (auth : Nat) (rateAdjust : Int) :
    Tss2_Sys_ClockRateAdjust_Prepare (some ctx) auth rateAdjust =
      ((prepareGeneric TPM2_CC_ClockRateAdjust
      [(false, UINT32_bytes auth), (false, UINT8_bytes (uint8_of_int8 rateAdjust))] 0 0 1 ctx).1,
       some (prepareGeneric TPM2_CC_ClockRateAdjust
      [(false, UINT32_bytes auth), (false, UINT8_bytes (uint8_of_int8 rateAdjust))] 0 0 1 ctx).2) :=
  rfl

/-- A successful `Tss2_Sys_ClockRateAdjust_Prepare` leaves the header, the parameters of
the command in the order of its marshal calls, its capability flags, and the
stage Prepare. -/
theorem ClockRateAdjust_Prepare_prepared (sysContext : Option TSS2_SYS_CONTEXT_BLOB) (auth : Nat) (rateAdjust : Int)
    (h : (Tss2_Sys_ClockRateAdjust_Prepare sysContext auth rateAdjust).1 = TSS2_RC_SUCCESS) :
    Prepared TPM2_CC_ClockRateAdjust (ClockRateAdjust_params auth rateAdjust) (0, 0, 1)
      (Tss2_Sys_ClockRateAdjust_Prepare sysContext auth rateAdjust) := by
  cases sysContext with
  | none => exact absurd h BAD_REFERENCE_ne_zero
  | some ctx =>
    rw [ClockRateAdjust_Prepare_generic] at h ⊢
    have hp := prepareGeneric_prepared _ _ _ _ _ ctx h
    simpa [stepsBytes, ClockRateAdjust_params] using hp

/-- With a capacity too small for the command `Tss2_Sys_ClockRateAdjust_Prepare` aborts at
the first marshal call that fails. -/
theorem ClockRateAdjust_Prepare_aborted (ctx : TSS2_SYS_CONTEXT_BLOB) (auth : Nat) (rateAdjust : Int)
    (h : ctx.maxCmdSize < 10 + (ClockRateAdjust_params auth rateAdjust).length) :
    Aborted ctx TPM2_CC_ClockRateAdjust (Tss2_Sys_ClockRateAdjust_Prepare (some ctx) auth rateAdjust) := by
  rw [ClockRateAdjust_Prepare_generic]
  exact prepareGeneric_fail _ _ _ _ _ ctx (by simpa [stepsBytes, ClockRateAdjust_params] using h)

/-- On a valid context `Tss2_Sys_PCR_Extend_Prepare` is the common shape with the marshal
calls of its body. -/
theorem PCR_Extend_Prepare_generic (ctx : TSS2_SYS_CONTEXT_BLOB) (pcrHandle : Nat) (digests : TPML_DIGEST_VALUES) :
    Tss2_Sys_PCR_Extend_Prepare (some ctx) pcrHandle (some digests) =
      ((prepareGeneric TPM2_CC_PCR_Extend
      [(false, UINT32_bytes pcrHandle), (false, digests.encoding)] 0 0 1 ctx).1,
       some (prepareGeneric TPM2_CC_PCR_Extend
      [(false, UINT32_bytes pcrHandle), (false, digests.encoding)] 0 0 1 ctx).2) :=
  rfl

/-- A successful `Tss2_Sys_PCR_Extend_Prepare` leaves the header, the parameters of
the command in the order of its marshal calls, its capability flags, and the
stage Prepare. -/
theorem PCR_Extend_Prepare_prepared (sysContext : Option TSS2_SYS_CONTEXT_BLOB) (pcrHandle : Nat) (digests : Option TPML_DIGEST_VALUES)
    (h : (Tss2_Sys_PCR_Extend_Prepare sysContext pcrHandle digests).1 = TSS2_RC_SUCCESS) :
    ∃ v, digests = some v ∧
      Prepared TPM2_CC_PCR_Extend (PCR_Extend_params pcrHandle v) (0, 0, 1)
        (Tss2_Sys_PCR_Extend_Prepare sysContext pcrHandle digests) := by
  cases sysContext with
  | none => cases digests <;> exact absurd h BAD_REFERENCE_ne_zero
  | some ctx =>
    cases digests with
    | none => exact absurd h BAD_REFERENCE_ne_zero
    | some v =>
      refine ⟨v, rfl, ?_⟩
      rw [PCR_Extend_Prepare_generic] at h ⊢
      have hp := prepareGeneric_prepared _ _ _ _ _ ctx h
      simpa [stepsBytes, PCR_Extend_params] using hp

/-- With a capacity too small for the command `Tss2_Sys_PCR_Extend_Prepare` aborts at
the first marshal call that fails. -/
theorem PCR_Extend_Prepare_aborted (ctx : TSS2_SYS_CONTEXT_BLOB) (pcrHandle : Nat) (digests : TPML_DIGEST_VALUES)
    (h : ctx.maxCmdSize < 10 + (PCR_Extend_params pcrHandle digests).length) :
    Aborted ctx TPM2_CC_PCR_Extend (Tss2_Sys_PCR_Extend_Prepare (some ctx) pcrHandle (some digests)) := by
  rw [PCR_Extend_Prepare_generic]
  exact prepareGeneric_fail _ _ _ _ _ ctx (by simpa [stepsBytes, PCR_Extend_params] using h)

/-- On a valid context `Tss2_Sys_PCR_SetAuthValue_Prepare` is the common shape with the marshal
calls of its body. -/
theorem PCR_SetAuthValue_Prepare_generic (ctx : TSS2_SYS_CONTEXT_BLOB) (pcrHandle : Nat) (auth : Option TPM2B_DIGEST) :
    Tss2_Sys_PCR_SetAuthValue_Prepare (some ctx) pcrHandle auth =
      ((prepareGeneric TPM2_CC_PCR_SetAuthValue
      [(false, UINT32_bytes pcrHandle), (false, TPM2B_optional_bytes auth)] 1 0 1 ctx).1,
       some (prepareGeneric TPM2_CC_PCR_SetAuthValue
      [(false, UINT32_bytes pcrHandle), (false, TPM2B_optional_bytes auth)] 1 0 1 ctx).2) := by
  cases auth <;> rfl

/-- A successful `Tss2_Sys_PCR_SetAuthValue_Prepare` leaves the header, the parameters of
the command in the order of its marshal calls, its capability flags, and the
stage Prepare. -/
theorem PCR_SetAuthValue_Prepare_prepared (sysContext : Option TSS2_SYS_CONTEXT_BLOB) (pcrHandle : Nat) (auth : Option TPM2B_DIGEST)
    (h : (Tss2_Sys_PCR_SetAuthValue_Prepare sysContext pcrHandle auth).1 = TSS2_RC_SUCCESS) :
    Prepared TPM2_CC_PCR_SetAuthValue (PCR_SetAuthValue_params pcrHandle auth) (1, 0, 1)
      (Tss2_Sys_PCR_SetAuthValue_Prepare sysContext pcrHandle auth) := by
  cases sysContext with
  | none => exact absurd h BAD_REFERENCE_ne_zero
  | some ctx =>
    rw [PCR_SetAuthValue_Prepare_generic] at h ⊢
    have hp := prepareGeneric_prepared _ _ _ _ _ ctx h
    simpa [stepsBytes, PCR_SetAuthValue_params] using hp

/-- With a capacity too small for the command `Tss2_Sys_PCR_SetAuthValue_Prepare` aborts at
the first marshal call that fails. -/
theorem PCR_SetAuthValue_Prepare_aborted (ctx : TSS2_SYS_CONTEXT_BLOB) (pcrHandle : Nat) (auth : Option TPM2B_DIGEST)
    (h : ctx.maxCmdSize < 10 + (PCR_SetAuthValue_params pcrHandle auth).length) :
    Aborted ctx TPM2_CC_PCR_SetAuthValue (Tss2_Sys_PCR_SetAuthValue_Prepare (some ctx) pcrHandle auth) := by
  rw [PCR_SetAuthValue_Prepare_generic]
  exact prepareGeneric_fail _ _ _ _ _ ctx (by simpa [stepsBytes, PCR_SetAuthValue_params] using h)

/-- On a valid context `Tss2_Sys_PolicyAuthorize_Prepare` is the common shape with the marshal
calls of its body. -/
theorem PolicyAuthorize_Prepare_generic (ctx : TSS2_SYS_CONTEXT_BLOB) (policySession : Nat) (approvedPolicy : Option TPM2B_DIGEST)
    (policyRef : Option TPM2B_NONCE) (keySign : Option TPM2B_NAME) (checkTicket : TPMT_TK_VERIFIED) :
    Tss2_Sys_PolicyAuthorize_Prepare (some ctx) policySession approvedPolicy policyRef keySign (some checkTicket) =
      ((prepareGeneric TPM2_CC_PolicyAuthorize
      [(false, UINT32_bytes policySession),
       (approvedPolicy.isNone, TPM2B_optional_bytes approvedPolicy),
       (false, TPM2B_optional_bytes policyRef), (false, TPM2B_optional_bytes keySign),
       (false, checkTicket.encoding)] 1 0 1 ctx).1,
       some (prepareGeneric TPM2_CC_PolicyAuthorize
      [(false, UINT32_bytes policySession),
       (approvedPolicy.isNone, TPM2B_optional_bytes approvedPolicy),
       (false, TPM2B_optional_bytes policyRef), (false, TPM2B_optional_bytes keySign),
       (false, checkTicket.encoding)] 1 0 1 ctx).2) := by
  cases approvedPolicy <;> cases policyRef <;> cases keySign <;> rfl

/-- A successful `Tss2_Sys_PolicyAuthorize_Prepare` leaves the header, the parameters of
the command in the order of its marshal calls, its capability flags, and the
stage Prepare. -/
theorem PolicyAuthorize_Prepare_prepared (sysContext : Option TSS2_SYS_CONTEXT_BLOB) (policySession : Nat) (approvedPolicy : Option TPM2B_DIGEST)
    (policyRef : Option TPM2B_NONCE) (keySign : Option TPM2B_NAME) (checkTicket : Option TPMT_TK_VERIFIED)
    (h : (Tss2_Sys_PolicyAuthorize_Prepare sysContext policySession approvedPolicy policyRef keySign checkTicket).1 = TSS2_RC_SUCCESS) :
    ∃ v, checkTicket = some v ∧
      Prepared TPM2_CC_PolicyAuthorize (PolicyAuthorize_params policySession approvedPolicy policyRef keySign v) (1, 0, 1)
        (Tss2_Sys_PolicyAuthorize_Prepare sysContext policySession approvedPolicy policyRef keySign checkTicket) := by
  cases sysContext with
  | none => cases checkTicket <;> exact absurd h BAD_REFERENCE_ne_zero
  | some ctx =>
    cases checkTicket with
    | none => exact absurd h BAD_REFERENCE_ne_zero
    | some v =>
      refine ⟨v, rfl, ?_⟩
      rw [PolicyAuthorize_Prepare_generic] at h ⊢
      have hp := prepareGeneric_prepared _ _ _ _ _ ctx h
      simpa [stepsBytes, PolicyAuthorize_params] using hp

/-- With a capacity too small for the command `Tss2_Sys_PolicyAuthorize_Prepare` aborts at
the first marshal call that fails. -/
theorem PolicyAuthorize_Prepare_aborted (ctx : TSS2_SYS_CONTEXT_BLOB) (policySession : Nat) (approvedPolicy : Option TPM2B_DIGEST)
    (policyRef : Option TPM2B_NONCE) (keySign : Option TPM2B_NAME) (checkTicket : TPMT_TK_VERIFIED)
    (h : ctx.maxCmdSize < 10 + (PolicyAuthorize_params policySession approvedPolicy policyRef keySign checkTicket).length) :
    Aborted ctx TPM2_CC_PolicyAuthorize (Tss2_Sys_PolicyAuthorize_Prepare (some ctx) policySession approvedPolicy policyRef keySign (some checkTicket)) := by
  rw [PolicyAuthorize_Prepare_generic]
  exact prepareGeneric_fail _ _ _ _ _ ctx (by simpa [stepsBytes, PolicyAuthorize_params] using h)

/-- On a valid context `Tss2_Sys_SequenceComplete_Prepare` is the common shape with the marshal
calls of its body. -/
theorem SequenceComplete_Prepare_generic (ctx : TSS2_SYS_CONTEXT_BLOB) (sequenceHandle : Nat) (buffer : Option TPM2B_MAX_BUFFER)
    (hierarchy : Nat) :
    Tss2_Sys_SequenceComplete_Prepare (some ctx) sequenceHandle buffer hierarchy =
      ((prepareGeneric TPM2_CC_SequenceComplete
      [(false, UINT32_bytes sequenceHandle), (buffer.isNone, TPM2B_optional_bytes buffer),
       (false, UINT32_bytes hierarchy)] 1 1 1 ctx).1,
       some (prepareGeneric TPM2_CC_SequenceComplete
      [(false, UINT32_bytes sequenceHandle), (buffer.isNone, TPM2B_optional_bytes buffer),
       (false, UINT32_bytes hierarchy)] 1 1 1 ctx).2) := by
  cases buffer <;> rfl

/-- A successful `Tss2_Sys_SequenceComplete_Prepare` leaves the header, the parameters of
the command in the order of its marshal calls, its capability flags, and the
stage Prepare. -/
theorem SequenceComplete_Prepare_prepared (sysContext : Option TSS2_SYS_CONTEXT_BLOB) (sequenceHandle : Nat) (buffer : Option TPM2B_MAX_BUFFER)
    (hierarchy : Nat)
    (h : (Tss2_Sys_SequenceComplete_Prepare sysContext sequenceHandle buffer hierarchy).1 = TSS2_RC_SUCCESS) :
    Prepared TPM2_CC_SequenceComplete (SequenceComplete_params sequenceHandle buffer hierarchy) (1, 1, 1)
      (Tss2_Sys_SequenceComplete_Prepare sysContext sequenceHandle buffer hierarchy) := by
  cases sysContext with
  | none => exact absurd h BAD_REFERENCE_ne_zero
  | some ctx =>
    rw [SequenceComplete_Prepare_generic] at h ⊢
    have hp := prepareGeneric_prepared _ _ _ _ _ ctx h
    simpa [stepsBytes, SequenceComplete_params] using hp

/-- With a capacity too small for the command `Tss2_Sys_SequenceComplete_Prepare` aborts at
the first marshal call that fails. -/
theorem SequenceComplete_Prepare_aborted (ctx : TSS2_SYS_CONTEXT_BLOB) (sequenceHandle : Nat) (buffer : Option TPM2B_MAX_BUFFER)
    (hierarchy : Nat)
    (h : ctx.maxCmdSize < 10 + (SequenceComplete_params sequenceHandle buffer hierarchy).length) :
    Aborted ctx TPM2_CC_SequenceComplete (Tss2_Sys_SequenceComplete_Prepare (some ctx) sequenceHandle buffer hierarchy) := by
  rw [SequenceComplete_Prepare_generic]
  exact prepareGeneric_fail _ _ _ _ _ ctx (by simpa [stepsBytes, SequenceComplete_params] using h)

/-- On a valid context `Tss2_Sys_EncryptDecrypt2_Prepare` is the common shape with the marshal
calls of its body. -/
theorem EncryptDecrypt2_Prepare_generic (ctx : TSS2_SYS_CONTEXT_BLOB) (keyHandle : Nat) (inData : Option TPM2B_MAX_BUFFER)
    (decrypt mode : Nat) (ivIn : Option TPM2B_IV) :
    Tss2_Sys_EncryptDecrypt2_Prepare (some ctx) keyHandle inData decrypt mode ivIn =
      ((prepareGeneric TPM2_CC_EncryptDecrypt2
      [(false, UINT32_bytes keyHandle), (false, TPM2B_optional_bytes inData),
       (false, UINT8_bytes decrypt), (false, UINT16_bytes mode),
       (false, TPM2B_optional_bytes ivIn)] 1 1 1 ctx).1,
       some (prepareGeneric TPM2_CC_EncryptDecrypt2
      [(false, UINT32_bytes keyHandle), (false, TPM2B_optional_bytes inData),
       (false, UINT8_bytes decrypt), (false, UINT16_bytes mode),
       (false, TPM2B_optional_bytes ivIn)] 1 1 1 ctx).2) := by
  cases inData <;> cases ivIn <;> rfl

/-- A successful `Tss2_Sys_EncryptDecrypt2_Prepare` leaves the header, the parameters of
the command in the order of its marshal calls, its capability flags, and the
stage Prepare. -/
theorem EncryptDecrypt2_Prepare_prepared (sysContext : Option TSS2_SYS_CONTEXT_BLOB) (keyHandle : Nat) (inData : Option TPM2B_MAX_BUFFER)
    (decrypt mode : Nat) (ivIn : Option TPM2B_IV)
    (h : (Tss2_Sys_EncryptDecrypt2_Prepare sysContext keyHandle inData decrypt mode ivIn).1 = TSS2_RC_SUCCESS) :
    Prepared TPM2_CC_EncryptDecrypt2 (EncryptDecrypt2_params keyHandle inData decrypt mode ivIn) (1, 1, 1)
      (Tss2_Sys_EncryptDecrypt2_Prepare sysContext keyHandle inData decrypt mode ivIn) := by
  cases sysContext with
  | none => exact absurd h BAD_REFERENCE_ne_zero
  | some ctx =>
    rw [EncryptDecrypt2_Prepare_generic] at h ⊢
    have hp := prepareGeneric_prepared _ _ _ _ _ ctx h
    simpa [stepsBytes, EncryptDecrypt2_params] using hp

/-- With a capacity too small for the command `Tss2_Sys_EncryptDecrypt2_Prepare` aborts at
the first marshal call that fails. -/
theorem EncryptDecrypt2_Prepare_aborted (ctx : TSS2_SYS_CONTEXT_BLOB) (keyHandle : Nat) (inData : Option TPM2B_MAX_BUFFER)
    (decrypt mode : Nat) (ivIn : Option TPM2B_IV)
    (h : ctx.maxCmdSize < 10 + (EncryptDecrypt2_params keyHandle inData decrypt mode ivIn).length) :
    Aborted ctx TPM2_CC_EncryptDecrypt2 (Tss2_Sys_EncryptDecrypt2_Prepare (some ctx) keyHandle inData decrypt mode ivIn) := by
  rw [EncryptDecrypt2_Prepare_generic]
  exact prepareGeneric_fail _ _ _ _ _ ctx (by simpa [stepsBytes, EncryptDecrypt2_params] using h)

/-- On a valid context `Tss2_Sys_TestParms_Prepare` is the common shape with the marshal
calls of its body. -/
theorem TestParms_Prepare_generic (ctx : TSS2_SYS_CONTEXT_BLOB) (parameters : TPMT_PUBLIC_PARMS) :
    Tss2_Sys_TestParms_Prepare (some ctx) (some parameters) =
      ((prepareGeneric TPM2_CC_TestParms
      [(false, parameters.encoding)] 0 0 1 ctx).1,
       some (prepareGeneric TPM2_CC_TestParms
      [(false, parameters.encoding)] 0 0 1 ctx).2) :=
  rfl

/-- A successful `Tss2_Sys_TestParms_Prepare` leaves the header, the parameters of
the command in the order of its marshal calls, its capability flags, and the
stage Prepare. -/
theorem TestParms_Prepare_prepared (sysContext : Option TSS2_SYS_CONTEXT_BLOB) (parameters : Option TPMT_PUBLIC_PARMS)
    (h : (Tss2_Sys_TestParms_Prepare sysContext parameters).1 = TSS2_RC_SUCCESS) :
    ∃ v, parameters = some v ∧
      Prepared TPM2_CC_TestParms (TestParms_params v) (0, 0, 1)
        (Tss2_Sys_TestParms_Prepare sysContext parameters) := by
  cases sysContext with
  | none => cases parameters <;> exact absurd h BAD_REFERENCE_ne_zero
  | some ctx =>
    cases parameters with
    | none => exact absurd h BAD_REFERENCE_ne_zero
    | some v =>
      refine ⟨v, rfl, ?_⟩
      rw [TestParms_Prepare_generic] at h ⊢
      have hp := prepareGeneric_prepared _ _ _ _ _ ctx h
      simpa [stepsBytes, TestParms_params] using hp

/-- With a capacity too small for the command `Tss2_Sys_TestParms_Prepare` aborts at
the first marshal call that fails. -/
theorem TestParms_Prepare_aborted (ctx : TSS2_SYS_CONTEXT_BLOB) (parameters : TPMT_PUBLIC_PARMS)
    (h : ctx.maxCmdSize < 10 + (TestParms_params parameters).length) :
    Aborted ctx TPM2_CC_TestParms (Tss2_Sys_TestParms_Prepare (some ctx) (some parameters)) := by
  rw [TestParms_Prepare_generic]
  exact prepareGeneric_fail _ _ _ _ _ ctx (by simpa [stepsBytes, TestParms_params] using h)

/-! ## Consequences of a successful Prepare -/

theorem Complete_without_outputs_of_Prepared {commandCode : Nat} {params : List Nat}
    {flags : Nat × Nat × Nat} {r : TSS2_RC × Option TSS2_SYS_CONTEXT_BLOB}
    (h : Prepared commandCode params flags r) :
    Complete_without_outputs r.2 = (TSS2_SYS_RC_BAD_SEQUENCE, r.2) := by
  obtain ⟨c, hc, _, _, _, hst⟩ := h
  rw [hc]
  simp [Complete_without_outputs, syscontext_cast, CommonComplete, hst]

theorem SequenceComplete_Complete_of_Prepared {commandCode : Nat} {params : List Nat}
    {flags : Nat × Nat × Nat} {r : TSS2_RC × Option TSS2_SYS_CONTEXT_BLOB}
    (h : Prepared commandCode params flags r) :
    Tss2_Sys_SequenceComplete_Complete r.2 = (TSS2_SYS_RC_BAD_SEQUENCE, r.2, none, none) := by
  obtain ⟨c, hc, _, _, _, hst⟩ := h
  rw [hc]
  have hne : TSS2_SYS_RC_BAD_SEQUENCE ≠ 0 := by decide
  simp [Tss2_Sys_SequenceComplete_Complete, syscontext_cast, CommonComplete, hst, hne]

theorem EncryptDecrypt2_Complete_of_Prepared {commandCode : Nat} {params : List Nat}
    {flags : Nat × Nat × Nat} {r : TSS2_RC × Option TSS2_SYS_CONTEXT_BLOB}
    (h : Prepared commandCode params flags r) :
    Tss2_Sys_EncryptDecrypt2_Complete r.2 = (TSS2_SYS_RC_BAD_SEQUENCE, r.2, none, none) := by
  obtain ⟨c, hc, _, _, _, hst⟩ := h
  rw [hc]
  have hne : TSS2_SYS_RC_BAD_SEQUENCE ≠ 0 := by decide
  simp [Tss2_Sys_EncryptDecrypt2_Complete, syscontext_cast, CommonComplete, hst, hne]

theorem flags_of_Prepared {commandCode : Nat} {params : List Nat}
    {flags : Nat × Nat × Nat} {r : TSS2_RC × Option TSS2_SYS_CONTEXT_BLOB}
    (h : Prepared commandCode params flags r) :
    r.2.map capabilityFlags = some flags := by
  obtain ⟨c, hc, _, _, hfl, _⟩ := h
  rw [hc, Option.map_some', hfl]

theorem command_header_length (size commandCode : Nat) :
    (command_header size commandCode).length = 10 := rfl

theorem HeaderWritten_of_Prepared {commandCode : Nat} {params : List Nat}
    {flags : Nat × Nat × Nat} {r : TSS2_RC × Option TSS2_SYS_CONTEXT_BLOB}
    (h : Prepared commandCode params flags r) :
    HeaderWritten commandCode params.length r := by
  obtain ⟨c, hc, hn, hb, _, _⟩ := h
  refine ⟨c, hc, hn, ?_⟩
  have h1 : c.cmdBuffer.take 10 = (c.cmdBuffer.take c.nextData).take 10 := by
    rw [List.take_take, Nat.min_eq_left (by rw [hn]; unfold TPM_HEADER_SIZE; omega)]
  rw [h1, hb, List.take_append_of_le_length (by rw [command_header_length]),
    List.take_of_length_le (by rw [command_header_length])]
  rfl

theorem UINT8_bytes_length (v : Nat) : (UINT8_bytes v).length = 1 := rfl
theorem UINT16_bytes_length (v : Nat) : (UINT16_bytes v).length = 2 := rfl
theorem UINT32_bytes_length (v : Nat) : (UINT32_bytes v).length = 4 := rfl

theorem TPM2B_payload_length (v : TPM2B_DIGEST) : (TPM2B_payload v).length = v.size := by
  unfold TPM2B_payload
  simp
  omega

theorem TPM2B_payload_exact (v : TPM2B_DIGEST) (h : v.buffer.length = v.size) :
    TPM2B_payload v = v.buffer := by
  unfold TPM2B_payload
  rw [h, Nat.sub_self]
  simp [← h]

theorem TPM2B_optional_bytes_eq (v : Option TPM2B_DIGEST) :
    TPM2B_optional_bytes v = UINT16_bytes (TPM2B_optional_size v) ++ TPM2B_optional_payload v := by
  cases v <;> rfl

theorem TPM2B_optional_payload_length (v : Option TPM2B_DIGEST) :
    (TPM2B_optional_payload v).length = TPM2B_optional_size v := by
  cases v with
  | none => rfl
  | some v => exact TPM2B_payload_length v

theorem TPM2B_optional_bytes_length (v : Option TPM2B_DIGEST) :
    (TPM2B_optional_bytes v).length = 2 + TPM2B_optional_size v := by
  rw [TPM2B_optional_bytes_eq, List.length_append, UINT16_bytes_length,
    TPM2B_optional_payload_length]

/-! ## The claims on Prepare and Complete of the SAPI commands -/

/-- Claim C21: for each of the eight commands, when Prepare succeeds, the
command's Complete called on the resulting context, with no exchange in
between, returns the sequencing error `TSS2_SYS_RC_BAD_SEQUENCE`, leaves the
context as it is and writes no output. -/
theorem C21_Complete_right_after_Prepare :
    (∀ sysContext startupType,
      (Tss2_Sys_Startup_Prepare sysContext startupType).1 = TSS2_RC_SUCCESS →
      Tss2_Sys_Startup_Complete (Tss2_Sys_Startup_Prepare sysContext startupType).2 =
        (TSS2_SYS_RC_BAD_SEQUENCE, (Tss2_Sys_Startup_Prepare sysContext startupType).2)) ∧
    (∀ sysContext auth rateAdjust,
      (Tss2_Sys_ClockRateAdjust_Prepare sysContext auth rateAdjust).1 = TSS2_RC_SUCCESS →
      Tss2_Sys_ClockRateAdjust_Complete
          (Tss2_Sys_ClockRateAdjust_Prepare sysContext auth rateAdjust).2 =
        (TSS2_SYS_RC_BAD_SEQUENCE,
         (Tss2_Sys_ClockRateAdjust_Prepare sysContext auth rateAdjust).2)) ∧
    (∀ sysContext pcrHandle digests,
      (Tss2_Sys_PCR_Extend_Prepare sysContext pcrHandle digests).1 = TSS2_RC_SUCCESS →
      Tss2_Sys_PCR_Extend_Complete (Tss2_Sys_PCR_Extend_Prepare sysContext pcrHandle digests).2 =
        (TSS2_SYS_RC_BAD_SEQUENCE,
         (Tss2_Sys_PCR_Extend_Prepare sysContext pcrHandle digests).2)) ∧
    (∀ sysContext pcrHandle auth,
      (Tss2_Sys_PCR_SetAuthValue_Prepare sysContext pcrHandle auth).1 = TSS2_RC_SUCCESS →
      Tss2_Sys_PCR_SetAuthValue_Complete
          (Tss2_Sys_PCR_SetAuthValue_Prepare sysContext pcrHandle auth).2 =
        (TSS2_SYS_RC_BAD_SEQUENCE,
         (Tss2_Sys_PCR_SetAuthValue_Prepare sysContext pcrHandle auth).2)) ∧
    (∀ sysContext policySession approvedPolicy policyRef keySign checkTicket,
      (Tss2_Sys_PolicyAuthorize_Prepare sysContext policySession approvedPolicy policyRef
        keySign checkTicket).1 = TSS2_RC_SUCCESS →
      Tss2_Sys_PolicyAuthorize_Complete
          (Tss2_Sys_PolicyAuthorize_Prepare sysContext policySession approvedPolicy policyRef
            keySign checkTicket).2 =
        (TSS2_SYS_RC_BAD_SEQUENCE,
         (Tss2_Sys_PolicyAuthorize_Prepare sysContext policySession approvedPolicy policyRef
            keySign checkTicket).2)) ∧
    (∀ sysContext sequenceHandle buffer hierarchy,
      (Tss2_Sys_SequenceComplete_Prepare sysContext sequenceHandle buffer hierarchy).1 =
        TSS2_RC_SUCCESS →
      Tss2_Sys_SequenceComplete_Complete
          (Tss2_Sys_SequenceComplete_Prepare sysContext sequenceHandle buffer hierarchy).2 =
        (TSS2_SYS_RC_BAD_SEQUENCE,
         (Tss2_Sys_SequenceComplete_Prepare sysContext sequenceHandle buffer hierarchy).2,
         none, none)) ∧
    (∀ sysContext keyHandle inData decrypt mode ivIn,
      (Tss2_Sys_EncryptDecrypt2_Prepare sysContext keyHandle inData decrypt mode ivIn).1 =
        TSS2_RC_SUCCESS →
      Tss2_Sys_EncryptDecrypt2_Complete
          (Tss2_Sys_EncryptDecrypt2_Prepare sysContext keyHandle inData decrypt mode ivIn).2 =
        (TSS2_SYS_RC_BAD_SEQUENCE,
         (Tss2_Sys_EncryptDecrypt2_Prepare sysContext keyHandle inData decrypt mode ivIn).2,
         none, none)) ∧
    (∀ sysContext parameters,
      (Tss2_Sys_TestParms_Prepare sysContext parameters).1 = TSS2_RC_SUCCESS →
      Tss2_Sys_TestParms_Complete (Tss2_Sys_TestParms_Prepare sysContext parameters).2 =
        (TSS2_SYS_RC_BAD_SEQUENCE, (Tss2_Sys_TestParms_Prepare sysContext parameters).2)) := by
  refine ⟨?_, ?_, ?_, ?_, ?_, ?_, ?_, ?_⟩
  · intro sysContext startupType h
    exact Complete_without_outputs_of_Prepared (Startup_Prepare_prepared _ _ h)
  · intro sysContext auth rateAdjust h
    exact Complete_without_outputs_of_Prepared (ClockRateAdjust_Prepare_prepared _ _ _ h)
  · intro sysContext pcrHandle digests h
    obtain ⟨v, _, hp⟩ := PCR_Extend_Prepare_prepared _ _ _ h
    exact Complete_without_outputs_of_Prepared hp
  · intro sysContext pcrHandle auth h
    exact Complete_without_outputs_of_Prepared (PCR_SetAuthValue_Prepare_prepared _ _ _ h)
  · intro sysContext policySession approvedPolicy policyRef keySign checkTicket h
    obtain ⟨v, _, hp⟩ := PolicyAuthorize_Prepare_prepared _ _ _ _ _ _ h
    exact Complete_without_outputs_of_Prepared hp
  · intro sysContext sequenceHandle buffer hierarchy h
    exact SequenceComplete_Complete_of_Prepared (SequenceComplete_Prepare_prepared _ _ _ _ h)
  · intro sysContext keyHandle inData decrypt mode ivIn h
    exact EncryptDecrypt2_Complete_of_Prepared (EncryptDecrypt2_Prepare_prepared _ _ _ _ _ _ h)
  · intro sysContext parameters h
    obtain ⟨v, _, hp⟩ := TestParms_Prepare_prepared _ _ h
    exact Complete_without_outputs_of_Prepared hp

/-- Witness of C21: `Tss2_Sys_Startup_Prepare` succeeds on a fresh context with
`TPM2_SU_CLEAR`, and `Tss2_Sys_Startup_Complete` called right after it gives
`TSS2_SYS_RC_BAD_SEQUENCE`. -/
theorem C21_Complete_right_after_Prepare_witness :
    (Tss2_Sys_Startup_Prepare (some mockSysContext) 0).1 = TSS2_RC_SUCCESS ∧
    Tss2_Sys_Startup_Complete (Tss2_Sys_Startup_Prepare (some mockSysContext) 0).2 =
      (TSS2_SYS_RC_BAD_SEQUENCE, (Tss2_Sys_Startup_Prepare (some mockSysContext) 0).2) :=
  ⟨by decide, C21_Complete_right_after_Prepare.1 (some mockSysContext) 0 (by decide)⟩

/-- Claim C23: after a successful Prepare the capability flags (decrypt
allowed, encrypt allowed, authorization allowed) are those of the command,
whatever the arguments: Startup (0,0,0); ClockRateAdjust, PCR_Extend,
TestParms (0,0,1); PCR_SetAuthValue, PolicyAuthorize (1,0,1);
SequenceComplete, EncryptDecrypt2 (1,1,1). -/
theorem C23_capability_flags_per_command :
    (∀ sysContext startupType,
      (Tss2_Sys_Startup_Prepare sysContext startupType).1 = TSS2_RC_SUCCESS →
      (Tss2_Sys_Startup_Prepare sysContext startupType).2.map capabilityFlags =
        some (0, 0, 0)) ∧
    (∀ sysContext auth rateAdjust,
      (Tss2_Sys_ClockRateAdjust_Prepare sysContext auth rateAdjust).1 = TSS2_RC_SUCCESS →
      (Tss2_Sys_ClockRateAdjust_Prepare sysContext auth rateAdjust).2.map capabilityFlags =
        some (0, 0, 1)) ∧
    (∀ sysContext pcrHandle digests,
      (Tss2_Sys_PCR_Extend_Prepare sysContext pcrHandle digests).1 = TSS2_RC_SUCCESS →
      (Tss2_Sys_PCR_Extend_Prepare sysContext pcrHandle digests).2.map capabilityFlags =
        some (0, 0, 1)) ∧
    (∀ sysContext parameters,
      (Tss2_Sys_TestParms_Prepare sysContext parameters).1 = TSS2_RC_SUCCESS →
      (Tss2_Sys_TestParms_Prepare sysContext parameters).2.map capabilityFlags =
        some (0, 0, 1)) ∧
    (∀ sysContext pcrHandle auth,
      (Tss2_Sys_PCR_SetAuthValue_Prepare sysContext pcrHandle auth).1 = TSS2_RC_SUCCESS →
      (Tss2_Sys_PCR_SetAuthValue_Prepare sysContext pcrHandle auth).2.map capabilityFlags =
        some (1, 0, 1)) ∧
    (∀ sysContext policySession approvedPolicy policyRef keySign checkTicket,
      (Tss2_Sys_PolicyAuthorize_Prepare sysContext policySession approvedPolicy policyRef
        keySign checkTicket).1 = TSS2_RC_SUCCESS →
      (Tss2_Sys_PolicyAuthorize_Prepare sysContext policySession approvedPolicy policyRef
        keySign checkTicket).2.map capabilityFlags = some (1, 0, 1)) ∧
    (∀ sysContext sequenceHandle buffer hierarchy,
      (Tss2_Sys_SequenceComplete_Prepare sysContext sequenceHandle buffer hierarchy).1 =
        TSS2_RC_SUCCESS →
      (Tss2_Sys_SequenceComplete_Prepare sysContext sequenceHandle buffer
        hierarchy).2.map capabilityFlags = some (1, 1, 1)) ∧
    (∀ sysContext keyHandle inData decrypt mode ivIn,
      (Tss2_Sys_EncryptDecrypt2_Prepare sysContext keyHandle inData decrypt mode ivIn).1 =
        TSS2_RC_SUCCESS →
      (Tss2_Sys_EncryptDecrypt2_Prepare sysContext keyHandle inData decrypt mode
        ivIn).2.map capabilityFlags = some (1, 1, 1)) := by
  refine ⟨?_, ?_, ?_, ?_, ?_, ?_, ?_, ?_⟩
  · intro sysContext startupType h
    exact flags_of_Prepared (Startup_Prepare_prepared _ _ h)
  · intro sysContext auth rateAdjust h
    exact flags_of_Prepared (ClockRateAdjust_Prepare_prepared _ _ _ h)
  · intro sysContext pcrHandle digests h
    obtain ⟨v, _, hp⟩ := PCR_Extend_Prepare_prepared _ _ _ h
    exact flags_of_Prepared hp
  · intro sysContext parameters h
    obtain ⟨v, _, hp⟩ := TestParms_Prepare_prepared _ _ h
    exact flags_of_Prepared hp
  · intro sysContext pcrHandle auth h
    exact flags_of_Prepared (PCR_SetAuthValue_Prepare_prepared _ _ _ h)
  · intro sysContext policySession approvedPolicy policyRef keySign checkTicket h
    obtain ⟨v, _, hp⟩ := PolicyAuthorize_Prepare_prepared _ _ _ _ _ _ h
    exact flags_of_Prepared hp
  · intro sysContext sequenceHandle buffer hierarchy h
    exact flags_of_Prepared (SequenceComplete_Prepare_prepared _ _ _ _ h)
  · intro sysContext keyHandle inData decrypt mode ivIn h
    exact flags_of_Prepared (EncryptDecrypt2_Prepare_prepared _ _ _ _ _ _ h)

/-- Witness of C23: `Tss2_Sys_SequenceComplete_Prepare` succeeds on a fresh
context with a three-byte buffer and leaves the flags (1,1,1). -/
theorem C23_capability_flags_per_command_witness :
    (Tss2_Sys_SequenceComplete_Prepare (some mockSysContext) 0x80000001
      (some { size := 3, buffer := [1, 2, 3] }) 0x40000001).1 = TSS2_RC_SUCCESS ∧
    (Tss2_Sys_SequenceComplete_Prepare (some mockSysContext) 0x80000001
      (some { size := 3, buffer := [1, 2, 3] }) 0x40000001).2.map capabilityFlags =
        some (1, 1, 1) :=
  ⟨by decide,
   C23_capability_flags_per_command.2.2.2.2.2.2.1 (some mockSysContext) 0x80000001
     (some { size := 3, buffer := [1, 2, 3] }) 0x40000001 (by decide)⟩

/-- Claim C24: after a successful Prepare of any of the eight commands the
buffer starts with the 10-byte header: 2-byte tag, 4-byte big-endian size
equal to the final cursor, which is 10 plus the encoded length of the
parameters, and the 4-byte big-endian command code of the command.  For
Startup the first 12 bytes are `80 01 | 00 00 00 0C | 00 00 01 44` and the
two bytes of startupType; for ClockRateAdjust the size is 15. -/
theorem C24_command_header :
    (∀ sysContext startupType,
      (Tss2_Sys_Startup_Prepare sysContext startupType).1 = TSS2_RC_SUCCESS →
      HeaderWritten TPM2_CC_Startup 2 (Tss2_Sys_Startup_Prepare sysContext startupType) ∧
      ∃ c, (Tss2_Sys_Startup_Prepare sysContext startupType).2 = some c ∧
        c.nextData = 12 ∧
        c.cmdBuffer.take 12 =
          [0x80, 0x01, 0x00, 0x00, 0x00, 0x0C, 0x00, 0x00, 0x01, 0x44,
           startupType / 256 % 256, startupType % 256]) ∧
    (∀ sysContext auth rateAdjust,
      (Tss2_Sys_ClockRateAdjust_Prepare sysContext auth rateAdjust).1 = TSS2_RC_SUCCESS →
      HeaderWritten TPM2_CC_ClockRateAdjust 5
        (Tss2_Sys_ClockRateAdjust_Prepare sysContext auth rateAdjust) ∧
      ∃ c, (Tss2_Sys_ClockRateAdjust_Prepare sysContext auth rateAdjust).2 = some c ∧
        c.nextData = 15 ∧ (c.cmdBuffer.drop 2).take 4 = [0x00, 0x00, 0x00, 0x0F]) ∧
    (∀ sysContext pcrHandle digests,
      (Tss2_Sys_PCR_Extend_Prepare sysContext pcrHandle digests).1 = TSS2_RC_SUCCESS →
      ∃ v, digests = some v ∧
        HeaderWritten TPM2_CC_PCR_Extend (4 + v.encoding.length)
          (Tss2_Sys_PCR_Extend_Prepare sysContext pcrHandle digests)) ∧
    (∀ sysContext pcrHandle auth,
      (Tss2_Sys_PCR_SetAuthValue_Prepare sysContext pcrHandle auth).1 = TSS2_RC_SUCCESS →
      HeaderWritten TPM2_CC_PCR_SetAuthValue (4 + (2 + TPM2B_optional_size auth))
        (Tss2_Sys_PCR_SetAuthValue_Prepare sysContext pcrHandle auth)) ∧
    (∀ sysContext policySession approvedPolicy policyRef keySign checkTicket,
      (Tss2_Sys_PolicyAuthorize_Prepare sysContext policySession approvedPolicy policyRef
        keySign checkTicket).1 = TSS2_RC_SUCCESS →
      ∃ v, checkTicket = some v ∧
        HeaderWritten TPM2_CC_PolicyAuthorize
          (4 + (2 + TPM2B_optional_size approvedPolicy) + (2 + TPM2B_optional_size policyRef) +
            (2 + TPM2B_optional_size keySign) + v.encoding.length)
          (Tss2_Sys_PolicyAuthorize_Prepare sysContext policySession approvedPolicy policyRef
            keySign checkTicket)) ∧
    (∀ sysContext sequenceHandle buffer hierarchy,
      (Tss2_Sys_SequenceComplete_Prepare sysContext sequenceHandle buffer hierarchy).1 =
        TSS2_RC_SUCCESS →
      HeaderWritten TPM2_CC_SequenceComplete (4 + (2 + TPM2B_optional_size buffer) + 4)
        (Tss2_Sys_SequenceComplete_Prepare sysContext sequenceHandle buffer hierarchy)) ∧
    (∀ sysContext keyHandle inData decrypt mode ivIn,
      (Tss2_Sys_EncryptDecrypt2_Prepare sysContext keyHandle inData decrypt mode ivIn).1 =
        TSS2_RC_SUCCESS →
      HeaderWritten TPM2_CC_EncryptDecrypt2
        (4 + (2 + TPM2B_optional_size inData) + 1 + 2 + (2 + TPM2B_optional_size ivIn))
        (Tss2_Sys_EncryptDecrypt2_Prepare sysContext keyHandle inData decrypt mode ivIn)) ∧
    (∀ sysContext parameters,
      (Tss2_Sys_TestParms_Prepare sysContext parameters).1 = TSS2_RC_SUCCESS →
      ∃ v, parameters = some v ∧
        HeaderWritten TPM2_CC_TestParms v.encoding.length
          (Tss2_Sys_TestParms_Prepare sysContext parameters)) := by
  refine ⟨?_, ?_, ?_, ?_, ?_, ?_, ?_, ?_⟩
  · intro sysContext startupType h
    have hp := Startup_Prepare_prepared _ _ h
    refine ⟨HeaderWritten_of_Prepared hp, ?_⟩
    obtain ⟨c, hc, hn, hb, _, _⟩ := hp
    have hn12 : c.nextData = 12 := hn
    refine ⟨c, hc, hn12, ?_⟩
    rw [hn12] at hb
    rw [hb]
    rfl
  · intro sysContext auth rateAdjust h
    have hp := ClockRateAdjust_Prepare_prepared _ _ _ h
    have hw := HeaderWritten_of_Prepared hp
    refine ⟨hw, ?_⟩
    obtain ⟨c, hc, hn, hb⟩ := hw
    have hn15 : c.nextData = 15 := hn
    refine ⟨c, hc, hn15, ?_⟩
    have h1 : (c.cmdBuffer.drop 2).take 4 = ((c.cmdBuffer.take 10).drop 2).take 4 := by
      rw [List.drop_take, List.take_take]
      rfl
    rw [h1, hb, hn15]
    rfl
  · intro sysContext pcrHandle digests h
    obtain ⟨v, hv, hp⟩ := PCR_Extend_Prepare_prepared _ _ _ h
    have hw := HeaderWritten_of_Prepared hp
    simp only [PCR_Extend_params, List.length_append, UINT32_bytes_length] at hw
    exact ⟨v, hv, hw⟩
  · intro sysContext pcrHandle auth h
    have hw := HeaderWritten_of_Prepared (PCR_SetAuthValue_Prepare_prepared _ _ _ h)
    simp only [PCR_SetAuthValue_params, List.length_append, UINT32_bytes_length,
      TPM2B_optional_bytes_length] at hw
    exact hw
  · intro sysContext policySession approvedPolicy policyRef keySign checkTicket h
    obtain ⟨v, hv, hp⟩ := PolicyAuthorize_Prepare_prepared _ _ _ _ _ _ h
    have hw := HeaderWritten_of_Prepared hp
    simp only [PolicyAuthorize_params, List.length_append, UINT32_bytes_length,
      TPM2B_optional_bytes_length] at hw
    exact ⟨v, hv, hw⟩
  · intro sysContext sequenceHandle buffer hierarchy h
    have hw := HeaderWritten_of_Prepared (SequenceComplete_Prepare_prepared _ _ _ _ h)
    simp only [SequenceComplete_params, List.length_append, UINT32_bytes_length,
      TPM2B_optional_bytes_length] at hw
    exact hw
  · intro sysContext keyHandle inData decrypt mode ivIn h
    have hw := HeaderWritten_of_Prepared (EncryptDecrypt2_Prepare_prepared _ _ _ _ _ _ h)
    simp only [EncryptDecrypt2_params, List.length_append, UINT32_bytes_length,
      UINT16_bytes_length, UINT8_bytes_length, TPM2B_optional_bytes_length] at hw
    exact hw
  · intro sysContext parameters h
    obtain ⟨v, hv, hp⟩ := TestParms_Prepare_prepared _ _ h
    exact ⟨v, hv, HeaderWritten_of_Prepared hp⟩

/-- Witness of C24: `Tss2_Sys_Startup_Prepare` with `TPM2_SU_STATE` (1) on a
fresh context succeeds and writes `80 01 00 00 00 0C 00 00 01 44 00 01`. -/
theorem C24_command_header_witness :
    (Tss2_Sys_Startup_Prepare (some mockSysContext) 1).1 = TSS2_RC_SUCCESS ∧
    (HeaderWritten TPM2_CC_Startup 2 (Tss2_Sys_Startup_Prepare (some mockSysContext) 1) ∧
      ∃ c, (Tss2_Sys_Startup_Prepare (some mockSysContext) 1).2 = some c ∧
        c.nextData = 12 ∧
        c.cmdBuffer.take 12 =
          [0x80, 0x01, 0x00, 0x00, 0x00, 0x0C, 0x00, 0x00, 0x01, 0x44, 1 / 256 % 256, 1 % 256]) :=
  ⟨by decide, C24_command_header.1 (some mockSysContext) 1 (by decide)⟩

/-- Claim C27: Prepare with a NULL context, or with a required argument absent
(digests of PCR_Extend, checkTicket of PolicyAuthorize, parameters of
TestParms), returns `TSS2_SYS_RC_BAD_REFERENCE` and the context, if any, is
exactly as it was: the prologue has not run. -/
theorem C27_reference_errors_are_atomic :
    (∀ startupType,
      Tss2_Sys_Startup_Prepare none startupType = (TSS2_SYS_RC_BAD_REFERENCE, none)) ∧
    (∀ auth rateAdjust,
      Tss2_Sys_ClockRateAdjust_Prepare none auth rateAdjust =
        (TSS2_SYS_RC_BAD_REFERENCE, none)) ∧
    (∀ pcrHandle digests,
      Tss2_Sys_PCR_Extend_Prepare none pcrHandle digests = (TSS2_SYS_RC_BAD_REFERENCE, none)) ∧
    (∀ pcrHandle auth,
      Tss2_Sys_PCR_SetAuthValue_Prepare none pcrHandle auth =
        (TSS2_SYS_RC_BAD_REFERENCE, none)) ∧
    (∀ policySession approvedPolicy policyRef keySign checkTicket,
      Tss2_Sys_PolicyAuthorize_Prepare none policySession approvedPolicy policyRef keySign
        checkTicket = (TSS2_SYS_RC_BAD_REFERENCE, none)) ∧
    (∀ sequenceHandle buffer hierarchy,
      Tss2_Sys_SequenceComplete_Prepare none sequenceHandle buffer hierarchy =
        (TSS2_SYS_RC_BAD_REFERENCE, none)) ∧
    (∀ keyHandle inData decrypt mode ivIn,
      Tss2_Sys_EncryptDecrypt2_Prepare none keyHandle inData decrypt mode ivIn =
        (TSS2_SYS_RC_BAD_REFERENCE, none)) ∧
    (∀ parameters,
      Tss2_Sys_TestParms_Prepare none parameters = (TSS2_SYS_RC_BAD_REFERENCE, none)) ∧
    (∀ sysContext pcrHandle,
      Tss2_Sys_PCR_Extend_Prepare sysContext pcrHandle none =
        (TSS2_SYS_RC_BAD_REFERENCE, sysContext)) ∧
    (∀ sysContext policySession approvedPolicy policyRef keySign,
      Tss2_Sys_PolicyAuthorize_Prepare sysContext policySession approvedPolicy policyRef keySign
        none = (TSS2_SYS_RC_BAD_REFERENCE, sysContext)) ∧
    (∀ sysContext,
      Tss2_Sys_TestParms_Prepare sysContext none = (TSS2_SYS_RC_BAD_REFERENCE, sysContext)) := by
  refine ⟨fun _ => rfl, fun _ _ => rfl, ?_, fun _ _ => rfl, ?_, fun _ _ _ => rfl,
    fun _ _ _ _ _ => rfl, ?_, ?_, ?_, ?_⟩
  · intro pcrHandle digests
    cases digests <;> rfl
  · intro policySession approvedPolicy policyRef keySign checkTicket
    cases checkTicket <;> rfl
  · intro parameters
    cases parameters <;> rfl
  · intro sysContext pcrHandle
    cases sysContext <;> rfl
  · intro sysContext policySession approvedPolicy policyRef keySign
    cases sysContext <;> rfl
  · intro sysContext
    cases sysContext <;> rfl

/-- Claim C28: when the capacity of the buffer is smaller than the header and
the parameters of the command, Prepare returns the capacity error of the
first codec call that fails, makes no later codec call, does not run the
epilogue (the size field and the stage are untouched) and leaves the three
capability flags at the cleared values of the prologue. -/
theorem C28_marshal_failure_aborts_Prepare :
    (∀ ctx startupType,
      ctx.maxCmdSize < 10 + (Startup_params startupType).length →
      Aborted ctx TPM2_CC_Startup (Tss2_Sys_Startup_Prepare (some ctx) startupType)) ∧
    (∀ ctx auth rateAdjust,
      ctx.maxCmdSize < 10 + (ClockRateAdjust_params auth rateAdjust).length →
      Aborted ctx TPM2_CC_ClockRateAdjust
        (Tss2_Sys_ClockRateAdjust_Prepare (some ctx) auth rateAdjust)) ∧
    (∀ ctx pcrHandle digests,
      ctx.maxCmdSize < 10 + (PCR_Extend_params pcrHandle digests).length →
      Aborted ctx TPM2_CC_PCR_Extend
        (Tss2_Sys_PCR_Extend_Prepare (some ctx) pcrHandle (some digests))) ∧
    (∀ ctx pcrHandle auth,
      ctx.maxCmdSize < 10 + (PCR_SetAuthValue_params pcrHandle auth).length →
      Aborted ctx TPM2_CC_PCR_SetAuthValue
        (Tss2_Sys_PCR_SetAuthValue_Prepare (some ctx) pcrHandle auth)) ∧
    (∀ ctx policySession approvedPolicy policyRef keySign checkTicket,
      ctx.maxCmdSize < 10 +
        (PolicyAuthorize_params policySession approvedPolicy policyRef keySign
          checkTicket).length →
      Aborted ctx TPM2_CC_PolicyAuthorize
        (Tss2_Sys_PolicyAuthorize_Prepare (some ctx) policySession approvedPolicy policyRef
          keySign (some checkTicket))) ∧
    (∀ ctx sequenceHandle buffer hierarchy,
      ctx.maxCmdSize < 10 + (SequenceComplete_params sequenceHandle buffer hierarchy).length →
      Aborted ctx TPM2_CC_SequenceComplete
        (Tss2_Sys_SequenceComplete_Prepare (some ctx) sequenceHandle buffer hierarchy)) ∧
    (∀ ctx keyHandle inData decrypt mode ivIn,
      ctx.maxCmdSize < 10 + (EncryptDecrypt2_params keyHandle inData decrypt mode ivIn).length →
      Aborted ctx TPM2_CC_EncryptDecrypt2
        (Tss2_Sys_EncryptDecrypt2_Prepare (some ctx) keyHandle inData decrypt mode ivIn)) ∧
    (∀ ctx parameters,
      ctx.maxCmdSize < 10 + (TestParms_params parameters).length →
      Aborted ctx TPM2_CC_TestParms
        (Tss2_Sys_TestParms_Prepare (some ctx) (some parameters))) :=
  ⟨Startup_Prepare_aborted, ClockRateAdjust_Prepare_aborted, PCR_Extend_Prepare_aborted,
   PCR_SetAuthValue_Prepare_aborted, PolicyAuthorize_Prepare_aborted,
   SequenceComplete_Prepare_aborted, EncryptDecrypt2_Prepare_aborted,
   TestParms_Prepare_aborted⟩

/-- Witness of C28: `Tss2_Sys_ClockRateAdjust_Prepare` needs 15 bytes; on a
context with a capacity of 12 bytes it aborts. -/
theorem C28_marshal_failure_aborts_Prepare_witness :
    mockSmallSysContext.maxCmdSize < 10 + (ClockRateAdjust_params 0x4000000C (-1)).length ∧
    Aborted mockSmallSysContext TPM2_CC_ClockRateAdjust
      (Tss2_Sys_ClockRateAdjust_Prepare (some mockSmallSysContext) 0x4000000C (-1)) :=
  ⟨by decide,
   C28_marshal_failure_aborts_Prepare.2.1 mockSmallSysContext 0x4000000C (-1) (by decide)⟩

/-- Claim C29: after a successful `Tss2_Sys_EncryptDecrypt2_Prepare` the bytes
between the 10-byte header and the cursor are keyHandle (4 bytes), the 2-byte
size of inData and its bytes, decrypt (1 byte), mode (2 bytes), the 2-byte
size of ivIn and its bytes, in this order, and the cursor, which is the total
size, is 10 + 4 + 2 + |inData| + 1 + 2 + 2 + |ivIn|. -/
theorem C29_EncryptDecrypt2_parameter_order (sysContext : Option TSS2_SYS_CONTEXT_BLOB)
    (keyHandle : Nat) (inData : Option TPM2B_MAX_BUFFER) (decrypt mode : Nat)
    (ivIn : Option TPM2B_IV)
    (h : (Tss2_Sys_EncryptDecrypt2_Prepare sysContext keyHandle inData decrypt mode ivIn).1 =
      TSS2_RC_SUCCESS) :
    ∃ c, (Tss2_Sys_EncryptDecrypt2_Prepare sysContext keyHandle inData decrypt mode ivIn).2 =
        some c ∧
      (c.cmdBuffer.take c.nextData).drop 10 =
        UINT32_bytes keyHandle ++
        (UINT16_bytes (TPM2B_optional_size inData) ++ TPM2B_optional_payload inData) ++
        UINT8_bytes decrypt ++
        UINT16_bytes mode ++
        (UINT16_bytes (TPM2B_optional_size ivIn) ++ TPM2B_optional_payload ivIn) ∧
      (TPM2B_optional_payload inData).length = TPM2B_optional_size inData ∧
      (TPM2B_optional_payload ivIn).length = TPM2B_optional_size ivIn ∧
      (∀ v, inData = some v → v.buffer.length = v.size → TPM2B_optional_payload inData = v.buffer) ∧
      (∀ v, ivIn = some v → v.buffer.length = v.size → TPM2B_optional_payload ivIn = v.buffer) ∧
      c.nextData =
        10 + 4 + 2 + TPM2B_optional_size inData + 1 + 2 + 2 + TPM2B_optional_size ivIn := by
  obtain ⟨c, hc, hn, hb, _, _⟩ := EncryptDecrypt2_Prepare_prepared _ _ _ _ _ _ h
  refine ⟨c, hc, ?_, TPM2B_optional_payload_length _, TPM2B_optional_payload_length _, ?_, ?_, ?_⟩
  · rw [hb, List.drop_append_of_le_length (by rw [command_header_length]),
      List.drop_of_length_le (by rw [command_header_length]), List.nil_append]
    simp only [EncryptDecrypt2_params, TPM2B_optional_bytes_eq]
  · intro v hv hlen
    rw [hv]
    exact TPM2B_payload_exact v hlen
  · intro v hv hlen
    rw [hv]
    exact TPM2B_payload_exact v hlen
  · rw [hn]
    simp only [EncryptDecrypt2_params, List.length_append, UINT32_bytes_length,
      UINT16_bytes_length, UINT8_bytes_length, TPM2B_optional_bytes_length, TPM_HEADER_SIZE]
    omega

/-- Witness of C29: key handle `0x80000001`, three bytes of data, encryption,
mode CFB (`0x0043`) and a two-byte IV on a fresh context. -/
theorem C29_EncryptDecrypt2_parameter_order_witness :
    (Tss2_Sys_EncryptDecrypt2_Prepare (some mockSysContext) 0x80000001
      (some mockInData) 0 0x0043 (some mockIvIn)).1 = TSS2_RC_SUCCESS ∧
    ∃ c, (Tss2_Sys_EncryptDecrypt2_Prepare (some mockSysContext) 0x80000001
        (some mockInData) 0 0x0043 (some mockIvIn)).2 = some c ∧
      (c.cmdBuffer.take c.nextData).drop 10 =
        UINT32_bytes 0x80000001 ++
        (UINT16_bytes (TPM2B_optional_size (some mockInData)) ++
          TPM2B_optional_payload (some mockInData)) ++
        UINT8_bytes 0 ++
        UINT16_bytes 0x0043 ++
        (UINT16_bytes (TPM2B_optional_size (some mockIvIn)) ++
          TPM2B_optional_payload (some mockIvIn)) ∧
      (TPM2B_optional_payload (some mockInData)).length =
        TPM2B_optional_size (some mockInData) ∧
      (TPM2B_optional_payload (some mockIvIn)).length = TPM2B_optional_size (some mockIvIn) ∧
      (∀ v, some mockInData = some v → v.buffer.length = v.size →
        TPM2B_optional_payload (some mockInData) = v.buffer) ∧
      (∀ v, some mockIvIn = some v → v.buffer.length = v.size →
        TPM2B_optional_payload (some mockIvIn) = v.buffer) ∧
      c.nextData =
        10 + 4 + 2 + TPM2B_optional_size (some mockInData) + 1 + 2 + 2 +
          TPM2B_optional_size (some mockIvIn) :=
  ⟨by decide,
   C29_EncryptDecrypt2_parameter_order (some mockSysContext) 0x80000001
     (some mockInData) 0 0x0043 (some mockIvIn) (by decide)⟩

theorem TPM2B_bytes_length (v : TPM2B_DIGEST) : (TPM2B_bytes v).length = 2 + v.size := by
  unfold TPM2B_bytes
  rw [List.length_append, UINT16_bytes_length, TPM2B_payload_length]

theorem writeAt_drop (buffer : List Nat) (offset : Nat) (bytes : List Nat)
    (h : offset ≤ buffer.length) :
    (writeAt buffer offset bytes).drop offset =
      bytes ++ buffer.drop (offset + bytes.length) := by
  unfold writeAt
  rw [List.append_assoc, List.drop_append_of_le_length (by simp; omega),
    List.drop_of_length_le (by simp), List.nil_append]

theorem getD_of_drop (l : List Nat) (n k : Nat) : l.getD (n + k) 0 = (l.drop n).getD k 0 := by
  simp [List.getD_eq_getElem?_getD]

theorem TPM2B_roundtrip (max : Nat) (hmax : max < 65536) (v : TPM2B_DIGEST)
    (buffer : List Nat) (cap offset : Nat)
    (hlen : v.buffer.length = v.size) (hsize : v.size ≤ max)
    (hcap : offset + (2 + v.size) ≤ cap) (hbuf : cap ≤ buffer.length) :
    (marshal_bytes (TPM2B_bytes v) buffer cap offset).1 = TSS2_RC_SUCCESS ∧
    (marshal_bytes (TPM2B_bytes v) buffer cap offset).2.2 = offset + (2 + v.size) ∧
    TPM2B_Unmarshal max (marshal_bytes (TPM2B_bytes v) buffer cap offset).2.1 cap offset =
      (TSS2_RC_SUCCESS, (marshal_bytes (TPM2B_bytes v) buffer cap offset).2.2, some v) := by
  have hm : marshal_bytes (TPM2B_bytes v) buffer cap offset =
      (TSS2_RC_SUCCESS, writeAt buffer offset (TPM2B_bytes v), offset + (2 + v.size)) := by
    unfold marshal_bytes
    rw [TPM2B_bytes_length, if_neg (by omega)]
  rw [hm]
  refine ⟨rfl, rfl, ?_⟩
  have hd : (writeAt buffer offset (TPM2B_bytes v)).drop offset =
      v.size / 256 % 256 :: v.size % 256 :: (v.buffer ++ buffer.drop (offset + (2 + v.size))) := by
    rw [writeAt_drop _ _ _ (by omega), TPM2B_bytes_length]
    unfold TPM2B_bytes
    rw [TPM2B_payload_exact v hlen]
    rfl
  have h0 : (writeAt buffer offset (TPM2B_bytes v)).getD offset 0 = v.size / 256 % 256 := by
    have := getD_of_drop (writeAt buffer offset (TPM2B_bytes v)) offset 0
    rw [Nat.add_zero] at this
    rw [this, hd]
    rfl
  have h1 : (writeAt buffer offset (TPM2B_bytes v)).getD (offset + 1) 0 = v.size % 256 := by
    rw [getD_of_drop, hd]
    rfl
  have h2 : (writeAt buffer offset (TPM2B_bytes v)).drop (offset + 2) =
      v.buffer ++ buffer.drop (offset + (2 + v.size)) := by
    rw [← List.drop_drop, hd]
    rfl
  have hv : v.size / 256 % 256 * 256 + v.size % 256 = v.size := by omega
  unfold TPM2B_Unmarshal
  simp only
  rw [h0, h1, hv, h2, if_neg (by omega), if_neg (by omega), if_neg (by omega)]
  rw [List.take_append_of_le_length (by omega), List.take_of_length_le (by omega),
    Nat.add_assoc]

/-- Claim C22: for `TPM2B_DIGEST`, `TPM2B_MAX_BUFFER` and `TPM2B_IV`, a value
whose byte array has `size` bytes, with `size` within the maximum of the
type, marshaled into a buffer with enough remaining capacity and unmarshaled
from the same starting cursor, is reproduced exactly, and the cursor after
unmarshal is the cursor after marshal.  A value of size 0 is included. -/
theorem C22_sized_buffer_round_trip :
    (∀ (v : TPM2B_DIGEST) (buffer : List Nat) (cap offset : Nat),
      v.buffer.length = v.size → v.size ≤ TPM2B_DIGEST_MAX →
      offset + (2 + v.size) ≤ cap → cap ≤ buffer.length →
      (Tss2_MU_TPM2B_DIGEST_Marshal v buffer cap offset).1 = TSS2_RC_SUCCESS ∧
      Tss2_MU_TPM2B_DIGEST_Unmarshal (Tss2_MU_TPM2B_DIGEST_Marshal v buffer cap offset).2.1
          cap offset =
        (TSS2_RC_SUCCESS, (Tss2_MU_TPM2B_DIGEST_Marshal v buffer cap offset).2.2, some v)) ∧
    (∀ (v : TPM2B_MAX_BUFFER) (buffer : List Nat) (cap offset : Nat),
      v.buffer.length = v.size → v.size ≤ TPM2B_MAX_BUFFER_MAX →
      offset + (2 + v.size) ≤ cap → cap ≤ buffer.length →
      (Tss2_MU_TPM2B_MAX_BUFFER_Marshal v buffer cap offset).1 = TSS2_RC_SUCCESS ∧
      Tss2_MU_TPM2B_MAX_BUFFER_Unmarshal
          (Tss2_MU_TPM2B_MAX_BUFFER_Marshal v buffer cap offset).2.1 cap offset =
        (TSS2_RC_SUCCESS, (Tss2_MU_TPM2B_MAX_BUFFER_Marshal v buffer cap offset).2.2, some v)) ∧
    (∀ (v : TPM2B_IV) (buffer : List Nat) (cap offset : Nat),
      v.buffer.length = v.size → v.size ≤ TPM2B_IV_MAX →
      offset + (2 + v.size) ≤ cap → cap ≤ buffer.length →
      (Tss2_MU_TPM2B_IV_Marshal v buffer cap offset).1 = TSS2_RC_SUCCESS ∧
      Tss2_MU_TPM2B_IV_Unmarshal (Tss2_MU_TPM2B_IV_Marshal v buffer cap offset).2.1
          cap offset =
        (TSS2_RC_SUCCESS, (Tss2_MU_TPM2B_IV_Marshal v buffer cap offset).2.2, some v)) := by
  refine ⟨?_, ?_, ?_⟩
  · intro v buffer cap offset hlen hsize hcap hbuf
    have h := TPM2B_roundtrip TPM2B_DIGEST_MAX (by decide) v buffer cap offset hlen hsize hcap hbuf
    exact ⟨h.1, h.2.2⟩
  · intro v buffer cap offset hlen hsize hcap hbuf
    have h := TPM2B_roundtrip TPM2B_MAX_BUFFER_MAX (by decide) v buffer cap offset hlen hsize
      hcap hbuf
    exact ⟨h.1, h.2.2⟩
  · intro v buffer cap offset hlen hsize hcap hbuf
    have h := TPM2B_roundtrip TPM2B_IV_MAX (by decide) v buffer cap offset hlen hsize hcap hbuf
    exact ⟨h.1, h.2.2⟩

/-- Witness of C22: the zero-length `TPM2B_DIGEST` at cursor 10 of the buffer
of a fresh context, and the two-byte `TPM2B_IV` `{9, 8}` at cursor 17. -/
theorem C22_sized_buffer_round_trip_witness :
    ((Tss2_MU_TPM2B_DIGEST_Marshal { size := 0, buffer := [] }
        mockSysContext.cmdBuffer 64 10).1 = TSS2_RC_SUCCESS ∧
      Tss2_MU_TPM2B_DIGEST_Unmarshal
          (Tss2_MU_TPM2B_DIGEST_Marshal { size := 0, buffer := [] }
            mockSysContext.cmdBuffer 64 10).2.1 64 10 =
        (TSS2_RC_SUCCESS,
         (Tss2_MU_TPM2B_DIGEST_Marshal { size := 0, buffer := [] }
            mockSysContext.cmdBuffer 64 10).2.2,
         some { size := 0, buffer := [] })) ∧
    ((Tss2_MU_TPM2B_IV_Marshal mockIvIn mockSysContext.cmdBuffer 64 17).1 = TSS2_RC_SUCCESS ∧
      Tss2_MU_TPM2B_IV_Unmarshal
          (Tss2_MU_TPM2B_IV_Marshal mockIvIn mockSysContext.cmdBuffer 64 17).2.1 64 17 =
        (TSS2_RC_SUCCESS, (Tss2_MU_TPM2B_IV_Marshal mockIvIn mockSysContext.cmdBuffer 64 17).2.2,
         some mockIvIn)) :=
  ⟨C22_sized_buffer_round_trip.1 { size := 0, buffer := [] } mockSysContext.cmdBuffer 64 10
     (by decide) (by decide) (by decide) (by decide),
   C22_sized_buffer_round_trip.2.2 mockIvIn mockSysContext.cmdBuffer 64 17
     (by decide) (by decide) (by decide) (by decide)⟩

theorem prepareSteps_same (d e a : Nat) :
    ∀ (steps steps1 : List (Bool × List Nat)) (c c1 : TSS2_SYS_CONTEXT_BLOB),
      steps.map (fun s => s.2) = steps1.map (fun s => s.2) →
      c.cmdBuffer = c1.cmdBuffer → c.maxCmdSize = c1.maxCmdSize → c.nextData = c1.nextData →
      (prepareSteps d e a steps c).1 = (prepareSteps d e a steps1 c1).1 ∧
      (prepareSteps d e a steps c).2.cmdBuffer = (prepareSteps d e a steps1 c1).2.cmdBuffer ∧
      (prepareSteps d e a steps c).2.maxCmdSize = (prepareSteps d e a steps1 c1).2.maxCmdSize ∧
      (prepareSteps d e a steps c).2.nextData = (prepareSteps d e a steps1 c1).2.nextData
  | [], [], c, c1, _, hb, hm, hn => by
    refine ⟨rfl, ?_, hm, hn⟩
    show writeAt c.cmdBuffer 2 (UINT32_bytes c.nextData) =
      writeAt c1.cmdBuffer 2 (UINT32_bytes c1.nextData)
    rw [hb, hn]
  | [], _ :: _, _, _, hs, _, _, _ => by simp at hs
  | _ :: _, [], _, _, hs, _, _, _ => by simp at hs
  | (nul, bytes) :: rest, (nul1, bytes1) :: rest1, c, c1, hs, hb, hm, hn => by
    simp only [List.map_cons, List.cons.injEq] at hs
    obtain ⟨hbytes, hrest⟩ := hs
    subst hbytes
    have key : ∀ k k1 : TSS2_SYS_CONTEXT_BLOB, k.cmdBuffer = k1.cmdBuffer →
        k.maxCmdSize = k1.maxCmdSize → k.nextData = k1.nextData →
        (thenOnSuccess (k.marshal (marshal_bytes bytes)) (prepareSteps d e a rest)).1 =
          (thenOnSuccess (k1.marshal (marshal_bytes bytes)) (prepareSteps d e a rest1)).1 ∧
        (thenOnSuccess (k.marshal (marshal_bytes bytes)) (prepareSteps d e a rest)).2.cmdBuffer =
          (thenOnSuccess (k1.marshal (marshal_bytes bytes))
            (prepareSteps d e a rest1)).2.cmdBuffer ∧
        (thenOnSuccess (k.marshal (marshal_bytes bytes)) (prepareSteps d e a rest)).2.maxCmdSize =
          (thenOnSuccess (k1.marshal (marshal_bytes bytes))
            (prepareSteps d e a rest1)).2.maxCmdSize ∧
        (thenOnSuccess (k.marshal (marshal_bytes bytes)) (prepareSteps d e a rest)).2.nextData =
          (thenOnSuccess (k1.marshal (marshal_bytes bytes))
            (prepareSteps d e a rest1)).2.nextData := by
      intro k k1 kb km kn
      by_cases hstep : k.nextData + bytes.length ≤ k.maxCmdSize
      · rw [marshal_ok k bytes hstep, marshal_ok k1 bytes (by rw [← kn, ← km]; exact hstep)]
        unfold thenOnSuccess
        rw [if_neg (by simp), if_neg (by simp)]
        exact prepareSteps_same d e a rest rest1 _ _ hrest
          (by simp only; rw [kb, kn]) km (by simp only; rw [kn])
      · rw [marshal_fail k bytes (by omega),
          marshal_fail k1 bytes (by rw [← kn, ← km]; omega)]
        unfold thenOnSuccess
        rw [if_pos INSUFFICIENT_BUFFER_ne_zero, if_pos INSUFFICIENT_BUFFER_ne_zero]
        exact ⟨rfl, kb, km, kn⟩
    rw [prepareSteps_cons, prepareSteps_cons]
    cases nul <;> cases nul1 <;> exact key _ _ hb hm hn

theorem prepareGeneric_same (commandCode : Nat) (steps steps1 : List (Bool × List Nat))
    (d e a : Nat) (ctx : TSS2_SYS_CONTEXT_BLOB)
    (hs : steps.map (fun s => s.2) = steps1.map (fun s => s.2)) :
    SameCommand
      ((prepareGeneric commandCode steps d e a ctx).1,
       some (prepareGeneric commandCode steps d e a ctx).2)
      ((prepareGeneric commandCode steps1 d e a ctx).1,
       some (prepareGeneric commandCode steps1 d e a ctx).2) := by
  unfold SameCommand prepareGeneric thenOnSuccess
  by_cases h : (CommonPreparePrologue ctx commandCode).1 ≠ 0
  · rw [if_pos h, if_pos h]
    exact ⟨rfl, rfl, rfl⟩
  · rw [if_neg h, if_neg h]
    have hp := prepareSteps_same d e a steps steps1 _ _ hs
      (rfl : (CommonPreparePrologue ctx commandCode).2.cmdBuffer = _) rfl rfl
    simp only [Option.map_some']
    exact ⟨hp.1, congrArg some hp.2.1, congrArg some hp.2.2.2⟩

theorem SameCommand_refl (r : TSS2_RC × Option TSS2_SYS_CONTEXT_BLOB) : SameCommand r r :=
  ⟨rfl, rfl, rfl⟩

/-- Claim C25: for each optional sized parameter, Prepare with the argument
absent gives the same return code, the same command buffer and the same
cursor (hence the same patched size) as Prepare with the argument present
and of size 0, the other arguments being equal. -/
theorem C25_absent_parameter_is_zero_length :
    (∀ sysContext pcrHandle bytes,
      SameCommand (Tss2_Sys_PCR_SetAuthValue_Prepare sysContext pcrHandle none)
        (Tss2_Sys_PCR_SetAuthValue_Prepare sysContext pcrHandle
          (some { size := 0, buffer := bytes }))) ∧
    (∀ sysContext sequenceHandle hierarchy bytes,
      SameCommand (Tss2_Sys_SequenceComplete_Prepare sysContext sequenceHandle none hierarchy)
        (Tss2_Sys_SequenceComplete_Prepare sysContext sequenceHandle
          (some { size := 0, buffer := bytes }) hierarchy)) ∧
    (∀ sysContext keyHandle decrypt mode ivIn bytes,
      SameCommand (Tss2_Sys_EncryptDecrypt2_Prepare sysContext keyHandle none decrypt mode ivIn)
        (Tss2_Sys_EncryptDecrypt2_Prepare sysContext keyHandle
          (some { size := 0, buffer := bytes }) decrypt mode ivIn)) ∧
    (∀ sysContext keyHandle inData decrypt mode bytes,
      SameCommand (Tss2_Sys_EncryptDecrypt2_Prepare sysContext keyHandle inData decrypt mode none)
        (Tss2_Sys_EncryptDecrypt2_Prepare sysContext keyHandle inData decrypt mode
          (some { size := 0, buffer := bytes }))) ∧
    (∀ sysContext policySession policyRef keySign checkTicket bytes,
      SameCommand
        (Tss2_Sys_PolicyAuthorize_Prepare sysContext policySession none policyRef keySign
          checkTicket)
        (Tss2_Sys_PolicyAuthorize_Prepare sysContext policySession
          (some { size := 0, buffer := bytes }) policyRef keySign checkTicket)) ∧
    (∀ sysContext policySession approvedPolicy keySign checkTicket bytes,
      SameCommand
        (Tss2_Sys_PolicyAuthorize_Prepare sysContext policySession approvedPolicy none keySign
          checkTicket)
        (Tss2_Sys_PolicyAuthorize_Prepare sysContext policySession approvedPolicy
          (some { size := 0, buffer := bytes }) keySign checkTicket)) ∧
    (∀ sysContext policySession approvedPolicy policyRef checkTicket bytes,
      SameCommand
        (Tss2_Sys_PolicyAuthorize_Prepare sysContext policySession approvedPolicy policyRef none
          checkTicket)
        (Tss2_Sys_PolicyAuthorize_Prepare sysContext policySession approvedPolicy policyRef
          (some { size := 0, buffer := bytes }) checkTicket)) := by
  refine ⟨?_, ?_, ?_, ?_, ?_, ?_, ?_⟩
  · intro sysContext pcrHandle bytes
    cases sysContext with
    | none => exact SameCommand_refl _
    | some ctx =>
      rw [PCR_SetAuthValue_Prepare_generic, PCR_SetAuthValue_Prepare_generic]
      exact prepareGeneric_same _ _ _ _ _ _ ctx rfl
  · intro sysContext sequenceHandle hierarchy bytes
    cases sysContext with
    | none => exact SameCommand_refl _
    | some ctx =>
      rw [SequenceComplete_Prepare_generic, SequenceComplete_Prepare_generic]
      exact prepareGeneric_same _ _ _ _ _ _ ctx rfl
  · intro sysContext keyHandle decrypt mode ivIn bytes
    cases sysContext with
    | none => exact SameCommand_refl _
    | some ctx =>
      rw [EncryptDecrypt2_Prepare_generic, EncryptDecrypt2_Prepare_generic]
      exact prepareGeneric_same _ _ _ _ _ _ ctx rfl
  · intro sysContext keyHandle inData decrypt mode bytes
    cases sysContext with
    | none => exact SameCommand_refl _
    | some ctx =>
      rw [EncryptDecrypt2_Prepare_generic, EncryptDecrypt2_Prepare_generic]
      exact prepareGeneric_same _ _ _ _ _ _ ctx rfl
  · intro sysContext policySession policyRef keySign checkTicket bytes
    cases sysContext with
    | none => cases checkTicket <;> exact SameCommand_refl _
    | some ctx =>
      cases checkTicket with
      | none => exact SameCommand_refl _
      | some ticket =>
        rw [PolicyAuthorize_Prepare_generic, PolicyAuthorize_Prepare_generic]
        exact prepareGeneric_same _ _ _ _ _ _ ctx rfl
  · intro sysContext policySession approvedPolicy keySign checkTicket bytes
    cases sysContext with
    | none => cases checkTicket <;> exact SameCommand_refl _
    | some ctx =>
      cases checkTicket with
      | none => exact SameCommand_refl _
      | some ticket =>
        rw [PolicyAuthorize_Prepare_generic, PolicyAuthorize_Prepare_generic]
        exact prepareGeneric_same _ _ _ _ _ _ ctx rfl
  · intro sysContext policySession approvedPolicy policyRef checkTicket bytes
    cases sysContext with
    | none => cases checkTicket <;> exact SameCommand_refl _
    | some ctx =>
      cases checkTicket with
      | none => exact SameCommand_refl _
      | some ticket =>
        rw [PolicyAuthorize_Prepare_generic, PolicyAuthorize_Prepare_generic]
        exact prepareGeneric_same _ _ _ _ _ _ ctx rfl

/-- Claim C26, evaluated on the code: on a fresh context with a 64-byte buffer
`Tss2_Sys_PCR_SetAuthValue_Prepare` with `auth` absent and
`Tss2_Sys_EncryptDecrypt2_Prepare` with `inData` absent succeed, permit
decryption and leave `decryptNull` at 0, whereas
`Tss2_Sys_PolicyAuthorize_Prepare` with `approvedPolicy` absent and
`Tss2_Sys_SequenceComplete_Prepare` with `buffer` absent leave it at 1. -/
theorem C26_decryptNull_missed_by_two_commands :
    (Tss2_Sys_PCR_SetAuthValue_Prepare (some mockSysContext) 0 none).1 = TSS2_RC_SUCCESS ∧
    (Tss2_Sys_PCR_SetAuthValue_Prepare (some mockSysContext) 0 none).2.map
      (fun c => (c.decryptAllowed, c.decryptNull)) = some (1, 0) ∧
    (Tss2_Sys_EncryptDecrypt2_Prepare (some mockSysContext) 0x80000001 none 0 0x0043
      (some mockIvIn)).1 = TSS2_RC_SUCCESS ∧
    (Tss2_Sys_EncryptDecrypt2_Prepare (some mockSysContext) 0x80000001 none 0 0x0043
      (some mockIvIn)).2.map (fun c => (c.decryptAllowed, c.decryptNull)) = some (1, 0) ∧
    (Tss2_Sys_PolicyAuthorize_Prepare (some mockSysContext) 0x03000000 none none none
      (some mockTicket)).1 = TSS2_RC_SUCCESS ∧
    (Tss2_Sys_PolicyAuthorize_Prepare (some mockSysContext) 0x03000000 none none none
      (some mockTicket)).2.map (fun c => (c.decryptAllowed, c.decryptNull)) = some (1, 1) ∧
    (Tss2_Sys_SequenceComplete_Prepare (some mockSysContext) 0x80000001 none
      0x40000001).1 = TSS2_RC_SUCCESS ∧
    (Tss2_Sys_SequenceComplete_Prepare (some mockSysContext) 0x80000001 none
      0x40000001).2.map (fun c => (c.decryptAllowed, c.decryptNull)) = some (1, 1) := by
  decide


/-! ## The session values in `Esys_PCR_SetAuthPolicy_Async` -/

theorem NoSessionCalls_nil : NoSessionCalls [] := by
  intro x hx
  cases hx

theorem NoSessionCalls_cons (x : Call) (rest : List Call)
    (hx : x.isComputeSessionValue = false ∧ x.isGenAuths = false) (h : NoSessionCalls rest) :
    NoSessionCalls (x :: rest) := by
  intro y hy
  rcases List.mem_cons.1 hy with rfl | hy
  · exact hx
  · exact h y hy

theorem Async_dispatch_trace (L : Lower W) (c : ESYS_CONTEXT W) :
    ∃ new, (Async_dispatch L c).2.calls = c.calls ++ new ∧ NoSessionCalls new :=
  ⟨_, Async_dispatch_calls L c, NoSessionCalls_cons _ _ ⟨rfl, rfl⟩ NoSessionCalls_nil⟩

theorem Async_setCmdAuths_trace (L : Lower W) (c : ESYS_CONTEXT W)
    (auths : TSS2L_SYS_AUTH_COMMAND) :
    ∃ new, (Async_setCmdAuths L c auths).2.calls = c.calls ++ new ∧ NoSessionCalls new := by
  unfold Async_setCmdAuths
  dsimp only
  by_cases hcount : auths.count > 0
  · rw [if_pos hcount]
    by_cases h : (L.Tss2_Sys_SetCmdAuths c.lower auths).1 ≠ TSS2_RC_SUCCESS
    · rw [if_pos h]
      exact ⟨[.Tss2_Sys_SetCmdAuths auths _], rfl,
        NoSessionCalls_cons _ _ ⟨rfl, rfl⟩ NoSessionCalls_nil⟩
    · rw [if_neg h]
      obtain ⟨new, hnew, hclean⟩ := Async_dispatch_trace L
        (({ c with authsCount := auths.count } : ESYS_CONTEXT W).did
          (.Tss2_Sys_SetCmdAuths auths (L.Tss2_Sys_SetCmdAuths c.lower auths).1)
          (L.Tss2_Sys_SetCmdAuths c.lower auths).2)
      refine ⟨.Tss2_Sys_SetCmdAuths auths (L.Tss2_Sys_SetCmdAuths c.lower auths).1 :: new, ?_,
        NoSessionCalls_cons _ _ ⟨rfl, rfl⟩ hclean⟩
      rw [hnew]
      simp [ESYS_CONTEXT.did]
  · rw [if_neg hcount]
    exact Async_dispatch_trace L _

theorem Async_genAuths_trace (L : Lower W) (c : ESYS_CONTEXT W)
    (authHandleNode : Option RSRC_NODE_T) :
    ∃ g post, (Async_genAuths L c authHandleNode).2.calls = c.calls ++ [g] ++ post ∧
      g.isGenAuths = true ∧ g.isComputeSessionValue = false ∧ NoSessionCalls post := by
  unfold Async_genAuths
  dsimp only
  by_cases h : (L.iesys_gen_auths c.lower authHandleNode none none).1 ≠ TSS2_RC_SUCCESS
  · rw [if_pos h]
    exact ⟨.iesys_gen_auths authHandleNode none none
      (L.iesys_gen_auths c.lower authHandleNode none none).1, [],
      by simp [return_state, ESYS_CONTEXT.did], rfl, rfl, NoSessionCalls_nil⟩
  · rw [if_neg h]
    obtain ⟨new, hnew, hclean⟩ := Async_setCmdAuths_trace L
      (c.did (.iesys_gen_auths authHandleNode none none
          (L.iesys_gen_auths c.lower authHandleNode none none).1)
        (L.iesys_gen_auths c.lower authHandleNode none none).2.2)
      (L.iesys_gen_auths c.lower authHandleNode none none).2.1
    exact ⟨.iesys_gen_auths authHandleNode none none
      (L.iesys_gen_auths c.lower authHandleNode none none).1, new,
      by rw [hnew]; simp [ESYS_CONTEXT.did], rfl, rfl, hclean⟩

theorem Async_sessionValues_trace (L : Lower W) (c : ESYS_CONTEXT W)
    (authHandleNode : Option RSRC_NODE_T) :
    ∃ g post, (Async_sessionValues L c authHandleNode).2.calls =
        c.calls ++ sessionValueCalls authHandleNode ++ [g] ++ post ∧
      g.isGenAuths = true ∧ g.isComputeSessionValue = false ∧ NoSessionCalls post := by
  unfold Async_sessionValues
  dsimp only
  obtain ⟨g, post, hcalls, hg, hg2, hclean⟩ := Async_genAuths_trace L
    (((c.did (.iesys_compute_session_value 0 (authHandleNode.map (fun node => node.name))
          (authHandleNode.map (fun node => node.auth)))
        (L.iesys_compute_session_value c.lower 0 (authHandleNode.map (fun node => node.name))
          (authHandleNode.map (fun node => node.auth)))).did
      (.iesys_compute_session_value 1 none none)
        (L.iesys_compute_session_value
          (L.iesys_compute_session_value c.lower 0 (authHandleNode.map (fun node => node.name))
            (authHandleNode.map (fun node => node.auth))) 1 none none)).did
      (.iesys_compute_session_value 2 none none)
        (L.iesys_compute_session_value
          (L.iesys_compute_session_value
            (L.iesys_compute_session_value c.lower 0
              (authHandleNode.map (fun node => node.name))
              (authHandleNode.map (fun node => node.auth))) 1 none none) 2 none none))
    authHandleNode
  refine ⟨g, post, ?_, hg, hg2, hclean⟩
  simp only [ESYS_CONTEXT.did] at hcalls ⊢
  rw [hcalls]
  simp [sessionValueCalls]

theorem SessionValuesTrace_fail (node : Option RSRC_NODE_T) (x : Call)
    (hx : x.isComputeSessionValue = false ∧ x.isGenAuths = false) :
    SessionValuesTrace node [x] :=
  Or.inl (NoSessionCalls_cons _ _ hx NoSessionCalls_nil)

theorem SessionValuesTrace_cons (node : Option RSRC_NODE_T) (x : Call) (new : List Call)
    (hx : x.isComputeSessionValue = false ∧ x.isGenAuths = false)
    (h : SessionValuesTrace node new) :
    SessionValuesTrace node (x :: new) := by
  rcases h with h | ⟨pre, g, post, hnew, hg, hg2, hpre, hpost⟩
  · exact Or.inl (NoSessionCalls_cons _ _ hx h)
  · refine Or.inr ⟨x :: pre, g, post, ?_, hg, hg2, NoSessionCalls_cons _ _ hx hpre, hpost⟩
    rw [hnew]
    simp

theorem Async_initSessionTab_trace (L : Lower W) (c : ESYS_CONTEXT W)
    (authHandleNode : Option RSRC_NODE_T) (shandle1 shandle2 shandle3 : ESYS_TR) :
    ∃ new, (Async_initSessionTab L c authHandleNode shandle1 shandle2 shandle3).2.calls =
        c.calls ++ new ∧ SessionValuesTrace authHandleNode new := by
  unfold Async_initSessionTab
  dsimp only
  by_cases h : (L.init_session_tab c.lower shandle1 shandle2 shandle3).1 ≠ TSS2_RC_SUCCESS
  · rw [if_pos h]
    exact ⟨[.init_session_tab shandle1 shandle2 shandle3
      (L.init_session_tab c.lower shandle1 shandle2 shandle3).1], rfl,
      SessionValuesTrace_fail _ _ ⟨rfl, rfl⟩⟩
  · rw [if_neg h]
    obtain ⟨g, post, hcalls, hg, hg2, hclean⟩ := Async_sessionValues_trace L
      (c.did (.init_session_tab shandle1 shandle2 shandle3
          (L.init_session_tab c.lower shandle1 shandle2 shandle3).1)
        (L.init_session_tab c.lower shandle1 shandle2 shandle3).2) authHandleNode
    refine ⟨.init_session_tab shandle1 shandle2 shandle3
      (L.init_session_tab c.lower shandle1 shandle2 shandle3).1 ::
        (sessionValueCalls authHandleNode ++ [g] ++ post), ?_,
      SessionValuesTrace_cons _ _ _ ⟨rfl, rfl⟩
        (Or.inr ⟨[], g, post, by simp, hg, hg2, NoSessionCalls_nil, hclean⟩)⟩
    rw [hcalls]
    simp [ESYS_CONTEXT.did]

theorem Async_prepare_body_trace (L : Lower W) (c : ESYS_CONTEXT W)
    (authHandleNode : Option RSRC_NODE_T) (handle : TPM2_HANDLE)
    (shandle1 shandle2 shandle3 : ESYS_TR)
    (authPolicy : Option TPM2B_DIGEST) (hashAlg : TPMI_ALG_HASH) (pcrNum : TPMI_DH_PCR) :
    ∃ new,
      (if (L.Tss2_Sys_PCR_SetAuthPolicy_Prepare c.lower handle authPolicy hashAlg pcrNum).1 ≠
          TSS2_RC_SUCCESS then
        return_state
          (L.Tss2_Sys_PCR_SetAuthPolicy_Prepare c.lower handle authPolicy hashAlg pcrNum).1
          ESYS_STATE_INIT
          (c.did (.Tss2_Sys_PCR_SetAuthPolicy_Prepare handle authPolicy hashAlg pcrNum
              (L.Tss2_Sys_PCR_SetAuthPolicy_Prepare c.lower handle authPolicy hashAlg pcrNum).1)
            (L.Tss2_Sys_PCR_SetAuthPolicy_Prepare c.lower handle authPolicy hashAlg pcrNum).2)
      else
        Async_initSessionTab L
          (c.did (.Tss2_Sys_PCR_SetAuthPolicy_Prepare handle authPolicy hashAlg pcrNum
              (L.Tss2_Sys_PCR_SetAuthPolicy_Prepare c.lower handle authPolicy hashAlg pcrNum).1)
            (L.Tss2_Sys_PCR_SetAuthPolicy_Prepare c.lower handle authPolicy hashAlg pcrNum).2)
          authHandleNode shandle1 shandle2 shandle3).2.calls = c.calls ++ new ∧
      SessionValuesTrace authHandleNode new := by
  by_cases h : (L.Tss2_Sys_PCR_SetAuthPolicy_Prepare c.lower handle authPolicy hashAlg
      pcrNum).1 ≠ TSS2_RC_SUCCESS
  · rw [if_pos h]
    exact ⟨[.Tss2_Sys_PCR_SetAuthPolicy_Prepare handle authPolicy hashAlg pcrNum
      (L.Tss2_Sys_PCR_SetAuthPolicy_Prepare c.lower handle authPolicy hashAlg pcrNum).1], rfl,
      SessionValuesTrace_fail _ _ ⟨rfl, rfl⟩⟩
  · rw [if_neg h]
    obtain ⟨new, hcalls, htrace⟩ := Async_initSessionTab_trace L
      (c.did (.Tss2_Sys_PCR_SetAuthPolicy_Prepare handle authPolicy hashAlg pcrNum
          (L.Tss2_Sys_PCR_SetAuthPolicy_Prepare c.lower handle authPolicy hashAlg pcrNum).1)
        (L.Tss2_Sys_PCR_SetAuthPolicy_Prepare c.lower handle authPolicy hashAlg pcrNum).2)
      authHandleNode shandle1 shandle2 shandle3
    refine ⟨.Tss2_Sys_PCR_SetAuthPolicy_Prepare handle authPolicy hashAlg pcrNum
      (L.Tss2_Sys_PCR_SetAuthPolicy_Prepare c.lower handle authPolicy hashAlg pcrNum).1 :: new,
      ?_, SessionValuesTrace_cons _ _ _ ⟨rfl, rfl⟩ htrace⟩
    rw [hcalls]
    simp [ESYS_CONTEXT.did]

theorem Async_prepare_trace (L : Lower W) (c : ESYS_CONTEXT W)
    (authHandleNode : Option RSRC_NODE_T) (shandle1 shandle2 shandle3 : ESYS_TR)
    (authPolicy : Option TPM2B_DIGEST) (hashAlg : TPMI_ALG_HASH) (pcrNum : TPMI_DH_PCR) :
    ∃ new, (Async_prepare L c authHandleNode shandle1 shandle2 shandle3 authPolicy hashAlg
        pcrNum).2.calls = c.calls ++ new ∧ SessionValuesTrace authHandleNode new := by
  unfold Async_prepare
  dsimp only
  exact Async_prepare_body_trace L c authHandleNode _ shandle1 shandle2 shandle3
    authPolicy hashAlg pcrNum

theorem Async_getResourceObject_trace (L : Lower W) (c : ESYS_CONTEXT W)
    (authHandle shandle1 shandle2 shandle3 : ESYS_TR)
    (authPolicy : Option TPM2B_DIGEST) (hashAlg : TPMI_ALG_HASH) (pcrNum : TPMI_DH_PCR) :
    ∃ new, (Async_getResourceObject L c authHandle shandle1 shandle2 shandle3 authPolicy hashAlg
        pcrNum).2.calls = c.calls ++ new ∧
      SessionValuesTrace (L.esys_GetResourceObject c.lower authHandle).2.1 new := by
  unfold Async_getResourceObject
  dsimp only
  by_cases h : (L.esys_GetResourceObject c.lower authHandle).1 ≠ TSS2_RC_SUCCESS
  · rw [if_pos h]
    exact ⟨[.esys_GetResourceObject authHandle (L.esys_GetResourceObject c.lower authHandle).1],
      rfl, SessionValuesTrace_fail _ _ ⟨rfl, rfl⟩⟩
  · rw [if_neg h]
    obtain ⟨new, hcalls, htrace⟩ := Async_prepare_trace L
      (c.did (.esys_GetResourceObject authHandle (L.esys_GetResourceObject c.lower authHandle).1)
        (L.esys_GetResourceObject c.lower authHandle).2.2)
      (L.esys_GetResourceObject c.lower authHandle).2.1 shandle1 shandle2 shandle3
      authPolicy hashAlg pcrNum
    refine ⟨.esys_GetResourceObject authHandle
      (L.esys_GetResourceObject c.lower authHandle).1 :: new,
      ?_, SessionValuesTrace_cons _ _ _ ⟨rfl, rfl⟩ htrace⟩
    rw [hcalls]
    simp [ESYS_CONTEXT.did]

theorem Async_checkSessions_trace (L : Lower W) (c : ESYS_CONTEXT W)
    (authHandle shandle1 shandle2 shandle3 : ESYS_TR)
    (authPolicy : Option TPM2B_DIGEST) (hashAlg : TPMI_ALG_HASH) (pcrNum : TPMI_DH_PCR) :
    ∃ new, (Async_checkSessions L c authHandle shandle1 shandle2 shandle3 authPolicy hashAlg
        pcrNum).2.calls = c.calls ++ new ∧
      SessionValuesTrace (L.esys_GetResourceObject c.lower authHandle).2.1 new := by
  unfold Async_checkSessions
  dsimp only
  by_cases h : L.check_session_feasibility shandle1 shandle2 shandle3 1 ≠ TSS2_RC_SUCCESS
  · rw [if_pos h]
    exact ⟨[.check_session_feasibility shandle1 shandle2 shandle3 1
      (L.check_session_feasibility shandle1 shandle2 shandle3 1)],
      rfl, SessionValuesTrace_fail _ _ ⟨rfl, rfl⟩⟩
  · rw [if_neg h]
    obtain ⟨new, hcalls, htrace⟩ := Async_getResourceObject_trace L
      (c.did (.check_session_feasibility shandle1 shandle2 shandle3 1
        (L.check_session_feasibility shandle1 shandle2 shandle3 1)) c.lower)
      authHandle shandle1 shandle2 shandle3 authPolicy hashAlg pcrNum
    refine ⟨.check_session_feasibility shandle1 shandle2 shandle3 1
        (L.check_session_feasibility shandle1 shandle2 shandle3 1) :: new,
      ?_, SessionValuesTrace_cons _ _ _ ⟨rfl, rfl⟩ htrace⟩
    rw [hcalls]
    simp [ESYS_CONTEXT.did]

theorem Async_trace (L : Lower W) (c : ESYS_CONTEXT W)
    (authHandle shandle1 shandle2 shandle3 : ESYS_TR)
    (authPolicy : Option TPM2B_DIGEST) (hashAlg : TPMI_ALG_HASH) (pcrNum : TPMI_DH_PCR) :
    ∃ new, (Esys_PCR_SetAuthPolicy_Async L c authHandle shandle1 shandle2 shandle3 authPolicy
        hashAlg pcrNum).2.calls = c.calls ++ new ∧
      SessionValuesTrace (L.esys_GetResourceObject c.lower authHandle).2.1 new := by
  unfold Esys_PCR_SetAuthPolicy_Async
  dsimp only
  by_cases h : (iesys_check_sequence_async c).1 ≠ TSS2_RC_SUCCESS
  · rw [if_pos h]
    refine ⟨[], ?_, Or.inl NoSessionCalls_nil⟩
    unfold iesys_check_sequence_async
    split_ifs <;> simp
  · rw [if_neg h]
    have hlow : (iesys_check_sequence_async c).2.lower = c.lower := by
      unfold iesys_check_sequence_async
      split_ifs <;> rfl
    have hcalls : (iesys_check_sequence_async c).2.calls = c.calls := by
      unfold iesys_check_sequence_async
      split_ifs <;> rfl
    obtain ⟨new, hnew, htrace⟩ := Async_checkSessions_trace L
      ({ (iesys_check_sequence_async c).2 with state := ESYS_STATE_INTERNALERROR })
      authHandle shandle1 shandle2 shandle3 authPolicy hashAlg pcrNum
    simp only [hlow, hcalls] at hnew htrace ⊢
    exact ⟨new, hnew, htrace⟩

theorem filter_NoSessionCalls (l : List Call) (h : NoSessionCalls l) :
    l.filter Call.isComputeSessionValue = [] := by
  rw [List.filter_eq_nil_iff]
  intro x hx
  rw [(h x hx).1]
  simp

/-- Claim C30: the calls `Esys_PCR_SetAuthPolicy_Async` makes are recorded
after those of the context, and when `iesys_gen_auths` is among them, the
calls of `iesys_compute_session_value` are exactly three, for the slots 0, 1
and 2 in this order: slot 0 with the name and the auth value of the node
`authHandle` resolved to (none and none for no node), slots 1 and 2 with none
and none; they come right before `iesys_gen_auths`. -/
theorem C30_session_values_for_every_slot (L : Lower W) (ctx : ESYS_CONTEXT W)
    (authHandle shandle1 shandle2 shandle3 : ESYS_TR)
    (authPolicy : Option TPM2B_DIGEST) (hashAlg : TPMI_ALG_HASH) (pcrNum : TPMI_DH_PCR) :
    ∃ new,
      (Esys_PCR_SetAuthPolicy_Async L ctx authHandle shandle1 shandle2 shandle3 authPolicy
        hashAlg pcrNum).2.calls = ctx.calls ++ new ∧
      ((∃ x ∈ new, x.isGenAuths = true) →
        new.filter Call.isComputeSessionValue =
          [.iesys_compute_session_value 0
             ((L.esys_GetResourceObject ctx.lower authHandle).2.1.map (fun n => n.name))
             ((L.esys_GetResourceObject ctx.lower authHandle).2.1.map (fun n => n.auth)),
           .iesys_compute_session_value 1 none none,
           .iesys_compute_session_value 2 none none] ∧
        ∃ pre g post,
          new = pre ++
            [.iesys_compute_session_value 0
               ((L.esys_GetResourceObject ctx.lower authHandle).2.1.map (fun n => n.name))
               ((L.esys_GetResourceObject ctx.lower authHandle).2.1.map (fun n => n.auth)),
             .iesys_compute_session_value 1 none none,
             .iesys_compute_session_value 2 none none] ++ [g] ++ post ∧
          g.isGenAuths = true ∧ NoSessionCalls pre ∧ NoSessionCalls post) := by
  obtain ⟨new, hnew, htrace⟩ := Async_trace L ctx authHandle shandle1 shandle2 shandle3
    authPolicy hashAlg pcrNum
  refine ⟨new, hnew, ?_⟩
  rintro ⟨x, hx, hgen⟩
  rcases htrace with hclean | ⟨pre, g, post, hsplit, hg, hg2, hpre, hpost⟩
  · rw [(hclean x hx).2] at hgen
    cases hgen
  · refine ⟨?_, pre, g, post, hsplit, hg, hpre, hpost⟩
    have h3 : (sessionValueCalls (L.esys_GetResourceObject ctx.lower authHandle).2.1).filter
        Call.isComputeSessionValue =
        sessionValueCalls (L.esys_GetResourceObject ctx.lower authHandle).2.1 := rfl
    have h4 : [g].filter Call.isComputeSessionValue = [] := by simp [hg2]
    rw [hsplit, List.filter_append, List.filter_append, List.filter_append,
      filter_NoSessionCalls pre hpre, filter_NoSessionCalls post hpost, h3, h4]
    rfl

/-- Witness of C30: on the mock in which every lower call succeeds the auth
generation is reached, and the three session value calls are recorded for
the node of the handle. -/
theorem C30_session_values_for_every_slot_witness :
    (∃ x ∈ (Esys_PCR_SetAuthPolicy_Async (mockLower mockOk) (mockContext ESYS_STATE_INIT 0)
        0x10C 0xFF 0xFFF 0xFFF none 0xB 0).2.calls, x.isGenAuths = true) ∧
    ∃ new,
      (Esys_PCR_SetAuthPolicy_Async (mockLower mockOk) (mockContext ESYS_STATE_INIT 0)
        0x10C 0xFF 0xFFF 0xFFF none 0xB 0).2.calls =
          (mockContext ESYS_STATE_INIT 0).calls ++ new ∧
      ((∃ x ∈ new, x.isGenAuths = true) →
        new.filter Call.isComputeSessionValue =
          [.iesys_compute_session_value 0
             (((mockLower mockOk).esys_GetResourceObject (mockContext ESYS_STATE_INIT 0).lower
               0x10C).2.1.map (fun n => n.name))
             (((mockLower mockOk).esys_GetResourceObject (mockContext ESYS_STATE_INIT 0).lower
               0x10C).2.1.map (fun n => n.auth)),
           .iesys_compute_session_value 1 none none,
           .iesys_compute_session_value 2 none none] ∧
        ∃ pre g post,
          new = pre ++
            [.iesys_compute_session_value 0
               (((mockLower mockOk).esys_GetResourceObject (mockContext ESYS_STATE_INIT 0).lower
                 0x10C).2.1.map (fun n => n.name))
               (((mockLower mockOk).esys_GetResourceObject (mockContext ESYS_STATE_INIT 0).lower
                 0x10C).2.1.map (fun n => n.auth)),
             .iesys_compute_session_value 1 none none,
             .iesys_compute_session_value 2 none none] ++ [g] ++ post ∧
          g.isGenAuths = true ∧ NoSessionCalls pre ∧ NoSessionCalls post) :=
  ⟨by decide,
   C30_session_values_for_every_slot (mockLower mockOk) (mockContext ESYS_STATE_INIT 0)
     0x10C 0xFF 0xFFF 0xFFF none 0xB 0⟩

/-! ## The one-call functions of the SAPI commands as compositions -/

theorem oneCallComposition_cases (prepare : TSS2_RC × Option TSS2_SYS_CONTEXT_BLOB)
    (exchange : Option TSS2_SYS_CONTEXT_BLOB →
      TSS2_RC × Option TSS2_SYS_CONTEXT_BLOB × Option TSS2L_SYS_AUTH_RESPONSE)
    (complete : Option TSS2_SYS_CONTEXT_BLOB → TSS2_RC × Option TSS2_SYS_CONTEXT_BLOB)
    (rspAuthsArray : Option TSS2L_SYS_AUTH_RESPONSE) :
    (prepare.1 ≠ TSS2_RC_SUCCESS →
      oneCallComposition prepare exchange complete rspAuthsArray =
        (prepare.1, prepare.2, rspAuthsArray)) ∧
    (prepare.1 = TSS2_RC_SUCCESS → (exchange prepare.2).1 ≠ TSS2_RC_SUCCESS →
      oneCallComposition prepare exchange complete rspAuthsArray = exchange prepare.2) ∧
    (prepare.1 = TSS2_RC_SUCCESS → (exchange prepare.2).1 = TSS2_RC_SUCCESS →
      oneCallComposition prepare exchange complete rspAuthsArray =
        ((complete (exchange prepare.2).2.1).1, (complete (exchange prepare.2).2.1).2,
         (exchange prepare.2).2.2)) := by
  unfold oneCallComposition
  refine ⟨fun h => ?_, fun h1 h2 => ?_, fun h1 h2 => ?_⟩
  · rw [if_pos h]
  · rw [if_neg (not_not_intro h1), if_pos h2]
  · rw [if_neg (not_not_intro h1), if_neg (not_not_intro h2)]

theorem oneCallCompositionOutputs_cases {α β : Type}
    (prepare : TSS2_RC × Option TSS2_SYS_CONTEXT_BLOB)
    (exchange : Option TSS2_SYS_CONTEXT_BLOB →
      TSS2_RC × Option TSS2_SYS_CONTEXT_BLOB × Option TSS2L_SYS_AUTH_RESPONSE)
    (complete : Option TSS2_SYS_CONTEXT_BLOB →
      TSS2_RC × Option TSS2_SYS_CONTEXT_BLOB × Option α × Option β)
    (rspAuthsArray : Option TSS2L_SYS_AUTH_RESPONSE) :
    (prepare.1 ≠ TSS2_RC_SUCCESS →
      oneCallCompositionOutputs prepare exchange complete rspAuthsArray =
        (prepare.1, prepare.2, rspAuthsArray, none, none)) ∧
    (prepare.1 = TSS2_RC_SUCCESS → (exchange prepare.2).1 ≠ TSS2_RC_SUCCESS →
      oneCallCompositionOutputs prepare exchange complete rspAuthsArray =
        ((exchange prepare.2).1, (exchange prepare.2).2.1, (exchange prepare.2).2.2,
         none, none)) ∧
    (prepare.1 = TSS2_RC_SUCCESS → (exchange prepare.2).1 = TSS2_RC_SUCCESS →
      oneCallCompositionOutputs prepare exchange complete rspAuthsArray =
        ((complete (exchange prepare.2).2.1).1, (complete (exchange prepare.2).2.1).2.1,
         (exchange prepare.2).2.2, (complete (exchange prepare.2).2.1).2.2)) := by
  unfold oneCallCompositionOutputs
  refine ⟨fun h => ?_, fun h1 h2 => ?_, fun h1 h2 => ?_⟩
  · rw [if_pos h]
  · rw [if_neg (not_not_intro h1), if_pos h2]
  · rw [if_neg (not_not_intro h1), if_neg (not_not_intro h2)]

/-- Claim C31: each of the eight one-call functions is the composition of its
Prepare, the exchange `CommonOneCall` on the context Prepare left and its
Complete on the context the exchange left, stopping at the first non-zero
return code.  For every such composition: when Prepare fails the result is
its error with the context it left, whatever the exchange would do, and the
response array and the outputs are untouched; when the exchange fails the
result is its error and no output is written; otherwise the return code, the
context and the outputs are those of Complete. -/
theorem C31_one_call_is_Prepare_exchange_Complete :
    (∀ CommonOneCall sysContext startupType,
      Tss2_Sys_Startup CommonOneCall sysContext startupType =
        oneCallComposition (Tss2_Sys_Startup_Prepare sysContext startupType)
          (fun c => CommonOneCall c none none) Tss2_Sys_Startup_Complete none) ∧
    (∀ CommonOneCall sysContext auth cmdAuthsArray rateAdjust rspAuthsArray,
      Tss2_Sys_ClockRateAdjust CommonOneCall sysContext auth cmdAuthsArray rateAdjust
          rspAuthsArray =
        oneCallComposition (Tss2_Sys_ClockRateAdjust_Prepare sysContext auth rateAdjust)
          (fun c => CommonOneCall c cmdAuthsArray rspAuthsArray)
          Tss2_Sys_ClockRateAdjust_Complete rspAuthsArray) ∧
    (∀ CommonOneCall sysContext pcrHandle cmdAuthsArray digests rspAuthsArray,
      Tss2_Sys_PCR_Extend CommonOneCall sysContext pcrHandle cmdAuthsArray digests
          rspAuthsArray =
        oneCallComposition (Tss2_Sys_PCR_Extend_Prepare sysContext pcrHandle digests)
          (fun c => CommonOneCall c cmdAuthsArray rspAuthsArray)
          Tss2_Sys_PCR_Extend_Complete rspAuthsArray) ∧
    (∀ CommonOneCall sysContext pcrHandle cmdAuthsArray auth rspAuthsArray,
      Tss2_Sys_PCR_SetAuthValue CommonOneCall sysContext pcrHandle cmdAuthsArray auth
          rspAuthsArray =
        oneCallComposition (Tss2_Sys_PCR_SetAuthValue_Prepare sysContext pcrHandle auth)
          (fun c => CommonOneCall c cmdAuthsArray rspAuthsArray)
          Tss2_Sys_PCR_SetAuthValue_Complete rspAuthsArray) ∧
    (∀ CommonOneCall sysContext policySession cmdAuthsArray approvedPolicy policyRef keySign
        checkTicket rspAuthsArray,
      Tss2_Sys_PolicyAuthorize CommonOneCall sysContext policySession cmdAuthsArray
          approvedPolicy policyRef keySign checkTicket rspAuthsArray =
        oneCallComposition
          (Tss2_Sys_PolicyAuthorize_Prepare sysContext policySession approvedPolicy policyRef
            keySign checkTicket)
          (fun c => CommonOneCall c cmdAuthsArray rspAuthsArray)
          Tss2_Sys_PolicyAuthorize_Complete rspAuthsArray) ∧
    (∀ CommonOneCall sysContext sequenceHandle cmdAuthsArray buffer hierarchy rspAuthsArray,
      Tss2_Sys_SequenceComplete CommonOneCall sysContext sequenceHandle cmdAuthsArray buffer
          hierarchy rspAuthsArray =
        oneCallCompositionOutputs
          (Tss2_Sys_SequenceComplete_Prepare sysContext sequenceHandle buffer hierarchy)
          (fun c => CommonOneCall c cmdAuthsArray rspAuthsArray)
          Tss2_Sys_SequenceComplete_Complete rspAuthsArray) ∧
    (∀ CommonOneCall sysContext keyHandle cmdAuthsArray inData decrypt mode ivIn rspAuthsArray,
      Tss2_Sys_EncryptDecrypt2 CommonOneCall sysContext keyHandle cmdAuthsArray inData decrypt
          mode ivIn rspAuthsArray =
        oneCallCompositionOutputs
          (Tss2_Sys_EncryptDecrypt2_Prepare sysContext keyHandle inData decrypt mode ivIn)
          (fun c => CommonOneCall c cmdAuthsArray rspAuthsArray)
          Tss2_Sys_EncryptDecrypt2_Complete rspAuthsArray) ∧
    (∀ CommonOneCall sysContext cmdAuthsArray parameters rspAuthsArray,
      Tss2_Sys_TestParms CommonOneCall sysContext cmdAuthsArray parameters rspAuthsArray =
        oneCallComposition (Tss2_Sys_TestParms_Prepare sysContext parameters)
          (fun c => CommonOneCall c cmdAuthsArray rspAuthsArray)
          Tss2_Sys_TestParms_Complete rspAuthsArray) ∧
    (∀ prepare exchange complete rspAuthsArray,
      (prepare.1 ≠ TSS2_RC_SUCCESS →
        oneCallComposition prepare exchange complete rspAuthsArray =
          (prepare.1, prepare.2, rspAuthsArray)) ∧
      (prepare.1 = TSS2_RC_SUCCESS → (exchange prepare.2).1 ≠ TSS2_RC_SUCCESS →
        oneCallComposition prepare exchange complete rspAuthsArray = exchange prepare.2) ∧
      (prepare.1 = TSS2_RC_SUCCESS → (exchange prepare.2).1 = TSS2_RC_SUCCESS →
        oneCallComposition prepare exchange complete rspAuthsArray =
          ((complete (exchange prepare.2).2.1).1, (complete (exchange prepare.2).2.1).2,
           (exchange prepare.2).2.2))) ∧
    (∀ (prepare : TSS2_RC × Option TSS2_SYS_CONTEXT_BLOB)
        (exchange : Option TSS2_SYS_CONTEXT_BLOB →
          TSS2_RC × Option TSS2_SYS_CONTEXT_BLOB × Option TSS2L_SYS_AUTH_RESPONSE)
        (complete : Option TSS2_SYS_CONTEXT_BLOB →
          TSS2_RC × Option TSS2_SYS_CONTEXT_BLOB × Option TPM2B_DIGEST × Option TPM2B_DIGEST)
        (rspAuthsArray : Option TSS2L_SYS_AUTH_RESPONSE),
      (prepare.1 ≠ TSS2_RC_SUCCESS →
        oneCallCompositionOutputs prepare exchange complete rspAuthsArray =
          (prepare.1, prepare.2, rspAuthsArray, none, none)) ∧
      (prepare.1 = TSS2_RC_SUCCESS → (exchange prepare.2).1 ≠ TSS2_RC_SUCCESS →
        oneCallCompositionOutputs prepare exchange complete rspAuthsArray =
          ((exchange prepare.2).1, (exchange prepare.2).2.1, (exchange prepare.2).2.2,
           none, none)) ∧
      (prepare.1 = TSS2_RC_SUCCESS → (exchange prepare.2).1 = TSS2_RC_SUCCESS →
        oneCallCompositionOutputs prepare exchange complete rspAuthsArray =
          ((complete (exchange prepare.2).2.1).1, (complete (exchange prepare.2).2.1).2.1,
           (exchange prepare.2).2.2, (complete (exchange prepare.2).2.1).2.2))) := by
  refine ⟨?_, ?_, ?_, ?_, ?_, ?_, ?_, ?_, oneCallComposition_cases,
    oneCallCompositionOutputs_cases⟩
  · intro CommonOneCall sysContext startupType
    rfl
  · intro CommonOneCall sysContext auth cmdAuthsArray rateAdjust rspAuthsArray
    rfl
  · intro CommonOneCall sysContext pcrHandle cmdAuthsArray digests rspAuthsArray
    cases digests with
    | none => cases sysContext <;> rfl
    | some v => rfl
  · intro CommonOneCall sysContext pcrHandle cmdAuthsArray auth rspAuthsArray
    rfl
  · intro CommonOneCall sysContext policySession cmdAuthsArray approvedPolicy policyRef keySign
      checkTicket rspAuthsArray
    cases checkTicket with
    | none => cases sysContext <;> rfl
    | some v => rfl
  · intro CommonOneCall sysContext sequenceHandle cmdAuthsArray buffer hierarchy rspAuthsArray
    rfl
  · intro CommonOneCall sysContext keyHandle cmdAuthsArray inData decrypt mode ivIn
      rspAuthsArray
    rfl
  · intro CommonOneCall sysContext cmdAuthsArray parameters rspAuthsArray
    cases parameters with
    | none => cases sysContext <;> rfl
    | some v => rfl

/-- Witness of C31: `Tss2_Sys_Startup` on a fresh context against an exchange
that receives the ten-byte success response returns success, and it is the
composition of the three steps. -/
theorem C31_one_call_is_Prepare_exchange_Complete_witness :
    (Tss2_Sys_Startup (mockExchange [0x80, 0x01, 0, 0, 0, 0x0A, 0, 0, 0, 0])
      (some mockSysContext) 0).1 = TSS2_RC_SUCCESS ∧
    Tss2_Sys_Startup (mockExchange [0x80, 0x01, 0, 0, 0, 0x0A, 0, 0, 0, 0])
        (some mockSysContext) 0 =
      oneCallComposition (Tss2_Sys_Startup_Prepare (some mockSysContext) 0)
        (fun c => mockExchange [0x80, 0x01, 0, 0, 0, 0x0A, 0, 0, 0, 0] c none none)
        Tss2_Sys_Startup_Complete none :=
  ⟨by decide,
   C31_one_call_is_Prepare_exchange_Complete.1
     (mockExchange [0x80, 0x01, 0, 0, 0, 0x0A, 0, 0, 0, 0]) (some mockSysContext) 0⟩

/-! ## What Complete reads of the buffer -/

theorem BAD_SIZE_ne_zero : TSS2_MU_RC_BAD_SIZE ≠ 0 := by decide

theorem BAD_SEQUENCE_ne_zero : TSS2_SYS_RC_BAD_SEQUENCE ≠ 0 := by decide

theorem TPM2B_Unmarshal_cases (max : Nat) (buffer : List Nat) (buffer_size offset : Nat) :
    ((TPM2B_Unmarshal max buffer buffer_size offset).1 = 0 ∧
      (TPM2B_Unmarshal max buffer buffer_size offset).2.1 ≤ buffer_size ∧
      ∃ v, (TPM2B_Unmarshal max buffer buffer_size offset).2.2 = some v ∧
        (TPM2B_Unmarshal max buffer buffer_size offset).2.1 = offset + 2 + v.size) ∨
    ((TPM2B_Unmarshal max buffer buffer_size offset).1 ≠ 0 ∧
      (TPM2B_Unmarshal max buffer buffer_size offset).2.2 = none) := by
  unfold TPM2B_Unmarshal
  by_cases h1 : offset + 2 > buffer_size
  · rw [if_pos h1]
    exact Or.inr ⟨INSUFFICIENT_BUFFER_ne_zero, rfl⟩
  · rw [if_neg h1]
    dsimp only
    by_cases h2 : offset + 2 + (buffer.getD offset 0 * 256 + buffer.getD (offset + 1) 0) >
        buffer_size
    · rw [if_pos h2]
      exact Or.inr ⟨INSUFFICIENT_BUFFER_ne_zero, rfl⟩
    · rw [if_neg h2]
      by_cases h3 : buffer.getD offset 0 * 256 + buffer.getD (offset + 1) 0 > max
      · rw [if_pos h3]
        exact Or.inr ⟨BAD_SIZE_ne_zero, rfl⟩
      · rw [if_neg h3]
        exact Or.inl ⟨rfl, by simp only; omega, _, rfl, rfl⟩

theorem TPM2B_Unmarshal_insufficient (max : Nat) (buffer : List Nat)
    (buffer_size offset : Nat)
    (h : buffer_size < offset + 2 ∨
      buffer_size < offset + 2 + (buffer.getD offset 0 * 256 + buffer.getD (offset + 1) 0)) :
    TPM2B_Unmarshal max buffer buffer_size offset =
      (TSS2_MU_RC_INSUFFICIENT_BUFFER, offset, none) := by
  unfold TPM2B_Unmarshal
  by_cases h1 : offset + 2 > buffer_size
  · rw [if_pos h1]
  · rw [if_neg h1]
    dsimp only
    rw [if_pos (by omega)]

theorem HASHCHECK_Unmarshal_cases (buffer : List Nat) (buffer_size offset : Nat) :
    ((Tss2_MU_TPMT_TK_HASHCHECK_Unmarshal buffer buffer_size offset).1 = 0 ∧
      (Tss2_MU_TPMT_TK_HASHCHECK_Unmarshal buffer buffer_size offset).2.1 ≤ buffer_size ∧
      ∃ v, (Tss2_MU_TPMT_TK_HASHCHECK_Unmarshal buffer buffer_size offset).2.2 = some v) ∨
    ((Tss2_MU_TPMT_TK_HASHCHECK_Unmarshal buffer buffer_size offset).1 ≠ 0 ∧
      (Tss2_MU_TPMT_TK_HASHCHECK_Unmarshal buffer buffer_size offset).2.2 = none) := by
  unfold Tss2_MU_TPMT_TK_HASHCHECK_Unmarshal Tss2_MU_UINT16_Unmarshal Tss2_MU_UINT32_Unmarshal
    Tss2_MU_TPM2B_DIGEST_Unmarshal
  by_cases h1 : offset + 2 > buffer_size
  · simp [h1, INSUFFICIENT_BUFFER_ne_zero, TSS2_RC_SUCCESS]
  · by_cases h2 : offset + 2 + 4 > buffer_size
    · simp [h1, h2, INSUFFICIENT_BUFFER_ne_zero, TSS2_RC_SUCCESS]
    · rcases TPM2B_Unmarshal_cases TPM2B_DIGEST_MAX buffer buffer_size (offset + 2 + 4) with
        ⟨h0, hle, v, hv, _⟩ | ⟨hne, hnone⟩
      · simp only [h1, h2, if_false, h0, hv, TSS2_RC_SUCCESS, ne_eq, not_true_eq_false]
        simp [hle]
      · simp only [h1, h2, if_false, hnone, TSS2_RC_SUCCESS, ne_eq, not_true_eq_false]
        simp [hne]

theorem CommonComplete_frame (c : TSS2_SYS_CONTEXT_BLOB) :
    (CommonComplete c).2.cmdBuffer = c.cmdBuffer ∧
    (CommonComplete c).2.maxCmdSize = c.maxCmdSize ∧
    (CommonComplete c).2.muCalls = c.muCalls := by
  unfold CommonComplete
  split_ifs <;> exact ⟨rfl, rfl, rfl⟩

theorem CommonComplete_received (c : TSS2_SYS_CONTEXT_BLOB)
    (hs : c.previousStage = CMD_STAGE_RECEIVE_RESPONSE) (hr : c.rval = TSS2_RC_SUCCESS) :
    (CommonComplete c).1 = 0 := by
  unfold CommonComplete
  rw [if_neg (by simp [hs, hr])]
  rfl

theorem EncryptDecrypt2_Complete_within_capacity (c : TSS2_SYS_CONTEXT_BLOB)
    (h : (Tss2_Sys_EncryptDecrypt2_Complete (some c)).1 = TSS2_RC_SUCCESS) :
    ∃ c1 outData ivOut,
      (Tss2_Sys_EncryptDecrypt2_Complete (some c)).2 = (some c1, some outData, some ivOut) ∧
      c1.nextData ≤ c.maxCmdSize := by
  obtain ⟨hb, hm, _⟩ := CommonComplete_frame c
  unfold Tss2_Sys_EncryptDecrypt2_Complete at h ⊢
  simp only [syscontext_cast, TSS2_SYS_CONTEXT_BLOB.unmarshal,
    Tss2_MU_TPM2B_MAX_BUFFER_Unmarshal, Tss2_MU_TPM2B_IV_Unmarshal] at h ⊢
  by_cases hk : (CommonComplete c).1 ≠ 0
  · rw [if_pos hk] at h
    exact absurd h hk
  · rw [if_neg hk] at h ⊢
    rcases TPM2B_Unmarshal_cases TPM2B_MAX_BUFFER_MAX (CommonComplete c).2.cmdBuffer
        (CommonComplete c).2.maxCmdSize (CommonComplete c).2.nextData with
      ⟨h1, hle1, v1, hv1, _⟩ | ⟨hne1, _⟩
    · rw [if_neg (not_not_intro h1)] at h ⊢
      rcases TPM2B_Unmarshal_cases TPM2B_IV_MAX (CommonComplete c).2.cmdBuffer
          (CommonComplete c).2.maxCmdSize
          (TPM2B_Unmarshal TPM2B_MAX_BUFFER_MAX (CommonComplete c).2.cmdBuffer
            (CommonComplete c).2.maxCmdSize (CommonComplete c).2.nextData).2.1 with
        ⟨h2, hle2, v2, hv2, _⟩ | ⟨hne2, _⟩
      · simp only [hv1, hv2]
        exact ⟨_, v1, v2, rfl, by simp only; rw [← hm]; exact hle2⟩
      · exact absurd h hne2
    · rw [if_pos hne1] at h
      exact absurd h hne1

theorem SequenceComplete_Complete_within_capacity (c : TSS2_SYS_CONTEXT_BLOB)
    (h : (Tss2_Sys_SequenceComplete_Complete (some c)).1 = TSS2_RC_SUCCESS) :
    ∃ c1 result validation,
      (Tss2_Sys_SequenceComplete_Complete (some c)).2 =
        (some c1, some result, some validation) ∧
      c1.nextData ≤ c.maxCmdSize := by
  obtain ⟨hb, hm, _⟩ := CommonComplete_frame c
  unfold Tss2_Sys_SequenceComplete_Complete at h ⊢
  simp only [syscontext_cast, TSS2_SYS_CONTEXT_BLOB.unmarshal,
    Tss2_MU_TPM2B_DIGEST_Unmarshal] at h ⊢
  by_cases hk : (CommonComplete c).1 ≠ 0
  · rw [if_pos hk] at h
    exact absurd h hk
  · rw [if_neg hk] at h ⊢
    rcases TPM2B_Unmarshal_cases TPM2B_DIGEST_MAX (CommonComplete c).2.cmdBuffer
        (CommonComplete c).2.maxCmdSize (CommonComplete c).2.nextData with
      ⟨h1, hle1, v1, hv1, _⟩ | ⟨hne1, _⟩
    · rw [if_neg (not_not_intro h1)] at h ⊢
      rcases HASHCHECK_Unmarshal_cases (CommonComplete c).2.cmdBuffer
          (CommonComplete c).2.maxCmdSize
          (TPM2B_Unmarshal TPM2B_DIGEST_MAX (CommonComplete c).2.cmdBuffer
            (CommonComplete c).2.maxCmdSize (CommonComplete c).2.nextData).2.1 with
        ⟨h2, hle2, v2, hv2⟩ | ⟨hne2, _⟩
      · simp only [hv1, hv2]
        exact ⟨_, v1, v2, rfl, by simp only; rw [← hm]; exact hle2⟩
      · exact absurd h hne2
    · rw [if_pos hne1] at h
      exact absurd h hne1

theorem EncryptDecrypt2_Complete_insufficient (c : TSS2_SYS_CONTEXT_BLOB)
    (hs : c.previousStage = CMD_STAGE_RECEIVE_RESPONSE) (hr : c.rval = TSS2_RC_SUCCESS)
    (h : c.maxCmdSize < (CommonComplete c).2.nextData + 2 ∨
      c.maxCmdSize < (CommonComplete c).2.nextData + 2 +
        (c.cmdBuffer.getD (CommonComplete c).2.nextData 0 * 256 +
          c.cmdBuffer.getD ((CommonComplete c).2.nextData + 1) 0)) :
    (Tss2_Sys_EncryptDecrypt2_Complete (some c)).1 = TSS2_MU_RC_INSUFFICIENT_BUFFER ∧
    (Tss2_Sys_EncryptDecrypt2_Complete (some c)).2.2 = (none, none) := by
  obtain ⟨hb, hm, _⟩ := CommonComplete_frame c
  have hk := CommonComplete_received c hs hr
  have hu := TPM2B_Unmarshal_insufficient TPM2B_MAX_BUFFER_MAX (CommonComplete c).2.cmdBuffer
    (CommonComplete c).2.maxCmdSize (CommonComplete c).2.nextData (by rw [hb, hm]; exact h)
  unfold Tss2_Sys_EncryptDecrypt2_Complete
  simp only [syscontext_cast, TSS2_SYS_CONTEXT_BLOB.unmarshal,
    Tss2_MU_TPM2B_MAX_BUFFER_Unmarshal]
  rw [if_neg (not_not_intro hk), hu, if_pos INSUFFICIENT_BUFFER_ne_zero]
  exact ⟨rfl, rfl⟩

theorem SequenceComplete_Complete_insufficient (c : TSS2_SYS_CONTEXT_BLOB)
    (hs : c.previousStage = CMD_STAGE_RECEIVE_RESPONSE) (hr : c.rval = TSS2_RC_SUCCESS)
    (h : c.maxCmdSize < (CommonComplete c).2.nextData + 2 ∨
      c.maxCmdSize < (CommonComplete c).2.nextData + 2 +
        (c.cmdBuffer.getD (CommonComplete c).2.nextData 0 * 256 +
          c.cmdBuffer.getD ((CommonComplete c).2.nextData + 1) 0)) :
    (Tss2_Sys_SequenceComplete_Complete (some c)).1 = TSS2_MU_RC_INSUFFICIENT_BUFFER ∧
    (Tss2_Sys_SequenceComplete_Complete (some c)).2.2 = (none, none) := by
  obtain ⟨hb, hm, _⟩ := CommonComplete_frame c
  have hk := CommonComplete_received c hs hr
  have hu := TPM2B_Unmarshal_insufficient TPM2B_DIGEST_MAX (CommonComplete c).2.cmdBuffer
    (CommonComplete c).2.maxCmdSize (CommonComplete c).2.nextData (by rw [hb, hm]; exact h)
  unfold Tss2_Sys_SequenceComplete_Complete
  simp only [syscontext_cast, TSS2_SYS_CONTEXT_BLOB.unmarshal,
    Tss2_MU_TPM2B_DIGEST_Unmarshal]
  rw [if_neg (not_not_intro hk), hu, if_pos INSUFFICIENT_BUFFER_ne_zero]
  exact ⟨rfl, rfl⟩

/-- Counterexample to C32: the context has received a success response of ten
bytes, the header alone, into a buffer of capacity 64 whose bytes 10 to 16
are left from an earlier response.  `Tss2_Sys_EncryptDecrypt2_Complete` and
`Tss2_Sys_SequenceComplete_Complete` return success and produce outputs from
the bytes behind the response. -/
theorem C32_Complete_reads_behind_the_response :
    declared_size mockReceivedContext.cmdBuffer = 10 ∧
    receive_classify (mockReceivedContext.cmdBuffer.take 10) = TSS2_RC_SUCCESS ∧
    mockReceivedContext.maxCmdSize = 64 ∧
    (Tss2_Sys_EncryptDecrypt2_Complete (some mockReceivedContext)).1 = TSS2_RC_SUCCESS ∧
    (Tss2_Sys_EncryptDecrypt2_Complete (some mockReceivedContext)).2.2 =
      (some { size := 2, buffer := [0xAA, 0xBB] }, some { size := 1, buffer := [0xCC] }) ∧
    (Tss2_Sys_EncryptDecrypt2_Complete (some mockReceivedContext)).2.1.map
      (fun c => c.nextData) = some 17 ∧
    (Tss2_Sys_SequenceComplete_Complete (some mockReceivedContext)).1 = TSS2_RC_SUCCESS ∧
    (Tss2_Sys_SequenceComplete_Complete (some mockReceivedContext)).2.2 =
      (some { size := 2, buffer := [0xAA, 0xBB] },
       some { tag := 1, hierarchy := 0xCC000000, digest := { size := 0, buffer := [] } }) := by
  decide

/-- Claim C32 as amended: the two Complete functions read within the capacity
of the buffer of the context.  When one of them succeeds, both outputs are
produced and the cursor after them is at most `maxCmdSize`; and when, after a
received success response, the capacity ends before the size of the first
output or before the bytes it announces, Complete returns the
insufficient-data error `TSS2_MU_RC_INSUFFICIENT_BUFFER` and produces no
output. -/
theorem C32_Complete_reads_within_capacity :
    (∀ c, (Tss2_Sys_EncryptDecrypt2_Complete (some c)).1 = TSS2_RC_SUCCESS →
      ∃ c1 outData ivOut,
        (Tss2_Sys_EncryptDecrypt2_Complete (some c)).2 = (some c1, some outData, some ivOut) ∧
        c1.nextData ≤ c.maxCmdSize) ∧
    (∀ c, (Tss2_Sys_SequenceComplete_Complete (some c)).1 = TSS2_RC_SUCCESS →
      ∃ c1 result validation,
        (Tss2_Sys_SequenceComplete_Complete (some c)).2 =
          (some c1, some result, some validation) ∧
        c1.nextData ≤ c.maxCmdSize) ∧
    (∀ c, c.previousStage = CMD_STAGE_RECEIVE_RESPONSE → c.rval = TSS2_RC_SUCCESS →
      (c.maxCmdSize < (CommonComplete c).2.nextData + 2 ∨
        c.maxCmdSize < (CommonComplete c).2.nextData + 2 +
          (c.cmdBuffer.getD (CommonComplete c).2.nextData 0 * 256 +
            c.cmdBuffer.getD ((CommonComplete c).2.nextData + 1) 0)) →
      (Tss2_Sys_EncryptDecrypt2_Complete (some c)).1 = TSS2_MU_RC_INSUFFICIENT_BUFFER ∧
      (Tss2_Sys_EncryptDecrypt2_Complete (some c)).2.2 = (none, none)) ∧
    (∀ c, c.previousStage = CMD_STAGE_RECEIVE_RESPONSE → c.rval = TSS2_RC_SUCCESS →
      (c.maxCmdSize < (CommonComplete c).2.nextData + 2 ∨
        c.maxCmdSize < (CommonComplete c).2.nextData + 2 +
          (c.cmdBuffer.getD (CommonComplete c).2.nextData 0 * 256 +
            c.cmdBuffer.getD ((CommonComplete c).2.nextData + 1) 0)) →
      (Tss2_Sys_SequenceComplete_Complete (some c)).1 = TSS2_MU_RC_INSUFFICIENT_BUFFER ∧
      (Tss2_Sys_SequenceComplete_Complete (some c)).2.2 = (none, none)) :=
  ⟨EncryptDecrypt2_Complete_within_capacity, SequenceComplete_Complete_within_capacity,
   EncryptDecrypt2_Complete_insufficient, SequenceComplete_Complete_insufficient⟩

/-- Witness of C32 as amended: a buffer of capacity 12 holds the header and
the size `00 04` of the first output, whose bytes are not there:
`Tss2_Sys_EncryptDecrypt2_Complete` fails with the insufficient-data error. -/
theorem C32_Complete_reads_within_capacity_witness :
    (mockTruncatedContext.previousStage = CMD_STAGE_RECEIVE_RESPONSE ∧
      mockTruncatedContext.rval = TSS2_RC_SUCCESS ∧
      (mockTruncatedContext.maxCmdSize < (CommonComplete mockTruncatedContext).2.nextData + 2 ∨
        mockTruncatedContext.maxCmdSize < (CommonComplete mockTruncatedContext).2.nextData + 2 +
          (mockTruncatedContext.cmdBuffer.getD
              (CommonComplete mockTruncatedContext).2.nextData 0 * 256 +
            mockTruncatedContext.cmdBuffer.getD
              ((CommonComplete mockTruncatedContext).2.nextData + 1) 0))) ∧
    ((Tss2_Sys_EncryptDecrypt2_Complete (some mockTruncatedContext)).1 =
        TSS2_MU_RC_INSUFFICIENT_BUFFER ∧
      (Tss2_Sys_EncryptDecrypt2_Complete (some mockTruncatedContext)).2.2 = (none, none)) :=
  ⟨by decide,
   C32_Complete_reads_within_capacity.2.2.1 mockTruncatedContext (by decide) (by decide)
     (by decide)⟩

/-! ## Resubmission, the submission counter and the timeout -/

theorem Finish_state_cases (ctx : ESYS_CONTEXT W)
    (hg : ¬ (ctx.state ≠ ESYS_STATE_SENT ∧ ctx.state ≠ ESYS_STATE_RESUBMISSION)) :
    ctx.state = ESYS_STATE_SENT ∨ ctx.state = ESYS_STATE_RESUBMISSION := by
  by_contra hcon
  exact hg ⟨fun h => hcon (Or.inl h), fun h => hcon (Or.inr h)⟩

theorem Finish_counter_resubmission (L : Lower W) (ctx : ESYS_CONTEXT W)
    (hs : ctx.state = ESYS_STATE_SENT ∨ ctx.state = ESYS_STATE_RESUBMISSION)
    (hrs : (L.Tss2_Sys_ExecuteFinish ctx.lower ctx.timeout).1 = TPM2_RC_RETRY ∨
      (L.Tss2_Sys_ExecuteFinish ctx.lower ctx.timeout).1 = TPM2_RC_TESTING ∨
      (L.Tss2_Sys_ExecuteFinish ctx.lower ctx.timeout).1 = TPM2_RC_YIELDED) :
    (Esys_PCR_SetAuthPolicy_Finish L ctx).2.submissionCount = ctx.submissionCount + 1 := by
  by_cases hmax : ctx.submissionCount ≥ (ESYS_MAX_SUBMISSIONS : Int)
  · rw [Finish_resubmit_exhausted L ctx hs hrs hmax]
  · rw [Finish_resubmit L ctx hs hrs (not_le.mp hmax)]

theorem Finish_no_resubmission (L : Lower W) (ctx : ESYS_CONTEXT W)
    (hs : ctx.state = ESYS_STATE_SENT ∨ ctx.state = ESYS_STATE_RESUBMISSION)
    (hna : base_rc (L.Tss2_Sys_ExecuteFinish ctx.lower ctx.timeout).1 ≠ TSS2_BASE_RC_TRY_AGAIN)
    (hnr : ¬ ((L.Tss2_Sys_ExecuteFinish ctx.lower ctx.timeout).1 = TPM2_RC_RETRY ∨
      (L.Tss2_Sys_ExecuteFinish ctx.lower ctx.timeout).1 = TPM2_RC_TESTING ∨
      (L.Tss2_Sys_ExecuteFinish ctx.lower ctx.timeout).1 = TPM2_RC_YIELDED)) :
    (Esys_PCR_SetAuthPolicy_Finish L ctx).2.calls.countP Call.isExecuteAsync =
      ctx.calls.countP Call.isExecuteAsync ∧
    (Esys_PCR_SetAuthPolicy_Finish L ctx).2.submissionCount = ctx.submissionCount ∧
    (iesys_tpm_error (L.Tss2_Sys_ExecuteFinish ctx.lower ctx.timeout).1 = true →
      (Esys_PCR_SetAuthPolicy_Finish L ctx).2.state = ESYS_STATE_INIT) ∧
    (iesys_tpm_error (L.Tss2_Sys_ExecuteFinish ctx.lower ctx.timeout).1 = false →
      (L.Tss2_Sys_ExecuteFinish ctx.lower ctx.timeout).1 ≠ TSS2_RC_SUCCESS →
      (Esys_PCR_SetAuthPolicy_Finish L ctx).2.state = ESYS_STATE_INTERNALERROR) ∧
    ((L.Tss2_Sys_ExecuteFinish ctx.lower ctx.timeout).1 = TSS2_RC_SUCCESS →
      ((Esys_PCR_SetAuthPolicy_Finish L ctx).1 = TSS2_RC_SUCCESS →
        (Esys_PCR_SetAuthPolicy_Finish L ctx).2.state = ESYS_STATE_INIT) ∧
      ((Esys_PCR_SetAuthPolicy_Finish L ctx).1 ≠ TSS2_RC_SUCCESS →
        (Esys_PCR_SetAuthPolicy_Finish L ctx).2.state = ESYS_STATE_INTERNALERROR)) := by
  by_cases ht : iesys_tpm_error (L.Tss2_Sys_ExecuteFinish ctx.lower ctx.timeout).1 = true
  · have hne : (L.Tss2_Sys_ExecuteFinish ctx.lower ctx.timeout).1 ≠ TSS2_RC_SUCCESS :=
      iesys_tpm_error_ne_SUCCESS _ ht
    rw [Finish_tpm_error L ctx hs hna hnr ht]
    refine ⟨by simp [List.countP_append, Call.isExecuteAsync], rfl, fun _ => rfl, ?_, ?_⟩
    · intro hf
      rw [hf] at ht
      cases ht
    · intro h0
      exact absurd h0 hne
  · have htf : iesys_tpm_error (L.Tss2_Sys_ExecuteFinish ctx.lower ctx.timeout).1 = false := by
      simpa using ht
    by_cases h0 : (L.Tss2_Sys_ExecuteFinish ctx.lower ctx.timeout).1 = TSS2_RC_SUCCESS
    · rw [Finish_received L ctx hs h0]
      have hsucc : TSS2_RC_SUCCESS = TSS2_RC_SUCCESS := rfl
      refine ⟨?_, ?_, fun h => absurd h ht, fun _ h => absurd h0 h, fun _ => ?_⟩
      · split_ifs <;> simp [List.countP_append, Call.isExecuteAsync]
      · split_ifs <;> rfl
      · split_ifs with h1 h2
        · exact ⟨fun h => absurd h h1, fun _ => rfl⟩
        · exact ⟨fun h => absurd h h2, fun _ => rfl⟩
        · exact ⟨fun _ => rfl, fun h => absurd hsucc h⟩
    · rw [Finish_non_tpm_error L ctx hs hna hnr htf h0]
      exact ⟨by simp [List.countP_append, Call.isExecuteAsync], rfl, fun h => absurd h ht,
        fun _ _ => rfl, fun h => absurd h h0⟩

/-- Counterexample to C33: the result `TSS2_RC_SUCCESS` of
`Tss2_Sys_ExecuteFinish` is no try-again code, none of the three resubmission
codes and no TPM error, and with verification and Complete succeeding
`Esys_PCR_SetAuthPolicy_Finish` leaves the state Init, not InternalError. -/
theorem C33_success_ends_in_Init :
    ((mockLower mockOk).Tss2_Sys_ExecuteFinish (mockContext ESYS_STATE_SENT 0).lower
      (mockContext ESYS_STATE_SENT 0).timeout).1 = TSS2_RC_SUCCESS ∧
    base_rc TSS2_RC_SUCCESS ≠ TSS2_BASE_RC_TRY_AGAIN ∧
    ¬ (TSS2_RC_SUCCESS = TPM2_RC_RETRY ∨ TSS2_RC_SUCCESS = TPM2_RC_TESTING ∨
      TSS2_RC_SUCCESS = TPM2_RC_YIELDED) ∧
    iesys_tpm_error TSS2_RC_SUCCESS = false ∧
    (Esys_PCR_SetAuthPolicy_Finish (mockLower mockOk) (mockContext ESYS_STATE_SENT 0)).2.state =
      ESYS_STATE_INIT ∧
    (Esys_PCR_SetAuthPolicy_Finish (mockLower mockOk) (mockContext ESYS_STATE_SENT 0)).2.state ≠
      ESYS_STATE_INTERNALERROR := by
  decide

/-- Claim C33 as amended: in a Finish that passes the state check and whose
`Tss2_Sys_ExecuteFinish` result `r` has no try-again base code, the submission
counter is incremented exactly when `r` equals, as a whole return code, one of
`TPM2_RC_RETRY`, `TPM2_RC_TESTING`, `TPM2_RC_YIELDED`.  For every other `r`, one
of the three codes with layer bits included, no `Tss2_Sys_ExecuteAsync` is
called, the counter is unchanged and the exchange ends: state Init for a TPM
error, InternalError for another error, and for `TSS2_RC_SUCCESS` Init when
Finish returns success and InternalError when verification or Complete
fails. -/
theorem C33_resubmission_codes_by_equality (L : Lower W) (ctx : ESYS_CONTEXT W)
    (hs : ctx.state = ESYS_STATE_SENT ∨ ctx.state = ESYS_STATE_RESUBMISSION)
    (hna : base_rc (L.Tss2_Sys_ExecuteFinish ctx.lower ctx.timeout).1 ≠
      TSS2_BASE_RC_TRY_AGAIN) :
    (((L.Tss2_Sys_ExecuteFinish ctx.lower ctx.timeout).1 = TPM2_RC_RETRY ∨
        (L.Tss2_Sys_ExecuteFinish ctx.lower ctx.timeout).1 = TPM2_RC_TESTING ∨
        (L.Tss2_Sys_ExecuteFinish ctx.lower ctx.timeout).1 = TPM2_RC_YIELDED) →
      (Esys_PCR_SetAuthPolicy_Finish L ctx).2.submissionCount = ctx.submissionCount + 1) ∧
    (¬ ((L.Tss2_Sys_ExecuteFinish ctx.lower ctx.timeout).1 = TPM2_RC_RETRY ∨
        (L.Tss2_Sys_ExecuteFinish ctx.lower ctx.timeout).1 = TPM2_RC_TESTING ∨
        (L.Tss2_Sys_ExecuteFinish ctx.lower ctx.timeout).1 = TPM2_RC_YIELDED) →
      (Esys_PCR_SetAuthPolicy_Finish L ctx).2.calls.countP Call.isExecuteAsync =
        ctx.calls.countP Call.isExecuteAsync ∧
      (Esys_PCR_SetAuthPolicy_Finish L ctx).2.submissionCount = ctx.submissionCount ∧
      (iesys_tpm_error (L.Tss2_Sys_ExecuteFinish ctx.lower ctx.timeout).1 = true →
        (Esys_PCR_SetAuthPolicy_Finish L ctx).2.state = ESYS_STATE_INIT) ∧
      (iesys_tpm_error (L.Tss2_Sys_ExecuteFinish ctx.lower ctx.timeout).1 = false →
        (L.Tss2_Sys_ExecuteFinish ctx.lower ctx.timeout).1 ≠ TSS2_RC_SUCCESS →
        (Esys_PCR_SetAuthPolicy_Finish L ctx).2.state = ESYS_STATE_INTERNALERROR) ∧
      ((L.Tss2_Sys_ExecuteFinish ctx.lower ctx.timeout).1 = TSS2_RC_SUCCESS →
        ((Esys_PCR_SetAuthPolicy_Finish L ctx).1 = TSS2_RC_SUCCESS →
          (Esys_PCR_SetAuthPolicy_Finish L ctx).2.state = ESYS_STATE_INIT) ∧
        ((Esys_PCR_SetAuthPolicy_Finish L ctx).1 ≠ TSS2_RC_SUCCESS →
          (Esys_PCR_SetAuthPolicy_Finish L ctx).2.state = ESYS_STATE_INTERNALERROR))) :=
  ⟨Finish_counter_resubmission L ctx hs, Finish_no_resubmission L ctx hs hna⟩

/-- Witness of C33 as amended: `TPM2_RC_RETRY` relayed with the layer bits of
the resource manager, `0xC0922`, is a TPM error and no resubmission code: the
state is Init and the counter stays 2. -/
theorem C33_resubmission_codes_by_equality_witness :
    ((mockContext ESYS_STATE_SENT 2).state = ESYS_STATE_SENT ∨
      (mockContext ESYS_STATE_SENT 2).state = ESYS_STATE_RESUBMISSION) ∧
    base_rc ((mockLower { mockOk with receive := 0xC0922 }).Tss2_Sys_ExecuteFinish
      (mockContext ESYS_STATE_SENT 2).lower (mockContext ESYS_STATE_SENT 2).timeout).1 ≠
        TSS2_BASE_RC_TRY_AGAIN ∧
    (Esys_PCR_SetAuthPolicy_Finish (mockLower { mockOk with receive := 0xC0922 })
      (mockContext ESYS_STATE_SENT 2)).2.submissionCount = 2 ∧
    (Esys_PCR_SetAuthPolicy_Finish (mockLower { mockOk with receive := 0xC0922 })
      (mockContext ESYS_STATE_SENT 2)).2.state = ESYS_STATE_INIT :=
  ⟨by decide, by decide,
   ((C33_resubmission_codes_by_equality (mockLower { mockOk with receive := 0xC0922 })
      (mockContext ESYS_STATE_SENT 2) (by decide) (by decide)).2 (by decide)).2.1,
   ((C33_resubmission_codes_by_equality (mockLower { mockOk with receive := 0xC0922 })
      (mockContext ESYS_STATE_SENT 2) (by decide) (by decide)).2 (by decide)).2.2.1
        (by decide)⟩

theorem Async_timeout (L : Lower W) (ctx : ESYS_CONTEXT W)
    (authHandle shandle1 shandle2 shandle3 : ESYS_TR)
    (authPolicy : Option TPM2B_DIGEST) (hashAlg : TPMI_ALG_HASH) (pcrNum : TPMI_DH_PCR) :
    (Esys_PCR_SetAuthPolicy_Async L ctx authHandle shandle1 shandle2 shandle3 authPolicy
      hashAlg pcrNum).2.timeout = ctx.timeout := by
  by_cases hinit : ctx.state = ESYS_STATE_INIT
  · rw [Async_of_init L ctx _ _ _ _ _ _ _ hinit]
    obtain ⟨_, _, _, _, _, _, _, _, _, ht⟩ := Async_checkSessions_tail L
      { ctx with state := ESYS_STATE_INTERNALERROR, submissionCount := 0 }
      authHandle shandle1 shandle2 shandle3 authPolicy hashAlg pcrNum
    exact ht
  · rw [Async_bad_sequence L ctx _ _ _ _ _ _ _ hinit]

/-- Claim C34: whenever the one-call function `Esys_PCR_SetAuthPolicy` returns,
with the error of Async, with success or with the error of Finish, the
timeout of the context it leaves is the timeout of the context it was called
with. -/
theorem C34_one_call_preserves_timeout (L : Lower W) (fuel : Nat) (ctx : ESYS_CONTEXT W)
    (authHandle shandle1 shandle2 shandle3 : ESYS_TR)
    (authPolicy : Option TPM2B_DIGEST) (hashAlg : TPMI_ALG_HASH) (pcrNum : TPMI_DH_PCR)
    (r : TSS2_RC) (c1 : ESYS_CONTEXT W)
    (h : Esys_PCR_SetAuthPolicy L fuel ctx authHandle shandle1 shandle2 shandle3 authPolicy
      hashAlg pcrNum = some (r, c1)) :
    c1.timeout = ctx.timeout := by
  have ha := Async_timeout L ctx authHandle shandle1 shandle2 shandle3 authPolicy hashAlg pcrNum
  unfold Esys_PCR_SetAuthPolicy at h
  dsimp only at h
  by_cases hf : (Esys_PCR_SetAuthPolicy_Async L ctx authHandle shandle1 shandle2 shandle3
      authPolicy hashAlg pcrNum).1 ≠ TSS2_RC_SUCCESS
  · rw [if_pos hf] at h
    have h2 := congrArg (fun x => x.2) (Option.some.inj h)
    simp only at h2
    rw [← h2]
    exact ha
  · rw [if_neg hf] at h
    cases hloop : finishLoop L fuel
        { (Esys_PCR_SetAuthPolicy_Async L ctx authHandle shandle1 shandle2 shandle3 authPolicy
            hashAlg pcrNum).2 with timeout := -1 } with
    | none =>
      rw [hloop] at h
      cases h
    | some f =>
      rw [hloop] at h
      dsimp only at h
      by_cases hfin : f.1 ≠ TSS2_RC_SUCCESS
      · rw [if_pos hfin] at h
        have h2 := congrArg (fun x => x.2.timeout) (Option.some.inj h)
        simp only at h2
        rw [← h2]
        exact ha
      · rw [if_neg hfin] at h
        have h2 := congrArg (fun x => x.2.timeout) (Option.some.inj h)
        simp only at h2
        rw [← h2]
        exact ha

/-- Witness of C34: the one-call function on the mock in which every lower
call succeeds returns with the timeout 1000 it was called with. -/
theorem C34_one_call_preserves_timeout_witness :
    Esys_PCR_SetAuthPolicy (mockLower mockOk) 3 (mockContext ESYS_STATE_INIT 0)
      0x10C 0xFF 0xFFF 0xFFF none 0xB 0 = some (TSS2_RC_SUCCESS, mockOneCallContext) ∧
    mockOneCallContext.timeout = (mockContext ESYS_STATE_INIT 0).timeout :=
  ⟨by decide,
   C34_one_call_preserves_timeout (mockLower mockOk) 3 (mockContext ESYS_STATE_INIT 0)
     0x10C 0xFF 0xFFF 0xFFF none 0xB 0 TSS2_RC_SUCCESS mockOneCallContext (by decide)⟩

/-- Claim C35: `Esys_PCR_SetAuthPolicy_Finish` increments the submission counter
by one when it passes the state check and the result of
`Tss2_Sys_ExecuteFinish` is `TPM2_RC_RETRY`, `TPM2_RC_TESTING` or
`TPM2_RC_YIELDED`, whether or not the bound is reached; in every other case
(bad sequence, try again, TPM error, other error, verification failure,
failure of Complete, success) the counter is the one before the call. -/
theorem C35_counter_changes_on_resubmission_only (L : Lower W) (ctx : ESYS_CONTEXT W) :
    ((ctx.state = ESYS_STATE_SENT ∨ ctx.state = ESYS_STATE_RESUBMISSION) ∧
      ((L.Tss2_Sys_ExecuteFinish ctx.lower ctx.timeout).1 = TPM2_RC_RETRY ∨
        (L.Tss2_Sys_ExecuteFinish ctx.lower ctx.timeout).1 = TPM2_RC_TESTING ∨
        (L.Tss2_Sys_ExecuteFinish ctx.lower ctx.timeout).1 = TPM2_RC_YIELDED) →
      (Esys_PCR_SetAuthPolicy_Finish L ctx).2.submissionCount = ctx.submissionCount + 1) ∧
    (¬ ((ctx.state = ESYS_STATE_SENT ∨ ctx.state = ESYS_STATE_RESUBMISSION) ∧
      ((L.Tss2_Sys_ExecuteFinish ctx.lower ctx.timeout).1 = TPM2_RC_RETRY ∨
        (L.Tss2_Sys_ExecuteFinish ctx.lower ctx.timeout).1 = TPM2_RC_TESTING ∨
        (L.Tss2_Sys_ExecuteFinish ctx.lower ctx.timeout).1 = TPM2_RC_YIELDED)) →
      (Esys_PCR_SetAuthPolicy_Finish L ctx).2.submissionCount = ctx.submissionCount) := by
  refine ⟨fun h => Finish_counter_resubmission L ctx h.1 h.2, fun h => ?_⟩
  by_cases hg : ctx.state ≠ ESYS_STATE_SENT ∧ ctx.state ≠ ESYS_STATE_RESUBMISSION
  · rw [Finish_bad_sequence L ctx hg]
  · have hs := Finish_state_cases ctx hg
    have hnr : ¬ ((L.Tss2_Sys_ExecuteFinish ctx.lower ctx.timeout).1 = TPM2_RC_RETRY ∨
        (L.Tss2_Sys_ExecuteFinish ctx.lower ctx.timeout).1 = TPM2_RC_TESTING ∨
        (L.Tss2_Sys_ExecuteFinish ctx.lower ctx.timeout).1 = TPM2_RC_YIELDED) :=
      fun hrs => h ⟨hs, hrs⟩
    by_cases hta : base_rc (L.Tss2_Sys_ExecuteFinish ctx.lower ctx.timeout).1 =
        TSS2_BASE_RC_TRY_AGAIN
    · rw [Finish_try_again L ctx hs hta]
    · exact (Finish_no_resubmission L ctx hs hta hnr).2.1

/-- Witness of C35: at the bound, counter 5 and `TPM2_RC_YIELDED`, the counter
becomes 6; with the try-again code of the transport it stays 5. -/
theorem C35_counter_changes_on_resubmission_only_witness :
    (Esys_PCR_SetAuthPolicy_Finish (mockLower { mockOk with receive := TPM2_RC_YIELDED })
      (mockContext ESYS_STATE_SENT 5)).2.submissionCount =
        (mockContext ESYS_STATE_SENT 5).submissionCount + 1 ∧
    (Esys_PCR_SetAuthPolicy_Finish (mockLower { mockOk with receive := 0xA0009 })
      (mockContext ESYS_STATE_SENT 5)).2.submissionCount =
        (mockContext ESYS_STATE_SENT 5).submissionCount :=
  ⟨(C35_counter_changes_on_resubmission_only
      (mockLower { mockOk with receive := TPM2_RC_YIELDED })
      (mockContext ESYS_STATE_SENT 5)).1 (by decide),
   (C35_counter_changes_on_resubmission_only (mockLower { mockOk with receive := 0xA0009 })
      (mockContext ESYS_STATE_SENT 5)).2 (by decide)⟩

/-! ## The dummy TPM and the signed byte -/

theorem child_read_command_accepts (header rest : List Nat)
    (hlen : header.length = TPM_HEADER_SIZE) (hsize : TPM_HEADER_SIZE ≤ declared_size header) :
    child_read_command (header ++ rest) =
      ChildStep.payload (declared_size header - TPM_HEADER_SIZE)
        (min (declared_size header - TPM_HEADER_SIZE) rest.length) := by
  have h1 : (fread (header ++ rest) TPM_HEADER_SIZE).1 = header := List.take_left' hlen
  have h2 : (fread (header ++ rest) TPM_HEADER_SIZE).2 = rest := List.drop_left' hlen
  unfold child_read_command
  dsimp only
  rw [h1, h2, if_neg (not_not_intro hlen), if_neg (Nat.not_lt.mpr hsize)]
  unfold fread
  rw [List.length_take]

/-- Claim C39, evaluated on the code: a command header that declares a size of
5120 bytes passes the only test of the size, `hdr.size < TPM_HEADER_SIZE`, and
the helper then reads the 5110 bytes that follow into `&buf[10]`, beyond the
4086 bytes that remain of `buf[4096]`. -/
theorem C39_payload_read_exceeds_the_buffer :
    declared_size [0x80, 0x01, 0x00, 0x00, 0x14, 0x00, 0x00, 0x00, 0x01, 0x7A] = 5120 ∧
    child_read_command oversizedCommand = ChildStep.payload 5110 5110 ∧
    DUMMY_BUF_SIZE - TPM_HEADER_SIZE = 4086 ∧
    ¬ (5110 ≤ DUMMY_BUF_SIZE - TPM_HEADER_SIZE) := by
  refine ⟨by decide, ?_, by decide, by decide⟩
  have h := child_read_command_accepts
    [0x80, 0x01, 0x00, 0x00, 0x14, 0x00, 0x00, 0x00, 0x01, 0x7A] (List.replicate 5110 0)
    (by decide) (by decide)
  rw [List.length_replicate] at h
  exact h

theorem int8_roundtrip (r : Int) (hlo : -128 ≤ r) (hhi : r ≤ 127) :
    int8_of_uint8 (uint8_of_int8 r) = r := by
  unfold int8_of_uint8 uint8_of_int8
  split_ifs with h <;> omega

/-! ## The encrypt flag and the outputs of Complete -/

theorem encrypt_of_Prepared {commandCode : Nat} {params : List Nat}
    {d e a : Nat} {r : TSS2_RC × Option TSS2_SYS_CONTEXT_BLOB}
    (h : Prepared commandCode params (d, e, a) r) :
    r.2.map (fun c => c.encryptAllowed) = some e := by
  obtain ⟨c, hc, _, _, hfl, _⟩ := h
  rw [hc, Option.map_some']
  unfold capabilityFlags at hfl
  simp only [Prod.mk.injEq] at hfl
  rw [hfl.2.1]

theorem Complete_without_outputs_some (c : TSS2_SYS_CONTEXT_BLOB) :
    Complete_without_outputs (some c) = ((CommonComplete c).1, some (CommonComplete c).2) := rfl

theorem EncryptDecrypt2_Complete_first_output (c : TSS2_SYS_CONTEXT_BLOB)
    (hk : (CommonComplete c).1 = TSS2_RC_SUCCESS) :
    (Tss2_Sys_EncryptDecrypt2_Complete (some c)).2.2.1 =
      (Tss2_MU_TPM2B_MAX_BUFFER_Unmarshal (CommonComplete c).2.cmdBuffer
        (CommonComplete c).2.maxCmdSize (CommonComplete c).2.nextData).2.2 ∧
    ∃ rest, (Tss2_Sys_EncryptDecrypt2_Complete (some c)).2.1.map (fun k => k.muCalls) =
      some (c.muCalls ++
        (Tss2_MU_TPM2B_MAX_BUFFER_Unmarshal (CommonComplete c).2.cmdBuffer
          (CommonComplete c).2.maxCmdSize (CommonComplete c).2.nextData).1 :: rest) := by
  obtain ⟨_, _, hmu⟩ := CommonComplete_frame c
  unfold Tss2_Sys_EncryptDecrypt2_Complete
  simp only [syscontext_cast, TSS2_SYS_CONTEXT_BLOB.unmarshal]
  rw [if_neg (show ¬ (CommonComplete c).1 ≠ 0 from not_not_intro hk)]
  split_ifs
  · exact ⟨rfl, [], by simp [hmu]⟩
  · exact ⟨rfl, [(Tss2_MU_TPM2B_IV_Unmarshal (CommonComplete c).2.cmdBuffer
      (CommonComplete c).2.maxCmdSize
      (Tss2_MU_TPM2B_MAX_BUFFER_Unmarshal (CommonComplete c).2.cmdBuffer
        (CommonComplete c).2.maxCmdSize (CommonComplete c).2.nextData).2.1).1],
      by simp [hmu]⟩

theorem SequenceComplete_Complete_first_output (c : TSS2_SYS_CONTEXT_BLOB)
    (hk : (CommonComplete c).1 = TSS2_RC_SUCCESS) :
    (Tss2_Sys_SequenceComplete_Complete (some c)).2.2.1 =
      (Tss2_MU_TPM2B_DIGEST_Unmarshal (CommonComplete c).2.cmdBuffer
        (CommonComplete c).2.maxCmdSize (CommonComplete c).2.nextData).2.2 ∧
    ∃ rest, (Tss2_Sys_SequenceComplete_Complete (some c)).2.1.map (fun k => k.muCalls) =
      some (c.muCalls ++
        (Tss2_MU_TPM2B_DIGEST_Unmarshal (CommonComplete c).2.cmdBuffer
          (CommonComplete c).2.maxCmdSize (CommonComplete c).2.nextData).1 :: rest) := by
  obtain ⟨_, _, hmu⟩ := CommonComplete_frame c
  unfold Tss2_Sys_SequenceComplete_Complete
  simp only [syscontext_cast, TSS2_SYS_CONTEXT_BLOB.unmarshal]
  rw [if_neg (show ¬ (CommonComplete c).1 ≠ 0 from not_not_intro hk)]
  split_ifs
  · exact ⟨rfl, [], by simp [hmu]⟩
  · exact ⟨rfl, [(Tss2_MU_TPMT_TK_HASHCHECK_Unmarshal (CommonComplete c).2.cmdBuffer
      (CommonComplete c).2.maxCmdSize
      (Tss2_MU_TPM2B_DIGEST_Unmarshal (CommonComplete c).2.cmdBuffer
        (CommonComplete c).2.maxCmdSize (CommonComplete c).2.nextData).2.1).1],
      by simp [hmu]⟩

/-- Claim C36: `encryptAllowed` after a successful Prepare is 1 exactly for the
two commands whose Complete unmarshals outputs.  For EncryptDecrypt2 and
SequenceComplete the flag is 1, and once `CommonComplete` has succeeded the
first codec call of Complete is the unmarshal of a sized buffer
(`TPM2B_MAX_BUFFER`, `TPM2B_DIGEST`) at the cursor, whose value is the first
output.  For the six other commands the flag is 0 and Complete is
`CommonComplete` alone, which makes no codec call. -/
theorem C36_encrypt_allowed_matches_outputs :
    ((∀ sysContext keyHandle inData decrypt mode ivIn,
        (Tss2_Sys_EncryptDecrypt2_Prepare sysContext keyHandle inData decrypt mode ivIn).1 =
          TSS2_RC_SUCCESS →
        (Tss2_Sys_EncryptDecrypt2_Prepare sysContext keyHandle inData decrypt mode
          ivIn).2.map (fun c => c.encryptAllowed) = some 1) ∧
      (∀ c, (CommonComplete c).1 = TSS2_RC_SUCCESS →
        (Tss2_Sys_EncryptDecrypt2_Complete (some c)).2.2.1 =
          (Tss2_MU_TPM2B_MAX_BUFFER_Unmarshal (CommonComplete c).2.cmdBuffer
            (CommonComplete c).2.maxCmdSize (CommonComplete c).2.nextData).2.2 ∧
        ∃ rest, (Tss2_Sys_EncryptDecrypt2_Complete (some c)).2.1.map (fun k => k.muCalls) =
          some (c.muCalls ++
            (Tss2_MU_TPM2B_MAX_BUFFER_Unmarshal (CommonComplete c).2.cmdBuffer
              (CommonComplete c).2.maxCmdSize (CommonComplete c).2.nextData).1 :: rest))) ∧
    ((∀ sysContext sequenceHandle buffer hierarchy,
        (Tss2_Sys_SequenceComplete_Prepare sysContext sequenceHandle buffer hierarchy).1 =
          TSS2_RC_SUCCESS →
        (Tss2_Sys_SequenceComplete_Prepare sysContext sequenceHandle buffer
          hierarchy).2.map (fun c => c.encryptAllowed) = some 1) ∧
      (∀ c, (CommonComplete c).1 = TSS2_RC_SUCCESS →
        (Tss2_Sys_SequenceComplete_Complete (some c)).2.2.1 =
          (Tss2_MU_TPM2B_DIGEST_Unmarshal (CommonComplete c).2.cmdBuffer
            (CommonComplete c).2.maxCmdSize (CommonComplete c).2.nextData).2.2 ∧
        ∃ rest, (Tss2_Sys_SequenceComplete_Complete (some c)).2.1.map (fun k => k.muCalls) =
          some (c.muCalls ++
            (Tss2_MU_TPM2B_DIGEST_Unmarshal (CommonComplete c).2.cmdBuffer
              (CommonComplete c).2.maxCmdSize (CommonComplete c).2.nextData).1 :: rest))) ∧
    ((∀ sysContext startupType,
        (Tss2_Sys_Startup_Prepare sysContext startupType).1 = TSS2_RC_SUCCESS →
        (Tss2_Sys_Startup_Prepare sysContext startupType).2.map
          (fun c => c.encryptAllowed) = some 0) ∧
      (∀ c, Tss2_Sys_Startup_Complete (some c) =
        ((CommonComplete c).1, some (CommonComplete c).2))) ∧
    ((∀ sysContext auth rateAdjust,
        (Tss2_Sys_ClockRateAdjust_Prepare sysContext auth rateAdjust).1 = TSS2_RC_SUCCESS →
        (Tss2_Sys_ClockRateAdjust_Prepare sysContext auth rateAdjust).2.map
          (fun c => c.encryptAllowed) = some 0) ∧
      (∀ c, Tss2_Sys_ClockRateAdjust_Complete (some c) =
        ((CommonComplete c).1, some (CommonComplete c).2))) ∧
    ((∀ sysContext pcrHandle digests,
        (Tss2_Sys_PCR_Extend_Prepare sysContext pcrHandle digests).1 = TSS2_RC_SUCCESS →
        (Tss2_Sys_PCR_Extend_Prepare sysContext pcrHandle digests).2.map
          (fun c => c.encryptAllowed) = some 0) ∧
      (∀ c, Tss2_Sys_PCR_Extend_Complete (some c) =
        ((CommonComplete c).1, some (CommonComplete c).2))) ∧
    ((∀ sysContext pcrHandle auth,
        (Tss2_Sys_PCR_SetAuthValue_Prepare sysContext pcrHandle auth).1 = TSS2_RC_SUCCESS →
        (Tss2_Sys_PCR_SetAuthValue_Prepare sysContext pcrHandle auth).2.map
          (fun c => c.encryptAllowed) = some 0) ∧
      (∀ c, Tss2_Sys_PCR_SetAuthValue_Complete (some c) =
        ((CommonComplete c).1, some (CommonComplete c).2))) ∧
    ((∀ sysContext policySession approvedPolicy policyRef keySign checkTicket,
        (Tss2_Sys_PolicyAuthorize_Prepare sysContext policySession approvedPolicy policyRef
          keySign checkTicket).1 = TSS2_RC_SUCCESS →
        (Tss2_Sys_PolicyAuthorize_Prepare sysContext policySession approvedPolicy policyRef
          keySign checkTicket).2.map (fun c => c.encryptAllowed) = some 0) ∧
      (∀ c, Tss2_Sys_PolicyAuthorize_Complete (some c) =
        ((CommonComplete c).1, some (CommonComplete c).2))) ∧
    ((∀ sysContext parameters,
        (Tss2_Sys_TestParms_Prepare sysContext parameters).1 = TSS2_RC_SUCCESS →
        (Tss2_Sys_TestParms_Prepare sysContext parameters).2.map
          (fun c => c.encryptAllowed) = some 0) ∧
      (∀ c, Tss2_Sys_TestParms_Complete (some c) =
        ((CommonComplete c).1, some (CommonComplete c).2))) ∧
    (∀ c, (CommonComplete c).2.muCalls = c.muCalls) := by
  refine ⟨⟨?_, EncryptDecrypt2_Complete_first_output⟩,
    ⟨?_, SequenceComplete_Complete_first_output⟩,
    ⟨?_, Complete_without_outputs_some⟩, ⟨?_, Complete_without_outputs_some⟩,
    ⟨?_, Complete_without_outputs_some⟩, ⟨?_, Complete_without_outputs_some⟩,
    ⟨?_, Complete_without_outputs_some⟩, ⟨?_, Complete_without_outputs_some⟩,
    fun c => (CommonComplete_frame c).2.2⟩
  · intro sysContext keyHandle inData decrypt mode ivIn h
    exact encrypt_of_Prepared (EncryptDecrypt2_Prepare_prepared _ _ _ _ _ _ h)
  · intro sysContext sequenceHandle buffer hierarchy h
    exact encrypt_of_Prepared (SequenceComplete_Prepare_prepared _ _ _ _ h)
  · intro sysContext startupType h
    exact encrypt_of_Prepared (Startup_Prepare_prepared _ _ h)
  · intro sysContext auth rateAdjust h
    exact encrypt_of_Prepared (ClockRateAdjust_Prepare_prepared _ _ _ h)
  · intro sysContext pcrHandle digests h
    obtain ⟨v, _, hp⟩ := PCR_Extend_Prepare_prepared _ _ _ h
    exact encrypt_of_Prepared hp
  · intro sysContext pcrHandle auth h
    exact encrypt_of_Prepared (PCR_SetAuthValue_Prepare_prepared _ _ _ h)
  · intro sysContext policySession approvedPolicy policyRef keySign checkTicket h
    obtain ⟨v, _, hp⟩ := PolicyAuthorize_Prepare_prepared _ _ _ _ _ _ h
    exact encrypt_of_Prepared hp
  · intro sysContext parameters h
    obtain ⟨v, _, hp⟩ := TestParms_Prepare_prepared _ _ h
    exact encrypt_of_Prepared hp

/-- Witness of C36: `Tss2_Sys_EncryptDecrypt2_Prepare` on a fresh context
leaves `encryptAllowed` at 1, and on a context that has received a response
`Tss2_Sys_EncryptDecrypt2_Complete` gives as first output the sized buffer at
the cursor. -/
theorem C36_encrypt_allowed_matches_outputs_witness :
    ((Tss2_Sys_EncryptDecrypt2_Prepare (some mockSysContext) 0x80000001 (some mockInData) 0
        0x0043 (some mockIvIn)).1 = TSS2_RC_SUCCESS ∧
      (Tss2_Sys_EncryptDecrypt2_Prepare (some mockSysContext) 0x80000001 (some mockInData) 0
        0x0043 (some mockIvIn)).2.map (fun c => c.encryptAllowed) = some 1) ∧
    ((CommonComplete mockReceivedContext).1 = TSS2_RC_SUCCESS ∧
      (Tss2_Sys_EncryptDecrypt2_Complete (some mockReceivedContext)).2.2.1 =
        (Tss2_MU_TPM2B_MAX_BUFFER_Unmarshal (CommonComplete mockReceivedContext).2.cmdBuffer
          (CommonComplete mockReceivedContext).2.maxCmdSize
          (CommonComplete mockReceivedContext).2.nextData).2.2) :=
  ⟨⟨by decide,
    C36_encrypt_allowed_matches_outputs.1.1 (some mockSysContext) 0x80000001 (some mockInData)
      0 0x0043 (some mockIvIn) (by decide)⟩,
   ⟨by decide,
    (C36_encrypt_allowed_matches_outputs.1.2 mockReceivedContext (by decide)).1⟩⟩

/-! ## The decrypt flag and the first parameter -/

theorem prepareGeneric_shape (commandCode : Nat) (steps : List (Bool × List Nat))
    (d e a : Nat) (ctx : TSS2_SYS_CONTEXT_BLOB)
    (h : ((prepareGeneric commandCode steps d e a ctx).1,
      some (prepareGeneric commandCode steps d e a ctx).2).1 = TSS2_RC_SUCCESS)
    (hd : steps.any (fun s => s.1) = true → d = 1) :
    DecryptShape d 10 (stepsBytes steps)
      ((prepareGeneric commandCode steps d e a ctx).1,
       some (prepareGeneric commandCode steps d e a ctx).2) := by
  obtain ⟨_, ⟨c, hc, hn, hb, hfl, _⟩, hdn⟩ :=
    prepareGeneric_ok commandCode steps d e a ctx
      (prepareGeneric_success commandCode steps d e a ctx h)
  simp only [Option.some.injEq] at hc
  subst hc
  unfold capabilityFlags at hfl
  simp only [Prod.mk.injEq] at hfl
  refine ⟨_, rfl, hfl.1, ?_, ?_⟩
  · intro h1
    rw [hfl.1]
    apply hd
    by_contra hne
    rw [hdn, if_neg hne] at h1
    exact absurd h1 (by decide)
  · rw [hb]
    unfold command_header
    rw [List.drop_left' (by simp [UINT16_bytes, UINT32_bytes])]

theorem DecryptShape_after_handle {d : Nat} {handle : Nat} {params : List Nat}
    {r : TSS2_RC × Option TSS2_SYS_CONTEXT_BLOB}
    (h : DecryptShape d 10 (UINT32_bytes handle ++ params) r) :
    DecryptShape d 14 params r := by
  obtain ⟨c, hc, hd, hn, hb⟩ := h
  refine ⟨c, hc, hd, hn, ?_⟩
  have h14 : (14 : Nat) = 10 + 4 := rfl
  rw [h14, ← List.drop_drop, hb, List.drop_left' (UINT32_bytes_length handle)]

/-- Claim C37: `decryptAllowed` after a successful Prepare is 1 exactly for the
four commands whose first parameter after the handle is a sized buffer.  For
each command the parameter area behind the handles (offset 14 with one handle,
offset 10 for Startup and TestParms, which have none) is given in the order of
the marshal calls: it starts with a sized buffer for PCR_SetAuthValue,
PolicyAuthorize, SequenceComplete and EncryptDecrypt2, where the flag is 1,
and with a `UINT16`, a `UINT8`, a digest list and a parameter structure for
Startup, ClockRateAdjust, PCR_Extend and TestParms, where the flag is 0.  In
all eight, `decryptNull = 1` implies `decryptAllowed = 1`.  A sized buffer is
its 2-byte size followed by as many bytes. -/
theorem C37_decrypt_allowed_matches_first_parameter :
    (∀ sysContext startupType,
      (Tss2_Sys_Startup_Prepare sysContext startupType).1 = TSS2_RC_SUCCESS →
      DecryptShape 0 10 (UINT16_bytes startupType)
        (Tss2_Sys_Startup_Prepare sysContext startupType)) ∧
    (∀ sysContext auth rateAdjust,
      (Tss2_Sys_ClockRateAdjust_Prepare sysContext auth rateAdjust).1 = TSS2_RC_SUCCESS →
      DecryptShape 0 14 (UINT8_bytes (uint8_of_int8 rateAdjust))
        (Tss2_Sys_ClockRateAdjust_Prepare sysContext auth rateAdjust)) ∧
    (∀ sysContext pcrHandle digests,
      (Tss2_Sys_PCR_Extend_Prepare sysContext pcrHandle digests).1 = TSS2_RC_SUCCESS →
      ∃ v, digests = some v ∧
        DecryptShape 0 14 v.encoding
          (Tss2_Sys_PCR_Extend_Prepare sysContext pcrHandle digests)) ∧
    (∀ sysContext parameters,
      (Tss2_Sys_TestParms_Prepare sysContext parameters).1 = TSS2_RC_SUCCESS →
      ∃ v, parameters = some v ∧
        DecryptShape 0 10 v.encoding (Tss2_Sys_TestParms_Prepare sysContext parameters)) ∧
    (∀ sysContext pcrHandle auth,
      (Tss2_Sys_PCR_SetAuthValue_Prepare sysContext pcrHandle auth).1 = TSS2_RC_SUCCESS →
      DecryptShape 1 14 (TPM2B_optional_bytes auth)
        (Tss2_Sys_PCR_SetAuthValue_Prepare sysContext pcrHandle auth)) ∧
    (∀ sysContext policySession approvedPolicy policyRef keySign checkTicket,
      (Tss2_Sys_PolicyAuthorize_Prepare sysContext policySession approvedPolicy policyRef
        keySign checkTicket).1 = TSS2_RC_SUCCESS →
      ∃ v, checkTicket = some v ∧
        DecryptShape 1 14
          (TPM2B_optional_bytes approvedPolicy ++ (TPM2B_optional_bytes policyRef ++
            (TPM2B_optional_bytes keySign ++ v.encoding)))
          (Tss2_Sys_PolicyAuthorize_Prepare sysContext policySession approvedPolicy policyRef
            keySign checkTicket)) ∧
    (∀ sysContext sequenceHandle buffer hierarchy,
      (Tss2_Sys_SequenceComplete_Prepare sysContext sequenceHandle buffer hierarchy).1 =
        TSS2_RC_SUCCESS →
      DecryptShape 1 14 (TPM2B_optional_bytes buffer ++ UINT32_bytes hierarchy)
        (Tss2_Sys_SequenceComplete_Prepare sysContext sequenceHandle buffer hierarchy)) ∧
    (∀ sysContext keyHandle inData decrypt mode ivIn,
      (Tss2_Sys_EncryptDecrypt2_Prepare sysContext keyHandle inData decrypt mode ivIn).1 =
        TSS2_RC_SUCCESS →
      DecryptShape 1 14
        (TPM2B_optional_bytes inData ++ (UINT8_bytes decrypt ++ (UINT16_bytes mode ++
          TPM2B_optional_bytes ivIn)))
        (Tss2_Sys_EncryptDecrypt2_Prepare sysContext keyHandle inData decrypt mode ivIn)) ∧
    (∀ b, TPM2B_optional_bytes b =
        UINT16_bytes (TPM2B_optional_size b) ++ TPM2B_optional_payload b ∧
      (TPM2B_optional_payload b).length = TPM2B_optional_size b) := by
  refine ⟨?_, ?_, ?_, ?_, ?_, ?_, ?_, ?_,
    fun b => ⟨TPM2B_optional_bytes_eq b, TPM2B_optional_payload_length b⟩⟩
  · intro sysContext startupType h
    cases sysContext with
    | none => exact absurd h BAD_REFERENCE_ne_zero
    | some ctx =>
      rw [Startup_Prepare_generic] at h ⊢
      have hp := prepareGeneric_shape _ _ _ _ _ ctx h (by simp)
      simpa [stepsBytes] using hp
  · intro sysContext auth rateAdjust h
    cases sysContext with
    | none => exact absurd h BAD_REFERENCE_ne_zero
    | some ctx =>
      rw [ClockRateAdjust_Prepare_generic] at h ⊢
      have hp := prepareGeneric_shape _ _ _ _ _ ctx h (by simp)
      exact DecryptShape_after_handle (by simpa [stepsBytes] using hp)
  · intro sysContext pcrHandle digests h
    cases sysContext with
    | none => cases digests <;> exact absurd h BAD_REFERENCE_ne_zero
    | some ctx =>
      cases digests with
      | none => exact absurd h BAD_REFERENCE_ne_zero
      | some v =>
        refine ⟨v, rfl, ?_⟩
        rw [PCR_Extend_Prepare_generic] at h ⊢
        have hp := prepareGeneric_shape _ _ _ _ _ ctx h (by simp)
        exact DecryptShape_after_handle (by simpa [stepsBytes] using hp)
  · intro sysContext parameters h
    cases sysContext with
    | none => cases parameters <;> exact absurd h BAD_REFERENCE_ne_zero
    | some ctx =>
      cases parameters with
      | none => exact absurd h BAD_REFERENCE_ne_zero
      | some v =>
        refine ⟨v, rfl, ?_⟩
        rw [TestParms_Prepare_generic] at h ⊢
        have hp := prepareGeneric_shape _ _ _ _ _ ctx h (by simp)
        simpa [stepsBytes] using hp
  · intro sysContext pcrHandle auth h
    cases sysContext with
    | none => exact absurd h BAD_REFERENCE_ne_zero
    | some ctx =>
      rw [PCR_SetAuthValue_Prepare_generic] at h ⊢
      have hp := prepareGeneric_shape _ _ _ _ _ ctx h (fun _ => rfl)
      exact DecryptShape_after_handle (by simpa [stepsBytes] using hp)
  · intro sysContext policySession approvedPolicy policyRef keySign checkTicket h
    cases sysContext with
    | none => cases checkTicket <;> exact absurd h BAD_REFERENCE_ne_zero
    | some ctx =>
      cases checkTicket with
      | none => exact absurd h BAD_REFERENCE_ne_zero
      | some v =>
        refine ⟨v, rfl, ?_⟩
        rw [PolicyAuthorize_Prepare_generic] at h ⊢
        have hp := prepareGeneric_shape _ _ _ _ _ ctx h (fun _ => rfl)
        exact DecryptShape_after_handle (by simpa [stepsBytes] using hp)
  · intro sysContext sequenceHandle buffer hierarchy h
    cases sysContext with
    | none => exact absurd h BAD_REFERENCE_ne_zero
    | some ctx =>
      rw [SequenceComplete_Prepare_generic] at h ⊢
      have hp := prepareGeneric_shape _ _ _ _ _ ctx h (fun _ => rfl)
      exact DecryptShape_after_handle (by simpa [stepsBytes] using hp)
  · intro sysContext keyHandle inData decrypt mode ivIn h
    cases sysContext with
    | none => exact absurd h BAD_REFERENCE_ne_zero
    | some ctx =>
      rw [EncryptDecrypt2_Prepare_generic] at h ⊢
      have hp := prepareGeneric_shape _ _ _ _ _ ctx h (fun _ => rfl)
      exact DecryptShape_after_handle (by simpa [stepsBytes] using hp)

/-- Witness of C37: `Tss2_Sys_SequenceComplete_Prepare` with a NULL buffer on a
fresh context succeeds, with `decryptAllowed = 1` and the parameter area
`00 00` (the empty sized buffer) followed by the hierarchy behind the handle. -/
theorem C37_decrypt_allowed_matches_first_parameter_witness :
    (Tss2_Sys_SequenceComplete_Prepare (some mockSysContext) 0x80000001 none
      0x40000001).1 = TSS2_RC_SUCCESS ∧
    DecryptShape 1 14 (TPM2B_optional_bytes none ++ UINT32_bytes 0x40000001)
      (Tss2_Sys_SequenceComplete_Prepare (some mockSysContext) 0x80000001 none 0x40000001) :=
  ⟨by decide,
   C37_decrypt_allowed_matches_first_parameter.2.2.2.2.2.2.1 (some mockSysContext) 0x80000001
     none 0x40000001 (by decide)⟩

/-- Claim C38: for `rateAdjust` in the signed 8-bit range and every `auth`, a
successful `Tss2_Sys_ClockRateAdjust_Prepare` leaves the four big-endian bytes
of `auth` at offsets 10..13 and the byte `rateAdjust mod 256` at offset 14, and
that byte read as a signed 8-bit integer is `rateAdjust`. -/
theorem C38_ClockRateAdjust_rate_byte (sysContext : Option TSS2_SYS_CONTEXT_BLOB)
    (auth : Nat) (rateAdjust : Int) (hlo : -128 ≤ rateAdjust) (hhi : rateAdjust ≤ 127)
    (h : (Tss2_Sys_ClockRateAdjust_Prepare sysContext auth rateAdjust).1 = TSS2_RC_SUCCESS) :
    ∃ c, (Tss2_Sys_ClockRateAdjust_Prepare sysContext auth rateAdjust).2 = some c ∧
      (c.cmdBuffer.drop 10).take 4 =
        [auth / 2 ^ 24 % 256, auth / 2 ^ 16 % 256, auth / 2 ^ 8 % 256, auth % 256] ∧
      c.cmdBuffer.drop 14 ≠ [] ∧
      c.cmdBuffer.getD 14 0 = (rateAdjust % 256).toNat ∧
      int8_of_uint8 (c.cmdBuffer.getD 14 0) = rateAdjust := by
  obtain ⟨c, hc, hn, hb, _, _⟩ := ClockRateAdjust_Prepare_prepared sysContext auth rateAdjust h
  have hn15 : c.nextData = 15 := by
    rw [hn]
    simp [ClockRateAdjust_params, UINT32_bytes, UINT8_bytes, TPM_HEADER_SIZE]
  rw [hn15] at hb
  have hsplit : c.cmdBuffer = c.cmdBuffer.take 15 ++ c.cmdBuffer.drop 15 :=
    (List.take_append_drop 15 c.cmdBuffer).symm
  rw [hb] at hsplit
  have hbyte : (rateAdjust % 256).toNat % 256 = (rateAdjust % 256).toNat := by
    apply Nat.mod_eq_of_lt
    omega
  have h14 : c.cmdBuffer.getD 14 0 = (rateAdjust % 256).toNat := by
    rw [hsplit]
    simp [command_header, ClockRateAdjust_params, UINT16_bytes, UINT32_bytes, UINT8_bytes,
      uint8_of_int8, hbyte]
  refine ⟨c, hc, ?_, ?_, h14, ?_⟩
  · rw [hsplit]
    simp [command_header, ClockRateAdjust_params, UINT16_bytes, UINT32_bytes, UINT8_bytes]
  · rw [hsplit]
    simp [command_header, ClockRateAdjust_params, UINT16_bytes, UINT32_bytes, UINT8_bytes]
  · rw [h14]
    exact int8_roundtrip rateAdjust hlo hhi

/-- Witness of C38: with `auth = 0x4000000C` (`TPM2_RH_PLATFORM`) and
`rateAdjust = -1` on a fresh context, the bytes at offsets 10..13 are
`40 00 00 0C` and the byte at offset 14 is `FF`, which reads back as -1. -/
theorem C38_ClockRateAdjust_rate_byte_witness :
    (-128 : Int) ≤ -1 ∧ (-1 : Int) ≤ 127 ∧
    (Tss2_Sys_ClockRateAdjust_Prepare (some mockSysContext) 0x4000000C (-1)).1 =
      TSS2_RC_SUCCESS ∧
    ∃ c, (Tss2_Sys_ClockRateAdjust_Prepare (some mockSysContext) 0x4000000C (-1)).2 = some c ∧
      (c.cmdBuffer.drop 10).take 4 =
        [0x4000000C / 2 ^ 24 % 256, 0x4000000C / 2 ^ 16 % 256, 0x4000000C / 2 ^ 8 % 256,
          0x4000000C % 256] ∧
      c.cmdBuffer.drop 14 ≠ [] ∧
      c.cmdBuffer.getD 14 0 = ((-1 : Int) % 256).toNat ∧
      int8_of_uint8 (c.cmdBuffer.getD 14 0) = -1 :=
  ⟨by decide, by decide, by decide,
   C38_ClockRateAdjust_rate_byte (some mockSysContext) 0x4000000C (-1) (by decide) (by decide)
     (by decide)⟩

end Tss2
